import Mathlib

/-!
# QMI codec (`QMI.c`): QMUX framing, TLV scanning, requests and responses

A shallow embedding of `QMI.c`: the generic QMUX and QMI functions, the functions that
fill buffers with QMI requests and the functions that parse QMI responses.

* A byte buffer is a `List Nat`; a cell is read through `byteAt`, which keeps
  its low eight bits, and written through `putByte`, which stores the low
  eight bits of the value. A `void *` argument is a `Ptr`: `none` is the null
  pointer, `some m` points at the memory `m`.
* `u8`/`u16` parameters are natural numbers; where the C code truncates to
  sixteen bits (`pos += tlvSize + 3`) the model reduces modulo `65536`.
* A function that writes through a pointer returns the new content of the
  memory next to its `int` result.
* The byte order of the host is the parameter `bigEndian` of the functions whose result
  depends on it. The little-endian read `le16_to_cpu( get_unaligned( (u16 *)p ) )` is
  `le16At` and the little-endian store `put_unaligned( cpu_to_le16( v ), p )` is `putLe16`
  on either host.
-/

namespace QMI

/-! ## Constants -/

/-- Linux `ENOMEM` (asm-generic errno-base.h). -/
def ENOMEM : Int := 12

/-- Linux `EFAULT` (asm-generic errno-base.h). -/
def EFAULT : Int := 14

/-- Linux `EINVAL` (asm-generic errno-base.h). -/
def EINVAL : Int := 22

/-- Linux `ENOMSG` (asm-generic errno.h). -/
def ENOMSG : Int := 42

/-- Linux `ENODATA` (asm-generic errno.h). -/
def ENODATA : Int := 61

/-- Modelled from the spec: `sizeof( sQMUX )`. The packed struct `sQMUX` is declared in
`Structs.h`, which is not part of the sources; the spec gives the header as six bytes:
`mTF` at offset 0, `mLength` (u16, little-endian) at offsets 1-2, `mCtrlFlag` at offset 3,
`mQMIService` at offset 4 and `mQMIClientID` at offset 5. -/
def sizeof_sQMUX : Nat := 6

/-! ## Memory -/

/-- A `void *` to a byte buffer: `none` is the null pointer. -/
abbrev Ptr := Option (List Nat)

/-- Read of one byte, `*(u8 *)(m + i)`. -/
def byteAt (m : List Nat) (i : Nat) : Nat := m.getD i 0 % 256

/-- Little-endian 16-bit read, `le16_to_cpu( get_unaligned( (u16 *)(m + i) ) )`. -/
def le16At (m : List Nat) (i : Nat) : Nat := byteAt m i + 256 * byteAt m (i + 1)

/-- Write of one byte, `*(u8 *)(m + i) = v`. -/
def putByte (m : List Nat) (i v : Nat) : List Nat := m.set i (v % 256)

/-- Little-endian 16-bit write, `put_unaligned( cpu_to_le16( v ), (u16 *)(m + i) )`. -/
def putLe16 (m : List Nat) (i v : Nat) : List Nat := putByte (putByte m i v) (i + 1) (v / 256)

/-- Every cell of the buffer holds a byte. -/
def isBytes (m : List Nat) : Prop := ∀ b ∈ m, b < 256

instance (m : List Nat) : Decidable (isBytes m) :=
  inferInstanceAs (Decidable (∀ b ∈ m, b < 256))

/-! ## Host byte order

The byte order of the host is the parameter `bigEndian` of every function whose result
depends on it. The conversions `le16_to_cpu`, `le32_to_cpu` and `le64_to_cpu` and the store
`put_unaligned` come from the kernel headers: the conversions are the identity on a
little-endian host and a byte swap on a big-endian one. -/

/-- The `w` bytes of the unsigned value `v`, least significant byte first. -/
def leBytes : Nat → Nat → List Nat
  | 0, _ => []
  | w + 1, v => v % 256 :: leBytes w (v / 256)

/-- The unsigned value whose bytes, least significant byte first, are `bs`. -/
def ofLeBytes : List Nat → Nat
  | [] => 0
  | b :: bs => b % 256 + 256 * ofLeBytes bs

/-- The `w`-byte value `v` with its bytes in reverse order: `__swab16`, `__swab32` and
`__swab64` for `w = 2, 4, 8`. -/
def swab (w v : Nat) : Nat := ofLeBytes (leBytes w v).reverse

/-- The conversion `le16_to_cpu( v )` of a 16-bit value. -/
def le16_to_cpu (bigEndian : Bool) (v : Nat) : Nat :=
  if bigEndian then swab 2 v else v % 65536

/-- The conversion `le32_to_cpu( v )` of a 32-bit value. -/
def le32_to_cpu (bigEndian : Bool) (v : Nat) : Nat :=
  if bigEndian then swab 4 v else v % 4294967296

/-- The conversion `le64_to_cpu( v )` of a 64-bit value. -/
def le64_to_cpu (bigEndian : Bool) (v : Nat) : Nat :=
  if bigEndian then swab 8 v else v % 18446744073709551616

/-- The load `*p` of a `w`-byte unsigned integer, in the byte order of the host, from the
memory `m` that `p` points at. -/
def loadHost (bigEndian : Bool) (w : Nat) (m : List Nat) : Nat :=
  ofLeBytes (if bigEndian then ((List.range w).map (fun i => byteAt m i)).reverse
    else (List.range w).map (fun i => byteAt m i))

/-- Stores of the bytes `bs` at the offsets `i`, `i + 1`, ... of `m`. -/
def putBytes (m : List Nat) (i : Nat) : List Nat → List Nat
  | [] => m
  | b :: bs => putBytes (putByte m i b) (i + 1) bs

/-- The store `put_unaligned( v, p )` of the `w`-byte unsigned integer `v`, in the byte
order of the host, into the memory `m` that `p` points at. -/
def put_unaligned (bigEndian : Bool) (w v : Nat) (m : List Nat) : List Nat :=
  putBytes m 0 (if bigEndian then (leBytes w v).reverse else leBytes w v)

/-! ## Generic QMUX functions -/

/-- Function `ParseQMUX` (QMI.c 247-273). The first argument is the value held by `*pClientID`
before the call; the result is the `int` returned and the value held by `*pClientID`
afterwards. -/
def ParseQMUX (pClientID : Nat) (pBuffer : Ptr) (buffSize : Nat) : Int × Nat :=
  match pBuffer with
  | none => (-ENOMEM, pClientID)
  | some b =>
    if buffSize < 12 then (-ENOMEM, pClientID)
    else if byteAt b 0 ≠ 1 ∨ le16At b 1 ≠ buffSize - 1 ∨ byteAt b 3 ≠ 0x80 then
      (-EINVAL, pClientID)
    else
      ((sizeof_sQMUX : Int), (byteAt b 5 * 256 + byteAt b 4) % 65536)

/-- Function `FillQMUX` (QMI.c 291-316). The result is the `int` returned and the buffer
afterwards. -/
def FillQMUX (clientID : Nat) (pBuffer : Ptr) (buffSize : Nat) : Int × Ptr :=
  match pBuffer with
  | none => (-ENOMEM, none)
  | some b =>
    if buffSize < sizeof_sQMUX then (-ENOMEM, some b)
    else
      let b1 := putByte b 0 1
      let b2 := putLe16 b1 1 (buffSize - 1)
      let b3 := putByte b2 3 0
      let b4 := putByte b3 4 (clientID % 256)
      let b5 := putByte b4 5 (clientID / 256)
      (0, some b5)

/-! ## Generic QMI functions -/

/-- The copy loop of `GetTLV` (QMI.c 370-373):
`for (cpyCount = 0; cpyCount < tlvSize; cpyCount++) out[cpyCount] = msg[src + cpyCount]`. -/
def copyTLV (msg : List Nat) (src tlvSize : Nat) (out : List Nat) : List Nat :=
  (List.range tlvSize).foldl
    (fun o cpyCount => putByte o cpyCount (byteAt msg (src + cpyCount))) out

/-- The scan loop of `GetTLV` (QMI.c 358-379), entered at position `pos`; every evaluation
of the loop guard uses one unit of fuel and `none` means the fuel ran out. `pos` is a
`u16`: the increment `pos += tlvSize + 3` wraps modulo `65536`. -/
def GetTLV_loop (msg : List Nat) (messageLen type : Nat) (out : List Nat) (bufferLen : Nat) :
    Nat → Nat → Option (Int × List Nat)
  | 0, _ => none
  | fuel + 1, pos =>
    if pos + 3 < messageLen then
      let tlvSize := le16At msg (pos + 1)
      if byteAt msg pos = type then
        if bufferLen < tlvSize then some (-ENOMEM, out)
        else some ((tlvSize : Int), copyTLV msg (pos + 3) tlvSize out)
      else GetTLV_loop msg messageLen type out bufferLen fuel ((pos + tlvSize + 3) % 65536)
    else some (-ENOMSG, out)

/-- The position reached from `pos` by the increment `pos += tlvSize + 3` of the scan loop. -/
def GetTLV_next (msg : List Nat) (pos : Nat) : Nat :=
  (pos + le16At msg (pos + 1) + 3) % 65536

/-- The scan loop goes on to the next position: the guard holds at `pos` and the record
there is not of the requested type. -/
def GetTLV_continues (msg : List Nat) (messageLen type pos : Nat) : Prop :=
  pos + 3 < messageLen ∧ byteAt msg pos ≠ type

/-- Function `GetTLV` (QMI.c 342-380). The state of the scan loop is the `u16` position
alone, so a run that evaluates the guard more than `65536` times has revisited a position
and never ends (`GetTLV_loop_fuel_enough`): `none` stands for that run. Otherwise the
result is the `int` returned and the content of the output buffer afterwards. -/
def GetTLV (pQMIMessage : Ptr) (messageLen type : Nat) (pOutDataBuf : Ptr) (bufferLen : Nat) :
    Option (Int × Ptr) :=
  match pQMIMessage, pOutDataBuf with
  | some msg, some out =>
    (GetTLV_loop msg messageLen type out bufferLen 65536 4).map (fun r => (r.1, some r.2))
  | _, _ => some (-ENOMEM, pOutDataBuf)

/-- The value of `get_unaligned( p )` for `p : char *` pointing at the byte `b`, converted
to the 16-bit argument of `le16_to_cpu`: `get_unaligned` loads `sizeof( *p )` bytes, here
one, and the `char` is converted to a 16-bit value, with sign extension where `char` is
signed. -/
def charToU16 (signedChar : Bool) (b : Nat) : Nat :=
  if signedChar && decide (128 ≤ b) then 65280 + b else b

/-- Function `ValidQMIMessage` (QMI.c 400-422). `bigEndian` is the byte order of the host and
`signedChar` tells whether plain `char` is signed on the target. The test
`*(u16 *)&mandTLV[0] != 0` is a load in the byte order of the host; the value returned is
`le16_to_cpu( get_unaligned( &mandTLV[2] ) )`, where `&mandTLV[2]` is a `char *`. The local
`mandTLV` is only read after `GetTLV` has returned 4, that is after all four of its bytes
were written, so its initial content is taken to be zero. `none` means that the scan of
`GetTLV` never ends. -/
def ValidQMIMessage (bigEndian signedChar : Bool) (pQMIMessage : Ptr) (messageLen : Nat) :
    Option Int :=
  match GetTLV pQMIMessage messageLen 2 (some [0, 0, 0, 0]) 4 with
  | none => none
  | some (ret, pMandTLV) =>
    if ret = 4 then
      let mandTLV := pMandTLV.getD []
      if loadHost bigEndian 2 mandTLV ≠ 0 then
        some (le16_to_cpu bigEndian (charToU16 signedChar (byteAt mandTLV 2)) : Nat)
      else some 0
    else some (-ENOMSG)

/-! ## Message bodies made of TLV records -/

/-- A TLV record: its type byte and its value bytes. -/
structure TLV where
  type : Nat
  value : List Nat
  deriving DecidableEq, Repr

/-- The wire form of a record: type, declared length (u16, little-endian), value. -/
def TLV.encode (r : TLV) : List Nat :=
  r.type :: (r.value.length % 256) :: (r.value.length / 256 % 256) :: r.value

/-- The wire form of a sequence of records, laid out contiguously. -/
def encodeTLVs : List TLV → List Nat
  | [] => []
  | r :: rs => r.encode ++ encodeTLVs rs

/-- The first record of type `t`. -/
def firstTLV (t : Nat) : List TLV → Option TLV
  | [] => none
  | r :: rs => if r.type = t then some r else firstTLV t rs

/-- A well-formed message body for the records `recs`: a four-byte header (message ID and
TLV total length) followed by the wire form of the records, which fills the rest of the
body exactly; the length of the body fits the `u16` argument `messageLen`. -/
def wellFormedBody (body : List Nat) (recs : List TLV) : Prop :=
  4 ≤ body.length ∧ body.length ≤ 65535 ∧ isBytes body ∧ body.drop 4 = encodeTLVs recs

instance (body : List Nat) (recs : List TLV) : Decidable (wellFormedBody body recs) :=
  inferInstanceAs (Decidable
    (4 ≤ body.length ∧ body.length ≤ 65535 ∧ isBytes body ∧ body.drop 4 = encodeTLVs recs))

/-- The records of the TLV scan example of the spec:
`0x01: [0xAA]`, `0x02: [0, 0, 0, 0]`, `0x10: [1, 2, 3, 4]`. -/
def sampleRecords : List TLV :=
  [⟨0x01, [0xAA]⟩, ⟨0x02, [0, 0, 0, 0]⟩, ⟨0x10, [1, 2, 3, 4]⟩]

/-- A body carrying `sampleRecords` after a header with message ID 0x0022 and TLV total
length 18. -/
def sampleBody : List Nat :=
  [0x22, 0, 18, 0, 0x01, 1, 0, 0xAA, 0x02, 4, 0, 0, 0, 0, 0, 0x10, 4, 0, 1, 2, 3, 4]

/-- The result of `GetTLV_loop` on a body made of the records `recs`, read off the
records: a record is examined only when a byte of the body follows its three-byte header. -/
def scanRecords (t cap : Nat) (out : List Nat) : List TLV → Int × List Nat
  | [] => (-ENOMSG, out)
  | r :: rest =>
    if r.value = [] ∧ rest = [] then (-ENOMSG, out)
    else if r.type = t then
      if cap < r.value.length then (-ENOMEM, out)
      else ((r.value.length : Int), copyTLV r.value 0 r.value.length out)
    else scanRecords t cap out rest

/-- The result of `ValidQMIMessage` on a body made of the records `recs`, read off the
first record of type 0x02. -/
def validRecords (bigEndian signedChar : Bool) (recs : List TLV) : Int :=
  match firstTLV 2 recs with
  | none => -ENOMSG
  | some r =>
    if r.value.length = 4 then
      if le16At r.value 0 ≠ 0 then
        (le16_to_cpu bigEndian (charToU16 signedChar (byteAt r.value 2)) : Nat)
      else 0
    else -ENOMSG

/-! ## Sizes of the requests -/

/-- Little-endian 32-bit write, `put_unaligned( cpu_to_le32( v ), (u32 *)(m + i) )`. -/
def putLe32 (m : List Nat) (i v : Nat) : List Nat :=
  putByte (putByte (putByte (putByte m i v) (i + 1) (v / 256)) (i + 2) (v / 65536)) (i + 3)
    (v / 16777216)

/-- Function `QMUXHeaderSize` (QMI.c 87-90). -/
def QMUXHeaderSize : Nat := sizeof_sQMUX

/-- Function `QMICTLGetClientIDReqSize` (QMI.c 102-105). -/
def QMICTLGetClientIDReqSize : Nat := sizeof_sQMUX + 10

/-- Function `QMICTLReleaseClientIDReqSize` (QMI.c 117-120). -/
def QMICTLReleaseClientIDReqSize : Nat := sizeof_sQMUX + 11

/-- Function `QMICTLReadyReqSize` (QMI.c 132-135). -/
def QMICTLReadyReqSize : Nat := sizeof_sQMUX + 6

/-- Function `QMIWDSSetEventReportReqSize` (QMI.c 147-150). -/
def QMIWDSSetEventReportReqSize : Nat := sizeof_sQMUX + 15

/-- Function `QMIWDSGetPKGSRVCStatusReqSize` (QMI.c 162-165). -/
def QMIWDSGetPKGSRVCStatusReqSize : Nat := sizeof_sQMUX + 7

/-- Function `QMIDMSGetMEIDReqSize` (QMI.c 177-180). -/
def QMIDMSGetMEIDReqSize : Nat := sizeof_sQMUX + 7

/-- Function `QMIWDASetDataFormatReqSize` (QMI.c 192-195). -/
def QMIWDASetDataFormatReqSize : Nat := sizeof_sQMUX + 25

/-- Function `QMICTLSetDataFormatReqSize` (QMI.c 207-210). -/
def QMICTLSetDataFormatReqSize : Nat := sizeof_sQMUX + 15

/-- Function `QMICTLSyncReqSize` (QMI.c 222-225). -/
def QMICTLSyncReqSize : Nat := sizeof_sQMUX + 6

/-- Function `QMIWDSBindMuxDataPortReqSize` (QMI.c 898-901). -/
def QMIWDSBindMuxDataPortReqSize : Nat := sizeof_sQMUX + 29

/-- Function `QMIWDSBindMuxDataPortPreReqSize` (QMI.c 983-986). -/
def QMIWDSBindMuxDataPortPreReqSize : Nat := sizeof_sQMUX + 22

/-! ## Fill buffers with QMI requests

Each encoder returns the `int` result and the buffer afterwards. The compile-time switches
`QOS_MODE` and `DATA_MODE_RP` are boolean parameters; the macro `TLV_TYPE_LINK_PROTO`,
defined in a header that is not part of the sources, is a parameter too. -/

/-- Function `QMICTLGetClientIDReq` (QMI.c 476-505). -/
def QMICTLGetClientIDReq (pBuffer : Ptr) (buffSize transactionID serviceType : Nat) :
    Int × Ptr :=
  match pBuffer with
  | none => (-ENOMEM, none)
  | some b =>
    if buffSize < QMICTLGetClientIDReqSize then (-ENOMEM, some b)
    else
      let b := putByte b sizeof_sQMUX 0x00
      let b := putByte b (sizeof_sQMUX + 1) transactionID
      let b := putLe16 b (sizeof_sQMUX + 2) 0x0022
      let b := putLe16 b (sizeof_sQMUX + 4) 0x0004
      let b := putByte b (sizeof_sQMUX + 6) 0x01
      let b := putLe16 b (sizeof_sQMUX + 7) 0x0001
      let b := putByte b (sizeof_sQMUX + 9) serviceType
      (((sizeof_sQMUX + 10 : Nat) : Int), some b)

/-- Function `QMICTLReleaseClientIDReq` (QMI.c 524-556). -/
def QMICTLReleaseClientIDReq (pBuffer : Ptr) (buffSize transactionID clientID : Nat) :
    Int × Ptr :=
  match pBuffer with
  | none => (-ENOMEM, none)
  | some b =>
    if buffSize < QMICTLReleaseClientIDReqSize then (-ENOMEM, some b)
    else
      let b := putByte b sizeof_sQMUX 0x00
      let b := putByte b (sizeof_sQMUX + 1) transactionID
      let b := putLe16 b (sizeof_sQMUX + 2) 0x0023
      let b := putLe16 b (sizeof_sQMUX + 4) 0x0005
      let b := putByte b (sizeof_sQMUX + 6) 0x01
      let b := putLe16 b (sizeof_sQMUX + 7) 0x0002
      let b := putLe16 b (sizeof_sQMUX + 9) clientID
      (((sizeof_sQMUX + 11 : Nat) : Int), some b)

/-- Function `QMICTLReadyReq` (QMI.c 574-598). -/
def QMICTLReadyReq (pBuffer : Ptr) (buffSize transactionID : Nat) : Int × Ptr :=
  match pBuffer with
  | none => (-ENOMEM, none)
  | some b =>
    if buffSize < QMICTLReadyReqSize then (-ENOMEM, some b)
    else
      let b := putByte b sizeof_sQMUX 0x00
      let b := putByte b (sizeof_sQMUX + 1) transactionID
      let b := putLe16 b (sizeof_sQMUX + 2) 0x0021
      let b := putLe16 b (sizeof_sQMUX + 4) 0x0000
      (((sizeof_sQMUX + 6 : Nat) : Int), some b)

/-- Function `QMIWDSSetEventReportReq` (QMI.c 616-646). -/
def QMIWDSSetEventReportReq (pBuffer : Ptr) (buffSize transactionID : Nat) : Int × Ptr :=
  match pBuffer with
  | none => (-ENOMEM, none)
  | some b =>
    if buffSize < QMIWDSSetEventReportReqSize then (-ENOMEM, some b)
    else
      let b := putByte b sizeof_sQMUX 0x00
      let b := putLe16 b (sizeof_sQMUX + 1) transactionID
      let b := putLe16 b (sizeof_sQMUX + 3) 0x0001
      let b := putLe16 b (sizeof_sQMUX + 5) 0x0008
      let b := putByte b (sizeof_sQMUX + 7) 0x11
      let b := putLe16 b (sizeof_sQMUX + 8) 0x0005
      let b := putByte b (sizeof_sQMUX + 10) 0x01
      let b := putLe32 b (sizeof_sQMUX + 11) 0x000000ff
      (((sizeof_sQMUX + 15 : Nat) : Int), some b)

/-- Function `QMIWDSGetPKGSRVCStatusReq` (QMI.c 664-686). -/
def QMIWDSGetPKGSRVCStatusReq (pBuffer : Ptr) (buffSize transactionID : Nat) : Int × Ptr :=
  match pBuffer with
  | none => (-ENOMEM, none)
  | some b =>
    if buffSize < QMIWDSGetPKGSRVCStatusReqSize then (-ENOMEM, some b)
    else
      let b := putByte b sizeof_sQMUX 0x00
      let b := putLe16 b (sizeof_sQMUX + 1) transactionID
      let b := putLe16 b (sizeof_sQMUX + 3) 0x0022
      let b := putLe16 b (sizeof_sQMUX + 5) 0x0000
      (((sizeof_sQMUX + 7 : Nat) : Int), some b)

/-- Function `QMIDMSGetMEIDReq` (QMI.c 704-726). -/
def QMIDMSGetMEIDReq (pBuffer : Ptr) (buffSize transactionID : Nat) : Int × Ptr :=
  match pBuffer with
  | none => (-ENOMEM, none)
  | some b =>
    if buffSize < QMIDMSGetMEIDReqSize then (-ENOMEM, some b)
    else
      let b := putByte b sizeof_sQMUX 0x00
      let b := putLe16 b (sizeof_sQMUX + 1) transactionID
      let b := putLe16 b (sizeof_sQMUX + 3) 0x0025
      let b := putLe16 b (sizeof_sQMUX + 5) 0x0000
      (((sizeof_sQMUX + 7 : Nat) : Int), some b)

/-- Function `QMIWDASetDataFormatReq` (QMI.c 744-808). -/
def QMIWDASetDataFormatReq (qosMode dataModeRP : Bool) (pBuffer : Ptr)
    (buffSize transactionID : Nat) : Int × Ptr :=
  match pBuffer with
  | none => (-ENOMEM, none)
  | some b =>
    if buffSize < QMIWDASetDataFormatReqSize then (-ENOMEM, some b)
    else
      let b := putByte b sizeof_sQMUX 0x00
      let b := putLe16 b (sizeof_sQMUX + 1) transactionID
      let b := putLe16 b (sizeof_sQMUX + 3) 0x0020
      let b := putLe16 b (sizeof_sQMUX + 5) 0x0012
      let b := putByte b (sizeof_sQMUX + 7) 0x10
      let b := putLe16 b (sizeof_sQMUX + 8) 0x0001
      let b := putByte b (sizeof_sQMUX + 10) (if qosMode then 1 else 0)
      let b := putByte b (sizeof_sQMUX + 11) 0x11
      let b := putLe16 b (sizeof_sQMUX + 12) 0x0004
      let b := putLe32 b (sizeof_sQMUX + 14) (if dataModeRP then 0x00000002 else 0x00000001)
      let b := putByte b (sizeof_sQMUX + 18) 0x13
      let b := putLe16 b (sizeof_sQMUX + 19) 0x0004
      let b := putLe32 b (sizeof_sQMUX + 21) 0x00000000
      ((QMIWDASetDataFormatReqSize : Int), some b)

/-- Function `QMICTLSetDataFormatReq` (QMI.c 828-884). -/
def QMICTLSetDataFormatReq (qosMode dataModeRP : Bool) (TLV_TYPE_LINK_PROTO : Nat)
    (pBuffer : Ptr) (buffSize transactionID : Nat) : Int × Ptr :=
  match pBuffer with
  | none => (-ENOMEM, none)
  | some b =>
    if buffSize < QMICTLSetDataFormatReqSize then (-ENOMEM, some b)
    else
      let b := putByte b sizeof_sQMUX 0x00
      let b := putByte b (sizeof_sQMUX + 1) transactionID
      let b := putLe16 b (sizeof_sQMUX + 2) 0x0026
      let b := putLe16 b (sizeof_sQMUX + 4) 0x0009
      let b := putByte b (sizeof_sQMUX + 6) 0x01
      let b := putLe16 b (sizeof_sQMUX + 7) 0x0001
      let b := putByte b (sizeof_sQMUX + 9) (if qosMode then 1 else 0)
      let b := putByte b (sizeof_sQMUX + 10) TLV_TYPE_LINK_PROTO
      let b := putLe16 b (sizeof_sQMUX + 11) 0x0002
      let b := putLe16 b (sizeof_sQMUX + 13) (if dataModeRP then 0x0002 else 0x0001)
      (((sizeof_sQMUX + 15 : Nat) : Int), some b)

/-- Function `QMIWDSBindMuxDataPortReq` (QMI.c 921-968). -/
def QMIWDSBindMuxDataPortReq (pBuffer : Ptr) (buffSize transactionID : Nat) : Int × Ptr :=
  match pBuffer with
  | none => (-ENOMEM, none)
  | some b =>
    if buffSize < QMIWDSBindMuxDataPortReqSize then (-ENOMEM, some b)
    else
      let b := putByte b sizeof_sQMUX 0x00
      let b := putLe16 b (sizeof_sQMUX + 1) transactionID
      let b := putLe16 b (sizeof_sQMUX + 3) 0x00A2
      let b := putLe16 b (sizeof_sQMUX + 5) 0x0016
      let b := putByte b (sizeof_sQMUX + 7) 0x10
      let b := putLe16 b (sizeof_sQMUX + 8) 0x0008
      let b := putLe32 b (sizeof_sQMUX + 10) 0x00000005
      let b := putLe32 b (sizeof_sQMUX + 14) 0x00000008
      let b := putByte b (sizeof_sQMUX + 18) 0x11
      let b := putLe16 b (sizeof_sQMUX + 19) 0x0001
      let b := putByte b (sizeof_sQMUX + 21) 0x0
      let b := putByte b (sizeof_sQMUX + 22) 0x13
      let b := putLe16 b (sizeof_sQMUX + 23) 0x0004
      let b := putLe32 b (sizeof_sQMUX + 25) 0x00000001
      ((QMIWDSBindMuxDataPortReqSize : Int), some b)

/-- Function `QMIWDSBindMuxDataPortPreReq` (QMI.c 1011-1053). -/
def QMIWDSBindMuxDataPortPreReq (pBuffer : Ptr) (buffSize transactionID index : Nat) :
    Int × Ptr :=
  match pBuffer with
  | none => (-ENOMEM, none)
  | some b =>
    if buffSize < QMIWDSBindMuxDataPortPreReqSize then (-ENOMEM, some b)
    else
      let b := putByte b sizeof_sQMUX 0x00
      let b := putLe16 b (sizeof_sQMUX + 1) transactionID
      let b := putLe16 b (sizeof_sQMUX + 3) 0x00A2
      let b := putLe16 b (sizeof_sQMUX + 5) 0x000F
      let b := putByte b (sizeof_sQMUX + 7) 0x10
      let b := putLe16 b (sizeof_sQMUX + 8) 0x0008
      let b := putLe32 b (sizeof_sQMUX + 10) 0x00000005
      let b := putLe32 b (sizeof_sQMUX + 14) 0x00000000
      let b := putByte b (sizeof_sQMUX + 18) 0x11
      let b := putLe16 b (sizeof_sQMUX + 19) 0x0001
      let b := putByte b (sizeof_sQMUX + 21) index
      ((QMIWDSBindMuxDataPortPreReqSize : Int), some b)

/-- Function `QMICTLSyncReq` (QMI.c 1074-1095). The `u16` transaction ID is stored through
a `u8 *`, which keeps its low byte. -/
def QMICTLSyncReq (pBuffer : Ptr) (buffSize transactionID : Nat) : Int × Ptr :=
  match pBuffer with
  | none => (-ENOMEM, none)
  | some b =>
    if buffSize < QMICTLSyncReqSize then (-ENOMEM, some b)
    else
      let b := putByte b sizeof_sQMUX 0x00
      let b := putByte b (sizeof_sQMUX + 1) transactionID
      let b := putLe16 b (sizeof_sQMUX + 2) 0x0027
      let b := putLe16 b (sizeof_sQMUX + 4) 0x0000
      (((sizeof_sQMUX + 6 : Nat) : Int), some b)

/-! ## Parse data from QMI responses

Each decoder skips the QMUX header and the flag and transaction ID that follow it:
`pBuffer + offset` is the buffer without its first `offset` bytes. A decoder that calls
`GetTLV` has no result (`none`) when the scan of `GetTLV` never ends. A decoder whose
result depends on the byte order of the host takes it as the parameter `bigEndian`. -/

/-- Function `GetQMIMessageID` (QMI.c 441-453). The pointer is dereferenced without a null
check, so the argument is the memory it points at. -/
def GetQMIMessageID (pQMIMessage : List Nat) (messageLen : Nat) : Int :=
  if messageLen < 2 then -ENODATA else (le16At pQMIMessage 0 : Nat)

/-- Function `QMICTLGetClientIDResp` (QMI.c 1117-1155). `pClientID` is the memory of the
`u16` that receives the client ID; the result is the `int` returned and that memory
afterwards. -/
def QMICTLGetClientIDResp (bigEndian signedChar : Bool) (pBuffer : Ptr) (buffSize : Nat)
    (pClientID : Ptr) : Option (Int × Ptr) :=
  let offset := sizeof_sQMUX + 2
  match pBuffer with
  | none => some (-ENOMEM, pClientID)
  | some b =>
    if buffSize < offset then some (-ENOMEM, pClientID)
    else
      let msg := b.drop offset
      let len := buffSize - offset
      if GetQMIMessageID msg len ≠ 0x22 then some (-EFAULT, pClientID)
      else
        match ValidQMIMessage bigEndian signedChar (some msg) len with
        | none => none
        | some result =>
          if result ≠ 0 then some (-EFAULT, pClientID)
          else
            match GetTLV (some msg) len 0x01 pClientID 2 with
            | none => none
            | some (result, pClientID) =>
              if result ≠ 2 then some (-EFAULT, pClientID)
              else some (0, pClientID)

/-- Function `QMICTLReleaseClientIDResp` (QMI.c 1172-1203). -/
def QMICTLReleaseClientIDResp (bigEndian signedChar : Bool) (pBuffer : Ptr) (buffSize : Nat) :
    Option Int :=
  let offset := sizeof_sQMUX + 2
  match pBuffer with
  | none => some (-ENOMEM)
  | some b =>
    if buffSize < offset then some (-ENOMEM)
    else
      let msg := b.drop offset
      let len := buffSize - offset
      if GetQMIMessageID msg len ≠ 0x23 then some (-EFAULT)
      else
        match ValidQMIMessage bigEndian signedChar (some msg) len with
        | none => none
        | some result =>
          if result ≠ 0 then some (-EFAULT)
          else some 0

/-- The objects that the output pointers of `QMIWDSEventResp` point at: the memory of six
`u32` and two `u64` counters and two `bool` flags; `none` is a null pointer. -/
structure EventOutputs where
  pTXOk : Ptr
  pRXOk : Ptr
  pTXErr : Ptr
  pRXErr : Ptr
  pTXOfl : Ptr
  pRXOfl : Ptr
  pTXBytesOk : Ptr
  pRXBytesOk : Ptr
  pbLinkState : Option Bool
  pbReconfigure : Option Bool
  deriving DecidableEq, Repr

/-- The statement `put_unaligned( le32_to_cpu( *p ), p )` (QMI.c 1280-1290) on the `u32`
object that `p` points at. -/
def convert32 (bigEndian : Bool) (p : Ptr) : Ptr :=
  p.map (fun m => put_unaligned bigEndian 4 (le32_to_cpu bigEndian (loadHost bigEndian 4 m)) m)

/-- The statement `put_unaligned( le64_to_cpu( *p ), p )` (QMI.c 1292-1294) on the `u64`
object that `p` points at. -/
def convert64 (bigEndian : Bool) (p : Ptr) : Ptr :=
  p.map (fun m => put_unaligned bigEndian 8 (le64_to_cpu bigEndian (loadHost bigEndian 8 m)) m)

/-- Function `QMIWDSEventResp` (QMI.c 1233-1335). `bigEndian` is the byte order of the host.
The result is the `int` returned and the output objects afterwards. In the event report
branch every call of `GetTLV` is followed by the conversion of the counter, whatever
`GetTLV` has returned. The local `pktStatusRead` is read only at the indices that `GetTLV`
has written, so its initial content is taken to be zero. -/
def QMIWDSEventResp (bigEndian : Bool) (pBuffer : Ptr) (buffSize : Nat) (o : EventOutputs) :
    Option (Int × EventOutputs) :=
  let offset := sizeof_sQMUX + 3
  match pBuffer with
  | none => some (-ENOMEM, o)
  | some b =>
    if buffSize < offset ∨ o.pTXOk = none ∨ o.pRXOk = none ∨ o.pTXErr = none
        ∨ o.pRXErr = none ∨ o.pTXOfl = none ∨ o.pRXOfl = none ∨ o.pTXBytesOk = none
        ∨ o.pRXBytesOk = none ∨ o.pbLinkState = none ∨ o.pbReconfigure = none then
      some (-ENOMEM, o)
    else
      let msg := b.drop offset
      let len := buffSize - offset
      let result := GetQMIMessageID msg len
      if result = 0x01 then
        match GetTLV (some msg) len 0x10 o.pTXOk 4 with
        | none => none
        | some (_, pTXOk) =>
        let pTXOk := convert32 bigEndian pTXOk
        match GetTLV (some msg) len 0x11 o.pRXOk 4 with
        | none => none
        | some (_, pRXOk) =>
        let pRXOk := convert32 bigEndian pRXOk
        match GetTLV (some msg) len 0x12 o.pTXErr 4 with
        | none => none
        | some (_, pTXErr) =>
        let pTXErr := convert32 bigEndian pTXErr
        match GetTLV (some msg) len 0x13 o.pRXErr 4 with
        | none => none
        | some (_, pRXErr) =>
        let pRXErr := convert32 bigEndian pRXErr
        match GetTLV (some msg) len 0x14 o.pTXOfl 4 with
        | none => none
        | some (_, pTXOfl) =>
        let pTXOfl := convert32 bigEndian pTXOfl
        match GetTLV (some msg) len 0x15 o.pRXOfl 4 with
        | none => none
        | some (_, pRXOfl) =>
        let pRXOfl := convert32 bigEndian pRXOfl
        match GetTLV (some msg) len 0x19 o.pTXBytesOk 8 with
        | none => none
        | some (_, pTXBytesOk) =>
        let pTXBytesOk := convert64 bigEndian pTXBytesOk
        match GetTLV (some msg) len 0x1A o.pRXBytesOk 8 with
        | none => none
        | some (_, pRXBytesOk) =>
          let pRXBytesOk := convert64 bigEndian pRXBytesOk
          some (0, { o with pTXOk := pTXOk, pRXOk := pRXOk, pTXErr := pTXErr,
                            pRXErr := pRXErr, pTXOfl := pTXOfl, pRXOfl := pRXOfl,
                            pTXBytesOk := pTXBytesOk, pRXBytesOk := pRXBytesOk })
      else if result = 0x22 then
        match GetTLV (some msg) len 0x01 (some [0, 0]) 2 with
        | none => none
        | some (result, pPktStatusRead) =>
          let pktStatusRead := pPktStatusRead.getD []
          let pbLinkState :=
            if 1 ≤ result then some (decide (byteAt pktStatusRead 0 = 0x02))
            else o.pbLinkState
          let pbReconfigure :=
            if result = 2 then some (decide (byteAt pktStatusRead 1 = 0x01))
            else o.pbReconfigure
          let o := { o with pbLinkState := pbLinkState, pbReconfigure := pbReconfigure }
          if result < 0 then some (result, o)
          else some (0, o)
      else some (-EFAULT, o)

/-- Function `QMIDMSGetMEIDResp` (QMI.c 1354-1392). `pMEID` is the memory that receives the
MEID; the result is the `int` returned and that memory afterwards. -/
def QMIDMSGetMEIDResp (bigEndian signedChar : Bool) (pBuffer : Ptr) (buffSize : Nat) (pMEID : Ptr)
    (meidSize : Int) : Option (Int × Ptr) :=
  let offset := sizeof_sQMUX + 3
  match pBuffer with
  | none => some (-ENOMEM, pMEID)
  | some b =>
    if buffSize < offset ∨ meidSize < 14 then some (-ENOMEM, pMEID)
    else
      let msg := b.drop offset
      let len := buffSize - offset
      if GetQMIMessageID msg len ≠ 0x25 then some (-EFAULT, pMEID)
      else
        match ValidQMIMessage bigEndian signedChar (some msg) len with
        | none => none
        | some result =>
          if result ≠ 0 then some (-EFAULT, pMEID)
          else
            match GetTLV (some msg) len 0x12 pMEID 14 with
            | none => none
            | some (result, pMEID) =>
              if result ≠ 14 then some (-EFAULT, pMEID)
              else some (0, pMEID)

/-- Function `QMIWDASetDataFormatResp` (QMI.c 1409-1472). The local `pktLinkProtocol` is
read only after `GetTLV` has written its four bytes. -/
def QMIWDASetDataFormatResp (bigEndian signedChar dataModeRP : Bool) (pBuffer : Ptr) (buffSize : Nat) :
    Option Int :=
  let offset := sizeof_sQMUX + 3
  match pBuffer with
  | none => some (-ENOMEM)
  | some b =>
    if buffSize < offset then some (-ENOMEM)
    else
      let msg := b.drop offset
      let len := buffSize - offset
      if GetQMIMessageID msg len ≠ 0x20 then some (-EFAULT)
      else
        match ValidQMIMessage bigEndian signedChar (some msg) len with
        | none => none
        | some result =>
          if result ≠ 0 then some 0
          else
            match GetTLV (some msg) len 0x11 (some [0, 0, 0, 0]) 4 with
            | none => none
            | some (result, pPktLinkProtocol) =>
              let pktLinkProtocol := pPktLinkProtocol.getD []
              if result ≠ 4 then some 0
              else if dataModeRP then
                if byteAt pktLinkProtocol 0 ≠ 2 then some (byteAt pktLinkProtocol 0 : Nat)
                else some (byteAt pktLinkProtocol 0 : Nat)
              else
                if byteAt pktLinkProtocol 0 ≠ 1 then some (byteAt pktLinkProtocol 0 : Nat)
                else some (byteAt pktLinkProtocol 0 : Nat)

/-- Function `QMIWDSBindMuxDataPortResp` (QMI.c 1489-1535). -/
def QMIWDSBindMuxDataPortResp (bigEndian signedChar : Bool) (pBuffer : Ptr) (buffSize : Nat) :
    Option Int :=
  let offset := sizeof_sQMUX + 3
  match pBuffer with
  | none => some (-ENOMEM)
  | some b =>
    if buffSize < offset then some (-ENOMEM)
    else
      let msg := b.drop offset
      let len := buffSize - offset
      if GetQMIMessageID msg len ≠ 0xA2 then some (-EFAULT)
      else
        match ValidQMIMessage bigEndian signedChar (some msg) len with
        | none => none
        | some result =>
          if result ≠ 0 then some 0
          else
            match GetTLV (some msg) len 0x02 (some [0, 0, 0, 0]) 4 with
            | none => none
            | some (result, pPktLinkProtocol) =>
              let pktLinkProtocol := pPktLinkProtocol.getD []
              if result ≠ 4 then some 0
              else some (byteAt pktLinkProtocol 0 : Nat)

/-- Function `QMICTLSyncResp` (QMI.c 1552-1578). -/
def QMICTLSyncResp (bigEndian signedChar : Bool) (pBuffer : Ptr) (buffSize : Nat) : Option Int :=
  let offset := sizeof_sQMUX + 2
  match pBuffer with
  | none => some (-ENOMEM)
  | some b =>
    if buffSize < offset then some (-ENOMEM)
    else
      let msg := b.drop offset
      let len := buffSize - offset
      if GetQMIMessageID msg len ≠ 0x27 then some (-EFAULT)
      else ValidQMIMessage bigEndian signedChar (some msg) len

/-! ## The bytes written by the requests -/

/-- The bytes that `QMICTLGetClientIDReq` stores from offset 6 on, in address order. -/
def QMICTLGetClientIDReq_body (transactionID serviceType : Nat) : List Nat :=
  [0, transactionID % 256, 0x22, 0, 4, 0, 0x01, 1, 0, serviceType % 256]

/-- The bytes that `QMICTLReleaseClientIDReq` stores from offset 6 on, in address order. -/
def QMICTLReleaseClientIDReq_body (transactionID clientID : Nat) : List Nat :=
  [0, transactionID % 256, 0x23, 0, 5, 0, 0x01, 2, 0, clientID % 256, clientID / 256 % 256]

/-- The bytes that `QMICTLReadyReq` stores from offset 6 on, in address order. -/
def QMICTLReadyReq_body (transactionID : Nat) : List Nat :=
  [0, transactionID % 256, 0x21, 0, 0, 0]

/-- The bytes that `QMIWDSSetEventReportReq` stores from offset 6 on, in address order. -/
def QMIWDSSetEventReportReq_body (transactionID : Nat) : List Nat :=
  [0, transactionID % 256, transactionID / 256 % 256, 0x01, 0, 8, 0, 0x11, 5, 0, 0x01,
    0xff, 0, 0, 0]

/-- The bytes that `QMIWDSGetPKGSRVCStatusReq` stores from offset 6 on, in address order. -/
def QMIWDSGetPKGSRVCStatusReq_body (transactionID : Nat) : List Nat :=
  [0, transactionID % 256, transactionID / 256 % 256, 0x22, 0, 0, 0]

/-- The bytes that `QMIDMSGetMEIDReq` stores from offset 6 on, in address order. -/
def QMIDMSGetMEIDReq_body (transactionID : Nat) : List Nat :=
  [0, transactionID % 256, transactionID / 256 % 256, 0x25, 0, 0, 0]

/-- The bytes that `QMIWDASetDataFormatReq` stores from offset 6 on, in address order. -/
def QMIWDASetDataFormatReq_body (qosMode dataModeRP : Bool) (transactionID : Nat) : List Nat :=
  [0, transactionID % 256, transactionID / 256 % 256, 0x20, 0, 0x12, 0,
    0x10, 1, 0, (if qosMode then 1 else 0),
    0x11, 4, 0, (if dataModeRP then 2 else 1), 0, 0, 0,
    0x13, 4, 0, 0, 0, 0, 0]

/-- The bytes that `QMICTLSetDataFormatReq` stores from offset 6 on, in address order. -/
def QMICTLSetDataFormatReq_body (qosMode dataModeRP : Bool) (TLV_TYPE_LINK_PROTO : Nat) (transactionID : Nat) : List Nat :=
  [0, transactionID % 256, 0x26, 0, 9, 0,
    0x01, 1, 0, (if qosMode then 1 else 0),
    TLV_TYPE_LINK_PROTO % 256, 2, 0, (if dataModeRP then 2 else 1), 0]

/-- The bytes that `QMIWDSBindMuxDataPortReq` stores from offset 6 on, in address order. -/
def QMIWDSBindMuxDataPortReq_body (transactionID : Nat) : List Nat :=
  [0, transactionID % 256, transactionID / 256 % 256, 0xA2, 0, 0x16, 0,
    0x10, 8, 0, 5, 0, 0, 0, 8, 0, 0, 0,
    0x11, 1, 0, 0,
    0x13, 4, 0, 1, 0, 0, 0]

/-- The bytes that `QMIWDSBindMuxDataPortPreReq` stores from offset 6 on, in address order. -/
def QMIWDSBindMuxDataPortPreReq_body (transactionID index : Nat) : List Nat :=
  [0, transactionID % 256, transactionID / 256 % 256, 0xA2, 0, 0x0F, 0,
    0x10, 8, 0, 5, 0, 0, 0, 0, 0, 0, 0,
    0x11, 1, 0, index % 256]

/-- The bytes that `QMICTLSyncReq` stores from offset 6 on, in address order. -/
def QMICTLSyncReq_body (transactionID : Nat) : List Nat :=
  [0, transactionID % 256, 0x27, 0, 0, 0]

/-- A buffer of 35 zero bytes, large enough for every request. -/
def sampleBuffer : List Nat := List.replicate 35 0

/-- The ten output objects used in the examples: zeroed counters, both flags false. -/
def sampleOutputs : EventOutputs :=
  EventOutputs.mk (some [0, 0, 0, 0]) (some [0, 0, 0, 0]) (some [0, 0, 0, 0])
    (some [0, 0, 0, 0]) (some [0, 0, 0, 0]) (some [0, 0, 0, 0])
    (some [0, 0, 0, 0, 0, 0, 0, 0]) (some [0, 0, 0, 0, 0, 0, 0, 0]) (some false) (some false)

/-! ## Lemmas on the host byte order -/

theorem swab_two (v : Nat) : swab 2 v = v / 256 % 256 + 256 * (v % 256) := by
  simp only [swab, leBytes, List.reverse_cons, List.reverse_nil, List.nil_append,
    List.singleton_append, ofLeBytes]
  omega

theorem charToU16_lt (signedChar : Bool) (b : Nat) (hb : b < 256) :
    charToU16 signedChar b < 65536 := by
  unfold charToU16
  split <;> omega

/-- The conversion `le16_to_cpu` maps no 16-bit value other than 0 to 0. -/
theorem le16_to_cpu_eq_zero_iff (bigEndian : Bool) (v : Nat) (hv : v < 65536) :
    le16_to_cpu bigEndian v = 0 ↔ v = 0 := by
  cases bigEndian
  · simp only [le16_to_cpu, Bool.false_eq_true, if_false]
    omega
  · simp only [le16_to_cpu, if_true, swab_two]
    omega

/-- On a little-endian host `le16_to_cpu` is the identity on 16-bit values. -/
theorem le16_to_cpu_little (v : Nat) (hv : v < 65536) : le16_to_cpu false v = v := by
  simp only [le16_to_cpu, Bool.false_eq_true, if_false]
  omega

/-- On a big-endian host `le16_to_cpu` moves a value below 256 to the high byte. -/
theorem le16_to_cpu_big (v : Nat) (hv : v < 256) : le16_to_cpu true v = 256 * v := by
  simp only [le16_to_cpu, if_true, swab_two]
  omega

/-- The test `*(u16 *)p != 0` does not depend on the byte order of the host. -/
theorem loadHost_two_eq_zero_iff (bigEndian : Bool) (m : List Nat) :
    loadHost bigEndian 2 m = 0 ↔ le16At m 0 = 0 := by
  have h2 : List.range 2 = [0, 1] := rfl
  have h0 : byteAt m 0 % 256 = byteAt m 0 := Nat.mod_mod _ _
  have h1 : byteAt m 1 % 256 = byteAt m 1 := Nat.mod_mod _ _
  cases bigEndian
  · simp only [loadHost, h2, Bool.false_eq_true, if_false, List.map_cons, List.map_nil,
      ofLeBytes, le16At, h0, h1, Nat.zero_add]
    omega
  · simp only [loadHost, h2, if_true, List.map_cons, List.map_nil, List.reverse_cons,
      List.reverse_nil, List.nil_append, List.singleton_append, ofLeBytes, le16At, h0, h1,
      Nat.zero_add]
    omega

theorem leBytes_ofLeBytes : ∀ bs : List Nat,
    leBytes bs.length (ofLeBytes bs) = bs.map (fun b => b % 256)
  | [] => rfl
  | b :: bs => by
    have h1 : (b % 256 + 256 * ofLeBytes bs) % 256 = b % 256 := by omega
    have h2 : (b % 256 + 256 * ofLeBytes bs) / 256 = ofLeBytes bs := by omega
    simp only [List.length_cons, ofLeBytes, leBytes, List.map_cons, h1, h2]
    rw [leBytes_ofLeBytes bs]

theorem ofLeBytes_lt : ∀ bs : List Nat, ofLeBytes bs < 256 ^ bs.length
  | [] => by simp [ofLeBytes]
  | b :: bs => by
    have ih := ofLeBytes_lt bs
    have hb : b % 256 < 256 := Nat.mod_lt _ (by decide)
    simp only [ofLeBytes, List.length_cons, pow_succ]
    omega

theorem leBytes_four (x0 x1 x2 x3 : Nat) :
    leBytes 4 (ofLeBytes [x0, x1, x2, x3]) = [x0 % 256, x1 % 256, x2 % 256, x3 % 256] :=
  leBytes_ofLeBytes [x0, x1, x2, x3]

theorem leBytes_eight (x0 x1 x2 x3 x4 x5 x6 x7 : Nat) :
    leBytes 8 (ofLeBytes [x0, x1, x2, x3, x4, x5, x6, x7])
      = [x0 % 256, x1 % 256, x2 % 256, x3 % 256, x4 % 256, x5 % 256, x6 % 256, x7 % 256] :=
  leBytes_ofLeBytes [x0, x1, x2, x3, x4, x5, x6, x7]

theorem ofLeBytes_four_mod (x0 x1 x2 x3 : Nat) :
    ofLeBytes [x0, x1, x2, x3] % 4294967296 = ofLeBytes [x0, x1, x2, x3] := by
  have h := ofLeBytes_lt [x0, x1, x2, x3]
  norm_num at h
  exact Nat.mod_eq_of_lt h

theorem ofLeBytes_eight_mod (x0 x1 x2 x3 x4 x5 x6 x7 : Nat) :
    ofLeBytes [x0, x1, x2, x3, x4, x5, x6, x7] % 18446744073709551616
      = ofLeBytes [x0, x1, x2, x3, x4, x5, x6, x7] := by
  have h := ofLeBytes_lt [x0, x1, x2, x3, x4, x5, x6, x7]
  norm_num at h
  exact Nat.mod_eq_of_lt h

/-- The statement `put_unaligned( le32_to_cpu( *p ), p )` leaves a `u32` object as it is on
a little-endian host and reverses its four bytes on a big-endian host. -/
theorem convert32_cells (bigEndian : Bool) (x0 x1 x2 x3 : Nat) (h0 : x0 < 256) (h1 : x1 < 256)
    (h2 : x2 < 256) (h3 : x3 < 256) :
    convert32 bigEndian (some [x0, x1, x2, x3])
      = some (if bigEndian then [x3, x2, x1, x0] else [x0, x1, x2, x3]) := by
  have hr : List.range 4 = [0, 1, 2, 3] := rfl
  have e0 := Nat.mod_eq_of_lt h0
  have e1 := Nat.mod_eq_of_lt h1
  have e2 := Nat.mod_eq_of_lt h2
  have e3 := Nat.mod_eq_of_lt h3
  have hf := leBytes_four x0 x1 x2 x3
  have hb := leBytes_four x3 x2 x1 x0
  simp only [leBytes, List.cons.injEq, and_true, e0, e1, e2, e3] at hf hb
  obtain ⟨f0, f1, f2, f3⟩ := hf
  obtain ⟨b0, b1, b2, b3⟩ := hb
  cases bigEndian
  · simp only [convert32, put_unaligned, le32_to_cpu, loadHost, hr, byteAt, Option.map_some',
      Bool.false_eq_true, if_false, List.map_cons, List.map_nil, List.getD_cons_zero,
      List.getD_cons_succ, ofLeBytes_four_mod, leBytes, putBytes, putByte,
      List.set_cons_zero, List.set_cons_succ, Nat.mod_mod, e0, e1, e2, e3, f0, f1, f2, f3]
  · simp only [convert32, put_unaligned, le32_to_cpu, loadHost, hr, swab, byteAt,
      Option.map_some', if_true, List.map_cons, List.map_nil, List.reverse_cons,
      List.reverse_nil, List.nil_append, List.cons_append, List.getD_cons_zero,
      List.getD_cons_succ, leBytes, putBytes, putByte, List.set_cons_zero,
      List.set_cons_succ, Nat.mod_mod, e0, e1, e2, e3, f0, f1, f2, f3, b0, b1, b2, b3]

/-- The statement `put_unaligned( le64_to_cpu( *p ), p )` leaves a `u64` object as it is on
a little-endian host and reverses its eight bytes on a big-endian host. -/
theorem convert64_cells (bigEndian : Bool) (x0 x1 x2 x3 x4 x5 x6 x7 : Nat) (h0 : x0 < 256)
    (h1 : x1 < 256) (h2 : x2 < 256) (h3 : x3 < 256) (h4 : x4 < 256) (h5 : x5 < 256)
    (h6 : x6 < 256) (h7 : x7 < 256) :
    convert64 bigEndian (some [x0, x1, x2, x3, x4, x5, x6, x7])
      = some (if bigEndian then [x7, x6, x5, x4, x3, x2, x1, x0]
          else [x0, x1, x2, x3, x4, x5, x6, x7]) := by
  have hr : List.range 8 = [0, 1, 2, 3, 4, 5, 6, 7] := rfl
  have e0 := Nat.mod_eq_of_lt h0
  have e1 := Nat.mod_eq_of_lt h1
  have e2 := Nat.mod_eq_of_lt h2
  have e3 := Nat.mod_eq_of_lt h3
  have e4 := Nat.mod_eq_of_lt h4
  have e5 := Nat.mod_eq_of_lt h5
  have e6 := Nat.mod_eq_of_lt h6
  have e7 := Nat.mod_eq_of_lt h7
  have hf := leBytes_eight x0 x1 x2 x3 x4 x5 x6 x7
  have hb := leBytes_eight x7 x6 x5 x4 x3 x2 x1 x0
  simp only [leBytes, List.cons.injEq, and_true, e0, e1, e2, e3, e4, e5, e6, e7] at hf hb
  obtain ⟨f0, f1, f2, f3, f4, f5, f6, f7⟩ := hf
  obtain ⟨b0, b1, b2, b3, b4, b5, b6, b7⟩ := hb
  cases bigEndian
  · simp only [convert64, put_unaligned, le64_to_cpu, loadHost, hr, byteAt, Option.map_some',
      Bool.false_eq_true, if_false, List.map_cons, List.map_nil, List.getD_cons_zero,
      List.getD_cons_succ, ofLeBytes_eight_mod, leBytes, putBytes, putByte,
      List.set_cons_zero, List.set_cons_succ, Nat.mod_mod, e0, e1, e2, e3, e4, e5, e6, e7,
      f0, f1, f2, f3, f4, f5, f6, f7]
  · simp only [convert64, put_unaligned, le64_to_cpu, loadHost, hr, swab, byteAt,
      Option.map_some', if_true, List.map_cons, List.map_nil, List.reverse_cons,
      List.reverse_nil, List.nil_append, List.cons_append, List.getD_cons_zero,
      List.getD_cons_succ, leBytes, putBytes, putByte, List.set_cons_zero,
      List.set_cons_succ, Nat.mod_mod, e0, e1, e2, e3, e4, e5, e6, e7,
      f0, f1, f2, f3, f4, f5, f6, f7, b0, b1, b2, b3, b4, b5, b6, b7]

/-- The conversion of a `u32` object whose four cells hold bytes. -/
theorem convert32_bytes (bigEndian : Bool) (a : List Nat) (hb : isBytes a) (hl : a.length = 4) :
    convert32 bigEndian (some a) = some (if bigEndian then a.reverse else a) := by
  iterate 4 (rcases a with _ | ⟨_, a⟩; simp at hl)
  have hnil : a = [] := by simpa using hl
  subst hnil
  rename_i x0 x1 x2 x3
  have h := convert32_cells bigEndian x0 x1 x2 x3 (hb _ (by simp)) (hb _ (by simp))
    (hb _ (by simp)) (hb _ (by simp))
  rw [h]
  cases bigEndian <;> simp

/-- The conversion of a `u64` object whose eight cells hold bytes. -/
theorem convert64_bytes (bigEndian : Bool) (a : List Nat) (hb : isBytes a) (hl : a.length = 8) :
    convert64 bigEndian (some a) = some (if bigEndian then a.reverse else a) := by
  iterate 8 (rcases a with _ | ⟨_, a⟩; simp at hl)
  have hnil : a = [] := by simpa using hl
  subst hnil
  rename_i x0 x1 x2 x3 x4 x5 x6 x7
  have h := convert64_cells bigEndian x0 x1 x2 x3 x4 x5 x6 x7 (hb _ (by simp)) (hb _ (by simp))
    (hb _ (by simp)) (hb _ (by simp)) (hb _ (by simp)) (hb _ (by simp)) (hb _ (by simp))
    (hb _ (by simp))
  rw [h]
  cases bigEndian <;> simp

/-! ## Lemmas on memory -/

theorem byteAt_cons_zero (x : Nat) (l : List Nat) : byteAt (x :: l) 0 = x % 256 := by
  simp [byteAt]

theorem byteAt_cons_succ (x : Nat) (l : List Nat) (i : Nat) :
    byteAt (x :: l) (i + 1) = byteAt l i := by
  simp [byteAt]

theorem byteAt_append_right (A B : List Nat) (i : Nat) :
    byteAt (A ++ B) (A.length + i) = byteAt B i := by
  unfold byteAt
  rw [List.getD_append_right _ _ _ _ (Nat.le_add_right _ _)]
  simp

theorem byteAt_append_left (A B : List Nat) (i : Nat) (h : i < A.length) :
    byteAt (A ++ B) i = byteAt A i := by
  unfold byteAt
  rw [List.getD_append _ _ _ _ h]

theorem byteAt_of_isBytes (m : List Nat) (i : Nat) (h : isBytes m) (hi : i < m.length) :
    byteAt m i = m[i] := by
  unfold byteAt
  rw [List.getD_eq_getElem _ _ hi]
  exact Nat.mod_eq_of_lt (h _ (List.getElem_mem hi))

theorem isBytes_cons (x : Nat) (l : List Nat) : isBytes (x :: l) ↔ x < 256 ∧ isBytes l := by
  simp [isBytes]

theorem isBytes_append (A B : List Nat) : isBytes (A ++ B) ↔ isBytes A ∧ isBytes B := by
  simp only [isBytes, List.mem_append]
  constructor
  · intro h
    exact ⟨fun b hb => h b (Or.inl hb), fun b hb => h b (Or.inr hb)⟩
  · rintro ⟨h1, h2⟩ b (hb | hb)
    · exact h1 b hb
    · exact h2 b hb

theorem putByte_length (m : List Nat) (i v : Nat) : (putByte m i v).length = m.length := by
  simp [putByte]

theorem copyTLV_congr (m1 m2 : List Nat) (s1 s2 n : Nat) (out : List Nat)
    (h : ∀ c, c < n → byteAt m1 (s1 + c) = byteAt m2 (s2 + c)) :
    copyTLV m1 s1 n out = copyTLV m2 s2 n out := by
  unfold copyTLV
  apply List.foldl_ext
  intro o c hc
  rw [h c (List.mem_range.mp hc)]

theorem copyTLV_eq_map (msg : List Nat) (src : Nat) (out : List Nat) :
    ∀ n, n ≤ out.length →
      copyTLV msg src n out
        = (List.range n).map (fun c => byteAt msg (src + c)) ++ out.drop n := by
  intro n
  induction n with
  | zero => intro _; simp [copyTLV]
  | succ n ih =>
    intro hn
    have ih1 := ih (Nat.le_of_succ_le hn)
    unfold copyTLV at ih1 ⊢
    rw [List.range_succ, List.foldl_append, ih1]
    simp only [List.foldl_cons, List.foldl_nil, putByte, List.map_append, List.map_cons,
      List.map_nil]
    rw [List.set_append_right _ _ (by simp)]
    have hlt : n < out.length := hn
    have hd : List.drop n out = out[n] :: List.drop (n + 1) out :=
      List.drop_eq_getElem_cons hlt
    rw [hd]
    simp only [List.length_map, List.length_range, Nat.sub_self, List.set_cons_zero,
      List.append_assoc, List.singleton_append]
    congr 2
    exact Nat.mod_eq_of_lt (Nat.mod_lt _ (by decide))

theorem copyTLV_value (v out : List Nat) (hv : isBytes v) (h : v.length ≤ out.length) :
    copyTLV v 0 v.length out = v ++ out.drop v.length := by
  rw [copyTLV_eq_map v 0 out v.length h]
  congr 1
  apply List.ext_getElem
  · simp
  · intro i h1 h2
    simp only [List.length_map, List.length_range] at h1
    simp only [List.getElem_map, List.getElem_range, Nat.zero_add]
    exact byteAt_of_isBytes v i hv h2

/-! ## Lemmas on encoded records -/

theorem encode_length (r : TLV) : r.encode.length = r.value.length + 3 := by
  simp [TLV.encode]

theorem encodeTLVs_length_ge (recs : List TLV) : 3 * recs.length ≤ (encodeTLVs recs).length := by
  induction recs with
  | nil => simp [encodeTLVs]
  | cons r rs ih =>
    simp only [encodeTLVs, List.length_append, encode_length, List.length_cons]
    omega

theorem encodeTLVs_append (xs ys : List TLV) :
    encodeTLVs (xs ++ ys) = encodeTLVs xs ++ encodeTLVs ys := by
  induction xs with
  | nil => simp [encodeTLVs]
  | cons r rs ih => simp [encodeTLVs, ih]

theorem byteAt_record_type (A rest : List Nat) (r : TLV) (h : r.type < 256) :
    byteAt (A ++ (r.encode ++ rest)) A.length = r.type := by
  have h0 := byteAt_append_right A (r.encode ++ rest) 0
  rw [Nat.add_zero] at h0
  rw [h0]
  simp [TLV.encode, byteAt_cons_zero, Nat.mod_eq_of_lt h]

theorem le16At_record_length (A rest : List Nat) (r : TLV) (h : r.value.length < 65536) :
    le16At (A ++ (r.encode ++ rest)) (A.length + 1) = r.value.length := by
  unfold le16At
  rw [byteAt_append_right, Nat.add_assoc, byteAt_append_right]
  simp only [TLV.encode, List.cons_append, byteAt_cons_succ, byteAt_cons_zero]
  omega

theorem byteAt_record_value (A rest : List Nat) (r : TLV) (c : Nat) (hc : c < r.value.length) :
    byteAt (A ++ (r.encode ++ rest)) (A.length + 3 + c) = byteAt r.value (0 + c) := by
  rw [Nat.add_assoc, byteAt_append_right]
  have h3 : 3 + c = c + 1 + 1 + 1 := by omega
  rw [h3]
  simp only [TLV.encode, List.cons_append, byteAt_cons_succ, Nat.zero_add]
  exact byteAt_append_left _ _ _ hc

/-- On a body made of encoded records the scan loop, started at the first record with more
fuel than there are records, returns what `scanRecords` reads off the records. -/
theorem GetTLV_loop_encode (t cap : Nat) (out : List Nat) (recs : List TLV) :
    ∀ (A : List Nat) (fuel : Nat), isBytes (encodeTLVs recs) →
      (A ++ encodeTLVs recs).length ≤ 65535 → recs.length < fuel →
      GetTLV_loop (A ++ encodeTLVs recs) (A ++ encodeTLVs recs).length t out cap fuel A.length
        = some (scanRecords t cap out recs) := by
  induction recs with
  | nil =>
    intro A fuel _ _ hf
    obtain ⟨f, rfl⟩ : ∃ f, fuel = f + 1 := ⟨fuel - 1, by omega⟩
    simp [GetTLV_loop, encodeTLVs, scanRecords]
  | cons r rest ih =>
    intro A fuel hb hlen hf
    obtain ⟨f, rfl⟩ : ∃ f, fuel = f + 1 := ⟨fuel - 1, by omega⟩
    simp only [List.length_cons] at hf
    simp only [encodeTLVs] at hb hlen ⊢
    obtain ⟨hbr, hbrest⟩ := (isBytes_append _ _).mp hb
    have hty : r.type < 256 := hbr _ (by simp [TLV.encode])
    have hL : (A ++ (r.encode ++ encodeTLVs rest)).length
        = A.length + 3 + r.value.length + (encodeTLVs rest).length := by
      simp only [List.length_append, encode_length]; omega
    have hvlen : r.value.length < 65536 := by omega
    rw [GetTLV_loop, byteAt_record_type A _ r hty, le16At_record_length A _ r hvlen, hL]
    simp only [scanRecords]
    by_cases hlast : r.value = [] ∧ rest = []
    · obtain ⟨hv, hr⟩ := hlast
      simp [hv, hr, encodeTLVs]
    · have hpos : 0 < r.value.length + (encodeTLVs rest).length := by
        by_cases hv : r.value = []
        · have hr : rest ≠ [] := fun hr => hlast ⟨hv, hr⟩
          have h3 := encodeTLVs_length_ge rest
          have : 0 < rest.length := List.length_pos.mpr hr
          omega
        · have : 0 < r.value.length := List.length_pos.mpr hv
          omega
      have hguard : A.length + 3 < A.length + 3 + r.value.length + (encodeTLVs rest).length := by
        omega
      rw [if_pos hguard, if_neg hlast]
      by_cases hmatch : r.type = t
      · rw [if_pos hmatch, if_pos hmatch]
        by_cases hcap : cap < r.value.length
        · rw [if_pos hcap, if_pos hcap]
        · rw [if_neg hcap, if_neg hcap]
          rw [copyTLV_congr _ r.value (A.length + 3) 0 r.value.length out
            (fun c hc => byteAt_record_value A _ r c hc)]
      · rw [if_neg hmatch, if_neg hmatch]
        have hnext : (A.length + r.value.length + 3) % 65536 = (A ++ r.encode).length := by
          rw [List.length_append, encode_length]
          omega
        have happ : A ++ (r.encode ++ encodeTLVs rest) = (A ++ r.encode) ++ encodeTLVs rest := by
          rw [List.append_assoc]
        have hL2 : A.length + 3 + r.value.length + (encodeTLVs rest).length
            = ((A ++ r.encode) ++ encodeTLVs rest).length := by
          rw [← happ, hL]
        rw [hnext, hL2, happ]
        exact ih (A ++ r.encode) f hbrest (by rw [← happ]; exact hlen) (by omega)

theorem wellFormedBody_split (body : List Nat) (recs : List TLV)
    (hwf : wellFormedBody body recs) :
    ∃ A, A.length = 4 ∧ body = A ++ encodeTLVs recs ∧ isBytes (encodeTLVs recs) := by
  obtain ⟨h4, _, hb, hd⟩ := hwf
  refine ⟨body.take 4, ?_, ?_, ?_⟩
  · rw [List.length_take]; omega
  · rw [← hd, List.take_append_drop]
  · rw [← hd]
    exact fun b hb1 => hb b (List.mem_of_mem_drop hb1)

/-- On a well-formed body `GetTLV` returns what `scanRecords` reads off the records. -/
theorem GetTLV_wellFormed (body : List Nat) (recs : List TLV) (t cap : Nat) (out : List Nat)
    (hwf : wellFormedBody body recs) :
    GetTLV (some body) body.length t (some out) cap
      = some ((scanRecords t cap out recs).1, some (scanRecords t cap out recs).2) := by
  obtain ⟨A, hA, hbody, hbytes⟩ := wellFormedBody_split body recs hwf
  obtain ⟨_, hL, _, _⟩ := hwf
  subst hbody
  have hn : recs.length < 65536 := by
    have h3 := encodeTLVs_length_ge recs
    rw [List.length_append] at hL
    omega
  have hloop := GetTLV_loop_encode t cap out recs A 65536 hbytes hL hn
  rw [hA] at hloop
  simp only [GetTLV, hloop, Option.map_some']

theorem scanRecords_skip (t cap : Nat) (out : List Nat) (pre rest : List TLV)
    (hpre : ∀ x ∈ pre, x.type ≠ t) (hrest : rest ≠ []) :
    scanRecords t cap out (pre ++ rest) = scanRecords t cap out rest := by
  induction pre with
  | nil => rfl
  | cons x xs ih =>
    have hx : x.type ≠ t := hpre x (List.mem_cons_self _ _)
    have hne : ¬ (x.value = [] ∧ xs ++ rest = []) := by
      rintro ⟨_, h⟩
      exact hrest (List.append_eq_nil.mp h).2
    rw [List.cons_append, scanRecords, if_neg hne, if_neg hx]
    exact ih (fun y hy => hpre y (List.mem_cons_of_mem _ hy))

theorem scanRecords_none (t cap : Nat) (out : List Nat) (recs : List TLV)
    (h : ∀ x ∈ recs, x.type ≠ t) : scanRecords t cap out recs = (-ENOMSG, out) := by
  induction recs with
  | nil => rfl
  | cons x xs ih =>
    have hx : x.type ≠ t := h x (List.mem_cons_self _ _)
    rw [scanRecords, if_neg hx, ih (fun y hy => h y (List.mem_cons_of_mem _ hy))]
    simp

theorem firstTLV_eq_none (t : Nat) (recs : List TLV) :
    firstTLV t recs = none ↔ ∀ x ∈ recs, x.type ≠ t := by
  induction recs with
  | nil => simp [firstTLV]
  | cons x xs ih =>
    by_cases hx : x.type = t
    · simp [firstTLV, hx]
    · simp [firstTLV, hx, ih]

theorem copyTLV_zero (msg : List Nat) (src : Nat) (out : List Nat) :
    copyTLV msg src 0 out = out := by
  simp [copyTLV]

/-- What the scan returns in terms of the first record of the requested type: either that
record is examined, or it is an empty record at the very end of the body and is missed. -/
theorem scanRecords_first (t cap : Nat) (out : List Nat) (recs : List TLV) (r : TLV)
    (h : firstTLV t recs = some r) :
    scanRecords t cap out recs
        = (if cap < r.value.length then (-ENOMEM, out)
           else ((r.value.length : Int), copyTLV r.value 0 r.value.length out))
      ∨ (r.value = [] ∧ scanRecords t cap out recs = (-ENOMSG, out)) := by
  induction recs with
  | nil => simp [firstTLV] at h
  | cons x xs ih =>
    rw [firstTLV] at h
    by_cases hx : x.type = t
    · rw [if_pos hx] at h
      have hxr : x = r := Option.some.inj h
      subst hxr
      by_cases hlast : x.value = [] ∧ xs = []
      · right
        exact ⟨hlast.1, by rw [scanRecords, if_pos hlast]⟩
      · left
        rw [scanRecords, if_neg hlast, if_pos hx]
    · rw [if_neg hx] at h
      have hxs : xs ≠ [] := by
        intro hnil
        rw [hnil] at h
        simp [firstTLV] at h
      have hne : ¬ (x.value = [] ∧ xs = []) := fun hh => hxs hh.2
      rw [scanRecords, if_neg hne, if_neg hx]
      exact ih h

/-! ## Fuel of the scan loop -/

theorem GetTLV_loop_eq_none_iff (msg : List Nat) (messageLen type : Nat) (out : List Nat)
    (bufferLen : Nat) :
    ∀ fuel pos, GetTLV_loop msg messageLen type out bufferLen fuel pos = none ↔
      ∀ i, i < fuel → GetTLV_continues msg messageLen type ((GetTLV_next msg)^[i] pos) := by
  intro fuel
  induction fuel with
  | zero =>
    intro pos
    simp [GetTLV_loop]
  | succ f ih =>
    intro pos
    rw [GetTLV_loop]
    by_cases hg : pos + 3 < messageLen
    · by_cases hm : byteAt msg pos = type
      · rw [if_pos hg]
        simp only [hm, if_true]
        constructor
        · intro h
          split at h <;> simp at h
        · intro h
          exact absurd hm (h 0 (Nat.succ_pos f)).2
      · rw [if_pos hg]
        simp only [hm, if_false]
        have hnext : (pos + le16At msg (pos + 1) + 3) % 65536 = GetTLV_next msg pos := rfl
        rw [hnext, ih (GetTLV_next msg pos)]
        constructor
        · intro h i hi
          cases i with
          | zero => exact ⟨hg, hm⟩
          | succ j =>
            rw [Function.iterate_succ_apply]
            exact h j (Nat.lt_of_succ_lt_succ hi)
        · intro h j hj
          have := h (j + 1) (Nat.succ_lt_succ hj)
          rwa [Function.iterate_succ_apply] at this
    · rw [if_neg hg]
      constructor
      · intro h
        simp at h
      · intro h
        exact absurd (h 0 (Nat.succ_pos f)).1 hg

theorem GetTLV_loop_mono (msg : List Nat) (messageLen type : Nat) (out : List Nat)
    (bufferLen : Nat) (r : Int × List Nat) :
    ∀ fuel pos, GetTLV_loop msg messageLen type out bufferLen fuel pos = some r →
      ∀ more, fuel ≤ more → GetTLV_loop msg messageLen type out bufferLen more pos = some r := by
  intro fuel
  induction fuel with
  | zero =>
    intro pos h
    simp [GetTLV_loop] at h
  | succ f ih =>
    intro pos h more hle
    obtain ⟨m, rfl⟩ : ∃ m, more = m + 1 := ⟨more - 1, by omega⟩
    rw [GetTLV_loop] at h ⊢
    by_cases hg : pos + 3 < messageLen
    · by_cases hm : byteAt msg pos = type
      · simpa [hg, hm] using h
      · simp only [hg, hm, if_true, if_false] at h ⊢
        exact ih _ h m (by omega)
    · simpa [hg] using h

theorem GetTLV_next_lt (msg : List Nat) (pos : Nat) : GetTLV_next msg pos < 65536 :=
  Nat.mod_lt _ (by decide)

theorem GetTLV_next_iterate_lt (msg : List Nat) (pos : Nat) (hpos : pos < 65536) (i : Nat) :
    (GetTLV_next msg)^[i] pos < 65536 := by
  cases i with
  | zero => exact hpos
  | succ j =>
    rw [Function.iterate_succ_apply']
    exact GetTLV_next_lt msg _

/-- A scan that has not returned after `65536` evaluations of the guard has come back to a
position it had left, and goes on for ever. -/
theorem GetTLV_continues_forever (msg : List Nat) (messageLen type pos : Nat)
    (hpos : pos < 65536)
    (h : ∀ i, i < 65536 → GetTLV_continues msg messageLen type ((GetTLV_next msg)^[i] pos)) :
    ∀ i, GetTLV_continues msg messageLen type ((GetTLV_next msg)^[i] pos) := by
  let f : Fin 65537 → Fin 65536 :=
    fun i => ⟨(GetTLV_next msg)^[i.val] pos, GetTLV_next_iterate_lt msg pos hpos i.val⟩
  obtain ⟨x, y, hxy, hfxy⟩ := Fintype.exists_ne_map_eq_of_card_lt f
    (by rw [Fintype.card_fin, Fintype.card_fin]; exact Nat.lt_succ_self _)
  have hval : (GetTLV_next msg)^[x.val] pos = (GetTLV_next msg)^[y.val] pos :=
    congrArg Fin.val hfxy
  have hne : x.val ≠ y.val := fun hv => hxy (Fin.ext hv)
  -- two indices `a < b ≤ 65536` with the same position
  obtain ⟨a, b, hab, hb, hsame⟩ : ∃ a b, a < b ∧ b ≤ 65536 ∧
      (GetTLV_next msg)^[a] pos = (GetTLV_next msg)^[b] pos := by
    rcases Nat.lt_or_gt_of_ne hne with hlt | hgt
    · exact ⟨x.val, y.val, hlt, Nat.le_of_lt_succ y.isLt, hval⟩
    · exact ⟨y.val, x.val, hgt, Nat.le_of_lt_succ x.isLt, hval.symm⟩
  have hperiod : ∀ k, (GetTLV_next msg)^[a + k] pos = (GetTLV_next msg)^[b + k] pos := by
    intro k
    rw [Nat.add_comm a k, Nat.add_comm b k, Function.iterate_add_apply,
      Function.iterate_add_apply, hsame]
  intro i
  induction i using Nat.strong_induction_on with
  | _ i ih =>
    by_cases hi : i < 65536
    · exact h i hi
    · have hk : i = b + (i - b) := by omega
      rw [hk, ← hperiod (i - b)]
      exact ih (a + (i - b)) (by omega)

/-- The fuel `65536` given to the scan loop by `GetTLV` is enough: a scan from a 16-bit
position that returns with some fuel returns the same with fuel `65536`. -/
theorem GetTLV_loop_fuel_enough (msg : List Nat) (messageLen type : Nat) (out : List Nat)
    (bufferLen fuel pos : Nat) (r : Int × List Nat) (hpos : pos < 65536)
    (h : GetTLV_loop msg messageLen type out bufferLen fuel pos = some r) :
    GetTLV_loop msg messageLen type out bufferLen 65536 pos = some r := by
  cases h65 : GetTLV_loop msg messageLen type out bufferLen 65536 pos with
  | none =>
    have hall := GetTLV_continues_forever msg messageLen type pos hpos
      ((GetTLV_loop_eq_none_iff msg messageLen type out bufferLen 65536 pos).mp h65)
    have hnone := (GetTLV_loop_eq_none_iff msg messageLen type out bufferLen fuel pos).mpr
      (fun i _ => hall i)
    rw [hnone] at h
    simp at h
  | some r2 =>
    have h1 := GetTLV_loop_mono msg messageLen type out bufferLen r fuel pos h
      (max fuel 65536) (Nat.le_max_left _ _)
    have h2 := GetTLV_loop_mono msg messageLen type out bufferLen r2 65536 pos h65
      (max fuel 65536) (Nat.le_max_right _ _)
    rw [h1] at h2
    exact h2.symm

/-! ## GetTLV -/

/-- C1, counterexample: the body `[0,0,0,0, 0x10,0,0]` is well formed, its only record has
type 0x10 and declared length 0, which fits a capacity of 4, yet `GetTLV` for type 0x10
returns `-ENOMSG` and not 0: the loop guard `pos + 3 < messageLen` stops before a record
that ends the body without a value byte. -/
theorem GetTLV_first_match_counterexample :
    wellFormedBody [0, 0, 0, 0, 0x10, 0, 0] [⟨0x10, []⟩] ∧
    firstTLV 0x10 [⟨0x10, []⟩] = some ⟨0x10, []⟩ ∧
    (TLV.mk 0x10 []).value.length ≤ 4 ∧
    GetTLV (some [0, 0, 0, 0, 0x10, 0, 0]) 7 0x10 (some [7, 7, 7, 7]) 4
      = some (-ENOMSG, some [7, 7, 7, 7]) ∧
    GetTLV (some [0, 0, 0, 0, 0x10, 0, 0]) 7 0x10 (some [7, 7, 7, 7]) 4
      ≠ some (0, some [7, 7, 7, 7]) := by
  decide

/-- C1, amended: on a well-formed body of length at most 65535 whose records are
`pre ++ r :: post`, where no record of `pre` has type `t` and `r` has type `t` (so `r` is
the first record of type `t`), if the declared length of `r` is at most `bufferLen` and at
least one byte of the body follows the three-byte header of `r` (its value is not empty or
it is not the last record), then `GetTLV` returns that length, the first bytes of the
output buffer are the value of `r` and the remaining bytes are unchanged. -/
theorem GetTLV_first_match (body : List Nat) (pre post : List TLV) (r : TLV) (t bufferLen : Nat)
    (out : List Nat) (hwf : wellFormedBody body (pre ++ r :: post))
    (hpre : ∀ x ∈ pre, x.type ≠ t) (hr : r.type = t)
    (hn : r.value.length ≤ bufferLen) (hcap : bufferLen ≤ out.length)
    (hfollow : r.value ≠ [] ∨ post ≠ []) :
    GetTLV (some body) body.length t (some out) bufferLen
      = some ((r.value.length : Int), some (r.value ++ out.drop r.value.length)) := by
  rw [GetTLV_wellFormed body _ t bufferLen out hwf,
    scanRecords_skip t bufferLen out pre (r :: post) hpre (List.cons_ne_nil _ _)]
  have hlast : ¬ (r.value = [] ∧ post = []) := by
    rintro ⟨h1, h2⟩
    rcases hfollow with h | h
    · exact h h1
    · exact h h2
  have hbytes : isBytes r.value := by
    obtain ⟨_, _, _, hb⟩ := wellFormedBody_split body _ hwf
    rw [encodeTLVs_append, isBytes_append] at hb
    have hb2 : isBytes (r.encode ++ encodeTLVs post) := hb.2
    rw [isBytes_append] at hb2
    exact fun b hb3 => hb2.1 b (by simp [TLV.encode, hb3])
  rw [scanRecords, if_neg hlast, if_pos hr, if_neg (Nat.not_lt.mpr hn),
    copyTLV_value r.value out hbytes (Nat.le_trans hn hcap)]

/-- C1, witness: type 0x10 in the sample body of the spec, with a five-byte output. -/
theorem GetTLV_first_match_witness :
    GetTLV (some sampleBody) sampleBody.length 0x10 (some [7, 7, 7, 7, 7]) 5
      = some (((TLV.mk 0x10 [1, 2, 3, 4]).value.length : Int),
          some ((TLV.mk 0x10 [1, 2, 3, 4]).value
            ++ [7, 7, 7, 7, 7].drop (TLV.mk 0x10 [1, 2, 3, 4]).value.length)) :=
  GetTLV_first_match sampleBody [⟨0x01, [0xAA]⟩, ⟨0x02, [0, 0, 0, 0]⟩] [] ⟨0x10, [1, 2, 3, 4]⟩
    0x10 5 [7, 7, 7, 7, 7] (by decide) (by decide) rfl (by decide) (by decide) (by decide)

/-- C2, failing input: the message buffer holds 11 bytes, `messageLen` is 8 and the record
at position 4 (type 0x02) declares 4 value bytes, so that `pos + 3 + n = 11 > messageLen`.
`GetTLV` returns 4, not a negative error, and the bytes copied out are those at indices 7
to 10: the output changes with the bytes at indices 8, 9 and 10, which lie past
`messageLen`. -/
theorem GetTLV_copies_past_messageLen :
    GetTLV (some [0, 0, 0, 0, 0x02, 4, 0, 0xAA, 0x11, 0x22, 0x33]) 8 0x02 (some [0, 0, 0, 0]) 4
      = some (4, some [0xAA, 0x11, 0x22, 0x33]) ∧
    GetTLV (some [0, 0, 0, 0, 0x02, 4, 0, 0xAA, 0x44, 0x55, 0x66]) 8 0x02 (some [0, 0, 0, 0]) 4
      = some (4, some [0xAA, 0x44, 0x55, 0x66]) := by
  decide

/-- C3, failing input: in the 8-byte message `[0,0,0,0, 0x01,0xFD,0xFF, 0]` the record at
position 4 has type 0x01 and declared length 65533. Scanning for type 0x02, the `u16`
position becomes `(4 + 65533 + 3) mod 65536 = 4` again: the loop never ends, whatever the
fuel, and `GetTLV` has no result. -/
theorem GetTLV_never_ends :
    (4 + le16At [0, 0, 0, 0, 0x01, 0xFD, 0xFF, 0] 5 + 3) % 65536 = 4 ∧
    (∀ fuel, GetTLV_loop [0, 0, 0, 0, 0x01, 0xFD, 0xFF, 0] 8 0x02 [0, 0, 0, 0] 4 fuel 4 = none) ∧
    GetTLV (some [0, 0, 0, 0, 0x01, 0xFD, 0xFF, 0]) 8 0x02 (some [0, 0, 0, 0]) 4 = none := by
  have h1 : byteAt [0, 0, 0, 0, 0x01, 0xFD, 0xFF, 0] 4 = 1 := by decide
  have h2 : le16At [0, 0, 0, 0, 0x01, 0xFD, 0xFF, 0] 5 = 65533 := by decide
  have hloop : ∀ fuel,
      GetTLV_loop [0, 0, 0, 0, 0x01, 0xFD, 0xFF, 0] 8 0x02 [0, 0, 0, 0] 4 fuel 4 = none := by
    intro fuel
    induction fuel with
    | zero => rfl
    | succ f ih =>
      rw [GetTLV_loop, h1, h2]
      simpa using ih
  refine ⟨by rw [h2], hloop, ?_⟩
  simp only [GetTLV, hloop, Option.map_none']

/-- C4: on a well-formed body `GetTLV` returns `-ENOMSG` when no record has the requested
type; it returns `-ENOMEM` exactly when the first record of the requested type has a
declared length above `bufferLen`; and whenever it returns `-ENOMSG` or `-ENOMEM` the
output buffer is unchanged. -/
theorem GetTLV_errors (body : List Nat) (recs : List TLV) (t bufferLen : Nat) (out : List Nat)
    (hwf : wellFormedBody body recs) :
    ((∀ x ∈ recs, x.type ≠ t) →
      GetTLV (some body) body.length t (some out) bufferLen = some (-ENOMSG, some out)) ∧
    ((∃ p, GetTLV (some body) body.length t (some out) bufferLen = some (-ENOMEM, p)) ↔
      ∃ r, firstTLV t recs = some r ∧ bufferLen < r.value.length) ∧
    (∀ p, GetTLV (some body) body.length t (some out) bufferLen = some (-ENOMEM, p) ∨
        GetTLV (some body) body.length t (some out) bufferLen = some (-ENOMSG, p) →
      p = some out) := by
  rw [GetTLV_wellFormed body recs t bufferLen out hwf]
  have hcases : scanRecords t bufferLen out recs = (-ENOMSG, out) ∨
      ∃ r, firstTLV t recs = some r ∧
        scanRecords t bufferLen out recs
          = (if bufferLen < r.value.length then (-ENOMEM, out)
             else ((r.value.length : Int), copyTLV r.value 0 r.value.length out)) := by
    cases hf : firstTLV t recs with
    | none => exact Or.inl (scanRecords_none t bufferLen out recs ((firstTLV_eq_none t recs).mp hf))
    | some r =>
      rcases scanRecords_first t bufferLen out recs r hf with h | ⟨_, h⟩
      · exact Or.inr ⟨r, rfl, h⟩
      · exact Or.inl h
  refine ⟨?_, ?_, ?_⟩
  · intro hnone
    rw [scanRecords_none t bufferLen out recs hnone]
  · constructor
    · rintro ⟨p, hp⟩
      rcases hcases with h | ⟨r, hf, h⟩
      · rw [h] at hp
        simp [ENOMSG, ENOMEM] at hp
      · refine ⟨r, hf, ?_⟩
        by_contra hlt
        rw [h, if_neg hlt] at hp
        simp only [Option.some.injEq, Prod.mk.injEq, ENOMEM] at hp
        omega
    · rintro ⟨r, hf, hlt⟩
      rcases scanRecords_first t bufferLen out recs r hf with h | ⟨hnil, _⟩
      · rw [h, if_pos hlt]
        exact ⟨some out, rfl⟩
      · rw [hnil] at hlt
        simp at hlt
  · intro p hp
    rcases hcases with h | ⟨r, _, h⟩
    · rw [h] at hp
      rcases hp with hp | hp <;> simp only [Option.some.injEq, Prod.mk.injEq] at hp
      · exact hp.2.symm
      · exact hp.2.symm
    · by_cases hlt : bufferLen < r.value.length
      · rw [h, if_pos hlt] at hp
        rcases hp with hp | hp <;> simp only [Option.some.injEq, Prod.mk.injEq] at hp
        · exact hp.2.symm
        · exact hp.2.symm
      · rw [h, if_neg hlt] at hp
        rcases hp with hp | hp <;>
          simp only [Option.some.injEq, Prod.mk.injEq, ENOMEM, ENOMSG] at hp <;> omega

/-- C4, witness: type 0x02 in the sample body of the spec, with a three-byte output. -/
theorem GetTLV_errors_witness :
    wellFormedBody sampleBody sampleRecords ∧
    (((∀ x ∈ sampleRecords, x.type ≠ 0x02) →
      GetTLV (some sampleBody) sampleBody.length 0x02 (some [7, 7, 7]) 3
        = some (-ENOMSG, some [7, 7, 7])) ∧
    ((∃ p, GetTLV (some sampleBody) sampleBody.length 0x02 (some [7, 7, 7]) 3
        = some (-ENOMEM, p)) ↔
      ∃ r, firstTLV 0x02 sampleRecords = some r ∧ 3 < r.value.length) ∧
    (∀ p, GetTLV (some sampleBody) sampleBody.length 0x02 (some [7, 7, 7]) 3
          = some (-ENOMEM, p) ∨
        GetTLV (some sampleBody) sampleBody.length 0x02 (some [7, 7, 7]) 3
          = some (-ENOMSG, p) →
      p = some [7, 7, 7])) :=
  ⟨by decide, GetTLV_errors sampleBody sampleRecords 0x02 3 [7, 7, 7] (by decide)⟩

/-! ## ValidQMIMessage -/

theorem firstTLV_mem (t : Nat) (recs : List TLV) (r : TLV) (h : firstTLV t recs = some r) :
    r ∈ recs := by
  induction recs with
  | nil => simp [firstTLV] at h
  | cons x xs ih =>
    rw [firstTLV] at h
    by_cases hx : x.type = t
    · rw [if_pos hx] at h
      rw [Option.some.inj h]
      exact List.mem_cons_self _ _
    · rw [if_neg hx] at h
      exact List.mem_cons_of_mem _ (ih h)

theorem isBytes_value_of_mem (recs : List TLV) (r : TLV) (hb : isBytes (encodeTLVs recs))
    (hr : r ∈ recs) : isBytes r.value := by
  induction recs with
  | nil => simp at hr
  | cons x xs ih =>
    rw [encodeTLVs, isBytes_append] at hb
    rcases List.mem_cons.mp hr with h | h
    · subst h
      exact fun b hb3 => hb.1 b (by simp [TLV.encode, hb3])
    · exact ih hb.2 h

/-- On a well-formed body `ValidQMIMessage` returns what `validRecords` reads off the
records. -/
theorem ValidQMIMessage_wellFormed (bigEndian signedChar : Bool) (body : List Nat) (recs : List TLV)
    (hwf : wellFormedBody body recs) :
    ValidQMIMessage bigEndian signedChar (some body) body.length = some (validRecords bigEndian signedChar recs) := by
  obtain ⟨_, _, _, hbytes⟩ := wellFormedBody_split body recs hwf
  unfold ValidQMIMessage validRecords
  rw [GetTLV_wellFormed body recs 2 4 [0, 0, 0, 0] hwf]
  cases hf : firstTLV 2 recs with
  | none =>
    rw [scanRecords_none 2 4 [0, 0, 0, 0] recs ((firstTLV_eq_none 2 recs).mp hf)]
    simp [ENOMSG]
  | some r =>
    rcases scanRecords_first 2 4 [0, 0, 0, 0] recs r hf with h | ⟨hnil, h⟩
    · rw [h]
      by_cases hlt : 4 < r.value.length
      · have hne : r.value.length ≠ 4 := by omega
        rw [if_pos hlt]
        simp [hne, ENOMEM]
      · rw [if_neg hlt]
        by_cases h4 : r.value.length = 4
        · have hv : isBytes r.value :=
            isBytes_value_of_mem recs r hbytes (firstTLV_mem 2 recs r hf)
          have hcopy := copyTLV_value r.value [0, 0, 0, 0] hv (by simp [h4])
          rw [h4] at hcopy
          simp only [List.drop_succ_cons, List.drop_nil, List.append_nil] at hcopy
          by_cases hz : le16At r.value 0 = 0 <;>
            simp [h4, hcopy, hz, loadHost_two_eq_zero_iff]
        · have hne : ¬ ((r.value.length : Int) = 4) := by omega
          simp [h4, hne]
    · rw [h]
      simp [hnil, ENOMSG]

/-- C5, counterexample: the body is well formed, its first TLV of type 0x02 has the
four-byte value `[1, 0, 0, 0]`, whose `qmi_result` is 1 and not 0, and `ValidQMIMessage`
returns 0 all the same: it returns the error field, which is 0 here. -/
theorem ValidQMIMessage_zero_counterexample :
    wellFormedBody [0x22, 0, 7, 0, 0x02, 4, 0, 1, 0, 0, 0] [⟨0x02, [1, 0, 0, 0]⟩] ∧
    firstTLV 2 [⟨0x02, [1, 0, 0, 0]⟩] = some ⟨0x02, [1, 0, 0, 0]⟩ ∧
    le16At [1, 0, 0, 0] 0 = 1 ∧
    ValidQMIMessage false true (some [0x22, 0, 7, 0, 0x02, 4, 0, 1, 0, 0, 0]) 11 = some 0 ∧
    ValidQMIMessage false false (some [0x22, 0, 7, 0, 0x02, 4, 0, 1, 0, 0, 0]) 11 = some 0 := by
  decide

/-- C5, amended: on a well-formed body in which a failing four-byte result TLV carries a
`qmi_error` of at most 255 (value byte 3 is 0), `ValidQMIMessage` returns 0 if and only if
the first TLV of type 0x02 has a four-byte value whose `qmi_result` is 0 or whose
`qmi_error` is 0. -/
theorem ValidQMIMessage_zero_iff (bigEndian signedChar : Bool) (body : List Nat) (recs : List TLV)
    (hwf : wellFormedBody body recs)
    (herr : ∀ r, firstTLV 2 recs = some r → r.value.length = 4 → le16At r.value 0 ≠ 0 →
      byteAt r.value 3 = 0) :
    ValidQMIMessage bigEndian signedChar (some body) body.length = some 0 ↔
      ∃ r, firstTLV 2 recs = some r ∧ r.value.length = 4 ∧
        (le16At r.value 0 = 0 ∨ le16At r.value 2 = 0) := by
  rw [ValidQMIMessage_wellFormed bigEndian signedChar body recs hwf]
  unfold validRecords
  cases hf : firstTLV 2 recs with
  | none => simp [ENOMSG]
  | some r =>
    by_cases h4 : r.value.length = 4
    · by_cases hres : le16At r.value 0 = 0
      · simp [h4, hres]
      · have h3 := herr r hf h4 hres
        have hb2 : byteAt r.value 2 < 256 := Nat.mod_lt _ (by decide)
        have hchar : le16_to_cpu bigEndian (charToU16 signedChar (byteAt r.value 2)) = 0 ↔
            byteAt r.value 2 = 0 := by
          rw [le16_to_cpu_eq_zero_iff bigEndian _ (charToU16_lt signedChar _ hb2)]
          unfold charToU16
          by_cases hb : 128 ≤ byteAt r.value 2 <;> cases signedChar <;> simp [hb]
          all_goals omega
        have hle : le16At r.value 2 = 0 ↔ byteAt r.value 2 = 0 := by
          unfold le16At
          rw [h3]
          omega
        simp only [Option.some.injEq, exists_eq_left', h4, hres, if_true, ne_eq,
          not_false_eq_true, true_and, false_or, hle, ← hchar]
        exact_mod_cast Iff.rfl
    · simp [h4, ENOMSG]

/-- C5, witness: the success example of the spec, TLV 0x02 = `[0, 0, 0, 0]`. -/
theorem ValidQMIMessage_zero_iff_witness :
    wellFormedBody sampleBody sampleRecords ∧
    (∀ r, firstTLV 2 sampleRecords = some r → r.value.length = 4 → le16At r.value 0 ≠ 0 →
      byteAt r.value 3 = 0) ∧
    (ValidQMIMessage false true (some sampleBody) sampleBody.length = some 0 ↔
      ∃ r, firstTLV 2 sampleRecords = some r ∧ r.value.length = 4 ∧
        (le16At r.value 0 = 0 ∨ le16At r.value 2 = 0)) :=
  ⟨by decide, by simp [firstTLV, sampleRecords, le16At, byteAt],
    ValidQMIMessage_zero_iff false true sampleBody sampleRecords (by decide)
      (by simp [firstTLV, sampleRecords, le16At, byteAt])⟩

/-- C6, failing input: the first TLV of type 0x02 has the value `[0x01, 0x00, 0x05, 0x01]`,
so `qmi_result` is 1 and `qmi_error`, the little-endian value of bytes 2-3, is
`0x0105 = 261`. `ValidQMIMessage` returns 5: `&mandTLV[2]` is a `char *`, so
`get_unaligned` loads value byte 2 alone and value byte 3 is never read. That is the result
on a little-endian host (the first argument is `false`); on a big-endian host `le16_to_cpu`
swaps the two bytes of the 16-bit value 5 and the result is 1280, not 261 either. -/
theorem ValidQMIMessage_error_low_byte :
    wellFormedBody [0x22, 0, 7, 0, 0x02, 4, 0, 1, 0, 5, 1] [⟨0x02, [1, 0, 5, 1]⟩] ∧
    le16At [1, 0, 5, 1] 0 = 1 ∧
    le16At [1, 0, 5, 1] 2 = 261 ∧
    ValidQMIMessage false true (some [0x22, 0, 7, 0, 0x02, 4, 0, 1, 0, 5, 1]) 11 = some 5 ∧
    ValidQMIMessage false false (some [0x22, 0, 7, 0, 0x02, 4, 0, 1, 0, 5, 1]) 11 = some 5 ∧
    ValidQMIMessage true true (some [0x22, 0, 7, 0, 0x02, 4, 0, 1, 0, 5, 1]) 11 = some 1280 ∧
    ValidQMIMessage true false (some [0x22, 0, 7, 0, 0x02, 4, 0, 1, 0, 5, 1]) 11
      = some 1280 := by
  decide

/-- C7: on a well-formed body that has no TLV of type 0x02, or whose first TLV of type
0x02 has a declared length other than 4, `ValidQMIMessage` returns `-ENOMSG`, a negative
value. -/
theorem ValidQMIMessage_absent (bigEndian signedChar : Bool) (body : List Nat) (recs : List TLV)
    (hwf : wellFormedBody body recs)
    (h : (∀ x ∈ recs, x.type ≠ 2) ∨ ∃ r, firstTLV 2 recs = some r ∧ r.value.length ≠ 4) :
    ValidQMIMessage bigEndian signedChar (some body) body.length = some (-ENOMSG) ∧ -ENOMSG < 0 := by
  refine ⟨?_, by decide⟩
  rw [ValidQMIMessage_wellFormed bigEndian signedChar body recs hwf]
  unfold validRecords
  rcases h with h | ⟨r, hf, h4⟩
  · rw [(firstTLV_eq_none 2 recs).mpr h]
  · rw [hf]
    simp [h4]

/-- C7, witness: a body whose only record has type 0x01. -/
theorem ValidQMIMessage_absent_witness :
    wellFormedBody [0x22, 0, 4, 0, 0x01, 1, 0, 0xAA] [⟨0x01, [0xAA]⟩] ∧
    (ValidQMIMessage false false (some [0x22, 0, 4, 0, 0x01, 1, 0, 0xAA])
        [0x22, 0, 4, 0, 0x01, 1, 0, 0xAA].length = some (-ENOMSG) ∧ -ENOMSG < 0) :=
  ⟨by decide, ValidQMIMessage_absent false false [0x22, 0, 4, 0, 0x01, 1, 0, 0xAA] [⟨0x01, [0xAA]⟩]
    (by decide) (Or.inl (by decide))⟩

/-! ## ParseQMUX and FillQMUX -/

theorem exists_six_cells (l : List Nat) (h : 6 ≤ l.length) :
    ∃ a0 a1 a2 a3 a4 a5 rest, l = a0 :: a1 :: a2 :: a3 :: a4 :: a5 :: rest := by
  rcases l with _ | ⟨a0, l⟩
  · simp at h
  rcases l with _ | ⟨a1, l⟩
  · simp at h
  rcases l with _ | ⟨a2, l⟩
  · simp at h
  rcases l with _ | ⟨a3, l⟩
  · simp at h
  rcases l with _ | ⟨a4, l⟩
  · simp at h
  rcases l with _ | ⟨a5, l⟩
  · simp at h
  exact ⟨a0, a1, a2, a3, a4, a5, l, rfl⟩

/-- The buffer written by `FillQMUX` when the size check passes. -/
theorem FillQMUX_cells (h n a0 a1 a2 a3 a4 a5 : Nat) (rest : List Nat) (hn : 6 ≤ n) :
    FillQMUX h (some (a0 :: a1 :: a2 :: a3 :: a4 :: a5 :: rest)) n
      = (0, some (1 :: ((n - 1) % 256) :: ((n - 1) / 256 % 256) :: 0 :: (h % 256 % 256)
          :: (h / 256 % 256) :: rest)) := by
  have hlt : ¬ n < 6 := Nat.not_lt.mpr hn
  simp [FillQMUX, putByte, putLe16, sizeof_sQMUX, hlt]

/-- C8: for a buffer `b` of size `n`, `ParseQMUX` returns `-ENOMEM` if and only if
`n < 12`; for `n ≥ 12` it returns 6 with client handle `b[5] * 256 + b[4]` if and only if
`b[0] = 1`, `b[1] + 256 * b[2] = n - 1` and `b[3] = 0x80`, and otherwise it returns
`-EINVAL` and the client handle keeps the value it had. -/
theorem ParseQMUX_characterisation (pClientID : Nat) (b : List Nat) (n : Nat)
    (_hlen : b.length = n) (_hn : n < 65536) :
    ((ParseQMUX pClientID (some b) n).1 = -ENOMEM ↔ n < 12) ∧
    (12 ≤ n →
      (ParseQMUX pClientID (some b) n = (6, byteAt b 5 * 256 + byteAt b 4) ↔
        byteAt b 0 = 1 ∧ byteAt b 1 + 256 * byteAt b 2 = n - 1 ∧ byteAt b 3 = 0x80) ∧
      (¬ (byteAt b 0 = 1 ∧ byteAt b 1 + 256 * byteAt b 2 = n - 1 ∧ byteAt b 3 = 0x80) →
        ParseQMUX pClientID (some b) n = (-EINVAL, pClientID))) := by
  have hb4 : byteAt b 4 < 256 := Nat.mod_lt _ (by decide)
  have hb5 : byteAt b 5 < 256 := Nat.mod_lt _ (by decide)
  have hmod : (byteAt b 5 * 256 + byteAt b 4) % 65536 = byteAt b 5 * 256 + byteAt b 4 := by
    omega
  by_cases h12 : n < 12
  · simp [ParseQMUX, h12]
  · by_cases hok : byteAt b 0 = 1 ∧ byteAt b 1 + 256 * byteAt b 2 = n - 1 ∧ byteAt b 3 = 0x80
    · obtain ⟨h0, h1, h3⟩ := hok
      have h1' : le16At b 1 = n - 1 := h1
      simp [ParseQMUX, h12, h0, h1, h1', h3, hmod, sizeof_sQMUX, ENOMEM]
    · have hcond : byteAt b 0 ≠ 1 ∨ le16At b 1 ≠ n - 1 ∨ byteAt b 3 ≠ 0x80 := by
        unfold le16At
        by_contra hc
        simp only [not_or, not_not] at hc
        exact hok hc
      simp only [ParseQMUX, if_neg h12, if_pos hcond]
      refine ⟨?_, fun _ => ⟨?_, fun _ => trivial⟩⟩
      · simp [h12, EINVAL, ENOMEM]
      · simp [hok, EINVAL]

/-- C8, witness: an accepted 12-byte frame with service 4 and client 3. -/
theorem ParseQMUX_characterisation_witness :
    ([1, 11, 0, 0x80, 4, 3, 0, 0, 0, 0, 0, 0] : List Nat).length = 12 ∧ 12 < 65536 ∧
    (((ParseQMUX 0 (some [1, 11, 0, 0x80, 4, 3, 0, 0, 0, 0, 0, 0]) 12).1 = -ENOMEM ↔ 12 < 12) ∧
    (12 ≤ 12 →
      (ParseQMUX 0 (some [1, 11, 0, 0x80, 4, 3, 0, 0, 0, 0, 0, 0]) 12
          = (6, byteAt [1, 11, 0, 0x80, 4, 3, 0, 0, 0, 0, 0, 0] 5 * 256
              + byteAt [1, 11, 0, 0x80, 4, 3, 0, 0, 0, 0, 0, 0] 4) ↔
        byteAt [1, 11, 0, 0x80, 4, 3, 0, 0, 0, 0, 0, 0] 0 = 1 ∧
        byteAt [1, 11, 0, 0x80, 4, 3, 0, 0, 0, 0, 0, 0] 1
          + 256 * byteAt [1, 11, 0, 0x80, 4, 3, 0, 0, 0, 0, 0, 0] 2 = 12 - 1 ∧
        byteAt [1, 11, 0, 0x80, 4, 3, 0, 0, 0, 0, 0, 0] 3 = 0x80) ∧
      (¬ (byteAt [1, 11, 0, 0x80, 4, 3, 0, 0, 0, 0, 0, 0] 0 = 1 ∧
          byteAt [1, 11, 0, 0x80, 4, 3, 0, 0, 0, 0, 0, 0] 1
            + 256 * byteAt [1, 11, 0, 0x80, 4, 3, 0, 0, 0, 0, 0, 0] 2 = 12 - 1 ∧
          byteAt [1, 11, 0, 0x80, 4, 3, 0, 0, 0, 0, 0, 0] 3 = 0x80) →
        ParseQMUX 0 (some [1, 11, 0, 0x80, 4, 3, 0, 0, 0, 0, 0, 0]) 12 = (-EINVAL, 0)))) :=
  ⟨rfl, by decide,
    ParseQMUX_characterisation 0 [1, 11, 0, 0x80, 4, 3, 0, 0, 0, 0, 0, 0] 12 rfl (by decide)⟩

/-- C9, counterexample: `FillQMUX` for client handle 0x0304 on a 12-byte buffer succeeds and
writes control flag 0; `ParseQMUX` on that very buffer returns `-EINVAL`, not 6, and does
not write the client handle. -/
theorem QMUX_round_trip_counterexample :
    FillQMUX 0x0304 (some [0, 0, 0, 0, 0, 0, 0, 0, 0, 0, 0, 0]) 12
      = (0, some [1, 11, 0, 0, 4, 3, 0, 0, 0, 0, 0, 0]) ∧
    ParseQMUX 0 (FillQMUX 0x0304 (some [0, 0, 0, 0, 0, 0, 0, 0, 0, 0, 0, 0]) 12).2 12
      = (-EINVAL, 0) ∧
    ParseQMUX 0 (FillQMUX 0x0304 (some [0, 0, 0, 0, 0, 0, 0, 0, 0, 0, 0, 0]) 12).2 12
      ≠ (6, 0x0304) := by
  decide

/-- C9, amended: for every client handle `h` and buffer of size `n ≥ 12`, `ParseQMUX` on
the buffer left by `FillQMUX` returns `-EINVAL` and writes no client handle, because the
control flag written is 0; once byte 3 of that buffer is set to 0x80, `ParseQMUX` returns
6 and recovers `h`. -/
theorem QMUX_round_trip (h pClientID n : Nat) (buf : List Nat) (hh : h < 65536)
    (hlen : buf.length = n) (h12 : 12 ≤ n) (hn : n < 65536) :
    ParseQMUX pClientID (FillQMUX h (some buf) n).2 n = (-EINVAL, pClientID) ∧
    ParseQMUX pClientID ((FillQMUX h (some buf) n).2.map (fun m => putByte m 3 0x80)) n
      = (6, h) := by
  obtain ⟨a0, a1, a2, a3, a4, a5, rest, rfl⟩ := exists_six_cells buf (by omega)
  rw [FillQMUX_cells h n a0 a1 a2 a3 a4 a5 rest (by omega)]
  have hnot : ¬ n < 12 := Nat.not_lt.mpr h12
  have hlenfield : (n - 1) % 256 + 256 * ((n - 1) / 256 % 256) = n - 1 := by omega
  have hhandle : (h / 256 % 256 * 256 + h % 256) % 65536 = h := by omega
  constructor
  · simp [ParseQMUX, hnot, byteAt]
  · simp [ParseQMUX, hnot, byteAt, le16At, putByte, hlenfield, hhandle, sizeof_sQMUX]

/-- C9, witness: client handle 0x0304 and a 12-byte buffer. -/
theorem QMUX_round_trip_witness :
    0x0304 < 65536 ∧ ([0, 0, 0, 0, 0, 0, 0, 0, 0, 0, 0, 0] : List Nat).length = 12 ∧
    12 ≤ 12 ∧ 12 < 65536 ∧
    (ParseQMUX 0 (FillQMUX 0x0304 (some [0, 0, 0, 0, 0, 0, 0, 0, 0, 0, 0, 0]) 12).2 12
        = (-EINVAL, 0) ∧
      ParseQMUX 0 ((FillQMUX 0x0304 (some [0, 0, 0, 0, 0, 0, 0, 0, 0, 0, 0, 0]) 12).2.map
        (fun m => putByte m 3 0x80)) 12 = (6, 0x0304)) :=
  ⟨by decide, rfl, by decide, by decide,
    QMUX_round_trip 0x0304 0 12 [0, 0, 0, 0, 0, 0, 0, 0, 0, 0, 0, 0] (by decide) rfl
      (by decide) (by decide)⟩

/-- C10: for every client handle `h` and buffer of size `n`, if `n ≥ 6` then `FillQMUX`
returns 0, bytes 0 to 5 of the buffer become
`[1, (n-1) mod 256, (n-1) div 256, 0, h mod 256, h div 256]` and every byte from index 6
on is unchanged; if `n < 6` it returns `-ENOMEM` and the buffer is unchanged. -/
theorem FillQMUX_post (h n : Nat) (buf : List Nat) (hh : h < 65536) (hlen : buf.length = n)
    (hn : n < 65536) :
    (6 ≤ n → ∃ b, FillQMUX h (some buf) n = (0, some b) ∧
      b.take 6 = [1, (n - 1) % 256, (n - 1) / 256, 0, h % 256, h / 256] ∧
      b.drop 6 = buf.drop 6 ∧ b.length = buf.length) ∧
    (n < 6 → FillQMUX h (some buf) n = (-ENOMEM, some buf)) := by
  constructor
  · intro h6
    obtain ⟨a0, a1, a2, a3, a4, a5, rest, rfl⟩ := exists_six_cells buf (by omega)
    rw [FillQMUX_cells h n a0 a1 a2 a3 a4 a5 rest h6]
    refine ⟨_, rfl, ?_, ?_, ?_⟩
    · have e1 : (n - 1) / 256 % 256 = (n - 1) / 256 := by omega
      have e2 : h % 256 % 256 = h % 256 := by omega
      have e3 : h / 256 % 256 = h / 256 := by omega
      simp [e1, e2, e3]
    · simp
    · simp
  · intro h6
    simp [FillQMUX, sizeof_sQMUX, h6]

/-- C10, witness: client handle 0x0304 and an 8-byte buffer. -/
theorem FillQMUX_post_witness :
    0x0304 < 65536 ∧ ([9, 9, 9, 9, 9, 9, 9, 9] : List Nat).length = 8 ∧ 8 < 65536 ∧
    ((6 ≤ 8 → ∃ b, FillQMUX 0x0304 (some [9, 9, 9, 9, 9, 9, 9, 9]) 8 = (0, some b) ∧
      b.take 6 = [1, (8 - 1) % 256, (8 - 1) / 256, 0, 0x0304 % 256, 0x0304 / 256] ∧
      b.drop 6 = [9, 9, 9, 9, 9, 9, 9, 9].drop 6 ∧
      b.length = [9, 9, 9, 9, 9, 9, 9, 9].length) ∧
    (8 < 6 → FillQMUX 0x0304 (some [9, 9, 9, 9, 9, 9, 9, 9]) 8
      = (-ENOMEM, some [9, 9, 9, 9, 9, 9, 9, 9]))) :=
  ⟨by decide, rfl, by decide,
    FillQMUX_post 0x0304 8 [9, 9, 9, 9, 9, 9, 9, 9] (by decide) rfl (by decide)⟩

/-! ## Layout of the requests -/

/-- With room for `QMICTLGetClientIDReqSize` bytes, `QMICTLGetClientIDReq` returns that size and stores its bytes at
offsets 6 to 15; the other bytes of the buffer are kept. -/
theorem QMICTLGetClientIDReq_layout (transactionID serviceType : Nat) (buf : List Nat)
    (buffSize : Nat) (hn : QMICTLGetClientIDReqSize ≤ buffSize) (hbuf : QMICTLGetClientIDReqSize ≤ buf.length) :
    QMICTLGetClientIDReq (some buf) buffSize transactionID serviceType
      = ((QMICTLGetClientIDReqSize : Int),
          some (buf.take 6 ++ QMICTLGetClientIDReq_body transactionID serviceType ++ buf.drop QMICTLGetClientIDReqSize)) := by
  have hlt : ¬ buffSize < 16 := Nat.not_lt.mpr hn
  have hlen : 16 ≤ buf.length := hbuf
  iterate 16 (rcases buf with _ | ⟨_, buf⟩; simp at hlen)
  simp [QMICTLGetClientIDReq, QMICTLGetClientIDReq_body, QMICTLGetClientIDReqSize, sizeof_sQMUX, putByte, putLe16,
    putLe32, hlt]

/-- With room for `QMICTLReleaseClientIDReqSize` bytes, `QMICTLReleaseClientIDReq` returns that size and stores its bytes at
offsets 6 to 16; the other bytes of the buffer are kept. -/
theorem QMICTLReleaseClientIDReq_layout (transactionID clientID : Nat) (buf : List Nat)
    (buffSize : Nat) (hn : QMICTLReleaseClientIDReqSize ≤ buffSize) (hbuf : QMICTLReleaseClientIDReqSize ≤ buf.length) :
    QMICTLReleaseClientIDReq (some buf) buffSize transactionID clientID
      = ((QMICTLReleaseClientIDReqSize : Int),
          some (buf.take 6 ++ QMICTLReleaseClientIDReq_body transactionID clientID ++ buf.drop QMICTLReleaseClientIDReqSize)) := by
  have hlt : ¬ buffSize < 17 := Nat.not_lt.mpr hn
  have hlen : 17 ≤ buf.length := hbuf
  iterate 17 (rcases buf with _ | ⟨_, buf⟩; simp at hlen)
  simp [QMICTLReleaseClientIDReq, QMICTLReleaseClientIDReq_body, QMICTLReleaseClientIDReqSize, sizeof_sQMUX, putByte, putLe16,
    putLe32, hlt]

/-- With room for `QMICTLReadyReqSize` bytes, `QMICTLReadyReq` returns that size and stores its bytes at
offsets 6 to 11; the other bytes of the buffer are kept. -/
theorem QMICTLReadyReq_layout (transactionID : Nat) (buf : List Nat)
    (buffSize : Nat) (hn : QMICTLReadyReqSize ≤ buffSize) (hbuf : QMICTLReadyReqSize ≤ buf.length) :
    QMICTLReadyReq (some buf) buffSize transactionID
      = ((QMICTLReadyReqSize : Int),
          some (buf.take 6 ++ QMICTLReadyReq_body transactionID ++ buf.drop QMICTLReadyReqSize)) := by
  have hlt : ¬ buffSize < 12 := Nat.not_lt.mpr hn
  have hlen : 12 ≤ buf.length := hbuf
  iterate 12 (rcases buf with _ | ⟨_, buf⟩; simp at hlen)
  simp [QMICTLReadyReq, QMICTLReadyReq_body, QMICTLReadyReqSize, sizeof_sQMUX, putByte, putLe16,
    putLe32, hlt]

/-- With room for `QMIWDSSetEventReportReqSize` bytes, `QMIWDSSetEventReportReq` returns that size and stores its bytes at
offsets 6 to 20; the other bytes of the buffer are kept. -/
theorem QMIWDSSetEventReportReq_layout (transactionID : Nat) (buf : List Nat)
    (buffSize : Nat) (hn : QMIWDSSetEventReportReqSize ≤ buffSize) (hbuf : QMIWDSSetEventReportReqSize ≤ buf.length) :
    QMIWDSSetEventReportReq (some buf) buffSize transactionID
      = ((QMIWDSSetEventReportReqSize : Int),
          some (buf.take 6 ++ QMIWDSSetEventReportReq_body transactionID ++ buf.drop QMIWDSSetEventReportReqSize)) := by
  have hlt : ¬ buffSize < 21 := Nat.not_lt.mpr hn
  have hlen : 21 ≤ buf.length := hbuf
  iterate 21 (rcases buf with _ | ⟨_, buf⟩; simp at hlen)
  simp [QMIWDSSetEventReportReq, QMIWDSSetEventReportReq_body, QMIWDSSetEventReportReqSize, sizeof_sQMUX, putByte, putLe16,
    putLe32, hlt]

/-- With room for `QMIWDSGetPKGSRVCStatusReqSize` bytes, `QMIWDSGetPKGSRVCStatusReq` returns that size and stores its bytes at
offsets 6 to 12; the other bytes of the buffer are kept. -/
theorem QMIWDSGetPKGSRVCStatusReq_layout (transactionID : Nat) (buf : List Nat)
    (buffSize : Nat) (hn : QMIWDSGetPKGSRVCStatusReqSize ≤ buffSize) (hbuf : QMIWDSGetPKGSRVCStatusReqSize ≤ buf.length) :
    QMIWDSGetPKGSRVCStatusReq (some buf) buffSize transactionID
      = ((QMIWDSGetPKGSRVCStatusReqSize : Int),
          some (buf.take 6 ++ QMIWDSGetPKGSRVCStatusReq_body transactionID ++ buf.drop QMIWDSGetPKGSRVCStatusReqSize)) := by
  have hlt : ¬ buffSize < 13 := Nat.not_lt.mpr hn
  have hlen : 13 ≤ buf.length := hbuf
  iterate 13 (rcases buf with _ | ⟨_, buf⟩; simp at hlen)
  simp [QMIWDSGetPKGSRVCStatusReq, QMIWDSGetPKGSRVCStatusReq_body, QMIWDSGetPKGSRVCStatusReqSize, sizeof_sQMUX, putByte, putLe16,
    putLe32, hlt]

/-- With room for `QMIDMSGetMEIDReqSize` bytes, `QMIDMSGetMEIDReq` returns that size and stores its bytes at
offsets 6 to 12; the other bytes of the buffer are kept. -/
theorem QMIDMSGetMEIDReq_layout (transactionID : Nat) (buf : List Nat)
    (buffSize : Nat) (hn : QMIDMSGetMEIDReqSize ≤ buffSize) (hbuf : QMIDMSGetMEIDReqSize ≤ buf.length) :
    QMIDMSGetMEIDReq (some buf) buffSize transactionID
      = ((QMIDMSGetMEIDReqSize : Int),
          some (buf.take 6 ++ QMIDMSGetMEIDReq_body transactionID ++ buf.drop QMIDMSGetMEIDReqSize)) := by
  have hlt : ¬ buffSize < 13 := Nat.not_lt.mpr hn
  have hlen : 13 ≤ buf.length := hbuf
  iterate 13 (rcases buf with _ | ⟨_, buf⟩; simp at hlen)
  simp [QMIDMSGetMEIDReq, QMIDMSGetMEIDReq_body, QMIDMSGetMEIDReqSize, sizeof_sQMUX, putByte, putLe16,
    putLe32, hlt]

/-- With room for `QMIWDASetDataFormatReqSize` bytes, `QMIWDASetDataFormatReq` returns that size and stores its bytes at
offsets 6 to 30; the other bytes of the buffer are kept. -/
theorem QMIWDASetDataFormatReq_layout (qosMode dataModeRP : Bool) (transactionID : Nat) (buf : List Nat)
    (buffSize : Nat) (hn : QMIWDASetDataFormatReqSize ≤ buffSize) (hbuf : QMIWDASetDataFormatReqSize ≤ buf.length) :
    QMIWDASetDataFormatReq qosMode dataModeRP (some buf) buffSize transactionID
      = ((QMIWDASetDataFormatReqSize : Int),
          some (buf.take 6 ++ QMIWDASetDataFormatReq_body qosMode dataModeRP transactionID ++ buf.drop QMIWDASetDataFormatReqSize)) := by
  have hlt : ¬ buffSize < 31 := Nat.not_lt.mpr hn
  have hlen : 31 ≤ buf.length := hbuf
  iterate 31 (rcases buf with _ | ⟨_, buf⟩; simp at hlen)
  cases qosMode <;> cases dataModeRP <;> simp [QMIWDASetDataFormatReq, QMIWDASetDataFormatReq_body, QMIWDASetDataFormatReqSize, sizeof_sQMUX, putByte, putLe16,
    putLe32, hlt]

/-- With room for `QMICTLSetDataFormatReqSize` bytes, `QMICTLSetDataFormatReq` returns that size and stores its bytes at
offsets 6 to 20; the other bytes of the buffer are kept. -/
theorem QMICTLSetDataFormatReq_layout (qosMode dataModeRP : Bool) (TLV_TYPE_LINK_PROTO : Nat) (transactionID : Nat) (buf : List Nat)
    (buffSize : Nat) (hn : QMICTLSetDataFormatReqSize ≤ buffSize) (hbuf : QMICTLSetDataFormatReqSize ≤ buf.length) :
    QMICTLSetDataFormatReq qosMode dataModeRP TLV_TYPE_LINK_PROTO (some buf) buffSize transactionID
      = ((QMICTLSetDataFormatReqSize : Int),
          some (buf.take 6 ++ QMICTLSetDataFormatReq_body qosMode dataModeRP TLV_TYPE_LINK_PROTO transactionID ++ buf.drop QMICTLSetDataFormatReqSize)) := by
  have hlt : ¬ buffSize < 21 := Nat.not_lt.mpr hn
  have hlen : 21 ≤ buf.length := hbuf
  iterate 21 (rcases buf with _ | ⟨_, buf⟩; simp at hlen)
  cases qosMode <;> cases dataModeRP <;> simp [QMICTLSetDataFormatReq, QMICTLSetDataFormatReq_body, QMICTLSetDataFormatReqSize, sizeof_sQMUX, putByte, putLe16,
    putLe32, hlt]

/-- With room for `QMIWDSBindMuxDataPortReqSize` bytes, `QMIWDSBindMuxDataPortReq` returns that size and stores its bytes at
offsets 6 to 34; the other bytes of the buffer are kept. -/
theorem QMIWDSBindMuxDataPortReq_layout (transactionID : Nat) (buf : List Nat)
    (buffSize : Nat) (hn : QMIWDSBindMuxDataPortReqSize ≤ buffSize) (hbuf : QMIWDSBindMuxDataPortReqSize ≤ buf.length) :
    QMIWDSBindMuxDataPortReq (some buf) buffSize transactionID
      = ((QMIWDSBindMuxDataPortReqSize : Int),
          some (buf.take 6 ++ QMIWDSBindMuxDataPortReq_body transactionID ++ buf.drop QMIWDSBindMuxDataPortReqSize)) := by
  have hlt : ¬ buffSize < 35 := Nat.not_lt.mpr hn
  have hlen : 35 ≤ buf.length := hbuf
  iterate 35 (rcases buf with _ | ⟨_, buf⟩; simp at hlen)
  simp [QMIWDSBindMuxDataPortReq, QMIWDSBindMuxDataPortReq_body, QMIWDSBindMuxDataPortReqSize, sizeof_sQMUX, putByte, putLe16,
    putLe32, hlt]

/-- With room for `QMIWDSBindMuxDataPortPreReqSize` bytes, `QMIWDSBindMuxDataPortPreReq` returns that size and stores its bytes at
offsets 6 to 27; the other bytes of the buffer are kept. -/
theorem QMIWDSBindMuxDataPortPreReq_layout (transactionID index : Nat) (buf : List Nat)
    (buffSize : Nat) (hn : QMIWDSBindMuxDataPortPreReqSize ≤ buffSize) (hbuf : QMIWDSBindMuxDataPortPreReqSize ≤ buf.length) :
    QMIWDSBindMuxDataPortPreReq (some buf) buffSize transactionID index
      = ((QMIWDSBindMuxDataPortPreReqSize : Int),
          some (buf.take 6 ++ QMIWDSBindMuxDataPortPreReq_body transactionID index ++ buf.drop QMIWDSBindMuxDataPortPreReqSize)) := by
  have hlt : ¬ buffSize < 28 := Nat.not_lt.mpr hn
  have hlen : 28 ≤ buf.length := hbuf
  iterate 28 (rcases buf with _ | ⟨_, buf⟩; simp at hlen)
  simp [QMIWDSBindMuxDataPortPreReq, QMIWDSBindMuxDataPortPreReq_body, QMIWDSBindMuxDataPortPreReqSize, sizeof_sQMUX, putByte, putLe16,
    putLe32, hlt]

/-- With room for `QMICTLSyncReqSize` bytes, `QMICTLSyncReq` returns that size and stores its bytes at
offsets 6 to 11; the other bytes of the buffer are kept. -/
theorem QMICTLSyncReq_layout (transactionID : Nat) (buf : List Nat)
    (buffSize : Nat) (hn : QMICTLSyncReqSize ≤ buffSize) (hbuf : QMICTLSyncReqSize ≤ buf.length) :
    QMICTLSyncReq (some buf) buffSize transactionID
      = ((QMICTLSyncReqSize : Int),
          some (buf.take 6 ++ QMICTLSyncReq_body transactionID ++ buf.drop QMICTLSyncReqSize)) := by
  have hlt : ¬ buffSize < 12 := Nat.not_lt.mpr hn
  have hlen : 12 ≤ buf.length := hbuf
  iterate 12 (rcases buf with _ | ⟨_, buf⟩; simp at hlen)
  simp [QMICTLSyncReq, QMICTLSyncReq_body, QMICTLSyncReqSize, sizeof_sQMUX, putByte, putLe16,
    putLe32, hlt]

/-! ## The encoders -/

/-- C12: for each of the eleven encoders and all parameter values, when the buffer has
`buffSize` bytes and `buffSize` is at least the paired size, the encoder returns the paired
size and the buffer afterwards is its first six bytes, then the bytes of the request,
then its bytes from the paired size on: the bytes written are those at offsets 6 to the
paired size minus 1. -/
theorem encoders_size_contract (qosMode dataModeRP : Bool)
    (TLV_TYPE_LINK_PROTO transactionID serviceType clientID index buffSize : Nat)
    (buf : List Nat)
    (hlen : buf.length = buffSize) :
    (QMICTLGetClientIDReqSize ≤ buffSize →
      QMICTLGetClientIDReq (some buf) buffSize transactionID serviceType
        = ((QMICTLGetClientIDReqSize : Int),
            some (buf.take 6 ++ QMICTLGetClientIDReq_body transactionID serviceType ++ buf.drop QMICTLGetClientIDReqSize)) ∧
      6 + (QMICTLGetClientIDReq_body transactionID serviceType).length = QMICTLGetClientIDReqSize) ∧
    (QMICTLReleaseClientIDReqSize ≤ buffSize →
      QMICTLReleaseClientIDReq (some buf) buffSize transactionID clientID
        = ((QMICTLReleaseClientIDReqSize : Int),
            some (buf.take 6 ++ QMICTLReleaseClientIDReq_body transactionID clientID ++ buf.drop QMICTLReleaseClientIDReqSize)) ∧
      6 + (QMICTLReleaseClientIDReq_body transactionID clientID).length = QMICTLReleaseClientIDReqSize) ∧
    (QMICTLReadyReqSize ≤ buffSize →
      QMICTLReadyReq (some buf) buffSize transactionID
        = ((QMICTLReadyReqSize : Int),
            some (buf.take 6 ++ QMICTLReadyReq_body transactionID ++ buf.drop QMICTLReadyReqSize)) ∧
      6 + (QMICTLReadyReq_body transactionID).length = QMICTLReadyReqSize) ∧
    (QMIWDSSetEventReportReqSize ≤ buffSize →
      QMIWDSSetEventReportReq (some buf) buffSize transactionID
        = ((QMIWDSSetEventReportReqSize : Int),
            some (buf.take 6 ++ QMIWDSSetEventReportReq_body transactionID ++ buf.drop QMIWDSSetEventReportReqSize)) ∧
      6 + (QMIWDSSetEventReportReq_body transactionID).length = QMIWDSSetEventReportReqSize) ∧
    (QMIWDSGetPKGSRVCStatusReqSize ≤ buffSize →
      QMIWDSGetPKGSRVCStatusReq (some buf) buffSize transactionID
        = ((QMIWDSGetPKGSRVCStatusReqSize : Int),
            some (buf.take 6 ++ QMIWDSGetPKGSRVCStatusReq_body transactionID ++ buf.drop QMIWDSGetPKGSRVCStatusReqSize)) ∧
      6 + (QMIWDSGetPKGSRVCStatusReq_body transactionID).length = QMIWDSGetPKGSRVCStatusReqSize) ∧
    (QMIDMSGetMEIDReqSize ≤ buffSize →
      QMIDMSGetMEIDReq (some buf) buffSize transactionID
        = ((QMIDMSGetMEIDReqSize : Int),
            some (buf.take 6 ++ QMIDMSGetMEIDReq_body transactionID ++ buf.drop QMIDMSGetMEIDReqSize)) ∧
      6 + (QMIDMSGetMEIDReq_body transactionID).length = QMIDMSGetMEIDReqSize) ∧
    (QMIWDASetDataFormatReqSize ≤ buffSize →
      QMIWDASetDataFormatReq qosMode dataModeRP (some buf) buffSize transactionID
        = ((QMIWDASetDataFormatReqSize : Int),
            some (buf.take 6 ++ QMIWDASetDataFormatReq_body qosMode dataModeRP transactionID ++ buf.drop QMIWDASetDataFormatReqSize)) ∧
      6 + (QMIWDASetDataFormatReq_body qosMode dataModeRP transactionID).length = QMIWDASetDataFormatReqSize) ∧
    (QMICTLSetDataFormatReqSize ≤ buffSize →
      QMICTLSetDataFormatReq qosMode dataModeRP TLV_TYPE_LINK_PROTO (some buf) buffSize transactionID
        = ((QMICTLSetDataFormatReqSize : Int),
            some (buf.take 6 ++ QMICTLSetDataFormatReq_body qosMode dataModeRP TLV_TYPE_LINK_PROTO transactionID ++ buf.drop QMICTLSetDataFormatReqSize)) ∧
      6 + (QMICTLSetDataFormatReq_body qosMode dataModeRP TLV_TYPE_LINK_PROTO transactionID).length = QMICTLSetDataFormatReqSize) ∧
    (QMIWDSBindMuxDataPortReqSize ≤ buffSize →
      QMIWDSBindMuxDataPortReq (some buf) buffSize transactionID
        = ((QMIWDSBindMuxDataPortReqSize : Int),
            some (buf.take 6 ++ QMIWDSBindMuxDataPortReq_body transactionID ++ buf.drop QMIWDSBindMuxDataPortReqSize)) ∧
      6 + (QMIWDSBindMuxDataPortReq_body transactionID).length = QMIWDSBindMuxDataPortReqSize) ∧
    (QMIWDSBindMuxDataPortPreReqSize ≤ buffSize →
      QMIWDSBindMuxDataPortPreReq (some buf) buffSize transactionID index
        = ((QMIWDSBindMuxDataPortPreReqSize : Int),
            some (buf.take 6 ++ QMIWDSBindMuxDataPortPreReq_body transactionID index ++ buf.drop QMIWDSBindMuxDataPortPreReqSize)) ∧
      6 + (QMIWDSBindMuxDataPortPreReq_body transactionID index).length = QMIWDSBindMuxDataPortPreReqSize) ∧
    (QMICTLSyncReqSize ≤ buffSize →
      QMICTLSyncReq (some buf) buffSize transactionID
        = ((QMICTLSyncReqSize : Int),
            some (buf.take 6 ++ QMICTLSyncReq_body transactionID ++ buf.drop QMICTLSyncReqSize)) ∧
      6 + (QMICTLSyncReq_body transactionID).length = QMICTLSyncReqSize) := by
  refine ⟨?_, ?_, ?_, ?_, ?_, ?_, ?_, ?_, ?_, ?_, ?_⟩
  · exact fun hn => ⟨QMICTLGetClientIDReq_layout transactionID serviceType buf buffSize hn (by rw [hlen]; exact hn), rfl⟩
  · exact fun hn => ⟨QMICTLReleaseClientIDReq_layout transactionID clientID buf buffSize hn (by rw [hlen]; exact hn), rfl⟩
  · exact fun hn => ⟨QMICTLReadyReq_layout transactionID buf buffSize hn (by rw [hlen]; exact hn), rfl⟩
  · exact fun hn => ⟨QMIWDSSetEventReportReq_layout transactionID buf buffSize hn (by rw [hlen]; exact hn), rfl⟩
  · exact fun hn => ⟨QMIWDSGetPKGSRVCStatusReq_layout transactionID buf buffSize hn (by rw [hlen]; exact hn), rfl⟩
  · exact fun hn => ⟨QMIDMSGetMEIDReq_layout transactionID buf buffSize hn (by rw [hlen]; exact hn), rfl⟩
  · exact fun hn => ⟨QMIWDASetDataFormatReq_layout qosMode dataModeRP transactionID buf buffSize hn (by rw [hlen]; exact hn), rfl⟩
  · exact fun hn => ⟨QMICTLSetDataFormatReq_layout qosMode dataModeRP TLV_TYPE_LINK_PROTO transactionID buf buffSize hn (by rw [hlen]; exact hn), rfl⟩
  · exact fun hn => ⟨QMIWDSBindMuxDataPortReq_layout transactionID buf buffSize hn (by rw [hlen]; exact hn), rfl⟩
  · exact fun hn => ⟨QMIWDSBindMuxDataPortPreReq_layout transactionID index buf buffSize hn (by rw [hlen]; exact hn), rfl⟩
  · exact fun hn => ⟨QMICTLSyncReq_layout transactionID buf buffSize hn (by rw [hlen]; exact hn), rfl⟩

/-- C12, witness: every encoder on a buffer of 35 bytes. -/
theorem encoders_size_contract_witness :
    sampleBuffer.length = 35 ∧
    ((QMICTLGetClientIDReqSize ≤ 35 →
      QMICTLGetClientIDReq (some sampleBuffer) 35 1 2
        = ((QMICTLGetClientIDReqSize : Int),
            some (sampleBuffer.take 6 ++ QMICTLGetClientIDReq_body 1 2 ++ sampleBuffer.drop QMICTLGetClientIDReqSize)) ∧
      6 + (QMICTLGetClientIDReq_body 1 2).length = QMICTLGetClientIDReqSize) ∧
    (QMICTLReleaseClientIDReqSize ≤ 35 →
      QMICTLReleaseClientIDReq (some sampleBuffer) 35 1 0x0304
        = ((QMICTLReleaseClientIDReqSize : Int),
            some (sampleBuffer.take 6 ++ QMICTLReleaseClientIDReq_body 1 0x0304 ++ sampleBuffer.drop QMICTLReleaseClientIDReqSize)) ∧
      6 + (QMICTLReleaseClientIDReq_body 1 0x0304).length = QMICTLReleaseClientIDReqSize) ∧
    (QMICTLReadyReqSize ≤ 35 →
      QMICTLReadyReq (some sampleBuffer) 35 1
        = ((QMICTLReadyReqSize : Int),
            some (sampleBuffer.take 6 ++ QMICTLReadyReq_body 1 ++ sampleBuffer.drop QMICTLReadyReqSize)) ∧
      6 + (QMICTLReadyReq_body 1).length = QMICTLReadyReqSize) ∧
    (QMIWDSSetEventReportReqSize ≤ 35 →
      QMIWDSSetEventReportReq (some sampleBuffer) 35 1
        = ((QMIWDSSetEventReportReqSize : Int),
            some (sampleBuffer.take 6 ++ QMIWDSSetEventReportReq_body 1 ++ sampleBuffer.drop QMIWDSSetEventReportReqSize)) ∧
      6 + (QMIWDSSetEventReportReq_body 1).length = QMIWDSSetEventReportReqSize) ∧
    (QMIWDSGetPKGSRVCStatusReqSize ≤ 35 →
      QMIWDSGetPKGSRVCStatusReq (some sampleBuffer) 35 1
        = ((QMIWDSGetPKGSRVCStatusReqSize : Int),
            some (sampleBuffer.take 6 ++ QMIWDSGetPKGSRVCStatusReq_body 1 ++ sampleBuffer.drop QMIWDSGetPKGSRVCStatusReqSize)) ∧
      6 + (QMIWDSGetPKGSRVCStatusReq_body 1).length = QMIWDSGetPKGSRVCStatusReqSize) ∧
    (QMIDMSGetMEIDReqSize ≤ 35 →
      QMIDMSGetMEIDReq (some sampleBuffer) 35 1
        = ((QMIDMSGetMEIDReqSize : Int),
            some (sampleBuffer.take 6 ++ QMIDMSGetMEIDReq_body 1 ++ sampleBuffer.drop QMIDMSGetMEIDReqSize)) ∧
      6 + (QMIDMSGetMEIDReq_body 1).length = QMIDMSGetMEIDReqSize) ∧
    (QMIWDASetDataFormatReqSize ≤ 35 →
      QMIWDASetDataFormatReq false true (some sampleBuffer) 35 1
        = ((QMIWDASetDataFormatReqSize : Int),
            some (sampleBuffer.take 6 ++ QMIWDASetDataFormatReq_body false true 1 ++ sampleBuffer.drop QMIWDASetDataFormatReqSize)) ∧
      6 + (QMIWDASetDataFormatReq_body false true 1).length = QMIWDASetDataFormatReqSize) ∧
    (QMICTLSetDataFormatReqSize ≤ 35 →
      QMICTLSetDataFormatReq false true 0x10 (some sampleBuffer) 35 1
        = ((QMICTLSetDataFormatReqSize : Int),
            some (sampleBuffer.take 6 ++ QMICTLSetDataFormatReq_body false true 0x10 1 ++ sampleBuffer.drop QMICTLSetDataFormatReqSize)) ∧
      6 + (QMICTLSetDataFormatReq_body false true 0x10 1).length = QMICTLSetDataFormatReqSize) ∧
    (QMIWDSBindMuxDataPortReqSize ≤ 35 →
      QMIWDSBindMuxDataPortReq (some sampleBuffer) 35 1
        = ((QMIWDSBindMuxDataPortReqSize : Int),
            some (sampleBuffer.take 6 ++ QMIWDSBindMuxDataPortReq_body 1 ++ sampleBuffer.drop QMIWDSBindMuxDataPortReqSize)) ∧
      6 + (QMIWDSBindMuxDataPortReq_body 1).length = QMIWDSBindMuxDataPortReqSize) ∧
    (QMIWDSBindMuxDataPortPreReqSize ≤ 35 →
      QMIWDSBindMuxDataPortPreReq (some sampleBuffer) 35 1 1
        = ((QMIWDSBindMuxDataPortPreReqSize : Int),
            some (sampleBuffer.take 6 ++ QMIWDSBindMuxDataPortPreReq_body 1 1 ++ sampleBuffer.drop QMIWDSBindMuxDataPortPreReqSize)) ∧
      6 + (QMIWDSBindMuxDataPortPreReq_body 1 1).length = QMIWDSBindMuxDataPortPreReqSize) ∧
    (QMICTLSyncReqSize ≤ 35 →
      QMICTLSyncReq (some sampleBuffer) 35 1
        = ((QMICTLSyncReqSize : Int),
            some (sampleBuffer.take 6 ++ QMICTLSyncReq_body 1 ++ sampleBuffer.drop QMICTLSyncReqSize)) ∧
      6 + (QMICTLSyncReq_body 1).length = QMICTLSyncReqSize)) :=
  ⟨rfl, encoders_size_contract false true 0x10 1 2 0x0304 1 35 sampleBuffer rfl⟩

/-- C13: for each of the eleven encoders and all parameter values, when `buffSize` is below
the paired size the encoder returns `-ENOMEM` and the buffer is unchanged. -/
theorem encoders_reject_short_buffer (qosMode dataModeRP : Bool)
    (TLV_TYPE_LINK_PROTO transactionID serviceType clientID index buffSize : Nat)
    (buf : List Nat) :
    (buffSize < QMICTLGetClientIDReqSize →
      QMICTLGetClientIDReq (some buf) buffSize transactionID serviceType = (-ENOMEM, some buf)) ∧
    (buffSize < QMICTLReleaseClientIDReqSize →
      QMICTLReleaseClientIDReq (some buf) buffSize transactionID clientID = (-ENOMEM, some buf)) ∧
    (buffSize < QMICTLReadyReqSize →
      QMICTLReadyReq (some buf) buffSize transactionID = (-ENOMEM, some buf)) ∧
    (buffSize < QMIWDSSetEventReportReqSize →
      QMIWDSSetEventReportReq (some buf) buffSize transactionID = (-ENOMEM, some buf)) ∧
    (buffSize < QMIWDSGetPKGSRVCStatusReqSize →
      QMIWDSGetPKGSRVCStatusReq (some buf) buffSize transactionID = (-ENOMEM, some buf)) ∧
    (buffSize < QMIDMSGetMEIDReqSize →
      QMIDMSGetMEIDReq (some buf) buffSize transactionID = (-ENOMEM, some buf)) ∧
    (buffSize < QMIWDASetDataFormatReqSize →
      QMIWDASetDataFormatReq qosMode dataModeRP (some buf) buffSize transactionID = (-ENOMEM, some buf)) ∧
    (buffSize < QMICTLSetDataFormatReqSize →
      QMICTLSetDataFormatReq qosMode dataModeRP TLV_TYPE_LINK_PROTO (some buf) buffSize transactionID = (-ENOMEM, some buf)) ∧
    (buffSize < QMIWDSBindMuxDataPortReqSize →
      QMIWDSBindMuxDataPortReq (some buf) buffSize transactionID = (-ENOMEM, some buf)) ∧
    (buffSize < QMIWDSBindMuxDataPortPreReqSize →
      QMIWDSBindMuxDataPortPreReq (some buf) buffSize transactionID index = (-ENOMEM, some buf)) ∧
    (buffSize < QMICTLSyncReqSize →
      QMICTLSyncReq (some buf) buffSize transactionID = (-ENOMEM, some buf)) := by
  refine ⟨?_, ?_, ?_, ?_, ?_, ?_, ?_, ?_, ?_, ?_, ?_⟩
  · intro hn
    simp [QMICTLGetClientIDReq, hn]
  · intro hn
    simp [QMICTLReleaseClientIDReq, hn]
  · intro hn
    simp [QMICTLReadyReq, hn]
  · intro hn
    simp [QMIWDSSetEventReportReq, hn]
  · intro hn
    simp [QMIWDSGetPKGSRVCStatusReq, hn]
  · intro hn
    simp [QMIDMSGetMEIDReq, hn]
  · intro hn
    simp [QMIWDASetDataFormatReq, hn]
  · intro hn
    simp [QMICTLSetDataFormatReq, hn]
  · intro hn
    simp [QMIWDSBindMuxDataPortReq, hn]
  · intro hn
    simp [QMIWDSBindMuxDataPortPreReq, hn]
  · intro hn
    simp [QMICTLSyncReq, hn]

/-- C13, witness: every encoder with `buffSize = 11`, which is below every paired size. -/
theorem encoders_reject_short_buffer_witness :
    (QMICTLGetClientIDReq (some sampleBuffer) 11 1 2 = (-ENOMEM, some sampleBuffer)) ∧
    (QMICTLReleaseClientIDReq (some sampleBuffer) 11 1 0x0304 = (-ENOMEM, some sampleBuffer)) ∧
    (QMICTLReadyReq (some sampleBuffer) 11 1 = (-ENOMEM, some sampleBuffer)) ∧
    (QMIWDSSetEventReportReq (some sampleBuffer) 11 1 = (-ENOMEM, some sampleBuffer)) ∧
    (QMIWDSGetPKGSRVCStatusReq (some sampleBuffer) 11 1 = (-ENOMEM, some sampleBuffer)) ∧
    (QMIDMSGetMEIDReq (some sampleBuffer) 11 1 = (-ENOMEM, some sampleBuffer)) ∧
    (QMIWDASetDataFormatReq false true (some sampleBuffer) 11 1 = (-ENOMEM, some sampleBuffer)) ∧
    (QMICTLSetDataFormatReq false true 0x10 (some sampleBuffer) 11 1 = (-ENOMEM, some sampleBuffer)) ∧
    (QMIWDSBindMuxDataPortReq (some sampleBuffer) 11 1 = (-ENOMEM, some sampleBuffer)) ∧
    (QMIWDSBindMuxDataPortPreReq (some sampleBuffer) 11 1 1 = (-ENOMEM, some sampleBuffer)) ∧
    (QMICTLSyncReq (some sampleBuffer) 11 1 = (-ENOMEM, some sampleBuffer)) :=
  have h := encoders_reject_short_buffer false true 0x10 1 2 0x0304 1 11 sampleBuffer
  ⟨h.1 (by decide),
    h.2.1 (by decide),
    h.2.2.1 (by decide),
    h.2.2.2.1 (by decide),
    h.2.2.2.2.1 (by decide),
    h.2.2.2.2.2.1 (by decide),
    h.2.2.2.2.2.2.1 (by decide),
    h.2.2.2.2.2.2.2.1 (by decide),
    h.2.2.2.2.2.2.2.2.1 (by decide),
    h.2.2.2.2.2.2.2.2.2.1 (by decide),
    h.2.2.2.2.2.2.2.2.2.2 (by decide)⟩

/-- C17: for each of the eleven encoders and all parameter values, in the buffer left by a
successful call the `u16` little-endian TLV total length (at offset 10 for the CTL
encoders, at offset 11 for the others) is the number of bytes from the end of that field
to the returned size; those bytes are the wire form of the TLV records written, and the
sum of `3 + declared length` over these records is the TLV total length. -/
theorem encoders_body_well_formed (qosMode dataModeRP : Bool)
    (TLV_TYPE_LINK_PROTO transactionID serviceType clientID index buffSize : Nat)
    (buf : List Nat)
    (hlen : buf.length = buffSize) :
    (QMICTLGetClientIDReqSize ≤ buffSize →
      ∃ b, (QMICTLGetClientIDReq (some buf) buffSize transactionID serviceType).2 = some b ∧
        (QMICTLGetClientIDReq (some buf) buffSize transactionID serviceType).1 = ((10 + 2 + le16At b 10 : Nat) : Int) ∧
        (b.drop (10 + 2)).take (le16At b 10) = encodeTLVs [⟨0x01, [serviceType % 256]⟩] ∧
        (([⟨0x01, [serviceType % 256]⟩] : List TLV).map (fun x => 3 + x.value.length)).sum = le16At b 10) ∧
    (QMICTLReleaseClientIDReqSize ≤ buffSize →
      ∃ b, (QMICTLReleaseClientIDReq (some buf) buffSize transactionID clientID).2 = some b ∧
        (QMICTLReleaseClientIDReq (some buf) buffSize transactionID clientID).1 = ((10 + 2 + le16At b 10 : Nat) : Int) ∧
        (b.drop (10 + 2)).take (le16At b 10) = encodeTLVs [⟨0x01, [clientID % 256, clientID / 256 % 256]⟩] ∧
        (([⟨0x01, [clientID % 256, clientID / 256 % 256]⟩] : List TLV).map (fun x => 3 + x.value.length)).sum = le16At b 10) ∧
    (QMICTLReadyReqSize ≤ buffSize →
      ∃ b, (QMICTLReadyReq (some buf) buffSize transactionID).2 = some b ∧
        (QMICTLReadyReq (some buf) buffSize transactionID).1 = ((10 + 2 + le16At b 10 : Nat) : Int) ∧
        (b.drop (10 + 2)).take (le16At b 10) = encodeTLVs [] ∧
        (([] : List TLV).map (fun x => 3 + x.value.length)).sum = le16At b 10) ∧
    (QMIWDSSetEventReportReqSize ≤ buffSize →
      ∃ b, (QMIWDSSetEventReportReq (some buf) buffSize transactionID).2 = some b ∧
        (QMIWDSSetEventReportReq (some buf) buffSize transactionID).1 = ((11 + 2 + le16At b 11 : Nat) : Int) ∧
        (b.drop (11 + 2)).take (le16At b 11) = encodeTLVs [⟨0x11, [0x01, 0xff, 0, 0, 0]⟩] ∧
        (([⟨0x11, [0x01, 0xff, 0, 0, 0]⟩] : List TLV).map (fun x => 3 + x.value.length)).sum = le16At b 11) ∧
    (QMIWDSGetPKGSRVCStatusReqSize ≤ buffSize →
      ∃ b, (QMIWDSGetPKGSRVCStatusReq (some buf) buffSize transactionID).2 = some b ∧
        (QMIWDSGetPKGSRVCStatusReq (some buf) buffSize transactionID).1 = ((11 + 2 + le16At b 11 : Nat) : Int) ∧
        (b.drop (11 + 2)).take (le16At b 11) = encodeTLVs [] ∧
        (([] : List TLV).map (fun x => 3 + x.value.length)).sum = le16At b 11) ∧
    (QMIDMSGetMEIDReqSize ≤ buffSize →
      ∃ b, (QMIDMSGetMEIDReq (some buf) buffSize transactionID).2 = some b ∧
        (QMIDMSGetMEIDReq (some buf) buffSize transactionID).1 = ((11 + 2 + le16At b 11 : Nat) : Int) ∧
        (b.drop (11 + 2)).take (le16At b 11) = encodeTLVs [] ∧
        (([] : List TLV).map (fun x => 3 + x.value.length)).sum = le16At b 11) ∧
    (QMIWDASetDataFormatReqSize ≤ buffSize →
      ∃ b, (QMIWDASetDataFormatReq qosMode dataModeRP (some buf) buffSize transactionID).2 = some b ∧
        (QMIWDASetDataFormatReq qosMode dataModeRP (some buf) buffSize transactionID).1 = ((11 + 2 + le16At b 11 : Nat) : Int) ∧
        (b.drop (11 + 2)).take (le16At b 11) = encodeTLVs [⟨0x10, [if qosMode then 1 else 0]⟩, ⟨0x11, [if dataModeRP then 2 else 1, 0, 0, 0]⟩,
            ⟨0x13, [0, 0, 0, 0]⟩] ∧
        (([⟨0x10, [if qosMode then 1 else 0]⟩, ⟨0x11, [if dataModeRP then 2 else 1, 0, 0, 0]⟩,
            ⟨0x13, [0, 0, 0, 0]⟩] : List TLV).map (fun x => 3 + x.value.length)).sum = le16At b 11) ∧
    (QMICTLSetDataFormatReqSize ≤ buffSize →
      ∃ b, (QMICTLSetDataFormatReq qosMode dataModeRP TLV_TYPE_LINK_PROTO (some buf) buffSize transactionID).2 = some b ∧
        (QMICTLSetDataFormatReq qosMode dataModeRP TLV_TYPE_LINK_PROTO (some buf) buffSize transactionID).1 = ((10 + 2 + le16At b 10 : Nat) : Int) ∧
        (b.drop (10 + 2)).take (le16At b 10) = encodeTLVs [⟨0x01, [if qosMode then 1 else 0]⟩, ⟨TLV_TYPE_LINK_PROTO % 256, [if dataModeRP then 2 else 1, 0]⟩] ∧
        (([⟨0x01, [if qosMode then 1 else 0]⟩, ⟨TLV_TYPE_LINK_PROTO % 256, [if dataModeRP then 2 else 1, 0]⟩] : List TLV).map (fun x => 3 + x.value.length)).sum = le16At b 10) ∧
    (QMIWDSBindMuxDataPortReqSize ≤ buffSize →
      ∃ b, (QMIWDSBindMuxDataPortReq (some buf) buffSize transactionID).2 = some b ∧
        (QMIWDSBindMuxDataPortReq (some buf) buffSize transactionID).1 = ((11 + 2 + le16At b 11 : Nat) : Int) ∧
        (b.drop (11 + 2)).take (le16At b 11) = encodeTLVs [⟨0x10, [5, 0, 0, 0, 8, 0, 0, 0]⟩, ⟨0x11, [0]⟩, ⟨0x13, [1, 0, 0, 0]⟩] ∧
        (([⟨0x10, [5, 0, 0, 0, 8, 0, 0, 0]⟩, ⟨0x11, [0]⟩, ⟨0x13, [1, 0, 0, 0]⟩] : List TLV).map (fun x => 3 + x.value.length)).sum = le16At b 11) ∧
    (QMIWDSBindMuxDataPortPreReqSize ≤ buffSize →
      ∃ b, (QMIWDSBindMuxDataPortPreReq (some buf) buffSize transactionID index).2 = some b ∧
        (QMIWDSBindMuxDataPortPreReq (some buf) buffSize transactionID index).1 = ((11 + 2 + le16At b 11 : Nat) : Int) ∧
        (b.drop (11 + 2)).take (le16At b 11) = encodeTLVs [⟨0x10, [5, 0, 0, 0, 0, 0, 0, 0]⟩, ⟨0x11, [index % 256]⟩] ∧
        (([⟨0x10, [5, 0, 0, 0, 0, 0, 0, 0]⟩, ⟨0x11, [index % 256]⟩] : List TLV).map (fun x => 3 + x.value.length)).sum = le16At b 11) ∧
    (QMICTLSyncReqSize ≤ buffSize →
      ∃ b, (QMICTLSyncReq (some buf) buffSize transactionID).2 = some b ∧
        (QMICTLSyncReq (some buf) buffSize transactionID).1 = ((10 + 2 + le16At b 10 : Nat) : Int) ∧
        (b.drop (10 + 2)).take (le16At b 10) = encodeTLVs [] ∧
        (([] : List TLV).map (fun x => 3 + x.value.length)).sum = le16At b 10) := by
  refine ⟨?_, ?_, ?_, ?_, ?_, ?_, ?_, ?_, ?_, ?_, ?_⟩
  · intro hn
    have hlt : ¬ buffSize < 16 := Nat.not_lt.mpr hn
    have h : 16 ≤ buf.length := by rw [hlen]; exact hn
    clear hlen
    iterate 16 (rcases buf with _ | ⟨_, buf⟩; simp at h)
    simp [QMICTLGetClientIDReq, QMICTLGetClientIDReqSize, QMICTLGetClientIDReq_body, sizeof_sQMUX, putByte, putLe16, putLe32, hlt, byteAt, le16At, encodeTLVs, TLV.encode]
  · intro hn
    have hlt : ¬ buffSize < 17 := Nat.not_lt.mpr hn
    have h : 17 ≤ buf.length := by rw [hlen]; exact hn
    clear hlen
    iterate 17 (rcases buf with _ | ⟨_, buf⟩; simp at h)
    simp [QMICTLReleaseClientIDReq, QMICTLReleaseClientIDReqSize, QMICTLReleaseClientIDReq_body, sizeof_sQMUX, putByte, putLe16, putLe32, hlt, byteAt, le16At, encodeTLVs, TLV.encode]
  · intro hn
    have hlt : ¬ buffSize < 12 := Nat.not_lt.mpr hn
    have h : 12 ≤ buf.length := by rw [hlen]; exact hn
    clear hlen
    iterate 12 (rcases buf with _ | ⟨_, buf⟩; simp at h)
    simp [QMICTLReadyReq, QMICTLReadyReqSize, QMICTLReadyReq_body, sizeof_sQMUX, putByte, putLe16, putLe32, hlt, byteAt, le16At, encodeTLVs, TLV.encode]
  · intro hn
    have hlt : ¬ buffSize < 21 := Nat.not_lt.mpr hn
    have h : 21 ≤ buf.length := by rw [hlen]; exact hn
    clear hlen
    iterate 21 (rcases buf with _ | ⟨_, buf⟩; simp at h)
    simp [QMIWDSSetEventReportReq, QMIWDSSetEventReportReqSize, QMIWDSSetEventReportReq_body, sizeof_sQMUX, putByte, putLe16, putLe32, hlt, byteAt, le16At, encodeTLVs, TLV.encode]
  · intro hn
    have hlt : ¬ buffSize < 13 := Nat.not_lt.mpr hn
    have h : 13 ≤ buf.length := by rw [hlen]; exact hn
    clear hlen
    iterate 13 (rcases buf with _ | ⟨_, buf⟩; simp at h)
    simp [QMIWDSGetPKGSRVCStatusReq, QMIWDSGetPKGSRVCStatusReqSize, QMIWDSGetPKGSRVCStatusReq_body, sizeof_sQMUX, putByte, putLe16, putLe32, hlt, byteAt, le16At, encodeTLVs, TLV.encode]
  · intro hn
    have hlt : ¬ buffSize < 13 := Nat.not_lt.mpr hn
    have h : 13 ≤ buf.length := by rw [hlen]; exact hn
    clear hlen
    iterate 13 (rcases buf with _ | ⟨_, buf⟩; simp at h)
    simp [QMIDMSGetMEIDReq, QMIDMSGetMEIDReqSize, QMIDMSGetMEIDReq_body, sizeof_sQMUX, putByte, putLe16, putLe32, hlt, byteAt, le16At, encodeTLVs, TLV.encode]
  · intro hn
    have hlt : ¬ buffSize < 31 := Nat.not_lt.mpr hn
    have h : 31 ≤ buf.length := by rw [hlen]; exact hn
    clear hlen
    iterate 31 (rcases buf with _ | ⟨_, buf⟩; simp at h)
    cases qosMode <;> cases dataModeRP <;>
      simp [QMIWDASetDataFormatReq, QMIWDASetDataFormatReqSize, QMIWDASetDataFormatReq_body, sizeof_sQMUX, putByte, putLe16, putLe32, hlt, byteAt, le16At, encodeTLVs, TLV.encode]
  · intro hn
    have hlt : ¬ buffSize < 21 := Nat.not_lt.mpr hn
    have h : 21 ≤ buf.length := by rw [hlen]; exact hn
    clear hlen
    iterate 21 (rcases buf with _ | ⟨_, buf⟩; simp at h)
    cases qosMode <;> cases dataModeRP <;>
      simp [QMICTLSetDataFormatReq, QMICTLSetDataFormatReqSize, QMICTLSetDataFormatReq_body, sizeof_sQMUX, putByte, putLe16, putLe32, hlt, byteAt, le16At, encodeTLVs, TLV.encode]
  · intro hn
    have hlt : ¬ buffSize < 35 := Nat.not_lt.mpr hn
    have h : 35 ≤ buf.length := by rw [hlen]; exact hn
    clear hlen
    iterate 35 (rcases buf with _ | ⟨_, buf⟩; simp at h)
    simp [QMIWDSBindMuxDataPortReq, QMIWDSBindMuxDataPortReqSize, QMIWDSBindMuxDataPortReq_body, sizeof_sQMUX, putByte, putLe16, putLe32, hlt, byteAt, le16At, encodeTLVs, TLV.encode]
  · intro hn
    have hlt : ¬ buffSize < 28 := Nat.not_lt.mpr hn
    have h : 28 ≤ buf.length := by rw [hlen]; exact hn
    clear hlen
    iterate 28 (rcases buf with _ | ⟨_, buf⟩; simp at h)
    simp [QMIWDSBindMuxDataPortPreReq, QMIWDSBindMuxDataPortPreReqSize, QMIWDSBindMuxDataPortPreReq_body, sizeof_sQMUX, putByte, putLe16, putLe32, hlt, byteAt, le16At, encodeTLVs, TLV.encode]
  · intro hn
    have hlt : ¬ buffSize < 12 := Nat.not_lt.mpr hn
    have h : 12 ≤ buf.length := by rw [hlen]; exact hn
    clear hlen
    iterate 12 (rcases buf with _ | ⟨_, buf⟩; simp at h)
    simp [QMICTLSyncReq, QMICTLSyncReqSize, QMICTLSyncReq_body, sizeof_sQMUX, putByte, putLe16, putLe32, hlt, byteAt, le16At, encodeTLVs, TLV.encode]

/-- C17, witness: every encoder on a buffer of 35 bytes. -/
theorem encoders_body_well_formed_witness :
    sampleBuffer.length = 35 ∧
    ((QMICTLGetClientIDReqSize ≤ 35 →
      ∃ b, (QMICTLGetClientIDReq (some sampleBuffer) 35 1 2).2 = some b ∧
        (QMICTLGetClientIDReq (some sampleBuffer) 35 1 2).1 = ((10 + 2 + le16At b 10 : Nat) : Int) ∧
        (b.drop (10 + 2)).take (le16At b 10) = encodeTLVs [⟨0x01, [2 % 256]⟩] ∧
        (([⟨0x01, [2 % 256]⟩] : List TLV).map (fun x => 3 + x.value.length)).sum = le16At b 10) ∧
    (QMICTLReleaseClientIDReqSize ≤ 35 →
      ∃ b, (QMICTLReleaseClientIDReq (some sampleBuffer) 35 1 0x0304).2 = some b ∧
        (QMICTLReleaseClientIDReq (some sampleBuffer) 35 1 0x0304).1 = ((10 + 2 + le16At b 10 : Nat) : Int) ∧
        (b.drop (10 + 2)).take (le16At b 10) = encodeTLVs [⟨0x01, [0x0304 % 256, 0x0304 / 256 % 256]⟩] ∧
        (([⟨0x01, [0x0304 % 256, 0x0304 / 256 % 256]⟩] : List TLV).map (fun x => 3 + x.value.length)).sum = le16At b 10) ∧
    (QMICTLReadyReqSize ≤ 35 →
      ∃ b, (QMICTLReadyReq (some sampleBuffer) 35 1).2 = some b ∧
        (QMICTLReadyReq (some sampleBuffer) 35 1).1 = ((10 + 2 + le16At b 10 : Nat) : Int) ∧
        (b.drop (10 + 2)).take (le16At b 10) = encodeTLVs [] ∧
        (([] : List TLV).map (fun x => 3 + x.value.length)).sum = le16At b 10) ∧
    (QMIWDSSetEventReportReqSize ≤ 35 →
      ∃ b, (QMIWDSSetEventReportReq (some sampleBuffer) 35 1).2 = some b ∧
        (QMIWDSSetEventReportReq (some sampleBuffer) 35 1).1 = ((11 + 2 + le16At b 11 : Nat) : Int) ∧
        (b.drop (11 + 2)).take (le16At b 11) = encodeTLVs [⟨0x11, [0x01, 0xff, 0, 0, 0]⟩] ∧
        (([⟨0x11, [0x01, 0xff, 0, 0, 0]⟩] : List TLV).map (fun x => 3 + x.value.length)).sum = le16At b 11) ∧
    (QMIWDSGetPKGSRVCStatusReqSize ≤ 35 →
      ∃ b, (QMIWDSGetPKGSRVCStatusReq (some sampleBuffer) 35 1).2 = some b ∧
        (QMIWDSGetPKGSRVCStatusReq (some sampleBuffer) 35 1).1 = ((11 + 2 + le16At b 11 : Nat) : Int) ∧
        (b.drop (11 + 2)).take (le16At b 11) = encodeTLVs [] ∧
        (([] : List TLV).map (fun x => 3 + x.value.length)).sum = le16At b 11) ∧
    (QMIDMSGetMEIDReqSize ≤ 35 →
      ∃ b, (QMIDMSGetMEIDReq (some sampleBuffer) 35 1).2 = some b ∧
        (QMIDMSGetMEIDReq (some sampleBuffer) 35 1).1 = ((11 + 2 + le16At b 11 : Nat) : Int) ∧
        (b.drop (11 + 2)).take (le16At b 11) = encodeTLVs [] ∧
        (([] : List TLV).map (fun x => 3 + x.value.length)).sum = le16At b 11) ∧
    (QMIWDASetDataFormatReqSize ≤ 35 →
      ∃ b, (QMIWDASetDataFormatReq false true (some sampleBuffer) 35 1).2 = some b ∧
        (QMIWDASetDataFormatReq false true (some sampleBuffer) 35 1).1 = ((11 + 2 + le16At b 11 : Nat) : Int) ∧
        (b.drop (11 + 2)).take (le16At b 11) = encodeTLVs [⟨0x10, [if false then 1 else 0]⟩, ⟨0x11, [if true then 2 else 1, 0, 0, 0]⟩,
            ⟨0x13, [0, 0, 0, 0]⟩] ∧
        (([⟨0x10, [if false then 1 else 0]⟩, ⟨0x11, [if true then 2 else 1, 0, 0, 0]⟩,
            ⟨0x13, [0, 0, 0, 0]⟩] : List TLV).map (fun x => 3 + x.value.length)).sum = le16At b 11) ∧
    (QMICTLSetDataFormatReqSize ≤ 35 →
      ∃ b, (QMICTLSetDataFormatReq false true 0x10 (some sampleBuffer) 35 1).2 = some b ∧
        (QMICTLSetDataFormatReq false true 0x10 (some sampleBuffer) 35 1).1 = ((10 + 2 + le16At b 10 : Nat) : Int) ∧
        (b.drop (10 + 2)).take (le16At b 10) = encodeTLVs [⟨0x01, [if false then 1 else 0]⟩, ⟨0x10 % 256, [if true then 2 else 1, 0]⟩] ∧
        (([⟨0x01, [if false then 1 else 0]⟩, ⟨0x10 % 256, [if true then 2 else 1, 0]⟩] : List TLV).map (fun x => 3 + x.value.length)).sum = le16At b 10) ∧
    (QMIWDSBindMuxDataPortReqSize ≤ 35 →
      ∃ b, (QMIWDSBindMuxDataPortReq (some sampleBuffer) 35 1).2 = some b ∧
        (QMIWDSBindMuxDataPortReq (some sampleBuffer) 35 1).1 = ((11 + 2 + le16At b 11 : Nat) : Int) ∧
        (b.drop (11 + 2)).take (le16At b 11) = encodeTLVs [⟨0x10, [5, 0, 0, 0, 8, 0, 0, 0]⟩, ⟨0x11, [0]⟩, ⟨0x13, [1, 0, 0, 0]⟩] ∧
        (([⟨0x10, [5, 0, 0, 0, 8, 0, 0, 0]⟩, ⟨0x11, [0]⟩, ⟨0x13, [1, 0, 0, 0]⟩] : List TLV).map (fun x => 3 + x.value.length)).sum = le16At b 11) ∧
    (QMIWDSBindMuxDataPortPreReqSize ≤ 35 →
      ∃ b, (QMIWDSBindMuxDataPortPreReq (some sampleBuffer) 35 1 1).2 = some b ∧
        (QMIWDSBindMuxDataPortPreReq (some sampleBuffer) 35 1 1).1 = ((11 + 2 + le16At b 11 : Nat) : Int) ∧
        (b.drop (11 + 2)).take (le16At b 11) = encodeTLVs [⟨0x10, [5, 0, 0, 0, 0, 0, 0, 0]⟩, ⟨0x11, [1 % 256]⟩] ∧
        (([⟨0x10, [5, 0, 0, 0, 0, 0, 0, 0]⟩, ⟨0x11, [1 % 256]⟩] : List TLV).map (fun x => 3 + x.value.length)).sum = le16At b 11) ∧
    (QMICTLSyncReqSize ≤ 35 →
      ∃ b, (QMICTLSyncReq (some sampleBuffer) 35 1).2 = some b ∧
        (QMICTLSyncReq (some sampleBuffer) 35 1).1 = ((10 + 2 + le16At b 10 : Nat) : Int) ∧
        (b.drop (10 + 2)).take (le16At b 10) = encodeTLVs [] ∧
        (([] : List TLV).map (fun x => 3 + x.value.length)).sum = le16At b 10)) :=
  ⟨rfl, encoders_body_well_formed false true 0x10 1 2 0x0304 1 35 sampleBuffer rfl⟩

/-- C18: after a successful call byte 6 of the buffer is 0 for every encoder; the CTL
encoders (get client ID, release client ID, ready, set data format, sync) store the low
byte of the transaction ID, which is the transaction ID itself for a `u8`, at offset 7 and
the message IDs 0x0022, 0x0023, 0x0021, 0x0026, 0x0027 at offsets 8-9; the encoders
`QMIWDSSetEventReportReq`, `QMIWDSGetPKGSRVCStatusReq`, `QMIDMSGetMEIDReq`,
`QMIWDASetDataFormatReq`, `QMIWDSBindMuxDataPortReq` and `QMIWDSBindMuxDataPortPreReq` store
the 16-bit transaction ID, little-endian, at offsets 7-8 and the message IDs 0x0001,
0x0022, 0x0025, 0x0020, 0x00A2, 0x00A2 at offsets 9-10. -/
theorem encoders_header_fields (qosMode dataModeRP : Bool)
    (TLV_TYPE_LINK_PROTO transactionID serviceType clientID index buffSize : Nat)
    (buf : List Nat)
    (hlen : buf.length = buffSize) :
    (QMICTLGetClientIDReqSize ≤ buffSize →
      ∃ b, (QMICTLGetClientIDReq (some buf) buffSize transactionID serviceType).2 = some b ∧
        byteAt b 6 = 0 ∧ byteAt b 7 = transactionID % 256 ∧ le16At b 8 = 0x0022) ∧
    (QMICTLReleaseClientIDReqSize ≤ buffSize →
      ∃ b, (QMICTLReleaseClientIDReq (some buf) buffSize transactionID clientID).2 = some b ∧
        byteAt b 6 = 0 ∧ byteAt b 7 = transactionID % 256 ∧ le16At b 8 = 0x0023) ∧
    (QMICTLReadyReqSize ≤ buffSize →
      ∃ b, (QMICTLReadyReq (some buf) buffSize transactionID).2 = some b ∧
        byteAt b 6 = 0 ∧ byteAt b 7 = transactionID % 256 ∧ le16At b 8 = 0x0021) ∧
    (QMIWDSSetEventReportReqSize ≤ buffSize →
      ∃ b, (QMIWDSSetEventReportReq (some buf) buffSize transactionID).2 = some b ∧
        byteAt b 6 = 0 ∧ le16At b 7 = transactionID % 65536 ∧ le16At b 9 = 0x0001) ∧
    (QMIWDSGetPKGSRVCStatusReqSize ≤ buffSize →
      ∃ b, (QMIWDSGetPKGSRVCStatusReq (some buf) buffSize transactionID).2 = some b ∧
        byteAt b 6 = 0 ∧ le16At b 7 = transactionID % 65536 ∧ le16At b 9 = 0x0022) ∧
    (QMIDMSGetMEIDReqSize ≤ buffSize →
      ∃ b, (QMIDMSGetMEIDReq (some buf) buffSize transactionID).2 = some b ∧
        byteAt b 6 = 0 ∧ le16At b 7 = transactionID % 65536 ∧ le16At b 9 = 0x0025) ∧
    (QMIWDASetDataFormatReqSize ≤ buffSize →
      ∃ b, (QMIWDASetDataFormatReq qosMode dataModeRP (some buf) buffSize transactionID).2 = some b ∧
        byteAt b 6 = 0 ∧ le16At b 7 = transactionID % 65536 ∧ le16At b 9 = 0x0020) ∧
    (QMICTLSetDataFormatReqSize ≤ buffSize →
      ∃ b, (QMICTLSetDataFormatReq qosMode dataModeRP TLV_TYPE_LINK_PROTO (some buf) buffSize transactionID).2 = some b ∧
        byteAt b 6 = 0 ∧ byteAt b 7 = transactionID % 256 ∧ le16At b 8 = 0x0026) ∧
    (QMIWDSBindMuxDataPortReqSize ≤ buffSize →
      ∃ b, (QMIWDSBindMuxDataPortReq (some buf) buffSize transactionID).2 = some b ∧
        byteAt b 6 = 0 ∧ le16At b 7 = transactionID % 65536 ∧ le16At b 9 = 0x00A2) ∧
    (QMIWDSBindMuxDataPortPreReqSize ≤ buffSize →
      ∃ b, (QMIWDSBindMuxDataPortPreReq (some buf) buffSize transactionID index).2 = some b ∧
        byteAt b 6 = 0 ∧ le16At b 7 = transactionID % 65536 ∧ le16At b 9 = 0x00A2) ∧
    (QMICTLSyncReqSize ≤ buffSize →
      ∃ b, (QMICTLSyncReq (some buf) buffSize transactionID).2 = some b ∧
        byteAt b 6 = 0 ∧ byteAt b 7 = transactionID % 256 ∧ le16At b 8 = 0x0027) := by
  refine ⟨?_, ?_, ?_, ?_, ?_, ?_, ?_, ?_, ?_, ?_, ?_⟩
  · intro hn
    have hlt : ¬ buffSize < 16 := Nat.not_lt.mpr hn
    have h : 16 ≤ buf.length := by rw [hlen]; exact hn
    clear hlen
    iterate 16 (rcases buf with _ | ⟨_, buf⟩; simp at h)
    simp [QMICTLGetClientIDReq, QMICTLGetClientIDReqSize, QMICTLGetClientIDReq_body, sizeof_sQMUX, putByte, putLe16, putLe32, hlt, byteAt, le16At]
  · intro hn
    have hlt : ¬ buffSize < 17 := Nat.not_lt.mpr hn
    have h : 17 ≤ buf.length := by rw [hlen]; exact hn
    clear hlen
    iterate 17 (rcases buf with _ | ⟨_, buf⟩; simp at h)
    simp [QMICTLReleaseClientIDReq, QMICTLReleaseClientIDReqSize, QMICTLReleaseClientIDReq_body, sizeof_sQMUX, putByte, putLe16, putLe32, hlt, byteAt, le16At]
  · intro hn
    have hlt : ¬ buffSize < 12 := Nat.not_lt.mpr hn
    have h : 12 ≤ buf.length := by rw [hlen]; exact hn
    clear hlen
    iterate 12 (rcases buf with _ | ⟨_, buf⟩; simp at h)
    simp [QMICTLReadyReq, QMICTLReadyReqSize, QMICTLReadyReq_body, sizeof_sQMUX, putByte, putLe16, putLe32, hlt, byteAt, le16At]
  · intro hn
    have hlt : ¬ buffSize < 21 := Nat.not_lt.mpr hn
    have h : 21 ≤ buf.length := by rw [hlen]; exact hn
    clear hlen
    iterate 21 (rcases buf with _ | ⟨_, buf⟩; simp at h)
    simp [QMIWDSSetEventReportReq, QMIWDSSetEventReportReqSize, QMIWDSSetEventReportReq_body, sizeof_sQMUX, putByte, putLe16, putLe32, hlt, byteAt, le16At]
    all_goals omega
  · intro hn
    have hlt : ¬ buffSize < 13 := Nat.not_lt.mpr hn
    have h : 13 ≤ buf.length := by rw [hlen]; exact hn
    clear hlen
    iterate 13 (rcases buf with _ | ⟨_, buf⟩; simp at h)
    simp [QMIWDSGetPKGSRVCStatusReq, QMIWDSGetPKGSRVCStatusReqSize, QMIWDSGetPKGSRVCStatusReq_body, sizeof_sQMUX, putByte, putLe16, putLe32, hlt, byteAt, le16At]
    all_goals omega
  · intro hn
    have hlt : ¬ buffSize < 13 := Nat.not_lt.mpr hn
    have h : 13 ≤ buf.length := by rw [hlen]; exact hn
    clear hlen
    iterate 13 (rcases buf with _ | ⟨_, buf⟩; simp at h)
    simp [QMIDMSGetMEIDReq, QMIDMSGetMEIDReqSize, QMIDMSGetMEIDReq_body, sizeof_sQMUX, putByte, putLe16, putLe32, hlt, byteAt, le16At]
    all_goals omega
  · intro hn
    have hlt : ¬ buffSize < 31 := Nat.not_lt.mpr hn
    have h : 31 ≤ buf.length := by rw [hlen]; exact hn
    clear hlen
    iterate 31 (rcases buf with _ | ⟨_, buf⟩; simp at h)
    cases qosMode <;> cases dataModeRP <;>
      simp [QMIWDASetDataFormatReq, QMIWDASetDataFormatReqSize, QMIWDASetDataFormatReq_body, sizeof_sQMUX, putByte, putLe16, putLe32, hlt, byteAt, le16At]
    all_goals omega
  · intro hn
    have hlt : ¬ buffSize < 21 := Nat.not_lt.mpr hn
    have h : 21 ≤ buf.length := by rw [hlen]; exact hn
    clear hlen
    iterate 21 (rcases buf with _ | ⟨_, buf⟩; simp at h)
    cases qosMode <;> cases dataModeRP <;>
      simp [QMICTLSetDataFormatReq, QMICTLSetDataFormatReqSize, QMICTLSetDataFormatReq_body, sizeof_sQMUX, putByte, putLe16, putLe32, hlt, byteAt, le16At]
  · intro hn
    have hlt : ¬ buffSize < 35 := Nat.not_lt.mpr hn
    have h : 35 ≤ buf.length := by rw [hlen]; exact hn
    clear hlen
    iterate 35 (rcases buf with _ | ⟨_, buf⟩; simp at h)
    simp [QMIWDSBindMuxDataPortReq, QMIWDSBindMuxDataPortReqSize, QMIWDSBindMuxDataPortReq_body, sizeof_sQMUX, putByte, putLe16, putLe32, hlt, byteAt, le16At]
    all_goals omega
  · intro hn
    have hlt : ¬ buffSize < 28 := Nat.not_lt.mpr hn
    have h : 28 ≤ buf.length := by rw [hlen]; exact hn
    clear hlen
    iterate 28 (rcases buf with _ | ⟨_, buf⟩; simp at h)
    simp [QMIWDSBindMuxDataPortPreReq, QMIWDSBindMuxDataPortPreReqSize, QMIWDSBindMuxDataPortPreReq_body, sizeof_sQMUX, putByte, putLe16, putLe32, hlt, byteAt, le16At]
    all_goals omega
  · intro hn
    have hlt : ¬ buffSize < 12 := Nat.not_lt.mpr hn
    have h : 12 ≤ buf.length := by rw [hlen]; exact hn
    clear hlen
    iterate 12 (rcases buf with _ | ⟨_, buf⟩; simp at h)
    simp [QMICTLSyncReq, QMICTLSyncReqSize, QMICTLSyncReq_body, sizeof_sQMUX, putByte, putLe16, putLe32, hlt, byteAt, le16At]

/-- C18, witness: every encoder on a buffer of 35 bytes. -/
theorem encoders_header_fields_witness :
    sampleBuffer.length = 35 ∧
    ((QMICTLGetClientIDReqSize ≤ 35 →
      ∃ b, (QMICTLGetClientIDReq (some sampleBuffer) 35 1 2).2 = some b ∧
        byteAt b 6 = 0 ∧ byteAt b 7 = 1 % 256 ∧ le16At b 8 = 0x0022) ∧
    (QMICTLReleaseClientIDReqSize ≤ 35 →
      ∃ b, (QMICTLReleaseClientIDReq (some sampleBuffer) 35 1 0x0304).2 = some b ∧
        byteAt b 6 = 0 ∧ byteAt b 7 = 1 % 256 ∧ le16At b 8 = 0x0023) ∧
    (QMICTLReadyReqSize ≤ 35 →
      ∃ b, (QMICTLReadyReq (some sampleBuffer) 35 1).2 = some b ∧
        byteAt b 6 = 0 ∧ byteAt b 7 = 1 % 256 ∧ le16At b 8 = 0x0021) ∧
    (QMIWDSSetEventReportReqSize ≤ 35 →
      ∃ b, (QMIWDSSetEventReportReq (some sampleBuffer) 35 1).2 = some b ∧
        byteAt b 6 = 0 ∧ le16At b 7 = 1 % 65536 ∧ le16At b 9 = 0x0001) ∧
    (QMIWDSGetPKGSRVCStatusReqSize ≤ 35 →
      ∃ b, (QMIWDSGetPKGSRVCStatusReq (some sampleBuffer) 35 1).2 = some b ∧
        byteAt b 6 = 0 ∧ le16At b 7 = 1 % 65536 ∧ le16At b 9 = 0x0022) ∧
    (QMIDMSGetMEIDReqSize ≤ 35 →
      ∃ b, (QMIDMSGetMEIDReq (some sampleBuffer) 35 1).2 = some b ∧
        byteAt b 6 = 0 ∧ le16At b 7 = 1 % 65536 ∧ le16At b 9 = 0x0025) ∧
    (QMIWDASetDataFormatReqSize ≤ 35 →
      ∃ b, (QMIWDASetDataFormatReq false true (some sampleBuffer) 35 1).2 = some b ∧
        byteAt b 6 = 0 ∧ le16At b 7 = 1 % 65536 ∧ le16At b 9 = 0x0020) ∧
    (QMICTLSetDataFormatReqSize ≤ 35 →
      ∃ b, (QMICTLSetDataFormatReq false true 0x10 (some sampleBuffer) 35 1).2 = some b ∧
        byteAt b 6 = 0 ∧ byteAt b 7 = 1 % 256 ∧ le16At b 8 = 0x0026) ∧
    (QMIWDSBindMuxDataPortReqSize ≤ 35 →
      ∃ b, (QMIWDSBindMuxDataPortReq (some sampleBuffer) 35 1).2 = some b ∧
        byteAt b 6 = 0 ∧ le16At b 7 = 1 % 65536 ∧ le16At b 9 = 0x00A2) ∧
    (QMIWDSBindMuxDataPortPreReqSize ≤ 35 →
      ∃ b, (QMIWDSBindMuxDataPortPreReq (some sampleBuffer) 35 1 1).2 = some b ∧
        byteAt b 6 = 0 ∧ le16At b 7 = 1 % 65536 ∧ le16At b 9 = 0x00A2) ∧
    (QMICTLSyncReqSize ≤ 35 →
      ∃ b, (QMICTLSyncReq (some sampleBuffer) 35 1).2 = some b ∧
        byteAt b 6 = 0 ∧ byteAt b 7 = 1 % 256 ∧ le16At b 8 = 0x0027)) :=
  ⟨rfl, encoders_header_fields false true 0x10 1 2 0x0304 1 35 sampleBuffer rfl⟩

/-- C19, counterexample: on a 16-byte buffer `QMICTLGetClientIDReq` stores 10 bytes, at
offsets 6 to 15, and returns 16, not 10. -/
theorem encoders_return_counterexample :
    QMICTLGetClientIDReq (some [9, 9, 9, 9, 9, 9, 9, 9, 9, 9, 9, 9, 9, 9, 9, 9]) 16 1 2
      = (16, some [9, 9, 9, 9, 9, 9, 0, 1, 0x22, 0, 4, 0, 1, 1, 0, 2]) ∧
    (QMICTLGetClientIDReq (some [9, 9, 9, 9, 9, 9, 9, 9, 9, 9, 9, 9, 9, 9, 9, 9]) 16 1 2).1
      ≠ 10 := by
  decide

/-- C19, amended: on success every encoder returns the size of the whole buffer it has
prepared: the six bytes of the QMUX header, which it leaves untouched, plus the number of
bytes of the request, which it stores from offset 6 on. -/
theorem encoders_return_total_size (qosMode dataModeRP : Bool)
    (TLV_TYPE_LINK_PROTO transactionID serviceType clientID index buffSize : Nat)
    (buf : List Nat)
    (hlen : buf.length = buffSize) :
    (QMICTLGetClientIDReqSize ≤ buffSize →
      (QMICTLGetClientIDReq (some buf) buffSize transactionID serviceType).1 = ((6 + (QMICTLGetClientIDReq_body transactionID serviceType).length : Nat) : Int) ∧
      ∃ b, (QMICTLGetClientIDReq (some buf) buffSize transactionID serviceType).2 = some b ∧ b.take 6 = buf.take 6 ∧
        (b.drop 6).take (QMICTLGetClientIDReq_body transactionID serviceType).length = QMICTLGetClientIDReq_body transactionID serviceType) ∧
    (QMICTLReleaseClientIDReqSize ≤ buffSize →
      (QMICTLReleaseClientIDReq (some buf) buffSize transactionID clientID).1 = ((6 + (QMICTLReleaseClientIDReq_body transactionID clientID).length : Nat) : Int) ∧
      ∃ b, (QMICTLReleaseClientIDReq (some buf) buffSize transactionID clientID).2 = some b ∧ b.take 6 = buf.take 6 ∧
        (b.drop 6).take (QMICTLReleaseClientIDReq_body transactionID clientID).length = QMICTLReleaseClientIDReq_body transactionID clientID) ∧
    (QMICTLReadyReqSize ≤ buffSize →
      (QMICTLReadyReq (some buf) buffSize transactionID).1 = ((6 + (QMICTLReadyReq_body transactionID).length : Nat) : Int) ∧
      ∃ b, (QMICTLReadyReq (some buf) buffSize transactionID).2 = some b ∧ b.take 6 = buf.take 6 ∧
        (b.drop 6).take (QMICTLReadyReq_body transactionID).length = QMICTLReadyReq_body transactionID) ∧
    (QMIWDSSetEventReportReqSize ≤ buffSize →
      (QMIWDSSetEventReportReq (some buf) buffSize transactionID).1 = ((6 + (QMIWDSSetEventReportReq_body transactionID).length : Nat) : Int) ∧
      ∃ b, (QMIWDSSetEventReportReq (some buf) buffSize transactionID).2 = some b ∧ b.take 6 = buf.take 6 ∧
        (b.drop 6).take (QMIWDSSetEventReportReq_body transactionID).length = QMIWDSSetEventReportReq_body transactionID) ∧
    (QMIWDSGetPKGSRVCStatusReqSize ≤ buffSize →
      (QMIWDSGetPKGSRVCStatusReq (some buf) buffSize transactionID).1 = ((6 + (QMIWDSGetPKGSRVCStatusReq_body transactionID).length : Nat) : Int) ∧
      ∃ b, (QMIWDSGetPKGSRVCStatusReq (some buf) buffSize transactionID).2 = some b ∧ b.take 6 = buf.take 6 ∧
        (b.drop 6).take (QMIWDSGetPKGSRVCStatusReq_body transactionID).length = QMIWDSGetPKGSRVCStatusReq_body transactionID) ∧
    (QMIDMSGetMEIDReqSize ≤ buffSize →
      (QMIDMSGetMEIDReq (some buf) buffSize transactionID).1 = ((6 + (QMIDMSGetMEIDReq_body transactionID).length : Nat) : Int) ∧
      ∃ b, (QMIDMSGetMEIDReq (some buf) buffSize transactionID).2 = some b ∧ b.take 6 = buf.take 6 ∧
        (b.drop 6).take (QMIDMSGetMEIDReq_body transactionID).length = QMIDMSGetMEIDReq_body transactionID) ∧
    (QMIWDASetDataFormatReqSize ≤ buffSize →
      (QMIWDASetDataFormatReq qosMode dataModeRP (some buf) buffSize transactionID).1 = ((6 + (QMIWDASetDataFormatReq_body qosMode dataModeRP transactionID).length : Nat) : Int) ∧
      ∃ b, (QMIWDASetDataFormatReq qosMode dataModeRP (some buf) buffSize transactionID).2 = some b ∧ b.take 6 = buf.take 6 ∧
        (b.drop 6).take (QMIWDASetDataFormatReq_body qosMode dataModeRP transactionID).length = QMIWDASetDataFormatReq_body qosMode dataModeRP transactionID) ∧
    (QMICTLSetDataFormatReqSize ≤ buffSize →
      (QMICTLSetDataFormatReq qosMode dataModeRP TLV_TYPE_LINK_PROTO (some buf) buffSize transactionID).1 = ((6 + (QMICTLSetDataFormatReq_body qosMode dataModeRP TLV_TYPE_LINK_PROTO transactionID).length : Nat) : Int) ∧
      ∃ b, (QMICTLSetDataFormatReq qosMode dataModeRP TLV_TYPE_LINK_PROTO (some buf) buffSize transactionID).2 = some b ∧ b.take 6 = buf.take 6 ∧
        (b.drop 6).take (QMICTLSetDataFormatReq_body qosMode dataModeRP TLV_TYPE_LINK_PROTO transactionID).length = QMICTLSetDataFormatReq_body qosMode dataModeRP TLV_TYPE_LINK_PROTO transactionID) ∧
    (QMIWDSBindMuxDataPortReqSize ≤ buffSize →
      (QMIWDSBindMuxDataPortReq (some buf) buffSize transactionID).1 = ((6 + (QMIWDSBindMuxDataPortReq_body transactionID).length : Nat) : Int) ∧
      ∃ b, (QMIWDSBindMuxDataPortReq (some buf) buffSize transactionID).2 = some b ∧ b.take 6 = buf.take 6 ∧
        (b.drop 6).take (QMIWDSBindMuxDataPortReq_body transactionID).length = QMIWDSBindMuxDataPortReq_body transactionID) ∧
    (QMIWDSBindMuxDataPortPreReqSize ≤ buffSize →
      (QMIWDSBindMuxDataPortPreReq (some buf) buffSize transactionID index).1 = ((6 + (QMIWDSBindMuxDataPortPreReq_body transactionID index).length : Nat) : Int) ∧
      ∃ b, (QMIWDSBindMuxDataPortPreReq (some buf) buffSize transactionID index).2 = some b ∧ b.take 6 = buf.take 6 ∧
        (b.drop 6).take (QMIWDSBindMuxDataPortPreReq_body transactionID index).length = QMIWDSBindMuxDataPortPreReq_body transactionID index) ∧
    (QMICTLSyncReqSize ≤ buffSize →
      (QMICTLSyncReq (some buf) buffSize transactionID).1 = ((6 + (QMICTLSyncReq_body transactionID).length : Nat) : Int) ∧
      ∃ b, (QMICTLSyncReq (some buf) buffSize transactionID).2 = some b ∧ b.take 6 = buf.take 6 ∧
        (b.drop 6).take (QMICTLSyncReq_body transactionID).length = QMICTLSyncReq_body transactionID) := by
  refine ⟨?_, ?_, ?_, ?_, ?_, ?_, ?_, ?_, ?_, ?_, ?_⟩
  · intro hn
    have hlt : ¬ buffSize < 16 := Nat.not_lt.mpr hn
    have h : 16 ≤ buf.length := by rw [hlen]; exact hn
    clear hlen
    iterate 16 (rcases buf with _ | ⟨_, buf⟩; simp at h)
    simp [QMICTLGetClientIDReq, QMICTLGetClientIDReqSize, QMICTLGetClientIDReq_body, sizeof_sQMUX, putByte, putLe16, putLe32, hlt]
  · intro hn
    have hlt : ¬ buffSize < 17 := Nat.not_lt.mpr hn
    have h : 17 ≤ buf.length := by rw [hlen]; exact hn
    clear hlen
    iterate 17 (rcases buf with _ | ⟨_, buf⟩; simp at h)
    simp [QMICTLReleaseClientIDReq, QMICTLReleaseClientIDReqSize, QMICTLReleaseClientIDReq_body, sizeof_sQMUX, putByte, putLe16, putLe32, hlt]
  · intro hn
    have hlt : ¬ buffSize < 12 := Nat.not_lt.mpr hn
    have h : 12 ≤ buf.length := by rw [hlen]; exact hn
    clear hlen
    iterate 12 (rcases buf with _ | ⟨_, buf⟩; simp at h)
    simp [QMICTLReadyReq, QMICTLReadyReqSize, QMICTLReadyReq_body, sizeof_sQMUX, putByte, putLe16, putLe32, hlt]
  · intro hn
    have hlt : ¬ buffSize < 21 := Nat.not_lt.mpr hn
    have h : 21 ≤ buf.length := by rw [hlen]; exact hn
    clear hlen
    iterate 21 (rcases buf with _ | ⟨_, buf⟩; simp at h)
    simp [QMIWDSSetEventReportReq, QMIWDSSetEventReportReqSize, QMIWDSSetEventReportReq_body, sizeof_sQMUX, putByte, putLe16, putLe32, hlt]
  · intro hn
    have hlt : ¬ buffSize < 13 := Nat.not_lt.mpr hn
    have h : 13 ≤ buf.length := by rw [hlen]; exact hn
    clear hlen
    iterate 13 (rcases buf with _ | ⟨_, buf⟩; simp at h)
    simp [QMIWDSGetPKGSRVCStatusReq, QMIWDSGetPKGSRVCStatusReqSize, QMIWDSGetPKGSRVCStatusReq_body, sizeof_sQMUX, putByte, putLe16, putLe32, hlt]
  · intro hn
    have hlt : ¬ buffSize < 13 := Nat.not_lt.mpr hn
    have h : 13 ≤ buf.length := by rw [hlen]; exact hn
    clear hlen
    iterate 13 (rcases buf with _ | ⟨_, buf⟩; simp at h)
    simp [QMIDMSGetMEIDReq, QMIDMSGetMEIDReqSize, QMIDMSGetMEIDReq_body, sizeof_sQMUX, putByte, putLe16, putLe32, hlt]
  · intro hn
    have hlt : ¬ buffSize < 31 := Nat.not_lt.mpr hn
    have h : 31 ≤ buf.length := by rw [hlen]; exact hn
    clear hlen
    iterate 31 (rcases buf with _ | ⟨_, buf⟩; simp at h)
    cases qosMode <;> cases dataModeRP <;>
      simp [QMIWDASetDataFormatReq, QMIWDASetDataFormatReqSize, QMIWDASetDataFormatReq_body, sizeof_sQMUX, putByte, putLe16, putLe32, hlt]
  · intro hn
    have hlt : ¬ buffSize < 21 := Nat.not_lt.mpr hn
    have h : 21 ≤ buf.length := by rw [hlen]; exact hn
    clear hlen
    iterate 21 (rcases buf with _ | ⟨_, buf⟩; simp at h)
    cases qosMode <;> cases dataModeRP <;>
      simp [QMICTLSetDataFormatReq, QMICTLSetDataFormatReqSize, QMICTLSetDataFormatReq_body, sizeof_sQMUX, putByte, putLe16, putLe32, hlt]
  · intro hn
    have hlt : ¬ buffSize < 35 := Nat.not_lt.mpr hn
    have h : 35 ≤ buf.length := by rw [hlen]; exact hn
    clear hlen
    iterate 35 (rcases buf with _ | ⟨_, buf⟩; simp at h)
    simp [QMIWDSBindMuxDataPortReq, QMIWDSBindMuxDataPortReqSize, QMIWDSBindMuxDataPortReq_body, sizeof_sQMUX, putByte, putLe16, putLe32, hlt]
  · intro hn
    have hlt : ¬ buffSize < 28 := Nat.not_lt.mpr hn
    have h : 28 ≤ buf.length := by rw [hlen]; exact hn
    clear hlen
    iterate 28 (rcases buf with _ | ⟨_, buf⟩; simp at h)
    simp [QMIWDSBindMuxDataPortPreReq, QMIWDSBindMuxDataPortPreReqSize, QMIWDSBindMuxDataPortPreReq_body, sizeof_sQMUX, putByte, putLe16, putLe32, hlt]
  · intro hn
    have hlt : ¬ buffSize < 12 := Nat.not_lt.mpr hn
    have h : 12 ≤ buf.length := by rw [hlen]; exact hn
    clear hlen
    iterate 12 (rcases buf with _ | ⟨_, buf⟩; simp at h)
    simp [QMICTLSyncReq, QMICTLSyncReqSize, QMICTLSyncReq_body, sizeof_sQMUX, putByte, putLe16, putLe32, hlt]

/-- C19, witness: every encoder on a buffer of 35 bytes. -/
theorem encoders_return_total_size_witness :
    sampleBuffer.length = 35 ∧
    ((QMICTLGetClientIDReqSize ≤ 35 →
      (QMICTLGetClientIDReq (some sampleBuffer) 35 1 2).1 = ((6 + (QMICTLGetClientIDReq_body 1 2).length : Nat) : Int) ∧
      ∃ b, (QMICTLGetClientIDReq (some sampleBuffer) 35 1 2).2 = some b ∧ b.take 6 = sampleBuffer.take 6 ∧
        (b.drop 6).take (QMICTLGetClientIDReq_body 1 2).length = QMICTLGetClientIDReq_body 1 2) ∧
    (QMICTLReleaseClientIDReqSize ≤ 35 →
      (QMICTLReleaseClientIDReq (some sampleBuffer) 35 1 0x0304).1 = ((6 + (QMICTLReleaseClientIDReq_body 1 0x0304).length : Nat) : Int) ∧
      ∃ b, (QMICTLReleaseClientIDReq (some sampleBuffer) 35 1 0x0304).2 = some b ∧ b.take 6 = sampleBuffer.take 6 ∧
        (b.drop 6).take (QMICTLReleaseClientIDReq_body 1 0x0304).length = QMICTLReleaseClientIDReq_body 1 0x0304) ∧
    (QMICTLReadyReqSize ≤ 35 →
      (QMICTLReadyReq (some sampleBuffer) 35 1).1 = ((6 + (QMICTLReadyReq_body 1).length : Nat) : Int) ∧
      ∃ b, (QMICTLReadyReq (some sampleBuffer) 35 1).2 = some b ∧ b.take 6 = sampleBuffer.take 6 ∧
        (b.drop 6).take (QMICTLReadyReq_body 1).length = QMICTLReadyReq_body 1) ∧
    (QMIWDSSetEventReportReqSize ≤ 35 →
      (QMIWDSSetEventReportReq (some sampleBuffer) 35 1).1 = ((6 + (QMIWDSSetEventReportReq_body 1).length : Nat) : Int) ∧
      ∃ b, (QMIWDSSetEventReportReq (some sampleBuffer) 35 1).2 = some b ∧ b.take 6 = sampleBuffer.take 6 ∧
        (b.drop 6).take (QMIWDSSetEventReportReq_body 1).length = QMIWDSSetEventReportReq_body 1) ∧
    (QMIWDSGetPKGSRVCStatusReqSize ≤ 35 →
      (QMIWDSGetPKGSRVCStatusReq (some sampleBuffer) 35 1).1 = ((6 + (QMIWDSGetPKGSRVCStatusReq_body 1).length : Nat) : Int) ∧
      ∃ b, (QMIWDSGetPKGSRVCStatusReq (some sampleBuffer) 35 1).2 = some b ∧ b.take 6 = sampleBuffer.take 6 ∧
        (b.drop 6).take (QMIWDSGetPKGSRVCStatusReq_body 1).length = QMIWDSGetPKGSRVCStatusReq_body 1) ∧
    (QMIDMSGetMEIDReqSize ≤ 35 →
      (QMIDMSGetMEIDReq (some sampleBuffer) 35 1).1 = ((6 + (QMIDMSGetMEIDReq_body 1).length : Nat) : Int) ∧
      ∃ b, (QMIDMSGetMEIDReq (some sampleBuffer) 35 1).2 = some b ∧ b.take 6 = sampleBuffer.take 6 ∧
        (b.drop 6).take (QMIDMSGetMEIDReq_body 1).length = QMIDMSGetMEIDReq_body 1) ∧
    (QMIWDASetDataFormatReqSize ≤ 35 →
      (QMIWDASetDataFormatReq false true (some sampleBuffer) 35 1).1 = ((6 + (QMIWDASetDataFormatReq_body false true 1).length : Nat) : Int) ∧
      ∃ b, (QMIWDASetDataFormatReq false true (some sampleBuffer) 35 1).2 = some b ∧ b.take 6 = sampleBuffer.take 6 ∧
        (b.drop 6).take (QMIWDASetDataFormatReq_body false true 1).length = QMIWDASetDataFormatReq_body false true 1) ∧
    (QMICTLSetDataFormatReqSize ≤ 35 →
      (QMICTLSetDataFormatReq false true 0x10 (some sampleBuffer) 35 1).1 = ((6 + (QMICTLSetDataFormatReq_body false true 0x10 1).length : Nat) : Int) ∧
      ∃ b, (QMICTLSetDataFormatReq false true 0x10 (some sampleBuffer) 35 1).2 = some b ∧ b.take 6 = sampleBuffer.take 6 ∧
        (b.drop 6).take (QMICTLSetDataFormatReq_body false true 0x10 1).length = QMICTLSetDataFormatReq_body false true 0x10 1) ∧
    (QMIWDSBindMuxDataPortReqSize ≤ 35 →
      (QMIWDSBindMuxDataPortReq (some sampleBuffer) 35 1).1 = ((6 + (QMIWDSBindMuxDataPortReq_body 1).length : Nat) : Int) ∧
      ∃ b, (QMIWDSBindMuxDataPortReq (some sampleBuffer) 35 1).2 = some b ∧ b.take 6 = sampleBuffer.take 6 ∧
        (b.drop 6).take (QMIWDSBindMuxDataPortReq_body 1).length = QMIWDSBindMuxDataPortReq_body 1) ∧
    (QMIWDSBindMuxDataPortPreReqSize ≤ 35 →
      (QMIWDSBindMuxDataPortPreReq (some sampleBuffer) 35 1 1).1 = ((6 + (QMIWDSBindMuxDataPortPreReq_body 1 1).length : Nat) : Int) ∧
      ∃ b, (QMIWDSBindMuxDataPortPreReq (some sampleBuffer) 35 1 1).2 = some b ∧ b.take 6 = sampleBuffer.take 6 ∧
        (b.drop 6).take (QMIWDSBindMuxDataPortPreReq_body 1 1).length = QMIWDSBindMuxDataPortPreReq_body 1 1) ∧
    (QMICTLSyncReqSize ≤ 35 →
      (QMICTLSyncReq (some sampleBuffer) 35 1).1 = ((6 + (QMICTLSyncReq_body 1).length : Nat) : Int) ∧
      ∃ b, (QMICTLSyncReq (some sampleBuffer) 35 1).2 = some b ∧ b.take 6 = sampleBuffer.take 6 ∧
        (b.drop 6).take (QMICTLSyncReq_body 1).length = QMICTLSyncReq_body 1)) :=
  ⟨rfl, encoders_return_total_size false true 0x10 1 2 0x0304 1 35 sampleBuffer rfl⟩

/-! ## ParseQMUX: sensitivity to the checked bytes -/

theorem byteAt_set_self (b : List Nat) (i v : Nat) (hi : i < b.length) (hv : v < 256) :
    byteAt (b.set i v) i = v := by
  unfold byteAt
  rw [List.getD_eq_getElem _ _ (by rw [List.length_set]; exact hi)]
  simp [Nat.mod_eq_of_lt hv]

theorem byteAt_set_ne (b : List Nat) (i j v : Nat) (hij : i ≠ j) :
    byteAt (b.set i v) j = byteAt b j := by
  unfold byteAt
  simp [List.getD_eq_getElem?_getD, List.getElem?_set_ne hij]

/-- C11: if `ParseQMUX` accepts a buffer of size `n ≥ 12` (it returns 6), then after any
one of bytes 0 (frame marker), 1, 2 (length) or 3 (control flag) is replaced by a different
byte value, `ParseQMUX` with the same size returns `-EINVAL` and writes no client handle. -/
theorem ParseQMUX_single_byte (pClientID n i v : Nat) (b : List Nat) (hlen : b.length = n)
    (h12 : 12 ≤ n) (hacc : (ParseQMUX pClientID (some b) n).1 = 6) (hi : i < 4)
    (hv : v < 256) (hdiff : v ≠ byteAt b i) :
    ParseQMUX pClientID (some (b.set i v)) n = (-EINVAL, pClientID) := by
  have hnot : ¬ n < 12 := Nat.not_lt.mpr h12
  have hok : byteAt b 0 = 1 ∧ le16At b 1 = n - 1 ∧ byteAt b 3 = 0x80 := by
    by_contra hc
    have hcond : byteAt b 0 ≠ 1 ∨ le16At b 1 ≠ n - 1 ∨ byteAt b 3 ≠ 0x80 := by
      by_contra hcc
      simp only [not_or, not_not] at hcc
      exact hc hcc
    simp [ParseQMUX, hnot, hcond, EINVAL] at hacc
  obtain ⟨h0, h1, h3⟩ := hok
  have hib : i < b.length := by omega
  have hcond : byteAt (b.set i v) 0 ≠ 1 ∨ le16At (b.set i v) 1 ≠ n - 1
      ∨ byteAt (b.set i v) 3 ≠ 0x80 := by
    unfold le16At at h1 ⊢
    simp only [Nat.reduceAdd] at h1 ⊢
    have hi4 : i = 0 ∨ i = 1 ∨ i = 2 ∨ i = 3 := by omega
    rcases hi4 with rfl | rfl | rfl | rfl
    · left
      rw [byteAt_set_self b 0 v hib hv]
      omega
    · right; left
      rw [byteAt_set_self b 1 v hib hv, byteAt_set_ne b 1 2 v (by decide)]
      omega
    · right; left
      rw [byteAt_set_self b 2 v hib hv, byteAt_set_ne b 2 1 v (by decide)]
      omega
    · right; right
      rw [byteAt_set_self b 3 v hib hv]
      omega
  simp only [ParseQMUX, if_neg hnot, if_pos hcond]

/-- C11, witness: the control flag of an accepted 12-byte frame is changed from 0x80 to 0. -/
theorem ParseQMUX_single_byte_witness :
    ParseQMUX 0 (some (([1, 11, 0, 0x80, 4, 3, 0, 0, 0, 0, 0, 0] : List Nat).set 3 0)) 12
      = (-EINVAL, 0) :=
  ParseQMUX_single_byte 0 12 3 0 [1, 11, 0, 0x80, 4, 3, 0, 0, 0, 0, 0, 0] rfl (by decide)
    (by decide) (by decide) (by decide) (by decide)

/-! ## QMICTLGetClientIDReq and QMICTLGetClientIDResp -/

/-- C14: for every transaction ID `t` and service type `s` (both `u8`) and every buffer of
size at least 16, `QMICTLGetClientIDReq` returns 16 and bytes 6 to 15 of the buffer become
`[0x00, t, 0x22, 0x00, 0x04, 0x00, 0x01, 0x01, 0x00, s]`; the other bytes are kept. -/
theorem QMICTLGetClientIDReq_bytes (t s n : Nat) (buf : List Nat) (ht : t < 256)
    (hs : s < 256) (hn : 16 ≤ n) (hlen : buf.length = n) :
    QMICTLGetClientIDReq (some buf) n t s
      = (16, some (buf.take 6 ++ [0x00, t, 0x22, 0x00, 0x04, 0x00, 0x01, 0x01, 0x00, s]
          ++ buf.drop 16)) := by
  rw [QMICTLGetClientIDReq_layout t s buf n hn (by rw [hlen]; exact hn)]
  simp [QMICTLGetClientIDReq_body, QMICTLGetClientIDReqSize, sizeof_sQMUX,
    Nat.mod_eq_of_lt ht, Nat.mod_eq_of_lt hs]

/-- C14, witness: transaction ID 1 and service type 2 (WDS) on a 16-byte buffer; the value
byte of the TLV, at offset 15, is 0x02. -/
theorem QMICTLGetClientIDReq_bytes_witness :
    QMICTLGetClientIDReq (some [9, 9, 9, 9, 9, 9, 9, 9, 9, 9, 9, 9, 9, 9, 9, 9]) 16 1 2
      = (16, some (([9, 9, 9, 9, 9, 9, 9, 9, 9, 9, 9, 9, 9, 9, 9, 9] : List Nat).take 6
          ++ [0x00, 1, 0x22, 0x00, 0x04, 0x00, 0x01, 0x01, 0x00, 2]
          ++ ([9, 9, 9, 9, 9, 9, 9, 9, 9, 9, 9, 9, 9, 9, 9, 9] : List Nat).drop 16)) :=
  QMICTLGetClientIDReq_bytes 1 2 16 [9, 9, 9, 9, 9, 9, 9, 9, 9, 9, 9, 9, 9, 9, 9, 9]
    (by decide) (by decide) (by decide) rfl

theorem GetQMIMessageID_eq (m : List Nat) (len : Nat) (h : 2 ≤ len) :
    GetQMIMessageID m len = (le16At m 0 : Nat) := by
  simp [GetQMIMessageID, Nat.not_lt.mpr h]

theorem GetQMIMessageID_ne (m : List Nat) (len id : Nat) (h : len < 2 ∨ le16At m 0 ≠ id) :
    GetQMIMessageID m len ≠ (id : Int) := by
  unfold GetQMIMessageID
  by_cases hl : len < 2
  · rw [if_pos hl]
    simp only [ENODATA]
    omega
  · rw [if_neg hl]
    rcases h with h | h
    · exact absurd h hl
    · exact_mod_cast h

/-- C16, counterexample: the 16-byte buffer made by `QMICTLGetClientIDReq` for transaction
ID 1 and service type 2, with the QMUX header of client handle 0x0304 written by `FillQMUX`,
is not decoded with result 0: `QMICTLGetClientIDResp` returns `-EFAULT` and leaves
`*pClientID` as it was. -/
theorem GetClientID_round_trip_counterexample :
    (FillQMUX 0x0304
        (QMICTLGetClientIDReq (some [0, 0, 0, 0, 0, 0, 0, 0, 0, 0, 0, 0, 0, 0, 0, 0]) 16 1 2).2
        16).2
      = some [1, 15, 0, 0, 4, 3, 0, 1, 0x22, 0, 4, 0, 1, 1, 0, 2] ∧
    QMICTLGetClientIDResp false true (some [1, 15, 0, 0, 4, 3, 0, 1, 0x22, 0, 4, 0, 1, 1, 0, 2]) 16
        (some [9, 9])
      = some (-EFAULT, some [9, 9]) ∧
    QMICTLGetClientIDResp false false (some [1, 15, 0, 0, 4, 3, 0, 1, 0x22, 0, 4, 0, 1, 1, 0, 2]) 16
        (some [9, 9])
      = some (-EFAULT, some [9, 9]) := by
  decide

/-- C16, amended: for every transaction ID `t` and service type `s`, the 16-byte buffer made
by `QMICTLGetClientIDReq`, with a QMUX header written into bytes 0 to 5 by `FillQMUX`, is
rejected by `QMICTLGetClientIDResp` with `-EFAULT` and `*pClientID` is unchanged, because a
request carries no result TLV 0x02; its body at offset 8 still has message ID 0x0022, and
`GetTLV` for type 0x01 with capacity 1 returns 1 and the service type `s`. -/
theorem GetClientID_request_rejected (bigEndian signedChar : Bool) (t s h x : Nat) (buf old : List Nat)
    (ht : t < 256) (hs : s < 256) (hlen : buf.length = 16) :
    ∃ m, (FillQMUX h (QMICTLGetClientIDReq (some buf) 16 t s).2 16).2 = some m ∧
      QMICTLGetClientIDResp bigEndian signedChar (some m) 16 (some old) = some (-EFAULT, some old) ∧
      GetQMIMessageID (m.drop 8) (16 - 8) = 0x22 ∧
      GetTLV (some (m.drop 8)) (16 - 8) 0x01 (some [x]) 1 = some (1, some [s]) := by
  have h16 : 16 ≤ buf.length := by omega
  iterate 16 (rcases buf with _ | ⟨_, buf⟩; simp at h16)
  have hnil : buf = [] := by
    simp only [List.length_cons] at hlen
    exact List.length_eq_zero.mp (by omega)
  subst hnil
  have hwf : wellFormedBody [0x22, 0, 4, 0, 1, 1, 0, s] [⟨0x01, [s]⟩] := by
    refine ⟨by simp, by simp, ?_, by simp [encodeTLVs, TLV.encode]⟩
    intro b hb
    simp only [List.mem_cons, List.mem_singleton, List.not_mem_nil, or_false] at hb
    rcases hb with rfl | rfl | rfl | rfl | rfl | rfl | rfl | rfl <;> omega
  have hvalid := ValidQMIMessage_wellFormed bigEndian signedChar _ _ hwf
  have hget := GetTLV_wellFormed _ _ 0x01 1 [x] hwf
  have hcopy := copyTLV_value [s] [x] (fun b hb => by simp at hb; omega) (by simp)
  simp only [List.length_cons, List.length_nil, Nat.reduceAdd] at hvalid hget hcopy
  have hmsg : GetQMIMessageID [0x22, 0, 4, 0, 1, 1, 0, s] 8 = 0x22 := by
    simp [GetQMIMessageID, le16At, byteAt]
  refine ⟨[1, 15, 0, 0, h % 256, h / 256 % 256, 0, t, 0x22, 0, 4, 0, 1, 1, 0, s], ?_, ?_, ?_, ?_⟩
  · simp [QMICTLGetClientIDReq, QMICTLGetClientIDReqSize, FillQMUX, sizeof_sQMUX, putByte,
      putLe16, Nat.mod_eq_of_lt ht, Nat.mod_eq_of_lt hs]
  · simp [QMICTLGetClientIDResp, sizeof_sQMUX, hmsg, hvalid, validRecords, firstTLV, ENOMSG]
  · simpa using hmsg
  · simpa [scanRecords, hcopy] using hget

/-- C16, witness: transaction ID 1, service type 2 and client handle 0x0304. -/
theorem GetClientID_request_rejected_witness :
    ∃ m, (FillQMUX 0x0304
        (QMICTLGetClientIDReq (some [0, 0, 0, 0, 0, 0, 0, 0, 0, 0, 0, 0, 0, 0, 0, 0]) 16 1 2).2
        16).2 = some m ∧
      QMICTLGetClientIDResp false true (some m) 16 (some [9, 9]) = some (-EFAULT, some [9, 9]) ∧
      GetQMIMessageID (m.drop 8) (16 - 8) = 0x22 ∧
      GetTLV (some (m.drop 8)) (16 - 8) 0x01 (some [7]) 1 = some (1, some [2]) :=
  GetClientID_request_rejected false true 1 2 0x0304 7 [0, 0, 0, 0, 0, 0, 0, 0, 0, 0, 0, 0, 0, 0, 0, 0]
    [9, 9] (by decide) (by decide) rfl

/-! ## The decoders: capacity and message ID checks -/

/-- C20, counterexample: `QMIDMSGetMEIDResp` on an 11-byte buffer, so that `buffSize ≥ 9`,
whose message ID at offsets 9-10 is 0x0099 and not 0x0025, called with `meidSize = 13`:
the result is `-ENOMEM`, not `-EFAULT`, because `meidSize < 14` is part of the first
check. -/
theorem decoders_checks_counterexample :
    ¬ (11 < 9) ∧ le16At (([1, 10, 0, 0x80, 2, 1, 0x80, 1, 0, 0x99, 0] : List Nat).drop 9) 0 ≠ 0x25 ∧
    QMIDMSGetMEIDResp false true (some [1, 10, 0, 0x80, 2, 1, 0x80, 1, 0, 0x99, 0]) 11 (some sampleBuffer) 13
      = some (-ENOMEM, some sampleBuffer) ∧
    QMIDMSGetMEIDResp false false (some [1, 10, 0, 0x80, 2, 1, 0x80, 1, 0, 0x99, 0]) 11 (some sampleBuffer) 13
      = some (-ENOMEM, some sampleBuffer) := by
  decide

/-- C20, amended: for each decoder with prefix offset `k` (8 for the three CTL decoders, 9
for the others) and every buffer, the decoder returns `-ENOMEM` when `buffSize < k`;
otherwise, provided `meidSize ≥ 14` for `QMIDMSGetMEIDResp` and the ten output pointers are
not null for `QMIWDSEventResp`, it returns `-EFAULT` whenever fewer than 2 bytes remain
after offset `k` or the `u16` little-endian value at offsets `k`, `k + 1` is not the
expected message ID; in both cases the caller outputs are unchanged. -/
theorem decoders_checks (bigEndian signedChar dataModeRP : Bool) (buf : List Nat) (buffSize : Nat)
    (pClientID pMEID : Ptr) (meidSize : Int) (a1 a2 a3 a4 a5 a6 a7 a8 : List Nat)
    (lk rc : Bool) (_hlen : buf.length = buffSize) :
    ((buffSize < 8 →
        QMICTLGetClientIDResp bigEndian signedChar (some buf) buffSize pClientID
          = some (-ENOMEM, pClientID)) ∧
      (8 ≤ buffSize → (buffSize - 8 < 2 ∨ le16At (buf.drop 8) 0 ≠ 0x22) →
        QMICTLGetClientIDResp bigEndian signedChar (some buf) buffSize pClientID
          = some (-EFAULT, pClientID))) ∧
    ((buffSize < 8 →
        QMICTLReleaseClientIDResp bigEndian signedChar (some buf) buffSize
          = some (-ENOMEM)) ∧
      (8 ≤ buffSize → (buffSize - 8 < 2 ∨ le16At (buf.drop 8) 0 ≠ 0x23) →
        QMICTLReleaseClientIDResp bigEndian signedChar (some buf) buffSize
          = some (-EFAULT))) ∧
    ((buffSize < 8 →
        QMICTLSyncResp bigEndian signedChar (some buf) buffSize
          = some (-ENOMEM)) ∧
      (8 ≤ buffSize → (buffSize - 8 < 2 ∨ le16At (buf.drop 8) 0 ≠ 0x27) →
        QMICTLSyncResp bigEndian signedChar (some buf) buffSize
          = some (-EFAULT))) ∧
    ((buffSize < 9 →
        QMIWDSEventResp bigEndian (some buf) buffSize
          (EventOutputs.mk (some a1) (some a2) (some a3) (some a4) (some a5) (some a6)
          (some a7) (some a8) (some lk) (some rc))
          = some (-ENOMEM,
          (EventOutputs.mk (some a1) (some a2) (some a3) (some a4) (some a5) (some a6)
          (some a7) (some a8) (some lk) (some rc)))) ∧
      (9 ≤ buffSize → (buffSize - 9 < 2 ∨ (le16At (buf.drop 9) 0 ≠ 0x01 ∧ le16At (buf.drop 9) 0 ≠ 0x22)) →
        QMIWDSEventResp bigEndian (some buf) buffSize
          (EventOutputs.mk (some a1) (some a2) (some a3) (some a4) (some a5) (some a6)
          (some a7) (some a8) (some lk) (some rc))
          = some (-EFAULT,
          (EventOutputs.mk (some a1) (some a2) (some a3) (some a4) (some a5) (some a6)
          (some a7) (some a8) (some lk) (some rc))))) ∧
    ((buffSize < 9 →
        QMIDMSGetMEIDResp bigEndian signedChar (some buf) buffSize pMEID meidSize
          = some (-ENOMEM, pMEID)) ∧
      (9 ≤ buffSize → 14 ≤ meidSize → (buffSize - 9 < 2 ∨ le16At (buf.drop 9) 0 ≠ 0x25) →
        QMIDMSGetMEIDResp bigEndian signedChar (some buf) buffSize pMEID meidSize
          = some (-EFAULT, pMEID))) ∧
    ((buffSize < 9 →
        QMIWDASetDataFormatResp bigEndian signedChar dataModeRP (some buf) buffSize
          = some (-ENOMEM)) ∧
      (9 ≤ buffSize → (buffSize - 9 < 2 ∨ le16At (buf.drop 9) 0 ≠ 0x20) →
        QMIWDASetDataFormatResp bigEndian signedChar dataModeRP (some buf) buffSize
          = some (-EFAULT))) ∧
    ((buffSize < 9 →
        QMIWDSBindMuxDataPortResp bigEndian signedChar (some buf) buffSize
          = some (-ENOMEM)) ∧
      (9 ≤ buffSize → (buffSize - 9 < 2 ∨ le16At (buf.drop 9) 0 ≠ 0xA2) →
        QMIWDSBindMuxDataPortResp bigEndian signedChar (some buf) buffSize
          = some (-EFAULT))) := by
  refine ⟨?_, ?_, ?_, ?_, ?_, ?_, ?_⟩
  · constructor
    · intro h
      simp [QMICTLGetClientIDResp, sizeof_sQMUX, h]
    · intro hk hbad
      have hlt : ¬ buffSize < 8 := Nat.not_lt.mpr hk
      have hid : GetQMIMessageID (buf.drop 8) (buffSize - 8) ≠ 0x22 := by
        simpa using GetQMIMessageID_ne (buf.drop 8) (buffSize - 8) 0x22 hbad
      simp [QMICTLGetClientIDResp, sizeof_sQMUX, hlt, hid]
  · constructor
    · intro h
      simp [QMICTLReleaseClientIDResp, sizeof_sQMUX, h]
    · intro hk hbad
      have hlt : ¬ buffSize < 8 := Nat.not_lt.mpr hk
      have hid : GetQMIMessageID (buf.drop 8) (buffSize - 8) ≠ 0x23 := by
        simpa using GetQMIMessageID_ne (buf.drop 8) (buffSize - 8) 0x23 hbad
      simp [QMICTLReleaseClientIDResp, sizeof_sQMUX, hlt, hid]
  · constructor
    · intro h
      simp [QMICTLSyncResp, sizeof_sQMUX, h]
    · intro hk hbad
      have hlt : ¬ buffSize < 8 := Nat.not_lt.mpr hk
      have hid : GetQMIMessageID (buf.drop 8) (buffSize - 8) ≠ 0x27 := by
        simpa using GetQMIMessageID_ne (buf.drop 8) (buffSize - 8) 0x27 hbad
      simp [QMICTLSyncResp, sizeof_sQMUX, hlt, hid]
  · constructor
    · intro h
      simp [QMIWDSEventResp, sizeof_sQMUX, h]
    · intro hk hbad
      have hlt : ¬ buffSize < 9 := Nat.not_lt.mpr hk
      have hid0 : GetQMIMessageID (buf.drop 9) (buffSize - 9) ≠ 0x01 := by
        simpa using GetQMIMessageID_ne (buf.drop 9) (buffSize - 9) 0x01
          (hbad.imp id (fun hh => hh.1))
      have hid1 : GetQMIMessageID (buf.drop 9) (buffSize - 9) ≠ 0x22 := by
        simpa using GetQMIMessageID_ne (buf.drop 9) (buffSize - 9) 0x22
          (hbad.imp id (fun hh => hh.2))
      simp [QMIWDSEventResp, sizeof_sQMUX, hlt, hid0, hid1]
  · constructor
    · intro h
      simp [QMIDMSGetMEIDResp, sizeof_sQMUX, h]
    · intro hk hms hbad
      have hlt : ¬ buffSize < 9 := Nat.not_lt.mpr hk
      have hid : GetQMIMessageID (buf.drop 9) (buffSize - 9) ≠ 0x25 := by
        simpa using GetQMIMessageID_ne (buf.drop 9) (buffSize - 9) 0x25 hbad
      simp [QMIDMSGetMEIDResp, sizeof_sQMUX, hlt, hid, Int.not_lt.mpr hms]
  · constructor
    · intro h
      simp [QMIWDASetDataFormatResp, sizeof_sQMUX, h]
    · intro hk hbad
      have hlt : ¬ buffSize < 9 := Nat.not_lt.mpr hk
      have hid : GetQMIMessageID (buf.drop 9) (buffSize - 9) ≠ 0x20 := by
        simpa using GetQMIMessageID_ne (buf.drop 9) (buffSize - 9) 0x20 hbad
      simp [QMIWDASetDataFormatResp, sizeof_sQMUX, hlt, hid]
  · constructor
    · intro h
      simp [QMIWDSBindMuxDataPortResp, sizeof_sQMUX, h]
    · intro hk hbad
      have hlt : ¬ buffSize < 9 := Nat.not_lt.mpr hk
      have hid : GetQMIMessageID (buf.drop 9) (buffSize - 9) ≠ 0xA2 := by
        simpa using GetQMIMessageID_ne (buf.drop 9) (buffSize - 9) 0xA2 hbad
      simp [QMIWDSBindMuxDataPortResp, sizeof_sQMUX, hlt, hid]

/-- C20, witness: an 11-byte buffer whose message ID at offsets 9-10 is 0x0099. -/
theorem decoders_checks_witness :
    ([1, 10, 0, 0x80, 2, 1, 0x80, 1, 0, 0x99, 0] : List Nat).length = 11 ∧
    (((11 < 8 →
        QMICTLGetClientIDResp false true (some ([1, 10, 0, 0x80, 2, 1, 0x80, 1, 0, 0x99, 0] : List Nat)) 11 (some [0, 0])
          = some (-ENOMEM, (some [0, 0]))) ∧
      (8 ≤ 11 → (11 - 8 < 2 ∨ le16At (([1, 10, 0, 0x80, 2, 1, 0x80, 1, 0, 0x99, 0] : List Nat).drop 8) 0 ≠ 0x22) →
        QMICTLGetClientIDResp false true (some ([1, 10, 0, 0x80, 2, 1, 0x80, 1, 0, 0x99, 0] : List Nat)) 11 (some [0, 0])
          = some (-EFAULT, (some [0, 0])))) ∧
    ((11 < 8 →
        QMICTLReleaseClientIDResp false true (some ([1, 10, 0, 0x80, 2, 1, 0x80, 1, 0, 0x99, 0] : List Nat)) 11
          = some (-ENOMEM)) ∧
      (8 ≤ 11 → (11 - 8 < 2 ∨ le16At (([1, 10, 0, 0x80, 2, 1, 0x80, 1, 0, 0x99, 0] : List Nat).drop 8) 0 ≠ 0x23) →
        QMICTLReleaseClientIDResp false true (some ([1, 10, 0, 0x80, 2, 1, 0x80, 1, 0, 0x99, 0] : List Nat)) 11
          = some (-EFAULT))) ∧
    ((11 < 8 →
        QMICTLSyncResp false true (some ([1, 10, 0, 0x80, 2, 1, 0x80, 1, 0, 0x99, 0] : List Nat)) 11
          = some (-ENOMEM)) ∧
      (8 ≤ 11 → (11 - 8 < 2 ∨ le16At (([1, 10, 0, 0x80, 2, 1, 0x80, 1, 0, 0x99, 0] : List Nat).drop 8) 0 ≠ 0x27) →
        QMICTLSyncResp false true (some ([1, 10, 0, 0x80, 2, 1, 0x80, 1, 0, 0x99, 0] : List Nat)) 11
          = some (-EFAULT))) ∧
    ((11 < 9 →
        QMIWDSEventResp false (some ([1, 10, 0, 0x80, 2, 1, 0x80, 1, 0, 0x99, 0] : List Nat)) 11
          (EventOutputs.mk (some [0, 0, 0, 0]) (some [0, 0, 0, 0]) (some [0, 0, 0, 0])
          (some [0, 0, 0, 0]) (some [0, 0, 0, 0]) (some [0, 0, 0, 0])
          (some [0, 0, 0, 0, 0, 0, 0, 0]) (some [0, 0, 0, 0, 0, 0, 0, 0]) (some false) (some false))
          = some (-ENOMEM,
          (EventOutputs.mk (some [0, 0, 0, 0]) (some [0, 0, 0, 0]) (some [0, 0, 0, 0])
          (some [0, 0, 0, 0]) (some [0, 0, 0, 0]) (some [0, 0, 0, 0])
          (some [0, 0, 0, 0, 0, 0, 0, 0]) (some [0, 0, 0, 0, 0, 0, 0, 0]) (some false) (some false)))) ∧
      (9 ≤ 11 → (11 - 9 < 2 ∨ (le16At (([1, 10, 0, 0x80, 2, 1, 0x80, 1, 0, 0x99, 0] : List Nat).drop 9) 0 ≠ 0x01 ∧ le16At (([1, 10, 0, 0x80, 2, 1, 0x80, 1, 0, 0x99, 0] : List Nat).drop 9) 0 ≠ 0x22)) →
        QMIWDSEventResp false (some ([1, 10, 0, 0x80, 2, 1, 0x80, 1, 0, 0x99, 0] : List Nat)) 11
          (EventOutputs.mk (some [0, 0, 0, 0]) (some [0, 0, 0, 0]) (some [0, 0, 0, 0])
          (some [0, 0, 0, 0]) (some [0, 0, 0, 0]) (some [0, 0, 0, 0])
          (some [0, 0, 0, 0, 0, 0, 0, 0]) (some [0, 0, 0, 0, 0, 0, 0, 0]) (some false) (some false))
          = some (-EFAULT,
          (EventOutputs.mk (some [0, 0, 0, 0]) (some [0, 0, 0, 0]) (some [0, 0, 0, 0])
          (some [0, 0, 0, 0]) (some [0, 0, 0, 0]) (some [0, 0, 0, 0])
          (some [0, 0, 0, 0, 0, 0, 0, 0]) (some [0, 0, 0, 0, 0, 0, 0, 0]) (some false) (some false))))) ∧
    ((11 < 9 →
        QMIDMSGetMEIDResp false true (some ([1, 10, 0, 0x80, 2, 1, 0x80, 1, 0, 0x99, 0] : List Nat)) 11 (some sampleBuffer) (14 : Int)
          = some (-ENOMEM, (some sampleBuffer))) ∧
      (9 ≤ 11 → 14 ≤ (14 : Int) → (11 - 9 < 2 ∨ le16At (([1, 10, 0, 0x80, 2, 1, 0x80, 1, 0, 0x99, 0] : List Nat).drop 9) 0 ≠ 0x25) →
        QMIDMSGetMEIDResp false true (some ([1, 10, 0, 0x80, 2, 1, 0x80, 1, 0, 0x99, 0] : List Nat)) 11 (some sampleBuffer) (14 : Int)
          = some (-EFAULT, (some sampleBuffer)))) ∧
    ((11 < 9 →
        QMIWDASetDataFormatResp false true false (some ([1, 10, 0, 0x80, 2, 1, 0x80, 1, 0, 0x99, 0] : List Nat)) 11
          = some (-ENOMEM)) ∧
      (9 ≤ 11 → (11 - 9 < 2 ∨ le16At (([1, 10, 0, 0x80, 2, 1, 0x80, 1, 0, 0x99, 0] : List Nat).drop 9) 0 ≠ 0x20) →
        QMIWDASetDataFormatResp false true false (some ([1, 10, 0, 0x80, 2, 1, 0x80, 1, 0, 0x99, 0] : List Nat)) 11
          = some (-EFAULT))) ∧
    ((11 < 9 →
        QMIWDSBindMuxDataPortResp false true (some ([1, 10, 0, 0x80, 2, 1, 0x80, 1, 0, 0x99, 0] : List Nat)) 11
          = some (-ENOMEM)) ∧
      (9 ≤ 11 → (11 - 9 < 2 ∨ le16At (([1, 10, 0, 0x80, 2, 1, 0x80, 1, 0, 0x99, 0] : List Nat).drop 9) 0 ≠ 0xA2) →
        QMIWDSBindMuxDataPortResp false true (some ([1, 10, 0, 0x80, 2, 1, 0x80, 1, 0, 0x99, 0] : List Nat)) 11
          = some (-EFAULT)))) :=
  ⟨rfl, decoders_checks false true false [1, 10, 0, 0x80, 2, 1, 0x80, 1, 0, 0x99, 0] 11 (some [0, 0]) (some sampleBuffer) 14
    [0, 0, 0, 0] [0, 0, 0, 0] [0, 0, 0, 0] [0, 0, 0, 0] [0, 0, 0, 0] [0, 0, 0, 0]
    [0, 0, 0, 0, 0, 0, 0, 0] [0, 0, 0, 0, 0, 0, 0, 0] false false rfl⟩

/-! ## Scanning a body that is followed by more memory -/

/-- The scan loop on a body made of encoded records that is followed in memory by further
bytes `T`, which lie past `messageLen`: the result is what `scanRecords` reads off the
records. -/
theorem GetTLV_loop_encode_tail (t cap : Nat) (out : List Nat) (recs : List TLV)
    (T : List Nat) :
    ∀ (A : List Nat) (fuel : Nat), isBytes (encodeTLVs recs) →
      A.length + (encodeTLVs recs).length ≤ 65535 → recs.length < fuel →
      GetTLV_loop (A ++ (encodeTLVs recs ++ T)) (A.length + (encodeTLVs recs).length) t out cap
          fuel A.length
        = some (scanRecords t cap out recs) := by
  induction recs with
  | nil =>
    intro A fuel _ _ hf
    obtain ⟨f, rfl⟩ : ∃ f, fuel = f + 1 := ⟨fuel - 1, by omega⟩
    simp [GetTLV_loop, encodeTLVs, scanRecords]
  | cons r rest ih =>
    intro A fuel hb hlen hf
    obtain ⟨f, rfl⟩ : ∃ f, fuel = f + 1 := ⟨fuel - 1, by omega⟩
    simp only [List.length_cons] at hf
    simp only [encodeTLVs, List.length_append, encode_length, List.append_assoc] at hb hlen ⊢
    obtain ⟨hbr, hbrest⟩ := (isBytes_append _ _).mp hb
    have hty : r.type < 256 := hbr _ (by simp [TLV.encode])
    have hvlen : r.value.length < 65536 := by omega
    rw [GetTLV_loop, byteAt_record_type A _ r hty, le16At_record_length A _ r hvlen]
    simp only [scanRecords]
    by_cases hlast : r.value = [] ∧ rest = []
    · obtain ⟨hv, hr⟩ := hlast
      simp [hv, hr, encodeTLVs]
    · have hpos : 0 < r.value.length + (encodeTLVs rest).length := by
        by_cases hv : r.value = []
        · have hr : rest ≠ [] := fun hr => hlast ⟨hv, hr⟩
          have h3 := encodeTLVs_length_ge rest
          have : 0 < rest.length := List.length_pos.mpr hr
          omega
        · have : 0 < r.value.length := List.length_pos.mpr hv
          omega
      have hguard : A.length + 3 < A.length + (r.value.length + 3 + (encodeTLVs rest).length) := by
        omega
      rw [if_pos hguard, if_neg hlast]
      by_cases hmatch : r.type = t
      · rw [if_pos hmatch, if_pos hmatch]
        by_cases hcap : cap < r.value.length
        · rw [if_pos hcap, if_pos hcap]
        · rw [if_neg hcap, if_neg hcap]
          rw [copyTLV_congr _ r.value (A.length + 3) 0 r.value.length out
            (fun c hc => byteAt_record_value A _ r c hc)]
      · rw [if_neg hmatch, if_neg hmatch]
        have hnext : (A.length + r.value.length + 3) % 65536 = (A ++ r.encode).length := by
          rw [List.length_append, encode_length]
          omega
        have happ : A ++ (r.encode ++ (encodeTLVs rest ++ T))
            = (A ++ r.encode) ++ (encodeTLVs rest ++ T) := by
          rw [List.append_assoc]
        have hL2 : A.length + (r.value.length + 3 + (encodeTLVs rest).length)
            = (A ++ r.encode).length + (encodeTLVs rest).length := by
          rw [List.length_append, encode_length]
          omega
        rw [hnext, hL2, happ]
        exact ih (A ++ r.encode) f hbrest (by rw [← hL2]; exact hlen) (by omega)

/-- On a well-formed body followed in memory by further bytes, `GetTLV` called with the
length of the body returns what `scanRecords` reads off the records. -/
theorem GetTLV_wellFormed_tail (body T : List Nat) (recs : List TLV) (t cap : Nat)
    (out : List Nat) (hwf : wellFormedBody body recs) :
    GetTLV (some (body ++ T)) body.length t (some out) cap
      = some ((scanRecords t cap out recs).1, some (scanRecords t cap out recs).2) := by
  obtain ⟨A, hA, hbody, hbytes⟩ := wellFormedBody_split body recs hwf
  obtain ⟨_, hL, _, _⟩ := hwf
  subst hbody
  rw [List.length_append] at hL
  have hn : recs.length < 65536 := by
    have h3 := encodeTLVs_length_ge recs
    omega
  have hloop := GetTLV_loop_encode_tail t cap out recs T A 65536 hbytes hL hn
  rw [hA] at hloop
  simp only [GetTLV, List.append_assoc, List.length_append, hA, hloop, Option.map_some']

theorem scanRecords_absent (t cap : Nat) (out : List Nat) (recs : List TLV)
    (h : firstTLV t recs = none) : scanRecords t cap out recs = (-ENOMSG, out) :=
  scanRecords_none t cap out recs ((firstTLV_eq_none t recs).mp h)

/-- The scan for a type whose first record has exactly `cap` bytes, for an output object of
`cap` bytes: the result is `cap` and the output holds the value of the record. -/
theorem scanRecords_exact (t cap : Nat) (out : List Nat) (recs : List TLV) (r : TLV)
    (h : firstTLV t recs = some r) (hlen : r.value.length = cap) (hout : out.length = cap)
    (hpos : 0 < cap) (hb : isBytes r.value) :
    scanRecords t cap out recs = ((cap : Int), r.value) := by
  rcases scanRecords_first t cap out recs r h with h1 | ⟨hnil, _⟩
  · rw [h1, if_neg (by omega), copyTLV_value r.value out hb (by omega), hlen,
      List.drop_eq_nil_of_le (Nat.le_of_eq hout), List.append_nil]
  · rw [hnil] at hlen
    simp at hlen
    omega

theorem isBytes_first (t : Nat) (body : List Nat) (recs : List TLV) (r : TLV)
    (hwf : wellFormedBody body recs) (h : firstTLV t recs = some r) : isBytes r.value := by
  obtain ⟨_, _, _, hbytes⟩ := wellFormedBody_split body recs hwf
  exact isBytes_value_of_mem recs r hbytes (firstTLV_mem t recs r h)

/-! ## GetQMIMessageID -/

/-- C26: `GetQMIMessageID` returns `-ENODATA` when `messageLen < 2`; otherwise it returns
`b[0] + 256 * b[1]`, a value between 0 and 65535. -/
theorem GetQMIMessageID_value (b : List Nat) (messageLen : Nat) :
    (messageLen < 2 → GetQMIMessageID b messageLen = -ENODATA) ∧
    (2 ≤ messageLen →
      GetQMIMessageID b messageLen = ((byteAt b 0 + 256 * byteAt b 1 : Nat) : Int) ∧
      0 ≤ GetQMIMessageID b messageLen ∧ GetQMIMessageID b messageLen ≤ 65535) := by
  have h0 : byteAt b 0 < 256 := Nat.mod_lt _ (by decide)
  have h1 : byteAt b 1 < 256 := Nat.mod_lt _ (by decide)
  constructor
  · intro h
    simp [GetQMIMessageID, h]
  · intro h
    rw [GetQMIMessageID_eq b messageLen h]
    have hle : le16At b 0 = byteAt b 0 + 256 * byteAt b 1 := rfl
    rw [hle]
    refine ⟨rfl, ?_, ?_⟩ <;> omega

/-- C26, witness: a one-byte body gives `-ENODATA`, the body `[0x22, 0x01]` gives 0x0122. -/
theorem GetQMIMessageID_value_witness :
    GetQMIMessageID [0x22] 1 = -ENODATA ∧
    (GetQMIMessageID [0x22, 0x01] 2
        = ((byteAt [0x22, 0x01] 0 + 256 * byteAt [0x22, 0x01] 1 : Nat) : Int) ∧
      0 ≤ GetQMIMessageID [0x22, 0x01] 2 ∧ GetQMIMessageID [0x22, 0x01] 2 ≤ 65535) :=
  ⟨(GetQMIMessageID_value [0x22] 1).1 (by decide),
    (GetQMIMessageID_value [0x22, 0x01] 2).2 (by decide)⟩

/-! ## QMUX header turned into a response header -/

theorem getD_set_ne (m : List Nat) (i j v : Nat) (hij : i ≠ j) :
    (m.set i v).getD j 0 = m.getD j 0 := by
  simp [List.getD_eq_getElem?_getD, List.getElem?_set_ne hij]

/-- C30: for every client handle `h` and buffer of size `n ≥ 12`, `FillQMUX` succeeds, and
once byte 3 (the control flag) of the buffer it leaves is set to 0x80, `ParseQMUX` with the
same `n` returns 6 and yields the client handle `h`; the buffer given to `ParseQMUX`
differs from the filled one in byte 3 only. -/
theorem QMUX_round_trip_control_flag (h pClientID n : Nat) (buf : List Nat) (hh : h < 65536)
    (hlen : buf.length = n) (h12 : 12 ≤ n) (hn : n < 65536) :
    ∃ m, FillQMUX h (some buf) n = (0, some m) ∧
      ParseQMUX pClientID (some (m.set 3 0x80)) n = (6, h) ∧
      ∀ i, i ≠ 3 → (m.set 3 0x80).getD i 0 = m.getD i 0 := by
  obtain ⟨a0, a1, a2, a3, a4, a5, rest, rfl⟩ := exists_six_cells buf (by omega)
  rw [FillQMUX_cells h n a0 a1 a2 a3 a4 a5 rest (by omega)]
  have hnot : ¬ n < 12 := Nat.not_lt.mpr h12
  have hlenfield : (n - 1) % 256 + 256 * ((n - 1) / 256 % 256) = n - 1 := by omega
  have hhandle : (h / 256 % 256 * 256 + h % 256) % 65536 = h := by omega
  refine ⟨_, rfl, ?_, fun i hi => getD_set_ne _ 3 i 0x80 (Ne.symm hi)⟩
  simp [ParseQMUX, hnot, byteAt, le16At, hlenfield, hhandle, sizeof_sQMUX]

/-- C30, witness: client handle 0x0304 and a 12-byte buffer. -/
theorem QMUX_round_trip_control_flag_witness :
    ∃ m, FillQMUX 0x0304 (some [0, 0, 0, 0, 0, 0, 0, 0, 0, 0, 0, 0]) 12 = (0, some m) ∧
      ParseQMUX 0 (some (m.set 3 0x80)) 12 = (6, 0x0304) ∧
      ∀ i, i ≠ 3 → (m.set 3 0x80).getD i 0 = m.getD i 0 :=
  QMUX_round_trip_control_flag 0x0304 0 12 [0, 0, 0, 0, 0, 0, 0, 0, 0, 0, 0, 0] (by decide) rfl
    (by decide) (by decide)

/-! ## QMIWDSEventResp -/

/-- The result of `QMIWDSEventResp` on an event report (message ID 0x0001) with a well-formed
body, in terms of `scanRecords` and of the conversions of the counters. -/
theorem QMIWDSEventResp_event_report_eq (bigEndian : Bool) (buf : List Nat) (recs : List TLV)
    (a1 a2 a3 a4 a5 a6 a7 a8 : List Nat) (lk rc : Bool) (h9 : 9 ≤ buf.length)
    (hwf : wellFormedBody (buf.drop 9) recs) (hid : le16At (buf.drop 9) 0 = 0x0001) :
    QMIWDSEventResp bigEndian (some buf) buf.length
      (EventOutputs.mk (some a1) (some a2) (some a3) (some a4) (some a5) (some a6) (some a7)
        (some a8) (some lk) (some rc))
      = some (0, EventOutputs.mk
          (convert32 bigEndian (some (scanRecords 0x10 4 a1 recs).2))
          (convert32 bigEndian (some (scanRecords 0x11 4 a2 recs).2))
          (convert32 bigEndian (some (scanRecords 0x12 4 a3 recs).2))
          (convert32 bigEndian (some (scanRecords 0x13 4 a4 recs).2))
          (convert32 bigEndian (some (scanRecords 0x14 4 a5 recs).2))
          (convert32 bigEndian (some (scanRecords 0x15 4 a6 recs).2))
          (convert64 bigEndian (some (scanRecords 0x19 8 a7 recs).2))
          (convert64 bigEndian (some (scanRecords 0x1A 8 a8 recs).2)) (some lk) (some rc)) := by
  have hlenb : (buf.drop 9).length = buf.length - 9 := List.length_drop 9 buf
  have h4 : 4 ≤ (buf.drop 9).length := hwf.1
  have hlt : ¬ buf.length < 9 := Nat.not_lt.mpr h9
  have hmsg : GetQMIMessageID (buf.drop 9) (buf.length - 9) = 0x01 := by
    rw [GetQMIMessageID_eq _ _ (by omega), hid]
    rfl
  have hget := fun t cap out => GetTLV_wellFormed (buf.drop 9) recs t cap out hwf
  rw [hlenb] at hget
  simp [QMIWDSEventResp, sizeof_sQMUX, hlt, hmsg, hget]

/-- What `QMIWDSEventResp` does on an event report on either host: for a buffer of at least 9
bytes whose body at offset 9 is well formed and has message ID 0x0001, with output pointers
to objects of the width of each counter, it returns 0 and leaves the link state and
reconfigure outputs as they were. On a little-endian host a counter whose TLV is absent is
left as it was, and a counter whose first TLV has exactly its width holds the value bytes of
the TLV. On a big-endian host the bytes of every counter are reversed after the call of
`GetTLV`, whether the TLV is present or absent. -/
theorem QMIWDSEventResp_event_report_host (bigEndian : Bool) (buf : List Nat) (recs : List TLV)
    (a1 a2 a3 a4 a5 a6 a7 a8 : List Nat) (lk rc : Bool) (h9 : 9 ≤ buf.length)
    (hwf : wellFormedBody (buf.drop 9) recs)
    (hid : le16At (buf.drop 9) 0 = 0x0001)
    (h1 : a1.length = 4) (h2 : a2.length = 4) (h3 : a3.length = 4) (h4 : a4.length = 4)
    (h5 : a5.length = 4) (h6 : a6.length = 4) (h7 : a7.length = 8) (h8 : a8.length = 8)
    (b1 : isBytes a1) (b2 : isBytes a2) (b3 : isBytes a3) (b4 : isBytes a4)
    (b5 : isBytes a5) (b6 : isBytes a6) (b7 : isBytes a7) (b8 : isBytes a8) :
    ∃ o, QMIWDSEventResp bigEndian (some buf) buf.length
      (EventOutputs.mk (some a1) (some a2) (some a3) (some a4) (some a5) (some a6) (some a7)
        (some a8) (some lk) (some rc))
      = some (0, o) ∧
    o.pbLinkState = some lk ∧ o.pbReconfigure = some rc ∧
    (firstTLV 0x10 recs = none → o.pTXOk = some (if bigEndian then a1.reverse else a1)) ∧
    (∀ r, firstTLV 0x10 recs = some r → r.value.length = 4 →
      o.pTXOk = some (if bigEndian then r.value.reverse else r.value)) ∧
    (firstTLV 0x11 recs = none → o.pRXOk = some (if bigEndian then a2.reverse else a2)) ∧
    (∀ r, firstTLV 0x11 recs = some r → r.value.length = 4 →
      o.pRXOk = some (if bigEndian then r.value.reverse else r.value)) ∧
    (firstTLV 0x12 recs = none → o.pTXErr = some (if bigEndian then a3.reverse else a3)) ∧
    (∀ r, firstTLV 0x12 recs = some r → r.value.length = 4 →
      o.pTXErr = some (if bigEndian then r.value.reverse else r.value)) ∧
    (firstTLV 0x13 recs = none → o.pRXErr = some (if bigEndian then a4.reverse else a4)) ∧
    (∀ r, firstTLV 0x13 recs = some r → r.value.length = 4 →
      o.pRXErr = some (if bigEndian then r.value.reverse else r.value)) ∧
    (firstTLV 0x14 recs = none → o.pTXOfl = some (if bigEndian then a5.reverse else a5)) ∧
    (∀ r, firstTLV 0x14 recs = some r → r.value.length = 4 →
      o.pTXOfl = some (if bigEndian then r.value.reverse else r.value)) ∧
    (firstTLV 0x15 recs = none → o.pRXOfl = some (if bigEndian then a6.reverse else a6)) ∧
    (∀ r, firstTLV 0x15 recs = some r → r.value.length = 4 →
      o.pRXOfl = some (if bigEndian then r.value.reverse else r.value)) ∧
    (firstTLV 0x19 recs = none → o.pTXBytesOk = some (if bigEndian then a7.reverse else a7)) ∧
    (∀ r, firstTLV 0x19 recs = some r → r.value.length = 8 →
      o.pTXBytesOk = some (if bigEndian then r.value.reverse else r.value)) ∧
    (firstTLV 0x1A recs = none → o.pRXBytesOk = some (if bigEndian then a8.reverse else a8)) ∧
    (∀ r, firstTLV 0x1A recs = some r → r.value.length = 8 →
      o.pRXBytesOk = some (if bigEndian then r.value.reverse else r.value)) := by
  have hstat32 : ∀ (t : Nat) (a : List Nat), a.length = 4 → isBytes a →
      (firstTLV t recs = none →
        convert32 bigEndian (some (scanRecords t 4 a recs).2)
          = some (if bigEndian then a.reverse else a)) ∧
      (∀ r, firstTLV t recs = some r → r.value.length = 4 →
        convert32 bigEndian (some (scanRecords t 4 a recs).2)
          = some (if bigEndian then r.value.reverse else r.value)) := by
    intro t a ha hb
    constructor
    · intro hnone
      rw [scanRecords_absent t 4 a recs hnone]
      exact convert32_bytes bigEndian a hb ha
    · intro r hr hlen
      have hrb := isBytes_first t _ recs r hwf hr
      rw [scanRecords_exact t 4 a recs r hr hlen ha (by decide) hrb]
      exact convert32_bytes bigEndian r.value hrb hlen
  have hstat64 : ∀ (t : Nat) (a : List Nat), a.length = 8 → isBytes a →
      (firstTLV t recs = none →
        convert64 bigEndian (some (scanRecords t 8 a recs).2)
          = some (if bigEndian then a.reverse else a)) ∧
      (∀ r, firstTLV t recs = some r → r.value.length = 8 →
        convert64 bigEndian (some (scanRecords t 8 a recs).2)
          = some (if bigEndian then r.value.reverse else r.value)) := by
    intro t a ha hb
    constructor
    · intro hnone
      rw [scanRecords_absent t 8 a recs hnone]
      exact convert64_bytes bigEndian a hb ha
    · intro r hr hlen
      have hrb := isBytes_first t _ recs r hwf hr
      rw [scanRecords_exact t 8 a recs r hr hlen ha (by decide) hrb]
      exact convert64_bytes bigEndian r.value hrb hlen
  refine ⟨_, QMIWDSEventResp_event_report_eq bigEndian buf recs a1 a2 a3 a4 a5 a6 a7 a8 lk rc
    h9 hwf hid, rfl, rfl, ?_⟩
  have s1 := hstat32 0x10 a1 h1 b1
  have s2 := hstat32 0x11 a2 h2 b2
  have s3 := hstat32 0x12 a3 h3 b3
  have s4 := hstat32 0x13 a4 h4 b4
  have s5 := hstat32 0x14 a5 h5 b5
  have s6 := hstat32 0x15 a6 h6 b6
  have s7 := hstat64 0x19 a7 h7 b7
  have s8 := hstat64 0x1A a8 h8 b8
  exact ⟨s1.1, s1.2, s2.1, s2.2, s3.1, s3.2, s4.1, s4.2, s5.1, s5.2, s6.1, s6.2, s7.1, s7.2,
    s8.1, s8.2⟩

/-- An event report on a little-endian host that carries TLV 0x10 (four bytes) and
TLV 0x19 (eight bytes) only: these two counters hold the value bytes of their TLV and the
other six are as they were. -/
theorem QMIWDSEventResp_event_report_host_example :
    QMIWDSEventResp false
        (some [1, 30, 0, 0x80, 1, 1, 0x04, 1, 0, 0x01, 0, 18, 0, 0x10, 4, 0, 1, 0, 0, 0,
          0x19, 8, 0, 1, 2, 3, 4, 5, 6, 7, 8]) 31
        (EventOutputs.mk (some [9, 0, 0, 0]) (some [9, 0, 0, 0]) (some [9, 0, 0, 0])
          (some [9, 0, 0, 0]) (some [9, 0, 0, 0]) (some [9, 0, 0, 0])
          (some [9, 0, 0, 0, 0, 0, 0, 0]) (some [9, 0, 0, 0, 0, 0, 0, 0]) (some false)
          (some false))
      = some (0, EventOutputs.mk (some [1, 0, 0, 0]) (some [9, 0, 0, 0]) (some [9, 0, 0, 0])
          (some [9, 0, 0, 0]) (some [9, 0, 0, 0]) (some [9, 0, 0, 0])
          (some [1, 2, 3, 4, 5, 6, 7, 8]) (some [9, 0, 0, 0, 0, 0, 0, 0]) (some false)
          (some false)) := by
  decide

/-- C21, failing input: a big-endian host and the 13-byte event report
`01 0C 00 80 01 01 04 01 00 01 00 00 00`, whose body is well formed, has message ID 0x0001
and carries no TLV at all. Every counter is passed through
`put_unaligned( le32_to_cpu( *p ), p )` (`le64_to_cpu` for the two byte counters) although
`GetTLV` has found nothing for it: `QMIWDSEventResp` returns 0 and the bytes of all eight
counters are reversed, so that `*pTXOk = 1` (memory `00 00 00 01`) becomes `0x01000000`
(memory `01 00 00 00`). The claim, and the comment of the function ("Return parameters will
only be updated if value was received"), say that the counters are left as they were, which
is what happens for the same call on a little-endian host. -/
theorem QMIWDSEventResp_absent_counters_converted :
    wellFormedBody (([1, 12, 0, 0x80, 1, 1, 0x04, 1, 0, 0x01, 0, 0, 0] : List Nat).drop 9) [] ∧
    le16At (([1, 12, 0, 0x80, 1, 1, 0x04, 1, 0, 0x01, 0, 0, 0] : List Nat).drop 9) 0 = 0x0001 ∧
    firstTLV 0x10 [] = none ∧
    QMIWDSEventResp true (some [1, 12, 0, 0x80, 1, 1, 0x04, 1, 0, 0x01, 0, 0, 0]) 13
        (EventOutputs.mk (some [0, 0, 0, 1]) (some [0, 0, 0, 2]) (some [0, 0, 0, 3])
          (some [0, 0, 0, 4]) (some [0, 0, 0, 5]) (some [0, 0, 0, 6])
          (some [0, 0, 0, 0, 0, 0, 0, 7]) (some [0, 0, 0, 0, 0, 0, 0, 8]) (some false)
          (some false))
      = some (0, EventOutputs.mk (some [1, 0, 0, 0]) (some [2, 0, 0, 0]) (some [3, 0, 0, 0])
          (some [4, 0, 0, 0]) (some [5, 0, 0, 0]) (some [6, 0, 0, 0])
          (some [7, 0, 0, 0, 0, 0, 0, 0]) (some [8, 0, 0, 0, 0, 0, 0, 0]) (some false)
          (some false)) ∧
    loadHost true 4 [0, 0, 0, 1] = 1 ∧ loadHost true 4 [1, 0, 0, 0] = 0x01000000 ∧
    QMIWDSEventResp false (some [1, 12, 0, 0x80, 1, 1, 0x04, 1, 0, 0x01, 0, 0, 0]) 13
        (EventOutputs.mk (some [0, 0, 0, 1]) (some [0, 0, 0, 2]) (some [0, 0, 0, 3])
          (some [0, 0, 0, 4]) (some [0, 0, 0, 5]) (some [0, 0, 0, 6])
          (some [0, 0, 0, 0, 0, 0, 0, 7]) (some [0, 0, 0, 0, 0, 0, 0, 8]) (some false)
          (some false))
      = some (0, EventOutputs.mk (some [0, 0, 0, 1]) (some [0, 0, 0, 2]) (some [0, 0, 0, 3])
          (some [0, 0, 0, 4]) (some [0, 0, 0, 5]) (some [0, 0, 0, 6])
          (some [0, 0, 0, 0, 0, 0, 0, 7]) (some [0, 0, 0, 0, 0, 0, 0, 8]) (some false)
          (some false)) := by
  decide

/-- The call of `GetTLV` made by `QMIWDSEventResp` for a packet service status message
(message ID 0x0022) with a well-formed body, in terms of `scanRecords`. -/
theorem QMIWDSEventResp_status_eq (bigEndian : Bool) (buf : List Nat) (recs : List TLV)
    (o : EventOutputs) (r : Int) (m : List Nat) (h9 : 9 ≤ buf.length)
    (hwf : wellFormedBody (buf.drop 9) recs) (hid : le16At (buf.drop 9) 0 = 0x0022)
    (ho : o.pTXOk ≠ none ∧ o.pRXOk ≠ none ∧ o.pTXErr ≠ none ∧ o.pRXErr ≠ none ∧
      o.pTXOfl ≠ none ∧ o.pRXOfl ≠ none ∧ o.pTXBytesOk ≠ none ∧ o.pRXBytesOk ≠ none ∧
      o.pbLinkState ≠ none ∧ o.pbReconfigure ≠ none)
    (hscan : scanRecords 0x01 2 [0, 0] recs = (r, m)) :
    QMIWDSEventResp bigEndian (some buf) buf.length o
      = if r < 0 then
          some (r, { o with
            pbLinkState := if 1 ≤ r then some (decide (byteAt m 0 = 0x02)) else o.pbLinkState,
            pbReconfigure :=
              if r = 2 then some (decide (byteAt m 1 = 0x01)) else o.pbReconfigure })
        else
          some (0, { o with
            pbLinkState := if 1 ≤ r then some (decide (byteAt m 0 = 0x02)) else o.pbLinkState,
            pbReconfigure :=
              if r = 2 then some (decide (byteAt m 1 = 0x01)) else o.pbReconfigure }) := by
  have hlenb : (buf.drop 9).length = buf.length - 9 := List.length_drop 9 buf
  have h4 : 4 ≤ (buf.drop 9).length := hwf.1
  have hlt : ¬ buf.length < 9 := Nat.not_lt.mpr h9
  have hmsg : GetQMIMessageID (buf.drop 9) (buf.length - 9) = 0x22 := by
    rw [GetQMIMessageID_eq _ _ (by omega), hid]
    rfl
  have hget := GetTLV_wellFormed (buf.drop 9) recs 0x01 2 [0, 0] hwf
  rw [hlenb, hscan] at hget
  obtain ⟨o1, o2, o3, o4, o5, o6, o7, o8, o9, o10⟩ := ho
  simp [QMIWDSEventResp, sizeof_sQMUX, hlt, hmsg, hget, o1, o2, o3, o4, o5, o6, o7, o8, o9, o10]

/-- C22, counterexample: a 13-byte buffer whose body has message ID 0x0022 and no TLV at
all, hence no TLV of type 0x01: `QMIWDSEventResp` returns `-ENOMSG` and not 0; the ten
outputs are untouched. -/
theorem QMIWDSEventResp_status_absent_counterexample :
    wellFormedBody (([1, 12, 0, 0x80, 1, 1, 0x04, 1, 0, 0x22, 0, 0, 0] : List Nat).drop 9) [] ∧
    le16At (([1, 12, 0, 0x80, 1, 1, 0x04, 1, 0, 0x22, 0, 0, 0] : List Nat).drop 9) 0 = 0x0022 ∧
    QMIWDSEventResp false (some [1, 12, 0, 0x80, 1, 1, 0x04, 1, 0, 0x22, 0, 0, 0]) 13 sampleOutputs
      = some (-ENOMSG, sampleOutputs) ∧
    QMIWDSEventResp false (some [1, 12, 0, 0x80, 1, 1, 0x04, 1, 0, 0x22, 0, 0, 0]) 13 sampleOutputs
      ≠ some (0, sampleOutputs) := by
  decide

/-- C22, amended: for a buffer of at least 9 bytes whose body at offset 9 is well formed,
has message ID 0x0022 and has no TLV of type 0x01, with output pointers that are not null,
`QMIWDSEventResp` returns `-ENOMSG`, the result of `GetTLV`, and leaves all ten outputs
untouched. -/
theorem QMIWDSEventResp_status_absent (bigEndian : Bool) (buf : List Nat) (recs : List TLV)
    (a1 a2 a3 a4 a5 a6 a7 a8 : List Nat) (lk rc : Bool) (h9 : 9 ≤ buf.length)
    (_hn : buf.length < 65536) (hwf : wellFormedBody (buf.drop 9) recs)
    (hid : le16At (buf.drop 9) 0 = 0x0022) (habs : ∀ x ∈ recs, x.type ≠ 0x01) :
    QMIWDSEventResp bigEndian (some buf) buf.length
      (EventOutputs.mk (some a1) (some a2) (some a3) (some a4) (some a5) (some a6) (some a7)
        (some a8) (some lk) (some rc))
      = some (-ENOMSG,
      (EventOutputs.mk (some a1) (some a2) (some a3) (some a4) (some a5) (some a6) (some a7)
        (some a8) (some lk) (some rc))) := by
  rw [QMIWDSEventResp_status_eq bigEndian buf recs _ (-ENOMSG) [0, 0] h9 hwf hid (by simp)
    (scanRecords_none 0x01 2 [0, 0] recs habs)]
  simp [ENOMSG]

/-- C22, witness: a packet service status message without any TLV. -/
theorem QMIWDSEventResp_status_absent_witness :
    QMIWDSEventResp false (some [1, 12, 0, 0x80, 1, 1, 0x04, 1, 0, 0x22, 0, 0, 0])
        ([1, 12, 0, 0x80, 1, 1, 0x04, 1, 0, 0x22, 0, 0, 0] : List Nat).length
        (EventOutputs.mk (some [0, 0, 0, 0]) (some [0, 0, 0, 0]) (some [0, 0, 0, 0])
          (some [0, 0, 0, 0]) (some [0, 0, 0, 0]) (some [0, 0, 0, 0])
          (some [0, 0, 0, 0, 0, 0, 0, 0]) (some [0, 0, 0, 0, 0, 0, 0, 0]) (some false)
          (some false))
      = some (-ENOMSG,
        EventOutputs.mk (some [0, 0, 0, 0]) (some [0, 0, 0, 0]) (some [0, 0, 0, 0])
          (some [0, 0, 0, 0]) (some [0, 0, 0, 0]) (some [0, 0, 0, 0])
          (some [0, 0, 0, 0, 0, 0, 0, 0]) (some [0, 0, 0, 0, 0, 0, 0, 0]) (some false)
          (some false)) :=
  QMIWDSEventResp_status_absent false [1, 12, 0, 0x80, 1, 1, 0x04, 1, 0, 0x22, 0, 0, 0] []
    [0, 0, 0, 0] [0, 0, 0, 0] [0, 0, 0, 0] [0, 0, 0, 0] [0, 0, 0, 0] [0, 0, 0, 0]
    [0, 0, 0, 0, 0, 0, 0, 0] [0, 0, 0, 0, 0, 0, 0, 0] false false
    (by decide) (by decide) (by decide) (by decide) (by decide)

/-- C27: for a buffer of at least 9 bytes whose body at offset 9 is well formed and has
message ID 0x0022, with output pointers that are not null, if the first TLV of type 0x01 has
the one-byte value `[b0]` then `QMIWDSEventResp` returns 0, sets the link state to
`b0 = 0x02` and leaves the reconfigure flag untouched; if it has the two-byte value
`[b0, b1]` then `QMIWDSEventResp` returns 0, sets the link state to `b0 = 0x02` and the
reconfigure flag to `b1 = 0x01`; the eight counters are untouched in both cases. -/
theorem QMIWDSEventResp_status (bigEndian : Bool) (buf : List Nat) (recs : List TLV) (r : TLV)
    (a1 a2 a3 a4 a5 a6 a7 a8 : List Nat) (lk rc : Bool) (h9 : 9 ≤ buf.length)
    (_hn : buf.length < 65536) (hwf : wellFormedBody (buf.drop 9) recs)
    (hid : le16At (buf.drop 9) 0 = 0x0022) (hfirst : firstTLV 0x01 recs = some r) :
    (∀ b0, r.value = [b0] →
      QMIWDSEventResp bigEndian (some buf) buf.length
      (EventOutputs.mk (some a1) (some a2) (some a3) (some a4) (some a5) (some a6) (some a7)
        (some a8) (some lk) (some rc))
        = some (0, EventOutputs.mk (some a1) (some a2) (some a3) (some a4) (some a5) (some a6)
            (some a7) (some a8) (some (decide (b0 = 0x02))) (some rc))) ∧
    (∀ b0 b1, r.value = [b0, b1] →
      QMIWDSEventResp bigEndian (some buf) buf.length
      (EventOutputs.mk (some a1) (some a2) (some a3) (some a4) (some a5) (some a6) (some a7)
        (some a8) (some lk) (some rc))
        = some (0, EventOutputs.mk (some a1) (some a2) (some a3) (some a4) (some a5) (some a6)
            (some a7) (some a8) (some (decide (b0 = 0x02))) (some (decide (b1 = 0x01))))) := by
  have hb := isBytes_first 0x01 _ recs r hwf hfirst
  have hscan := scanRecords_first 0x01 2 [0, 0] recs r hfirst
  constructor
  · intro b0 hv
    rw [hv] at hb hscan
    have hb0 : b0 < 256 := hb b0 (by simp)
    have hcopy := copyTLV_value [b0] [0, 0] hb (by simp)
    rcases hscan with h | ⟨hnil, _⟩
    · simp only [List.length_cons, List.length_nil] at h hcopy
      rw [hcopy] at h
      rw [QMIWDSEventResp_status_eq bigEndian buf recs _ _ _ h9 hwf hid (by simp) h]
      simp [byteAt, Nat.mod_eq_of_lt hb0]
    · simp at hnil
  · intro b0 b1 hv
    rw [hv] at hb hscan
    have hb0 : b0 < 256 := hb b0 (by simp)
    have hb1 : b1 < 256 := hb b1 (by simp)
    have hcopy := copyTLV_value [b0, b1] [0, 0] hb (by simp)
    rcases hscan with h | ⟨hnil, _⟩
    · simp only [List.length_cons, List.length_nil] at h hcopy
      rw [hcopy] at h
      rw [QMIWDSEventResp_status_eq bigEndian buf recs _ _ _ h9 hwf hid (by simp) h]
      simp [byteAt, Nat.mod_eq_of_lt hb0, Nat.mod_eq_of_lt hb1]
    · simp at hnil

/-- C27, witness: a packet service status message whose TLV 0x01 is `[0x02, 0x01]`:
connected, reconfiguration required. -/
theorem QMIWDSEventResp_status_witness :
    QMIWDSEventResp false (some [1, 17, 0, 0x80, 1, 1, 0x04, 1, 0, 0x22, 0, 5, 0, 0x01, 2, 0, 0x02, 0x01])
        ([1, 17, 0, 0x80, 1, 1, 0x04, 1, 0, 0x22, 0, 5, 0, 0x01, 2, 0, 0x02, 0x01] : List Nat).length
        (EventOutputs.mk (some [0, 0, 0, 0]) (some [0, 0, 0, 0]) (some [0, 0, 0, 0])
          (some [0, 0, 0, 0]) (some [0, 0, 0, 0]) (some [0, 0, 0, 0])
          (some [0, 0, 0, 0, 0, 0, 0, 0]) (some [0, 0, 0, 0, 0, 0, 0, 0]) (some false)
          (some false))
      = some (0, EventOutputs.mk (some [0, 0, 0, 0]) (some [0, 0, 0, 0]) (some [0, 0, 0, 0])
          (some [0, 0, 0, 0]) (some [0, 0, 0, 0]) (some [0, 0, 0, 0])
          (some [0, 0, 0, 0, 0, 0, 0, 0]) (some [0, 0, 0, 0, 0, 0, 0, 0])
          (some (decide (0x02 = 0x02))) (some (decide (0x01 = 0x01)))) :=
  (QMIWDSEventResp_status false
    [1, 17, 0, 0x80, 1, 1, 0x04, 1, 0, 0x22, 0, 5, 0, 0x01, 2, 0, 0x02, 0x01]
    [⟨0x01, [0x02, 0x01]⟩] ⟨0x01, [0x02, 0x01]⟩
    [0, 0, 0, 0] [0, 0, 0, 0] [0, 0, 0, 0] [0, 0, 0, 0] [0, 0, 0, 0] [0, 0, 0, 0]
    [0, 0, 0, 0, 0, 0, 0, 0] [0, 0, 0, 0, 0, 0, 0, 0] false false
    (by decide) (by decide) (by decide) (by decide) (by decide)).2 0x02 0x01 rfl

/-! ## Decoders that validate the result TLV -/

theorem validQMIMessage_drop (bigEndian signedChar : Bool) (buf : List Nat) (k : Nat) (recs : List TLV)
    (hwf : wellFormedBody (buf.drop k) recs) :
    ValidQMIMessage bigEndian signedChar (some (buf.drop k)) (buf.length - k)
      = some (validRecords bigEndian signedChar recs) := by
  rw [← List.length_drop k buf]
  exact ValidQMIMessage_wellFormed bigEndian signedChar _ recs hwf

theorem getTLV_drop (buf : List Nat) (k : Nat) (recs : List TLV) (t cap : Nat)
    (out : List Nat) (hwf : wellFormedBody (buf.drop k) recs) :
    GetTLV (some (buf.drop k)) (buf.length - k) t (some out) cap
      = some ((scanRecords t cap out recs).1, some (scanRecords t cap out recs).2) := by
  rw [← List.length_drop k buf]
  exact GetTLV_wellFormed _ recs t cap out hwf

theorem getQMIMessageID_drop (buf : List Nat) (k : Nat) (recs : List TLV)
    (hwf : wellFormedBody (buf.drop k) recs) :
    GetQMIMessageID (buf.drop k) (buf.length - k) = (le16At (buf.drop k) 0 : Nat) := by
  have h4 : 4 ≤ (buf.drop k).length := hwf.1
  rw [List.length_drop] at h4
  exact GetQMIMessageID_eq _ _ (by omega)

/-- The scan returns `cap` exactly when the first record of the type has `cap` bytes. -/
theorem scanRecords_fst_eq_iff (t cap : Nat) (out : List Nat) (recs : List TLV)
    (hpos : 0 < cap) :
    (scanRecords t cap out recs).1 = (cap : Int) ↔
      ∃ r, firstTLV t recs = some r ∧ r.value.length = cap := by
  cases hf : firstTLV t recs with
  | none =>
    rw [scanRecords_absent t cap out recs hf]
    simp only [ENOMSG, false_and, exists_false, iff_false, reduceCtorEq]
  | some r =>
    rcases scanRecords_first t cap out recs r hf with h | ⟨hnil, h⟩
    · rw [h]
      by_cases hlt : cap < r.value.length
      · rw [if_pos hlt]
        simp only [ENOMEM, Option.some.injEq, exists_eq_left']
        constructor
        · intro hc
          omega
        · intro hc
          omega
      · rw [if_neg hlt]
        simp only [Option.some.injEq, exists_eq_left']
        constructor
        · intro hc
          exact_mod_cast hc
        · intro hc
          exact_mod_cast hc
    · rw [h]
      simp only [ENOMSG, Option.some.injEq, exists_eq_left', hnil, List.length_nil]
      constructor
      · intro hc
        omega
      · intro hc
        omega

/-- The result of `QMIDMSGetMEIDResp` on a well-formed body, in terms of `validRecords` and
`scanRecords`. -/
theorem QMIDMSGetMEIDResp_eq (bigEndian signedChar : Bool) (buf : List Nat) (recs : List TLV)
    (old : List Nat) (meidSize : Int) (h9 : 9 ≤ buf.length)
    (hwf : wellFormedBody (buf.drop 9) recs) (hms : 14 ≤ meidSize) :
    QMIDMSGetMEIDResp bigEndian signedChar (some buf) buf.length (some old) meidSize
      = if GetQMIMessageID (buf.drop 9) (buf.length - 9) ≠ 0x25 then some (-EFAULT, some old)
        else if validRecords bigEndian signedChar recs ≠ 0 then some (-EFAULT, some old)
        else if (scanRecords 0x12 14 old recs).1 ≠ 14 then
          some (-EFAULT, some (scanRecords 0x12 14 old recs).2)
        else some (0, some (scanRecords 0x12 14 old recs).2) := by
  have hlt : ¬ buf.length < 9 := Nat.not_lt.mpr h9
  have hms2 : ¬ meidSize < 14 := Int.not_lt.mpr hms
  simp only [QMIDMSGetMEIDResp, sizeof_sQMUX, Nat.reduceAdd, hlt, hms2, or_self, if_false,
    validQMIMessage_drop bigEndian signedChar buf 9 recs hwf, getTLV_drop buf 9 recs 0x12 14 old hwf]

/-- What `QMIDMSGetMEIDResp` does when the scans of `GetTLV` end: for a buffer of at least 9
bytes it returns `-ENOMEM` when `meidSize < 14`. When `meidSize ≥ 14` and the body at offset
9 is well formed, it returns 0 if and only if the message ID of the body is 0x0025,
`ValidQMIMessage` of the body is 0 and the first TLV of type 0x12 has declared length
exactly 14, and then the first 14 bytes of the output are the value of that TLV; it returns
`-EFAULT` when the TLV of type 0x12 is absent, shorter or longer than 14 bytes. -/
theorem QMIDMSGetMEIDResp_strict (bigEndian signedChar : Bool) (buf : List Nat) (recs : List TLV)
    (old : List Nat) (meidSize : Int) (h9 : 9 ≤ buf.length) (_hn : buf.length < 65536)
    (hold : 14 ≤ old.length) :
    (meidSize < 14 →
      QMIDMSGetMEIDResp bigEndian signedChar (some buf) buf.length (some old) meidSize
        = some (-ENOMEM, some old)) ∧
    (14 ≤ meidSize → wellFormedBody (buf.drop 9) recs →
      ((∃ p, QMIDMSGetMEIDResp bigEndian signedChar (some buf) buf.length (some old) meidSize
            = some (0, p)) ↔
        (GetQMIMessageID (buf.drop 9) (buf.length - 9) = 0x25 ∧
          ValidQMIMessage bigEndian signedChar (some (buf.drop 9)) (buf.length - 9) = some 0 ∧
          ∃ r, firstTLV 0x12 recs = some r ∧ r.value.length = 14)) ∧
      (∀ r, firstTLV 0x12 recs = some r → r.value.length = 14 →
        ∀ p, QMIDMSGetMEIDResp bigEndian signedChar (some buf) buf.length (some old) meidSize
            = some (0, p) →
          p = some (r.value ++ old.drop 14)) ∧
      ((firstTLV 0x12 recs = none ∨ ∃ r, firstTLV 0x12 recs = some r ∧ r.value.length ≠ 14) →
        ∃ p, QMIDMSGetMEIDResp bigEndian signedChar (some buf) buf.length (some old) meidSize
          = some (-EFAULT, p))) := by
  constructor
  · intro hms
    have hlt : ¬ buf.length < 9 := Nat.not_lt.mpr h9
    simp [QMIDMSGetMEIDResp, sizeof_sQMUX, hms]
  · intro hms hwf
    have hiff := scanRecords_fst_eq_iff 0x12 14 old recs (by decide)
    rw [QMIDMSGetMEIDResp_eq bigEndian signedChar buf recs old meidSize h9 hwf hms,
      validQMIMessage_drop bigEndian signedChar buf 9 recs hwf]
    by_cases hm : GetQMIMessageID (buf.drop 9) (buf.length - 9) = 0x25
    · by_cases hv : validRecords bigEndian signedChar recs = 0
      · by_cases hs : (scanRecords 0x12 14 old recs).1 = 14
        · have hex := hiff.mp (by exact_mod_cast hs)
          simp only [hm, hv, hs, ne_eq, not_true_eq_false, if_false]
          refine ⟨?_, ?_, ?_⟩
          · exact ⟨fun _ => ⟨trivial, trivial, hex⟩, fun _ => ⟨_, rfl⟩⟩
          · intro r hr hlen p hp
            have hb := isBytes_first 0x12 _ recs r hwf hr
            rcases scanRecords_first 0x12 14 old recs r hr with h | ⟨hnil, _⟩
            · rw [h, if_neg (by omega), copyTLV_value r.value old hb (by omega), hlen] at hp
              simp only [Option.some.injEq, Prod.mk.injEq, true_and] at hp
              exact hp.symm
            · rw [hnil] at hlen
              simp at hlen
          · rintro (hnone | ⟨r, hr, hne⟩)
            · obtain ⟨r, hr, _⟩ := hex
              rw [hnone] at hr
              simp at hr
            · obtain ⟨r2, hr2, hl2⟩ := hex
              rw [hr] at hr2
              rw [Option.some.inj hr2] at hne
              exact absurd hl2 hne
        · have hnex : ¬ ∃ r, firstTLV 0x12 recs = some r ∧ r.value.length = 14 :=
            fun hex => hs (by exact_mod_cast hiff.mpr hex)
          simp only [hm, hv, hs, ne_eq, not_true_eq_false, not_false_eq_true, if_false,
            if_true]
          refine ⟨?_, ?_, ?_⟩
          · constructor
            · rintro ⟨p, hp⟩
              simp [EFAULT] at hp
            · rintro ⟨_, _, hex⟩
              exact absurd hex hnex
          · intro r hr hlen
            exact absurd ⟨r, hr, hlen⟩ hnex
          · exact fun _ => ⟨_, rfl⟩
      · have hv2 : ¬ ((some (validRecords bigEndian signedChar recs) : Option Int) = some 0) := by
          simpa using hv
        simp only [hm, hv, ne_eq, not_true_eq_false, not_false_eq_true, if_false, if_true]
        refine ⟨?_, ?_, ?_⟩
        · constructor
          · rintro ⟨p, hp⟩
            simp [EFAULT] at hp
          · rintro ⟨_, h2, _⟩
            exact absurd h2 hv2
        · intro r _ _ p hp
          simp [EFAULT] at hp
        · exact fun _ => ⟨_, rfl⟩
    · simp only [hm, ne_eq, not_false_eq_true, if_true]
      refine ⟨?_, ?_, ?_⟩
      · constructor
        · rintro ⟨p, hp⟩
          simp [EFAULT] at hp
        · rintro ⟨h1, _, _⟩
          exact h1.elim
      · intro r _ _ p hp
        simp [EFAULT] at hp
      · exact fun _ => ⟨_, rfl⟩

/-- An example for `QMIDMSGetMEIDResp_strict`: a response whose result TLV reports success
and whose TLV 0x12 has 14 bytes is decoded with result 0; the same call with `meidSize = 13`
returns `-ENOMEM`. -/
theorem QMIDMSGetMEIDResp_strict_example :
    (∃ p, QMIDMSGetMEIDResp false true
        (some [1, 36, 0, 0x80, 2, 1, 0x02, 1, 0, 0x25, 0, 24, 0, 0x02, 4, 0, 0, 0, 0, 0,
          0x12, 14, 0, 65, 49, 48, 48, 48, 48, 48, 48, 48, 48, 48, 48, 48, 49])
        ([1, 36, 0, 0x80, 2, 1, 0x02, 1, 0, 0x25, 0, 24, 0, 0x02, 4, 0, 0, 0, 0, 0,
          0x12, 14, 0, 65, 49, 48, 48, 48, 48, 48, 48, 48, 48, 48, 48, 48, 49] : List Nat).length
        (some [0, 0, 0, 0, 0, 0, 0, 0, 0, 0, 0, 0, 0, 0]) 14 = some (0, p)) ∧
    QMIDMSGetMEIDResp false true
        (some [1, 36, 0, 0x80, 2, 1, 0x02, 1, 0, 0x25, 0, 24, 0, 0x02, 4, 0, 0, 0, 0, 0,
          0x12, 14, 0, 65, 49, 48, 48, 48, 48, 48, 48, 48, 48, 48, 48, 48, 49])
        ([1, 36, 0, 0x80, 2, 1, 0x02, 1, 0, 0x25, 0, 24, 0, 0x02, 4, 0, 0, 0, 0, 0,
          0x12, 14, 0, 65, 49, 48, 48, 48, 48, 48, 48, 48, 48, 48, 48, 48, 49] : List Nat).length
        (some [0, 0, 0, 0, 0, 0, 0, 0, 0, 0, 0, 0, 0, 0]) 13
      = some (-ENOMEM, some [0, 0, 0, 0, 0, 0, 0, 0, 0, 0, 0, 0, 0, 0]) :=
  ⟨((QMIDMSGetMEIDResp_strict false true
      [1, 36, 0, 0x80, 2, 1, 0x02, 1, 0, 0x25, 0, 24, 0, 0x02, 4, 0, 0, 0, 0, 0,
        0x12, 14, 0, 65, 49, 48, 48, 48, 48, 48, 48, 48, 48, 48, 48, 48, 49]
      [⟨0x02, [0, 0, 0, 0]⟩, ⟨0x12, [65, 49, 48, 48, 48, 48, 48, 48, 48, 48, 48, 48, 48, 49]⟩]
      [0, 0, 0, 0, 0, 0, 0, 0, 0, 0, 0, 0, 0, 0] 14 (by decide) (by decide) (by decide)).2
      (by decide) (by decide)).1.mpr
      ⟨by decide, by decide, ⟨_, rfl, rfl⟩⟩,
    (QMIDMSGetMEIDResp_strict false true
      [1, 36, 0, 0x80, 2, 1, 0x02, 1, 0, 0x25, 0, 24, 0, 0x02, 4, 0, 0, 0, 0, 0,
        0x12, 14, 0, 65, 49, 48, 48, 48, 48, 48, 48, 48, 48, 48, 48, 48, 49]
      [⟨0x02, [0, 0, 0, 0]⟩, ⟨0x12, [65, 49, 48, 48, 48, 48, 48, 48, 48, 48, 48, 48, 48, 49]⟩]
      [0, 0, 0, 0, 0, 0, 0, 0, 0, 0, 0, 0, 0, 0] 13 (by decide) (by decide) (by decide)).1
      (by decide)⟩

/-- When the scan for the result TLV never ends, `ValidQMIMessage` never returns. -/
theorem ValidQMIMessage_of_scan_none (bigEndian signedChar : Bool) (p : Ptr) (n : Nat)
    (h : GetTLV p n 2 (some [0, 0, 0, 0]) 4 = none) :
    ValidQMIMessage bigEndian signedChar p n = none := by
  unfold ValidQMIMessage
  rw [h]

/-- When the scan that `ValidQMIMessage` starts never ends, `QMIDMSGetMEIDResp` never
returns. -/
theorem QMIDMSGetMEIDResp_scan_never_ends (bigEndian signedChar : Bool) (b : List Nat)
    (buffSize : Nat) (pMEID : Ptr) (meidSize : Int) (h9 : 9 ≤ buffSize) (hms : 14 ≤ meidSize)
    (hid : GetQMIMessageID (b.drop 9) (buffSize - 9) = 0x25)
    (hv : ValidQMIMessage bigEndian signedChar (some (b.drop 9)) (buffSize - 9) = none) :
    QMIDMSGetMEIDResp bigEndian signedChar (some b) buffSize pMEID meidSize = none := by
  have h1 : ¬ (buffSize < 6 + 3 ∨ meidSize < 14) := by omega
  have h2 : ¬ GetQMIMessageID (b.drop (6 + 3)) (buffSize - (6 + 3)) ≠ 0x25 :=
    fun hne => hne hid
  have hv2 : ValidQMIMessage bigEndian signedChar (some (b.drop (6 + 3))) (buffSize - (6 + 3))
      = none := hv
  unfold QMIDMSGetMEIDResp
  simp only [sizeof_sQMUX]
  rw [if_neg h1, if_neg h2, hv2]

/-- C23, failing input: the 17-byte buffer `01 10 00 80 02 01 02 01 00` followed by the body
`25 00 04 00 01 FD FF 00`, with `meidSize = 14`. The message ID of the body is 0x0025 and
no byte of the body is 0x12, so there is no MEID TLV and the claim says `-EFAULT`. The
record at position 4 has type 0x01 and declared length 65533: in the scan that
`ValidQMIMessage` starts for type 0x02 the `u16` position becomes
`(4 + 65533 + 3) mod 65536 = 4` again, the loop of `GetTLV` never ends whatever the fuel,
and `QMIDMSGetMEIDResp` never returns. The defect is the wrap of the `u16` position in the
scan loop of `GetTLV`. -/
theorem QMIDMSGetMEIDResp_never_returns :
    ([1, 16, 0, 0x80, 2, 1, 0x02, 1, 0, 0x25, 0, 4, 0, 0x01, 0xFD, 0xFF, 0] : List Nat).drop 9
      = [0x25, 0, 4, 0, 0x01, 0xFD, 0xFF, 0] ∧
    GetQMIMessageID [0x25, 0, 4, 0, 0x01, 0xFD, 0xFF, 0] 8 = 0x25 ∧
    (∀ b ∈ [0x25, 0, 4, 0, 0x01, 0xFD, 0xFF, 0], b ≠ 0x12) ∧
    (∀ fuel, GetTLV_loop [0x25, 0, 4, 0, 0x01, 0xFD, 0xFF, 0] 8 0x02 [0, 0, 0, 0] 4 fuel 4
      = none) ∧
    (∀ bigEndian signedChar,
      ValidQMIMessage bigEndian signedChar (some [0x25, 0, 4, 0, 0x01, 0xFD, 0xFF, 0]) 8
        = none) ∧
    (∀ bigEndian signedChar,
      QMIDMSGetMEIDResp bigEndian signedChar
          (some [1, 16, 0, 0x80, 2, 1, 0x02, 1, 0, 0x25, 0, 4, 0, 0x01, 0xFD, 0xFF, 0]) 17
          (some [0, 0, 0, 0, 0, 0, 0, 0, 0, 0, 0, 0, 0, 0]) 14
        = none) ∧
    (∀ bigEndian signedChar p,
      QMIDMSGetMEIDResp bigEndian signedChar
          (some [1, 16, 0, 0x80, 2, 1, 0x02, 1, 0, 0x25, 0, 4, 0, 0x01, 0xFD, 0xFF, 0]) 17
          (some [0, 0, 0, 0, 0, 0, 0, 0, 0, 0, 0, 0, 0, 0]) 14
        ≠ some (-EFAULT, p)) := by
  have h1 : byteAt [0x25, 0, 4, 0, 0x01, 0xFD, 0xFF, 0] 4 = 1 := by decide
  have h2 : le16At [0x25, 0, 4, 0, 0x01, 0xFD, 0xFF, 0] 5 = 65533 := by decide
  have hloop : ∀ fuel,
      GetTLV_loop [0x25, 0, 4, 0, 0x01, 0xFD, 0xFF, 0] 8 0x02 [0, 0, 0, 0] 4 fuel 4 = none := by
    intro fuel
    induction fuel with
    | zero => rfl
    | succ f ih =>
      rw [GetTLV_loop, h1, h2]
      simpa using ih
  have hget : GetTLV (some [0x25, 0, 4, 0, 0x01, 0xFD, 0xFF, 0]) 8 2 (some [0, 0, 0, 0]) 4
      = none := by
    simp only [GetTLV, hloop, Option.map_none']
  have hvalid : ∀ bigEndian signedChar,
      ValidQMIMessage bigEndian signedChar (some [0x25, 0, 4, 0, 0x01, 0xFD, 0xFF, 0]) 8
        = none := by
    intro bigEndian signedChar
    exact ValidQMIMessage_of_scan_none bigEndian signedChar _ 8 hget
  have hid : GetQMIMessageID [0x25, 0, 4, 0, 0x01, 0xFD, 0xFF, 0] 8 = 0x25 := by decide
  have hdec : ∀ bigEndian signedChar,
      QMIDMSGetMEIDResp bigEndian signedChar
          (some [1, 16, 0, 0x80, 2, 1, 0x02, 1, 0, 0x25, 0, 4, 0, 0x01, 0xFD, 0xFF, 0]) 17
          (some [0, 0, 0, 0, 0, 0, 0, 0, 0, 0, 0, 0, 0, 0]) 14
        = none := by
    intro bigEndian signedChar
    have hd : ([1, 16, 0, 0x80, 2, 1, 0x02, 1, 0, 0x25, 0, 4, 0, 0x01, 0xFD, 0xFF, 0]
        : List Nat).drop 9 = [0x25, 0, 4, 0, 0x01, 0xFD, 0xFF, 0] := rfl
    have hl : 17 - 9 = 8 := rfl
    apply QMIDMSGetMEIDResp_scan_never_ends bigEndian signedChar _ 17 _ 14 (by decide)
      (by decide)
    · rw [hd, hl]
      exact hid
    · rw [hd, hl]
      exact hvalid bigEndian signedChar
  refine ⟨rfl, hid, by decide, hloop, hvalid, hdec, ?_⟩
  intro bigEndian signedChar p
  rw [hdec bigEndian signedChar]
  simp

/-! ## The tolerant decoders -/

/-- A result TLV that is absent, not four bytes long, or reports a failure whose error code
is between 1 and 255 makes `ValidQMIMessage` return a value other than 0. -/
theorem validRecords_ne_zero (bigEndian signedChar : Bool) (recs : List TLV)
    (hbad : firstTLV 2 recs = none ∨ ∃ r, firstTLV 2 recs = some r ∧
      (r.value.length ≠ 4 ∨
        (le16At r.value 0 ≠ 0 ∧ 1 ≤ le16At r.value 2 ∧ le16At r.value 2 ≤ 255))) :
    validRecords bigEndian signedChar recs ≠ 0 := by
  unfold validRecords
  rcases hbad with hnone | ⟨r, hr, hlen | ⟨hres, h1, h255⟩⟩
  · rw [hnone]
    simp [ENOMSG]
  · rw [hr]
    simp [hlen, ENOMSG]
  · rw [hr]
    by_cases h4 : r.value.length = 4
    · have hb2 : byteAt r.value 2 < 256 := Nat.mod_lt _ (by decide)
      have hb3 : byteAt r.value 3 < 256 := Nat.mod_lt _ (by decide)
      have hle : le16At r.value 2 = byteAt r.value 2 + 256 * byteAt r.value 3 := rfl
      have hpos : 1 ≤ byteAt r.value 2 := by omega
      have hchar : 1 ≤ le16_to_cpu bigEndian (charToU16 signedChar (byteAt r.value 2)) := by
        have hne : charToU16 signedChar (byteAt r.value 2) ≠ 0 := by
          unfold charToU16
          split <;> omega
        have hz := le16_to_cpu_eq_zero_iff bigEndian _ (charToU16_lt signedChar _ hb2)
        have hne2 : le16_to_cpu bigEndian (charToU16 signedChar (byteAt r.value 2)) ≠ 0 :=
          fun h0 => hne (hz.mp h0)
        omega
      simp only [h4, hres, if_true, ne_eq, not_false_eq_true]
      exact_mod_cast Nat.ne_of_gt hchar
    · simp [h4, ENOMSG]

/-- C25, counterexample: a response to the bind mux data port request (message ID 0x00A2)
whose result TLV is `[1, 0, 0, 0]`, so that `qmi_result = 1` is not 0:
`QMIWDSBindMuxDataPortResp` returns 1, not 0. The same holds for `QMIWDASetDataFormatResp`
and message ID 0x0020 when a TLV 0x11 of four bytes follows. -/
theorem tolerant_decoders_counterexample :
    le16At [1, 0, 0, 0] 0 ≠ 0 ∧
    QMIWDSBindMuxDataPortResp false true
        (some [1, 19, 0, 0x80, 1, 1, 0x02, 1, 0, 0xA2, 0, 7, 0, 0x02, 4, 0, 1, 0, 0, 0]) 20
      = some 1 ∧
    QMIWDSBindMuxDataPortResp false false
        (some [1, 19, 0, 0x80, 1, 1, 0x02, 1, 0, 0xA2, 0, 7, 0, 0x02, 4, 0, 1, 0, 0, 0]) 20
      = some 1 ∧
    QMIWDASetDataFormatResp false true false
        (some [1, 26, 0, 0x80, 1, 1, 0x02, 1, 0, 0x20, 0, 14, 0, 0x02, 4, 0, 1, 0, 0, 0,
          0x11, 4, 0, 1, 0, 0, 0]) 27
      = some 1 := by
  decide

/-- C25, amended: for a buffer of at least 9 bytes whose body at offset 9 is well formed and
has message ID 0x0020 (for `QMIWDASetDataFormatResp`) or 0x00A2 (for
`QMIWDSBindMuxDataPortResp`), if the result TLV 0x02 is absent, has a length other than 4,
or reports `qmi_result ≠ 0` with a `qmi_error` between 1 and 255, the decoder returns 0. -/
theorem tolerant_decoders_return_zero (bigEndian signedChar dataModeRP : Bool) (buf : List Nat)
    (recs : List TLV) (h9 : 9 ≤ buf.length) (_hn : buf.length < 65536)
    (hwf : wellFormedBody (buf.drop 9) recs)
    (hbad : firstTLV 2 recs = none ∨ ∃ r, firstTLV 2 recs = some r ∧
      (r.value.length ≠ 4 ∨
        (le16At r.value 0 ≠ 0 ∧ 1 ≤ le16At r.value 2 ∧ le16At r.value 2 ≤ 255))) :
    (le16At (buf.drop 9) 0 = 0x0020 →
      QMIWDASetDataFormatResp bigEndian signedChar dataModeRP (some buf) buf.length = some 0) ∧
    (le16At (buf.drop 9) 0 = 0x00A2 →
      QMIWDSBindMuxDataPortResp bigEndian signedChar (some buf) buf.length = some 0) := by
  have hlt : ¬ buf.length < 9 := Nat.not_lt.mpr h9
  have hne := validRecords_ne_zero bigEndian signedChar recs hbad
  have hval := validQMIMessage_drop bigEndian signedChar buf 9 recs hwf
  have hmsg := getQMIMessageID_drop buf 9 recs hwf
  constructor
  · intro hid
    rw [hid] at hmsg
    simp [QMIWDASetDataFormatResp, sizeof_sQMUX, hlt, hmsg, hval, hne]
  · intro hid
    rw [hid] at hmsg
    simp [QMIWDSBindMuxDataPortResp, sizeof_sQMUX, hlt, hmsg, hval, hne]

/-- C25, witness: a response to the bind mux data port request whose result TLV reports
failure with error code 5. -/
theorem tolerant_decoders_return_zero_witness :
    QMIWDSBindMuxDataPortResp false true
        (some [1, 19, 0, 0x80, 1, 1, 0x02, 1, 0, 0xA2, 0, 7, 0, 0x02, 4, 0, 1, 0, 5, 0])
        ([1, 19, 0, 0x80, 1, 1, 0x02, 1, 0, 0xA2, 0, 7, 0, 0x02, 4, 0, 1, 0, 5, 0] : List Nat).length
      = some 0 :=
  (tolerant_decoders_return_zero false true false
    [1, 19, 0, 0x80, 1, 1, 0x02, 1, 0, 0xA2, 0, 7, 0, 0x02, 4, 0, 1, 0, 5, 0]
    [⟨0x02, [1, 0, 5, 0]⟩] (by decide) (by decide) (by decide)
    (Or.inr ⟨⟨0x02, [1, 0, 5, 0]⟩, rfl, Or.inr (by decide)⟩)).2 (by decide)

/-! ## QMICTLSyncResp -/

/-- C28, counterexample: a sync response (message ID 0x0027) whose result TLV is
`[1, 0, 0, 0]` reports a failure (`qmi_result = 1`), and `QMICTLSyncResp` returns 0, the
value of `ValidQMIMessage`, which is not positive; so it is on either host byte order and
for either signedness of `char`. -/
theorem QMICTLSyncResp_counterexample :
    le16At [1, 0, 0, 0] 0 ≠ 0 ∧
    QMICTLSyncResp false true
        (some [1, 18, 0, 0x80, 0, 0, 0x01, 1, 0x27, 0, 7, 0, 0x02, 4, 0, 1, 0, 0, 0]) 19
      = some 0 ∧
    QMICTLSyncResp false false
        (some [1, 18, 0, 0x80, 0, 0, 0x01, 1, 0x27, 0, 7, 0, 0x02, 4, 0, 1, 0, 0, 0]) 19
      = some 0 ∧
    QMICTLSyncResp true true
        (some [1, 18, 0, 0x80, 0, 0, 0x01, 1, 0x27, 0, 7, 0, 0x02, 4, 0, 1, 0, 0, 0]) 19
      = some 0 ∧
    QMICTLSyncResp true false
        (some [1, 18, 0, 0x80, 0, 0, 0x01, 1, 0x27, 0, 7, 0, 0x02, 4, 0, 1, 0, 0, 0]) 19
      = some 0 := by
  decide

/-- C28, amended: for a buffer of at least 8 bytes whose body at offset 8 is well formed and
has message ID 0x0027, `QMICTLSyncResp` returns exactly `ValidQMIMessage` of the body
(offset 8, length `buffSize - 8`): `-ENOMSG` when the result TLV is absent or not four bytes
long, 0 when it reports success, and, when it reports a failure whose `qmi_error` is between
1 and 127, a positive value, distinct from the negative errors `-ENOMEM` and `-EFAULT`,
which on a little-endian host is that error code. -/
theorem QMICTLSyncResp_passes_validation (bigEndian signedChar : Bool) (buf : List Nat)
    (recs : List TLV) (h8 : 8 ≤ buf.length) (_hn : buf.length < 65536)
    (hwf : wellFormedBody (buf.drop 8) recs) (hid : le16At (buf.drop 8) 0 = 0x0027) :
    QMICTLSyncResp bigEndian signedChar (some buf) buf.length
      = ValidQMIMessage bigEndian signedChar (some (buf.drop 8)) (buf.length - 8) ∧
    ((firstTLV 2 recs = none ∨ ∃ r, firstTLV 2 recs = some r ∧ r.value.length ≠ 4) →
      QMICTLSyncResp bigEndian signedChar (some buf) buf.length = some (-ENOMSG)) ∧
    (∀ r, firstTLV 2 recs = some r → r.value.length = 4 → le16At r.value 0 = 0 →
      QMICTLSyncResp bigEndian signedChar (some buf) buf.length = some 0) ∧
    (∀ r, firstTLV 2 recs = some r → r.value.length = 4 → le16At r.value 0 ≠ 0 →
      1 ≤ le16At r.value 2 → le16At r.value 2 ≤ 127 →
      ∃ v : Int, QMICTLSyncResp bigEndian signedChar (some buf) buf.length = some v ∧
        0 < v ∧ v ≠ -ENOMEM ∧ v ≠ -EFAULT ∧
        (bigEndian = false → v = ((le16At r.value 2 : Nat) : Int))) := by
  have hlt : ¬ buf.length < 8 := Nat.not_lt.mpr h8
  have hval := validQMIMessage_drop bigEndian signedChar buf 8 recs hwf
  have hmsg := getQMIMessageID_drop buf 8 recs hwf
  rw [hid] at hmsg
  have hpass : QMICTLSyncResp bigEndian signedChar (some buf) buf.length
      = ValidQMIMessage bigEndian signedChar (some (buf.drop 8)) (buf.length - 8) := by
    simp [QMICTLSyncResp, sizeof_sQMUX, hlt, hmsg]
  rw [hpass, hval]
  refine ⟨rfl, ?_, ?_, ?_⟩
  · rintro (hnone | ⟨r, hr, hlen⟩)
    · simp [validRecords, hnone]
    · simp [validRecords, hr, hlen]
  · intro r hr h4 hres
    simp [validRecords, hr, h4, hres]
  · intro r hr h4 hres h1 h127
    have hb2 : byteAt r.value 2 < 256 := Nat.mod_lt _ (by decide)
    have hb3 : byteAt r.value 3 < 256 := Nat.mod_lt _ (by decide)
    have hle : le16At r.value 2 = byteAt r.value 2 + 256 * byteAt r.value 3 := rfl
    have h3 : byteAt r.value 3 = 0 := by omega
    have hchar : charToU16 signedChar (byteAt r.value 2) = le16At r.value 2 := by
      have hlt128 : ¬ 128 ≤ byteAt r.value 2 := by omega
      simp [charToU16, hlt128, hle, h3]
    have hvr : validRecords bigEndian signedChar recs
        = ((le16_to_cpu bigEndian (le16At r.value 2) : Nat) : Int) := by
      simp [validRecords, hr, h4, hres, hchar]
    rw [hvr]
    refine ⟨_, rfl, ?_, ?_, ?_, ?_⟩
    · cases bigEndian
      · rw [le16_to_cpu_little _ (by omega)]
        omega
      · rw [le16_to_cpu_big _ (by omega)]
        omega
    · simp only [ENOMEM]
      omega
    · simp only [EFAULT]
      omega
    · intro hbe
      rw [hbe, le16_to_cpu_little _ (by omega)]

/-- C28, witness: a sync response whose result TLV reports failure with error code 5, on a
little-endian host. -/
theorem QMICTLSyncResp_passes_validation_witness :
    ∃ v : Int, QMICTLSyncResp false true
        (some [1, 18, 0, 0x80, 0, 0, 0x01, 1, 0x27, 0, 7, 0, 0x02, 4, 0, 1, 0, 5, 0])
        ([1, 18, 0, 0x80, 0, 0, 0x01, 1, 0x27, 0, 7, 0, 0x02, 4, 0, 1, 0, 5, 0] : List Nat).length
      = some v ∧
    0 < v ∧ v ≠ -ENOMEM ∧ v ≠ -EFAULT ∧
    (false = false → v = ((le16At (TLV.mk 0x02 [1, 0, 5, 0]).value 2 : Nat) : Int)) :=
  (QMICTLSyncResp_passes_validation false true
    [1, 18, 0, 0x80, 0, 0, 0x01, 1, 0x27, 0, 7, 0, 0x02, 4, 0, 1, 0, 5, 0]
    [⟨0x02, [1, 0, 5, 0]⟩] (by decide) (by decide) (by decide) (by decide)).2.2.2
    ⟨0x02, [1, 0, 5, 0]⟩ rfl rfl (by decide) (by decide) (by decide)

/-! ## Reading back what the encoders write -/

theorem drop_layout (pre body post : List Nat) (k : Nat) (hpre : pre.length = 6) :
    (pre ++ body ++ post).drop (6 + k) = (body ++ post).drop k := by
  rw [List.append_assoc, ← hpre, List.drop_append]

/-- For a well-formed body followed by further memory, whose records are `pre ++ r :: post`
with no record of the type of `r` in `pre` and with `r` not empty, `GetTLV` for the type of
`r`, with a capacity and an output object of the size of the value of `r`, returns that size
and the value of `r`. -/
theorem GetTLV_found (body T : List Nat) (pre : List TLV) (r : TLV) (post : List TLV)
    (out : List Nat) (hwf : wellFormedBody body (pre ++ r :: post))
    (hpre : ∀ x ∈ pre, x.type ≠ r.type) (hne : r.value ≠ [])
    (hout : out.length = r.value.length) :
    GetTLV (some (body ++ T)) body.length r.type (some out) r.value.length
      = some ((r.value.length : Int), some r.value) := by
  have hb : isBytes r.value := by
    obtain ⟨_, _, _, hbytes⟩ := wellFormedBody_split body _ hwf
    exact isBytes_value_of_mem _ r hbytes (by simp)
  have hlast : ¬ (r.value = [] ∧ post = []) := fun h => hne h.1
  rw [GetTLV_wellFormed_tail body T _ r.type r.value.length out hwf,
    scanRecords_skip r.type r.value.length out pre (r :: post) hpre (List.cons_ne_nil _ _),
    scanRecords, if_neg hlast, if_pos rfl, if_neg (Nat.lt_irrefl _),
    copyTLV_value r.value out hb (Nat.le_of_eq hout.symm),
    List.drop_eq_nil_of_le (Nat.le_of_eq hout), List.append_nil]

/-- C29: for each of the eleven encoders and all parameters, in the buffer left by a
successful call, the body that starts after the QMUX header and the flag and transaction
ID (offset 8 for the CTL encoders, 9 for the others) and ends at the returned size has the
message ID of the encoder according to `GetQMIMessageID`, and for each TLV that the encoder
wrote, `GetTLV` with the type of the TLV, a capacity and an output object of its length
returns that length and the written value. For `QMICTLSetDataFormatReq` the macro
`TLV_TYPE_LINK_PROTO` is a byte other than 0x01, the type of the first TLV. -/
theorem encoders_read_back (qosMode dataModeRP : Bool)
    (TLV_TYPE_LINK_PROTO transactionID serviceType clientID index buffSize : Nat)
    (buf : List Nat)
    (hlen : buf.length = buffSize) (hlp : TLV_TYPE_LINK_PROTO < 256)
    (hlp1 : TLV_TYPE_LINK_PROTO ≠ 0x01) :
    (QMICTLGetClientIDReqSize ≤ buffSize →
      ∃ b, (QMICTLGetClientIDReq (some buf) buffSize transactionID serviceType).2 = some b ∧
        GetQMIMessageID (b.drop 8) (QMICTLGetClientIDReqSize - 8) = 0x0022 ∧
        (∀ out : List Nat, out.length = 1 →
          GetTLV (some (b.drop 8)) (QMICTLGetClientIDReqSize - 8) 0x01 (some out) 1
            = some (1, some [serviceType % 256]))) ∧
    (QMICTLReleaseClientIDReqSize ≤ buffSize →
      ∃ b, (QMICTLReleaseClientIDReq (some buf) buffSize transactionID clientID).2 = some b ∧
        GetQMIMessageID (b.drop 8) (QMICTLReleaseClientIDReqSize - 8) = 0x0023 ∧
        (∀ out : List Nat, out.length = 2 →
          GetTLV (some (b.drop 8)) (QMICTLReleaseClientIDReqSize - 8) 0x01 (some out) 2
            = some (2, some [clientID % 256, clientID / 256 % 256]))) ∧
    (QMICTLReadyReqSize ≤ buffSize →
      ∃ b, (QMICTLReadyReq (some buf) buffSize transactionID).2 = some b ∧
        GetQMIMessageID (b.drop 8) (QMICTLReadyReqSize - 8) = 0x0021) ∧
    (QMIWDSSetEventReportReqSize ≤ buffSize →
      ∃ b, (QMIWDSSetEventReportReq (some buf) buffSize transactionID).2 = some b ∧
        GetQMIMessageID (b.drop 9) (QMIWDSSetEventReportReqSize - 9) = 0x0001 ∧
        (∀ out : List Nat, out.length = 5 →
          GetTLV (some (b.drop 9)) (QMIWDSSetEventReportReqSize - 9) 0x11 (some out) 5
            = some (5, some [0x01, 0xff, 0, 0, 0]))) ∧
    (QMIWDSGetPKGSRVCStatusReqSize ≤ buffSize →
      ∃ b, (QMIWDSGetPKGSRVCStatusReq (some buf) buffSize transactionID).2 = some b ∧
        GetQMIMessageID (b.drop 9) (QMIWDSGetPKGSRVCStatusReqSize - 9) = 0x0022) ∧
    (QMIDMSGetMEIDReqSize ≤ buffSize →
      ∃ b, (QMIDMSGetMEIDReq (some buf) buffSize transactionID).2 = some b ∧
        GetQMIMessageID (b.drop 9) (QMIDMSGetMEIDReqSize - 9) = 0x0025) ∧
    (QMIWDASetDataFormatReqSize ≤ buffSize →
      ∃ b, (QMIWDASetDataFormatReq qosMode dataModeRP (some buf) buffSize transactionID).2 = some b ∧
        GetQMIMessageID (b.drop 9) (QMIWDASetDataFormatReqSize - 9) = 0x0020 ∧
        (∀ out : List Nat, out.length = 1 →
          GetTLV (some (b.drop 9)) (QMIWDASetDataFormatReqSize - 9) 0x10 (some out) 1
            = some (1, some [(if qosMode then 1 else 0)])) ∧
        (∀ out : List Nat, out.length = 4 →
          GetTLV (some (b.drop 9)) (QMIWDASetDataFormatReqSize - 9) 0x11 (some out) 4
            = some (4, some [(if dataModeRP then 2 else 1), 0, 0, 0])) ∧
        (∀ out : List Nat, out.length = 4 →
          GetTLV (some (b.drop 9)) (QMIWDASetDataFormatReqSize - 9) 0x13 (some out) 4
            = some (4, some [0, 0, 0, 0]))) ∧
    (QMICTLSetDataFormatReqSize ≤ buffSize →
      ∃ b, (QMICTLSetDataFormatReq qosMode dataModeRP TLV_TYPE_LINK_PROTO (some buf) buffSize transactionID).2 = some b ∧
        GetQMIMessageID (b.drop 8) (QMICTLSetDataFormatReqSize - 8) = 0x0026 ∧
        (∀ out : List Nat, out.length = 1 →
          GetTLV (some (b.drop 8)) (QMICTLSetDataFormatReqSize - 8) 0x01 (some out) 1
            = some (1, some [(if qosMode then 1 else 0)])) ∧
        (∀ out : List Nat, out.length = 2 →
          GetTLV (some (b.drop 8)) (QMICTLSetDataFormatReqSize - 8) TLV_TYPE_LINK_PROTO (some out) 2
            = some (2, some [(if dataModeRP then 2 else 1), 0]))) ∧
    (QMIWDSBindMuxDataPortReqSize ≤ buffSize →
      ∃ b, (QMIWDSBindMuxDataPortReq (some buf) buffSize transactionID).2 = some b ∧
        GetQMIMessageID (b.drop 9) (QMIWDSBindMuxDataPortReqSize - 9) = 0x00A2 ∧
        (∀ out : List Nat, out.length = 8 →
          GetTLV (some (b.drop 9)) (QMIWDSBindMuxDataPortReqSize - 9) 0x10 (some out) 8
            = some (8, some [5, 0, 0, 0, 8, 0, 0, 0])) ∧
        (∀ out : List Nat, out.length = 1 →
          GetTLV (some (b.drop 9)) (QMIWDSBindMuxDataPortReqSize - 9) 0x11 (some out) 1
            = some (1, some [0])) ∧
        (∀ out : List Nat, out.length = 4 →
          GetTLV (some (b.drop 9)) (QMIWDSBindMuxDataPortReqSize - 9) 0x13 (some out) 4
            = some (4, some [1, 0, 0, 0]))) ∧
    (QMIWDSBindMuxDataPortPreReqSize ≤ buffSize →
      ∃ b, (QMIWDSBindMuxDataPortPreReq (some buf) buffSize transactionID index).2 = some b ∧
        GetQMIMessageID (b.drop 9) (QMIWDSBindMuxDataPortPreReqSize - 9) = 0x00A2 ∧
        (∀ out : List Nat, out.length = 8 →
          GetTLV (some (b.drop 9)) (QMIWDSBindMuxDataPortPreReqSize - 9) 0x10 (some out) 8
            = some (8, some [5, 0, 0, 0, 0, 0, 0, 0])) ∧
        (∀ out : List Nat, out.length = 1 →
          GetTLV (some (b.drop 9)) (QMIWDSBindMuxDataPortPreReqSize - 9) 0x11 (some out) 1
            = some (1, some [index % 256]))) ∧
    (QMICTLSyncReqSize ≤ buffSize →
      ∃ b, (QMICTLSyncReq (some buf) buffSize transactionID).2 = some b ∧
        GetQMIMessageID (b.drop 8) (QMICTLSyncReqSize - 8) = 0x0027) := by
  have hlpmod : TLV_TYPE_LINK_PROTO % 256 = TLV_TYPE_LINK_PROTO := Nat.mod_eq_of_lt hlp
  have hlp1s : (1 : Nat) ≠ TLV_TYPE_LINK_PROTO := Ne.symm hlp1
  refine ⟨?_, ?_, ?_, ?_, ?_, ?_, ?_, ?_, ?_, ?_, ?_⟩
  · intro hn
    have hbuf : QMICTLGetClientIDReqSize ≤ buf.length := by rw [hlen]; exact hn
    have h6 : 6 ≤ buf.length := by
      simp only [QMICTLGetClientIDReqSize, sizeof_sQMUX] at hbuf
      omega
    have hpre : (buf.take 6).length = 6 := by rw [List.length_take]; omega
    rw [QMICTLGetClientIDReq_layout transactionID serviceType buf buffSize hn hbuf]
    have hdrop : (buf.take 6 ++ QMICTLGetClientIDReq_body transactionID serviceType ++ buf.drop QMICTLGetClientIDReqSize).drop 8
        = [0x22, 0, 4, 0, 0x01, 1, 0, serviceType % 256]
          ++ buf.drop QMICTLGetClientIDReqSize := by
      have hd := drop_layout (buf.take 6) (QMICTLGetClientIDReq_body transactionID serviceType) (buf.drop QMICTLGetClientIDReqSize) 2 hpre
      simpa [QMICTLGetClientIDReq_body, hlpmod] using hd
    have hwf : wellFormedBody [0x22, 0, 4, 0, 0x01, 1, 0, serviceType % 256]
        ([⟨0x01, [serviceType % 256]⟩] : List TLV) := by
      refine ⟨by simp, by simp, ?_, by simp [encodeTLVs, TLV.encode]⟩
      intro x hx
      simp only [List.mem_cons, List.mem_singleton, List.not_mem_nil, or_false] at hx
      omega
    refine ⟨_, rfl, ?_, ?_⟩
    · rw [hdrop]
      simp [GetQMIMessageID, QMICTLGetClientIDReqSize, sizeof_sQMUX, le16At, byteAt]
    · intro out hout
      rw [hdrop]
      have hf := GetTLV_found _ (buf.drop QMICTLGetClientIDReqSize)
        ([] : List TLV) ⟨0x01, [serviceType % 256]⟩ ([] : List TLV) out hwf
        (by simp [hlp1, hlp1s]) (by simp) (by simpa using hout)
      simpa [QMICTLGetClientIDReqSize, sizeof_sQMUX] using hf
  · intro hn
    have hbuf : QMICTLReleaseClientIDReqSize ≤ buf.length := by rw [hlen]; exact hn
    have h6 : 6 ≤ buf.length := by
      simp only [QMICTLReleaseClientIDReqSize, sizeof_sQMUX] at hbuf
      omega
    have hpre : (buf.take 6).length = 6 := by rw [List.length_take]; omega
    rw [QMICTLReleaseClientIDReq_layout transactionID clientID buf buffSize hn hbuf]
    have hdrop : (buf.take 6 ++ QMICTLReleaseClientIDReq_body transactionID clientID ++ buf.drop QMICTLReleaseClientIDReqSize).drop 8
        = [0x23, 0, 5, 0, 0x01, 2, 0, clientID % 256, clientID / 256 % 256]
          ++ buf.drop QMICTLReleaseClientIDReqSize := by
      have hd := drop_layout (buf.take 6) (QMICTLReleaseClientIDReq_body transactionID clientID) (buf.drop QMICTLReleaseClientIDReqSize) 2 hpre
      simpa [QMICTLReleaseClientIDReq_body, hlpmod] using hd
    have hwf : wellFormedBody [0x23, 0, 5, 0, 0x01, 2, 0, clientID % 256, clientID / 256 % 256]
        ([⟨0x01, [clientID % 256, clientID / 256 % 256]⟩] : List TLV) := by
      refine ⟨by simp, by simp, ?_, by simp [encodeTLVs, TLV.encode]⟩
      intro x hx
      simp only [List.mem_cons, List.mem_singleton, List.not_mem_nil, or_false] at hx
      omega
    refine ⟨_, rfl, ?_, ?_⟩
    · rw [hdrop]
      simp [GetQMIMessageID, QMICTLReleaseClientIDReqSize, sizeof_sQMUX, le16At, byteAt]
    · intro out hout
      rw [hdrop]
      have hf := GetTLV_found _ (buf.drop QMICTLReleaseClientIDReqSize)
        ([] : List TLV) ⟨0x01, [clientID % 256, clientID / 256 % 256]⟩ ([] : List TLV) out hwf
        (by simp [hlp1, hlp1s]) (by simp) (by simpa using hout)
      simpa [QMICTLReleaseClientIDReqSize, sizeof_sQMUX] using hf
  · intro hn
    have hbuf : QMICTLReadyReqSize ≤ buf.length := by rw [hlen]; exact hn
    have h6 : 6 ≤ buf.length := by
      simp only [QMICTLReadyReqSize, sizeof_sQMUX] at hbuf
      omega
    have hpre : (buf.take 6).length = 6 := by rw [List.length_take]; omega
    rw [QMICTLReadyReq_layout transactionID buf buffSize hn hbuf]
    have hdrop : (buf.take 6 ++ QMICTLReadyReq_body transactionID ++ buf.drop QMICTLReadyReqSize).drop 8
        = [0x21, 0, 0, 0]
          ++ buf.drop QMICTLReadyReqSize := by
      have hd := drop_layout (buf.take 6) (QMICTLReadyReq_body transactionID) (buf.drop QMICTLReadyReqSize) 2 hpre
      simpa [QMICTLReadyReq_body, hlpmod] using hd
    have hwf : wellFormedBody [0x21, 0, 0, 0]
        ([] : List TLV) := by
      refine ⟨by simp, by simp, ?_, by simp [encodeTLVs, TLV.encode]⟩
      intro x hx
      simp only [List.mem_cons, List.mem_singleton, List.not_mem_nil, or_false] at hx
      omega
    refine ⟨_, rfl, ?_⟩
    · rw [hdrop]
      simp [GetQMIMessageID, QMICTLReadyReqSize, sizeof_sQMUX, le16At, byteAt]
  · intro hn
    have hbuf : QMIWDSSetEventReportReqSize ≤ buf.length := by rw [hlen]; exact hn
    have h6 : 6 ≤ buf.length := by
      simp only [QMIWDSSetEventReportReqSize, sizeof_sQMUX] at hbuf
      omega
    have hpre : (buf.take 6).length = 6 := by rw [List.length_take]; omega
    rw [QMIWDSSetEventReportReq_layout transactionID buf buffSize hn hbuf]
    have hdrop : (buf.take 6 ++ QMIWDSSetEventReportReq_body transactionID ++ buf.drop QMIWDSSetEventReportReqSize).drop 9
        = [0x01, 0, 8, 0, 0x11, 5, 0, 0x01, 0xff, 0, 0, 0]
          ++ buf.drop QMIWDSSetEventReportReqSize := by
      have hd := drop_layout (buf.take 6) (QMIWDSSetEventReportReq_body transactionID) (buf.drop QMIWDSSetEventReportReqSize) 3 hpre
      simpa [QMIWDSSetEventReportReq_body, hlpmod] using hd
    have hwf : wellFormedBody [0x01, 0, 8, 0, 0x11, 5, 0, 0x01, 0xff, 0, 0, 0]
        ([⟨0x11, [0x01, 0xff, 0, 0, 0]⟩] : List TLV) := by
      refine ⟨by simp, by simp, ?_, by simp [encodeTLVs, TLV.encode]⟩
      intro x hx
      simp only [List.mem_cons, List.mem_singleton, List.not_mem_nil, or_false] at hx
      omega
    refine ⟨_, rfl, ?_, ?_⟩
    · rw [hdrop]
      simp [GetQMIMessageID, QMIWDSSetEventReportReqSize, sizeof_sQMUX, le16At, byteAt]
    · intro out hout
      rw [hdrop]
      have hf := GetTLV_found _ (buf.drop QMIWDSSetEventReportReqSize)
        ([] : List TLV) ⟨0x11, [0x01, 0xff, 0, 0, 0]⟩ ([] : List TLV) out hwf
        (by simp [hlp1, hlp1s]) (by simp) (by simpa using hout)
      simpa [QMIWDSSetEventReportReqSize, sizeof_sQMUX] using hf
  · intro hn
    have hbuf : QMIWDSGetPKGSRVCStatusReqSize ≤ buf.length := by rw [hlen]; exact hn
    have h6 : 6 ≤ buf.length := by
      simp only [QMIWDSGetPKGSRVCStatusReqSize, sizeof_sQMUX] at hbuf
      omega
    have hpre : (buf.take 6).length = 6 := by rw [List.length_take]; omega
    rw [QMIWDSGetPKGSRVCStatusReq_layout transactionID buf buffSize hn hbuf]
    have hdrop : (buf.take 6 ++ QMIWDSGetPKGSRVCStatusReq_body transactionID ++ buf.drop QMIWDSGetPKGSRVCStatusReqSize).drop 9
        = [0x22, 0, 0, 0]
          ++ buf.drop QMIWDSGetPKGSRVCStatusReqSize := by
      have hd := drop_layout (buf.take 6) (QMIWDSGetPKGSRVCStatusReq_body transactionID) (buf.drop QMIWDSGetPKGSRVCStatusReqSize) 3 hpre
      simpa [QMIWDSGetPKGSRVCStatusReq_body, hlpmod] using hd
    have hwf : wellFormedBody [0x22, 0, 0, 0]
        ([] : List TLV) := by
      refine ⟨by simp, by simp, ?_, by simp [encodeTLVs, TLV.encode]⟩
      intro x hx
      simp only [List.mem_cons, List.mem_singleton, List.not_mem_nil, or_false] at hx
      omega
    refine ⟨_, rfl, ?_⟩
    · rw [hdrop]
      simp [GetQMIMessageID, QMIWDSGetPKGSRVCStatusReqSize, sizeof_sQMUX, le16At, byteAt]
  · intro hn
    have hbuf : QMIDMSGetMEIDReqSize ≤ buf.length := by rw [hlen]; exact hn
    have h6 : 6 ≤ buf.length := by
      simp only [QMIDMSGetMEIDReqSize, sizeof_sQMUX] at hbuf
      omega
    have hpre : (buf.take 6).length = 6 := by rw [List.length_take]; omega
    rw [QMIDMSGetMEIDReq_layout transactionID buf buffSize hn hbuf]
    have hdrop : (buf.take 6 ++ QMIDMSGetMEIDReq_body transactionID ++ buf.drop QMIDMSGetMEIDReqSize).drop 9
        = [0x25, 0, 0, 0]
          ++ buf.drop QMIDMSGetMEIDReqSize := by
      have hd := drop_layout (buf.take 6) (QMIDMSGetMEIDReq_body transactionID) (buf.drop QMIDMSGetMEIDReqSize) 3 hpre
      simpa [QMIDMSGetMEIDReq_body, hlpmod] using hd
    have hwf : wellFormedBody [0x25, 0, 0, 0]
        ([] : List TLV) := by
      refine ⟨by simp, by simp, ?_, by simp [encodeTLVs, TLV.encode]⟩
      intro x hx
      simp only [List.mem_cons, List.mem_singleton, List.not_mem_nil, or_false] at hx
      omega
    refine ⟨_, rfl, ?_⟩
    · rw [hdrop]
      simp [GetQMIMessageID, QMIDMSGetMEIDReqSize, sizeof_sQMUX, le16At, byteAt]
  · intro hn
    cases qosMode
    · cases dataModeRP
      · have hbuf : QMIWDASetDataFormatReqSize ≤ buf.length := by rw [hlen]; exact hn
        have h6 : 6 ≤ buf.length := by
          simp only [QMIWDASetDataFormatReqSize, sizeof_sQMUX] at hbuf
          omega
        have hpre : (buf.take 6).length = 6 := by rw [List.length_take]; omega
        rw [QMIWDASetDataFormatReq_layout false false transactionID buf buffSize hn hbuf]
        have hdrop : (buf.take 6 ++ QMIWDASetDataFormatReq_body false false transactionID ++ buf.drop QMIWDASetDataFormatReqSize).drop 9
            = [0x20, 0, 18, 0, 0x10, 1, 0, 0, 0x11, 4, 0, 1, 0, 0, 0, 0x13, 4, 0, 0, 0, 0, 0]
              ++ buf.drop QMIWDASetDataFormatReqSize := by
          have hd := drop_layout (buf.take 6) (QMIWDASetDataFormatReq_body false false transactionID) (buf.drop QMIWDASetDataFormatReqSize) 3 hpre
          simpa [QMIWDASetDataFormatReq_body, hlpmod] using hd
        have hwf : wellFormedBody [0x20, 0, 18, 0, 0x10, 1, 0, 0, 0x11, 4, 0, 1, 0, 0, 0, 0x13, 4, 0, 0, 0, 0, 0]
            ([⟨0x10, [0]⟩, ⟨0x11, [1, 0, 0, 0]⟩, ⟨0x13, [0, 0, 0, 0]⟩] : List TLV) := by
          refine ⟨by simp, by simp, ?_, by simp [encodeTLVs, TLV.encode]⟩
          intro x hx
          simp only [List.mem_cons, List.mem_singleton, List.not_mem_nil, or_false] at hx
          omega
        refine ⟨_, rfl, ?_, ?_, ?_, ?_⟩
        · rw [hdrop]
          simp [GetQMIMessageID, QMIWDASetDataFormatReqSize, sizeof_sQMUX, le16At, byteAt]
        · intro out hout
          rw [hdrop]
          have hf := GetTLV_found _ (buf.drop QMIWDASetDataFormatReqSize)
            ([] : List TLV) ⟨0x10, [0]⟩ ([⟨0x11, [1, 0, 0, 0]⟩, ⟨0x13, [0, 0, 0, 0]⟩] : List TLV) out hwf
            (by simp [hlp1, hlp1s]) (by simp) (by simpa using hout)
          simpa [QMIWDASetDataFormatReqSize, sizeof_sQMUX] using hf
        · intro out hout
          rw [hdrop]
          have hf := GetTLV_found _ (buf.drop QMIWDASetDataFormatReqSize)
            ([⟨0x10, [0]⟩] : List TLV) ⟨0x11, [1, 0, 0, 0]⟩ ([⟨0x13, [0, 0, 0, 0]⟩] : List TLV) out hwf
            (by simp [hlp1, hlp1s]) (by simp) (by simpa using hout)
          simpa [QMIWDASetDataFormatReqSize, sizeof_sQMUX] using hf
        · intro out hout
          rw [hdrop]
          have hf := GetTLV_found _ (buf.drop QMIWDASetDataFormatReqSize)
            ([⟨0x10, [0]⟩, ⟨0x11, [1, 0, 0, 0]⟩] : List TLV) ⟨0x13, [0, 0, 0, 0]⟩ ([] : List TLV) out hwf
            (by simp [hlp1, hlp1s]) (by simp) (by simpa using hout)
          simpa [QMIWDASetDataFormatReqSize, sizeof_sQMUX] using hf
      · have hbuf : QMIWDASetDataFormatReqSize ≤ buf.length := by rw [hlen]; exact hn
        have h6 : 6 ≤ buf.length := by
          simp only [QMIWDASetDataFormatReqSize, sizeof_sQMUX] at hbuf
          omega
        have hpre : (buf.take 6).length = 6 := by rw [List.length_take]; omega
        rw [QMIWDASetDataFormatReq_layout false true transactionID buf buffSize hn hbuf]
        have hdrop : (buf.take 6 ++ QMIWDASetDataFormatReq_body false true transactionID ++ buf.drop QMIWDASetDataFormatReqSize).drop 9
            = [0x20, 0, 18, 0, 0x10, 1, 0, 0, 0x11, 4, 0, 2, 0, 0, 0, 0x13, 4, 0, 0, 0, 0, 0]
              ++ buf.drop QMIWDASetDataFormatReqSize := by
          have hd := drop_layout (buf.take 6) (QMIWDASetDataFormatReq_body false true transactionID) (buf.drop QMIWDASetDataFormatReqSize) 3 hpre
          simpa [QMIWDASetDataFormatReq_body, hlpmod] using hd
        have hwf : wellFormedBody [0x20, 0, 18, 0, 0x10, 1, 0, 0, 0x11, 4, 0, 2, 0, 0, 0, 0x13, 4, 0, 0, 0, 0, 0]
            ([⟨0x10, [0]⟩, ⟨0x11, [2, 0, 0, 0]⟩, ⟨0x13, [0, 0, 0, 0]⟩] : List TLV) := by
          refine ⟨by simp, by simp, ?_, by simp [encodeTLVs, TLV.encode]⟩
          intro x hx
          simp only [List.mem_cons, List.mem_singleton, List.not_mem_nil, or_false] at hx
          omega
        refine ⟨_, rfl, ?_, ?_, ?_, ?_⟩
        · rw [hdrop]
          simp [GetQMIMessageID, QMIWDASetDataFormatReqSize, sizeof_sQMUX, le16At, byteAt]
        · intro out hout
          rw [hdrop]
          have hf := GetTLV_found _ (buf.drop QMIWDASetDataFormatReqSize)
            ([] : List TLV) ⟨0x10, [0]⟩ ([⟨0x11, [2, 0, 0, 0]⟩, ⟨0x13, [0, 0, 0, 0]⟩] : List TLV) out hwf
            (by simp [hlp1, hlp1s]) (by simp) (by simpa using hout)
          simpa [QMIWDASetDataFormatReqSize, sizeof_sQMUX] using hf
        · intro out hout
          rw [hdrop]
          have hf := GetTLV_found _ (buf.drop QMIWDASetDataFormatReqSize)
            ([⟨0x10, [0]⟩] : List TLV) ⟨0x11, [2, 0, 0, 0]⟩ ([⟨0x13, [0, 0, 0, 0]⟩] : List TLV) out hwf
            (by simp [hlp1, hlp1s]) (by simp) (by simpa using hout)
          simpa [QMIWDASetDataFormatReqSize, sizeof_sQMUX] using hf
        · intro out hout
          rw [hdrop]
          have hf := GetTLV_found _ (buf.drop QMIWDASetDataFormatReqSize)
            ([⟨0x10, [0]⟩, ⟨0x11, [2, 0, 0, 0]⟩] : List TLV) ⟨0x13, [0, 0, 0, 0]⟩ ([] : List TLV) out hwf
            (by simp [hlp1, hlp1s]) (by simp) (by simpa using hout)
          simpa [QMIWDASetDataFormatReqSize, sizeof_sQMUX] using hf
    · cases dataModeRP
      · have hbuf : QMIWDASetDataFormatReqSize ≤ buf.length := by rw [hlen]; exact hn
        have h6 : 6 ≤ buf.length := by
          simp only [QMIWDASetDataFormatReqSize, sizeof_sQMUX] at hbuf
          omega
        have hpre : (buf.take 6).length = 6 := by rw [List.length_take]; omega
        rw [QMIWDASetDataFormatReq_layout true false transactionID buf buffSize hn hbuf]
        have hdrop : (buf.take 6 ++ QMIWDASetDataFormatReq_body true false transactionID ++ buf.drop QMIWDASetDataFormatReqSize).drop 9
            = [0x20, 0, 18, 0, 0x10, 1, 0, 1, 0x11, 4, 0, 1, 0, 0, 0, 0x13, 4, 0, 0, 0, 0, 0]
              ++ buf.drop QMIWDASetDataFormatReqSize := by
          have hd := drop_layout (buf.take 6) (QMIWDASetDataFormatReq_body true false transactionID) (buf.drop QMIWDASetDataFormatReqSize) 3 hpre
          simpa [QMIWDASetDataFormatReq_body, hlpmod] using hd
        have hwf : wellFormedBody [0x20, 0, 18, 0, 0x10, 1, 0, 1, 0x11, 4, 0, 1, 0, 0, 0, 0x13, 4, 0, 0, 0, 0, 0]
            ([⟨0x10, [1]⟩, ⟨0x11, [1, 0, 0, 0]⟩, ⟨0x13, [0, 0, 0, 0]⟩] : List TLV) := by
          refine ⟨by simp, by simp, ?_, by simp [encodeTLVs, TLV.encode]⟩
          intro x hx
          simp only [List.mem_cons, List.mem_singleton, List.not_mem_nil, or_false] at hx
          omega
        refine ⟨_, rfl, ?_, ?_, ?_, ?_⟩
        · rw [hdrop]
          simp [GetQMIMessageID, QMIWDASetDataFormatReqSize, sizeof_sQMUX, le16At, byteAt]
        · intro out hout
          rw [hdrop]
          have hf := GetTLV_found _ (buf.drop QMIWDASetDataFormatReqSize)
            ([] : List TLV) ⟨0x10, [1]⟩ ([⟨0x11, [1, 0, 0, 0]⟩, ⟨0x13, [0, 0, 0, 0]⟩] : List TLV) out hwf
            (by simp [hlp1, hlp1s]) (by simp) (by simpa using hout)
          simpa [QMIWDASetDataFormatReqSize, sizeof_sQMUX] using hf
        · intro out hout
          rw [hdrop]
          have hf := GetTLV_found _ (buf.drop QMIWDASetDataFormatReqSize)
            ([⟨0x10, [1]⟩] : List TLV) ⟨0x11, [1, 0, 0, 0]⟩ ([⟨0x13, [0, 0, 0, 0]⟩] : List TLV) out hwf
            (by simp [hlp1, hlp1s]) (by simp) (by simpa using hout)
          simpa [QMIWDASetDataFormatReqSize, sizeof_sQMUX] using hf
        · intro out hout
          rw [hdrop]
          have hf := GetTLV_found _ (buf.drop QMIWDASetDataFormatReqSize)
            ([⟨0x10, [1]⟩, ⟨0x11, [1, 0, 0, 0]⟩] : List TLV) ⟨0x13, [0, 0, 0, 0]⟩ ([] : List TLV) out hwf
            (by simp [hlp1, hlp1s]) (by simp) (by simpa using hout)
          simpa [QMIWDASetDataFormatReqSize, sizeof_sQMUX] using hf
      · have hbuf : QMIWDASetDataFormatReqSize ≤ buf.length := by rw [hlen]; exact hn
        have h6 : 6 ≤ buf.length := by
          simp only [QMIWDASetDataFormatReqSize, sizeof_sQMUX] at hbuf
          omega
        have hpre : (buf.take 6).length = 6 := by rw [List.length_take]; omega
        rw [QMIWDASetDataFormatReq_layout true true transactionID buf buffSize hn hbuf]
        have hdrop : (buf.take 6 ++ QMIWDASetDataFormatReq_body true true transactionID ++ buf.drop QMIWDASetDataFormatReqSize).drop 9
            = [0x20, 0, 18, 0, 0x10, 1, 0, 1, 0x11, 4, 0, 2, 0, 0, 0, 0x13, 4, 0, 0, 0, 0, 0]
              ++ buf.drop QMIWDASetDataFormatReqSize := by
          have hd := drop_layout (buf.take 6) (QMIWDASetDataFormatReq_body true true transactionID) (buf.drop QMIWDASetDataFormatReqSize) 3 hpre
          simpa [QMIWDASetDataFormatReq_body, hlpmod] using hd
        have hwf : wellFormedBody [0x20, 0, 18, 0, 0x10, 1, 0, 1, 0x11, 4, 0, 2, 0, 0, 0, 0x13, 4, 0, 0, 0, 0, 0]
            ([⟨0x10, [1]⟩, ⟨0x11, [2, 0, 0, 0]⟩, ⟨0x13, [0, 0, 0, 0]⟩] : List TLV) := by
          refine ⟨by simp, by simp, ?_, by simp [encodeTLVs, TLV.encode]⟩
          intro x hx
          simp only [List.mem_cons, List.mem_singleton, List.not_mem_nil, or_false] at hx
          omega
        refine ⟨_, rfl, ?_, ?_, ?_, ?_⟩
        · rw [hdrop]
          simp [GetQMIMessageID, QMIWDASetDataFormatReqSize, sizeof_sQMUX, le16At, byteAt]
        · intro out hout
          rw [hdrop]
          have hf := GetTLV_found _ (buf.drop QMIWDASetDataFormatReqSize)
            ([] : List TLV) ⟨0x10, [1]⟩ ([⟨0x11, [2, 0, 0, 0]⟩, ⟨0x13, [0, 0, 0, 0]⟩] : List TLV) out hwf
            (by simp [hlp1, hlp1s]) (by simp) (by simpa using hout)
          simpa [QMIWDASetDataFormatReqSize, sizeof_sQMUX] using hf
        · intro out hout
          rw [hdrop]
          have hf := GetTLV_found _ (buf.drop QMIWDASetDataFormatReqSize)
            ([⟨0x10, [1]⟩] : List TLV) ⟨0x11, [2, 0, 0, 0]⟩ ([⟨0x13, [0, 0, 0, 0]⟩] : List TLV) out hwf
            (by simp [hlp1, hlp1s]) (by simp) (by simpa using hout)
          simpa [QMIWDASetDataFormatReqSize, sizeof_sQMUX] using hf
        · intro out hout
          rw [hdrop]
          have hf := GetTLV_found _ (buf.drop QMIWDASetDataFormatReqSize)
            ([⟨0x10, [1]⟩, ⟨0x11, [2, 0, 0, 0]⟩] : List TLV) ⟨0x13, [0, 0, 0, 0]⟩ ([] : List TLV) out hwf
            (by simp [hlp1, hlp1s]) (by simp) (by simpa using hout)
          simpa [QMIWDASetDataFormatReqSize, sizeof_sQMUX] using hf
  · intro hn
    cases qosMode
    · cases dataModeRP
      · have hbuf : QMICTLSetDataFormatReqSize ≤ buf.length := by rw [hlen]; exact hn
        have h6 : 6 ≤ buf.length := by
          simp only [QMICTLSetDataFormatReqSize, sizeof_sQMUX] at hbuf
          omega
        have hpre : (buf.take 6).length = 6 := by rw [List.length_take]; omega
        rw [QMICTLSetDataFormatReq_layout false false TLV_TYPE_LINK_PROTO transactionID buf buffSize hn hbuf]
        have hdrop : (buf.take 6 ++ QMICTLSetDataFormatReq_body false false TLV_TYPE_LINK_PROTO transactionID ++ buf.drop QMICTLSetDataFormatReqSize).drop 8
            = [0x26, 0, 9, 0, 0x01, 1, 0, 0, TLV_TYPE_LINK_PROTO, 2, 0, 1, 0]
              ++ buf.drop QMICTLSetDataFormatReqSize := by
          have hd := drop_layout (buf.take 6) (QMICTLSetDataFormatReq_body false false TLV_TYPE_LINK_PROTO transactionID) (buf.drop QMICTLSetDataFormatReqSize) 2 hpre
          simpa [QMICTLSetDataFormatReq_body, hlpmod] using hd
        have hwf : wellFormedBody [0x26, 0, 9, 0, 0x01, 1, 0, 0, TLV_TYPE_LINK_PROTO, 2, 0, 1, 0]
            ([⟨0x01, [0]⟩, ⟨TLV_TYPE_LINK_PROTO, [1, 0]⟩] : List TLV) := by
          refine ⟨by simp, by simp, ?_, by simp [encodeTLVs, TLV.encode]⟩
          intro x hx
          simp only [List.mem_cons, List.mem_singleton, List.not_mem_nil, or_false] at hx
          omega
        refine ⟨_, rfl, ?_, ?_, ?_⟩
        · rw [hdrop]
          simp [GetQMIMessageID, QMICTLSetDataFormatReqSize, sizeof_sQMUX, le16At, byteAt]
        · intro out hout
          rw [hdrop]
          have hf := GetTLV_found _ (buf.drop QMICTLSetDataFormatReqSize)
            ([] : List TLV) ⟨0x01, [0]⟩ ([⟨TLV_TYPE_LINK_PROTO, [1, 0]⟩] : List TLV) out hwf
            (by simp [hlp1, hlp1s]) (by simp) (by simpa using hout)
          simpa [QMICTLSetDataFormatReqSize, sizeof_sQMUX] using hf
        · intro out hout
          rw [hdrop]
          have hf := GetTLV_found _ (buf.drop QMICTLSetDataFormatReqSize)
            ([⟨0x01, [0]⟩] : List TLV) ⟨TLV_TYPE_LINK_PROTO, [1, 0]⟩ ([] : List TLV) out hwf
            (by simp [hlp1, hlp1s]) (by simp) (by simpa using hout)
          simpa [QMICTLSetDataFormatReqSize, sizeof_sQMUX] using hf
      · have hbuf : QMICTLSetDataFormatReqSize ≤ buf.length := by rw [hlen]; exact hn
        have h6 : 6 ≤ buf.length := by
          simp only [QMICTLSetDataFormatReqSize, sizeof_sQMUX] at hbuf
          omega
        have hpre : (buf.take 6).length = 6 := by rw [List.length_take]; omega
        rw [QMICTLSetDataFormatReq_layout false true TLV_TYPE_LINK_PROTO transactionID buf buffSize hn hbuf]
        have hdrop : (buf.take 6 ++ QMICTLSetDataFormatReq_body false true TLV_TYPE_LINK_PROTO transactionID ++ buf.drop QMICTLSetDataFormatReqSize).drop 8
            = [0x26, 0, 9, 0, 0x01, 1, 0, 0, TLV_TYPE_LINK_PROTO, 2, 0, 2, 0]
              ++ buf.drop QMICTLSetDataFormatReqSize := by
          have hd := drop_layout (buf.take 6) (QMICTLSetDataFormatReq_body false true TLV_TYPE_LINK_PROTO transactionID) (buf.drop QMICTLSetDataFormatReqSize) 2 hpre
          simpa [QMICTLSetDataFormatReq_body, hlpmod] using hd
        have hwf : wellFormedBody [0x26, 0, 9, 0, 0x01, 1, 0, 0, TLV_TYPE_LINK_PROTO, 2, 0, 2, 0]
            ([⟨0x01, [0]⟩, ⟨TLV_TYPE_LINK_PROTO, [2, 0]⟩] : List TLV) := by
          refine ⟨by simp, by simp, ?_, by simp [encodeTLVs, TLV.encode]⟩
          intro x hx
          simp only [List.mem_cons, List.mem_singleton, List.not_mem_nil, or_false] at hx
          omega
        refine ⟨_, rfl, ?_, ?_, ?_⟩
        · rw [hdrop]
          simp [GetQMIMessageID, QMICTLSetDataFormatReqSize, sizeof_sQMUX, le16At, byteAt]
        · intro out hout
          rw [hdrop]
          have hf := GetTLV_found _ (buf.drop QMICTLSetDataFormatReqSize)
            ([] : List TLV) ⟨0x01, [0]⟩ ([⟨TLV_TYPE_LINK_PROTO, [2, 0]⟩] : List TLV) out hwf
            (by simp [hlp1, hlp1s]) (by simp) (by simpa using hout)
          simpa [QMICTLSetDataFormatReqSize, sizeof_sQMUX] using hf
        · intro out hout
          rw [hdrop]
          have hf := GetTLV_found _ (buf.drop QMICTLSetDataFormatReqSize)
            ([⟨0x01, [0]⟩] : List TLV) ⟨TLV_TYPE_LINK_PROTO, [2, 0]⟩ ([] : List TLV) out hwf
            (by simp [hlp1, hlp1s]) (by simp) (by simpa using hout)
          simpa [QMICTLSetDataFormatReqSize, sizeof_sQMUX] using hf
    · cases dataModeRP
      · have hbuf : QMICTLSetDataFormatReqSize ≤ buf.length := by rw [hlen]; exact hn
        have h6 : 6 ≤ buf.length := by
          simp only [QMICTLSetDataFormatReqSize, sizeof_sQMUX] at hbuf
          omega
        have hpre : (buf.take 6).length = 6 := by rw [List.length_take]; omega
        rw [QMICTLSetDataFormatReq_layout true false TLV_TYPE_LINK_PROTO transactionID buf buffSize hn hbuf]
        have hdrop : (buf.take 6 ++ QMICTLSetDataFormatReq_body true false TLV_TYPE_LINK_PROTO transactionID ++ buf.drop QMICTLSetDataFormatReqSize).drop 8
            = [0x26, 0, 9, 0, 0x01, 1, 0, 1, TLV_TYPE_LINK_PROTO, 2, 0, 1, 0]
              ++ buf.drop QMICTLSetDataFormatReqSize := by
          have hd := drop_layout (buf.take 6) (QMICTLSetDataFormatReq_body true false TLV_TYPE_LINK_PROTO transactionID) (buf.drop QMICTLSetDataFormatReqSize) 2 hpre
          simpa [QMICTLSetDataFormatReq_body, hlpmod] using hd
        have hwf : wellFormedBody [0x26, 0, 9, 0, 0x01, 1, 0, 1, TLV_TYPE_LINK_PROTO, 2, 0, 1, 0]
            ([⟨0x01, [1]⟩, ⟨TLV_TYPE_LINK_PROTO, [1, 0]⟩] : List TLV) := by
          refine ⟨by simp, by simp, ?_, by simp [encodeTLVs, TLV.encode]⟩
          intro x hx
          simp only [List.mem_cons, List.mem_singleton, List.not_mem_nil, or_false] at hx
          omega
        refine ⟨_, rfl, ?_, ?_, ?_⟩
        · rw [hdrop]
          simp [GetQMIMessageID, QMICTLSetDataFormatReqSize, sizeof_sQMUX, le16At, byteAt]
        · intro out hout
          rw [hdrop]
          have hf := GetTLV_found _ (buf.drop QMICTLSetDataFormatReqSize)
            ([] : List TLV) ⟨0x01, [1]⟩ ([⟨TLV_TYPE_LINK_PROTO, [1, 0]⟩] : List TLV) out hwf
            (by simp [hlp1, hlp1s]) (by simp) (by simpa using hout)
          simpa [QMICTLSetDataFormatReqSize, sizeof_sQMUX] using hf
        · intro out hout
          rw [hdrop]
          have hf := GetTLV_found _ (buf.drop QMICTLSetDataFormatReqSize)
            ([⟨0x01, [1]⟩] : List TLV) ⟨TLV_TYPE_LINK_PROTO, [1, 0]⟩ ([] : List TLV) out hwf
            (by simp [hlp1, hlp1s]) (by simp) (by simpa using hout)
          simpa [QMICTLSetDataFormatReqSize, sizeof_sQMUX] using hf
      · have hbuf : QMICTLSetDataFormatReqSize ≤ buf.length := by rw [hlen]; exact hn
        have h6 : 6 ≤ buf.length := by
          simp only [QMICTLSetDataFormatReqSize, sizeof_sQMUX] at hbuf
          omega
        have hpre : (buf.take 6).length = 6 := by rw [List.length_take]; omega
        rw [QMICTLSetDataFormatReq_layout true true TLV_TYPE_LINK_PROTO transactionID buf buffSize hn hbuf]
        have hdrop : (buf.take 6 ++ QMICTLSetDataFormatReq_body true true TLV_TYPE_LINK_PROTO transactionID ++ buf.drop QMICTLSetDataFormatReqSize).drop 8
            = [0x26, 0, 9, 0, 0x01, 1, 0, 1, TLV_TYPE_LINK_PROTO, 2, 0, 2, 0]
              ++ buf.drop QMICTLSetDataFormatReqSize := by
          have hd := drop_layout (buf.take 6) (QMICTLSetDataFormatReq_body true true TLV_TYPE_LINK_PROTO transactionID) (buf.drop QMICTLSetDataFormatReqSize) 2 hpre
          simpa [QMICTLSetDataFormatReq_body, hlpmod] using hd
        have hwf : wellFormedBody [0x26, 0, 9, 0, 0x01, 1, 0, 1, TLV_TYPE_LINK_PROTO, 2, 0, 2, 0]
            ([⟨0x01, [1]⟩, ⟨TLV_TYPE_LINK_PROTO, [2, 0]⟩] : List TLV) := by
          refine ⟨by simp, by simp, ?_, by simp [encodeTLVs, TLV.encode]⟩
          intro x hx
          simp only [List.mem_cons, List.mem_singleton, List.not_mem_nil, or_false] at hx
          omega
        refine ⟨_, rfl, ?_, ?_, ?_⟩
        · rw [hdrop]
          simp [GetQMIMessageID, QMICTLSetDataFormatReqSize, sizeof_sQMUX, le16At, byteAt]
        · intro out hout
          rw [hdrop]
          have hf := GetTLV_found _ (buf.drop QMICTLSetDataFormatReqSize)
            ([] : List TLV) ⟨0x01, [1]⟩ ([⟨TLV_TYPE_LINK_PROTO, [2, 0]⟩] : List TLV) out hwf
            (by simp [hlp1, hlp1s]) (by simp) (by simpa using hout)
          simpa [QMICTLSetDataFormatReqSize, sizeof_sQMUX] using hf
        · intro out hout
          rw [hdrop]
          have hf := GetTLV_found _ (buf.drop QMICTLSetDataFormatReqSize)
            ([⟨0x01, [1]⟩] : List TLV) ⟨TLV_TYPE_LINK_PROTO, [2, 0]⟩ ([] : List TLV) out hwf
            (by simp [hlp1, hlp1s]) (by simp) (by simpa using hout)
          simpa [QMICTLSetDataFormatReqSize, sizeof_sQMUX] using hf
  · intro hn
    have hbuf : QMIWDSBindMuxDataPortReqSize ≤ buf.length := by rw [hlen]; exact hn
    have h6 : 6 ≤ buf.length := by
      simp only [QMIWDSBindMuxDataPortReqSize, sizeof_sQMUX] at hbuf
      omega
    have hpre : (buf.take 6).length = 6 := by rw [List.length_take]; omega
    rw [QMIWDSBindMuxDataPortReq_layout transactionID buf buffSize hn hbuf]
    have hdrop : (buf.take 6 ++ QMIWDSBindMuxDataPortReq_body transactionID ++ buf.drop QMIWDSBindMuxDataPortReqSize).drop 9
        = [0xA2, 0, 22, 0, 0x10, 8, 0, 5, 0, 0, 0, 8, 0, 0, 0, 0x11, 1, 0, 0, 0x13, 4, 0, 1, 0, 0, 0]
          ++ buf.drop QMIWDSBindMuxDataPortReqSize := by
      have hd := drop_layout (buf.take 6) (QMIWDSBindMuxDataPortReq_body transactionID) (buf.drop QMIWDSBindMuxDataPortReqSize) 3 hpre
      simpa [QMIWDSBindMuxDataPortReq_body, hlpmod] using hd
    have hwf : wellFormedBody [0xA2, 0, 22, 0, 0x10, 8, 0, 5, 0, 0, 0, 8, 0, 0, 0, 0x11, 1, 0, 0, 0x13, 4, 0, 1, 0, 0, 0]
        ([⟨0x10, [5, 0, 0, 0, 8, 0, 0, 0]⟩, ⟨0x11, [0]⟩, ⟨0x13, [1, 0, 0, 0]⟩] : List TLV) := by
      refine ⟨by simp, by simp, ?_, by simp [encodeTLVs, TLV.encode]⟩
      intro x hx
      simp only [List.mem_cons, List.mem_singleton, List.not_mem_nil, or_false] at hx
      omega
    refine ⟨_, rfl, ?_, ?_, ?_, ?_⟩
    · rw [hdrop]
      simp [GetQMIMessageID, QMIWDSBindMuxDataPortReqSize, sizeof_sQMUX, le16At, byteAt]
    · intro out hout
      rw [hdrop]
      have hf := GetTLV_found _ (buf.drop QMIWDSBindMuxDataPortReqSize)
        ([] : List TLV) ⟨0x10, [5, 0, 0, 0, 8, 0, 0, 0]⟩ ([⟨0x11, [0]⟩, ⟨0x13, [1, 0, 0, 0]⟩] : List TLV) out hwf
        (by simp [hlp1, hlp1s]) (by simp) (by simpa using hout)
      simpa [QMIWDSBindMuxDataPortReqSize, sizeof_sQMUX] using hf
    · intro out hout
      rw [hdrop]
      have hf := GetTLV_found _ (buf.drop QMIWDSBindMuxDataPortReqSize)
        ([⟨0x10, [5, 0, 0, 0, 8, 0, 0, 0]⟩] : List TLV) ⟨0x11, [0]⟩ ([⟨0x13, [1, 0, 0, 0]⟩] : List TLV) out hwf
        (by simp [hlp1, hlp1s]) (by simp) (by simpa using hout)
      simpa [QMIWDSBindMuxDataPortReqSize, sizeof_sQMUX] using hf
    · intro out hout
      rw [hdrop]
      have hf := GetTLV_found _ (buf.drop QMIWDSBindMuxDataPortReqSize)
        ([⟨0x10, [5, 0, 0, 0, 8, 0, 0, 0]⟩, ⟨0x11, [0]⟩] : List TLV) ⟨0x13, [1, 0, 0, 0]⟩ ([] : List TLV) out hwf
        (by simp [hlp1, hlp1s]) (by simp) (by simpa using hout)
      simpa [QMIWDSBindMuxDataPortReqSize, sizeof_sQMUX] using hf
  · intro hn
    have hbuf : QMIWDSBindMuxDataPortPreReqSize ≤ buf.length := by rw [hlen]; exact hn
    have h6 : 6 ≤ buf.length := by
      simp only [QMIWDSBindMuxDataPortPreReqSize, sizeof_sQMUX] at hbuf
      omega
    have hpre : (buf.take 6).length = 6 := by rw [List.length_take]; omega
    rw [QMIWDSBindMuxDataPortPreReq_layout transactionID index buf buffSize hn hbuf]
    have hdrop : (buf.take 6 ++ QMIWDSBindMuxDataPortPreReq_body transactionID index ++ buf.drop QMIWDSBindMuxDataPortPreReqSize).drop 9
        = [0xA2, 0, 15, 0, 0x10, 8, 0, 5, 0, 0, 0, 0, 0, 0, 0, 0x11, 1, 0, index % 256]
          ++ buf.drop QMIWDSBindMuxDataPortPreReqSize := by
      have hd := drop_layout (buf.take 6) (QMIWDSBindMuxDataPortPreReq_body transactionID index) (buf.drop QMIWDSBindMuxDataPortPreReqSize) 3 hpre
      simpa [QMIWDSBindMuxDataPortPreReq_body, hlpmod] using hd
    have hwf : wellFormedBody [0xA2, 0, 15, 0, 0x10, 8, 0, 5, 0, 0, 0, 0, 0, 0, 0, 0x11, 1, 0, index % 256]
        ([⟨0x10, [5, 0, 0, 0, 0, 0, 0, 0]⟩, ⟨0x11, [index % 256]⟩] : List TLV) := by
      refine ⟨by simp, by simp, ?_, by simp [encodeTLVs, TLV.encode]⟩
      intro x hx
      simp only [List.mem_cons, List.mem_singleton, List.not_mem_nil, or_false] at hx
      omega
    refine ⟨_, rfl, ?_, ?_, ?_⟩
    · rw [hdrop]
      simp [GetQMIMessageID, QMIWDSBindMuxDataPortPreReqSize, sizeof_sQMUX, le16At, byteAt]
    · intro out hout
      rw [hdrop]
      have hf := GetTLV_found _ (buf.drop QMIWDSBindMuxDataPortPreReqSize)
        ([] : List TLV) ⟨0x10, [5, 0, 0, 0, 0, 0, 0, 0]⟩ ([⟨0x11, [index % 256]⟩] : List TLV) out hwf
        (by simp [hlp1, hlp1s]) (by simp) (by simpa using hout)
      simpa [QMIWDSBindMuxDataPortPreReqSize, sizeof_sQMUX] using hf
    · intro out hout
      rw [hdrop]
      have hf := GetTLV_found _ (buf.drop QMIWDSBindMuxDataPortPreReqSize)
        ([⟨0x10, [5, 0, 0, 0, 0, 0, 0, 0]⟩] : List TLV) ⟨0x11, [index % 256]⟩ ([] : List TLV) out hwf
        (by simp [hlp1, hlp1s]) (by simp) (by simpa using hout)
      simpa [QMIWDSBindMuxDataPortPreReqSize, sizeof_sQMUX] using hf
  · intro hn
    have hbuf : QMICTLSyncReqSize ≤ buf.length := by rw [hlen]; exact hn
    have h6 : 6 ≤ buf.length := by
      simp only [QMICTLSyncReqSize, sizeof_sQMUX] at hbuf
      omega
    have hpre : (buf.take 6).length = 6 := by rw [List.length_take]; omega
    rw [QMICTLSyncReq_layout transactionID buf buffSize hn hbuf]
    have hdrop : (buf.take 6 ++ QMICTLSyncReq_body transactionID ++ buf.drop QMICTLSyncReqSize).drop 8
        = [0x27, 0, 0, 0]
          ++ buf.drop QMICTLSyncReqSize := by
      have hd := drop_layout (buf.take 6) (QMICTLSyncReq_body transactionID) (buf.drop QMICTLSyncReqSize) 2 hpre
      simpa [QMICTLSyncReq_body, hlpmod] using hd
    have hwf : wellFormedBody [0x27, 0, 0, 0]
        ([] : List TLV) := by
      refine ⟨by simp, by simp, ?_, by simp [encodeTLVs, TLV.encode]⟩
      intro x hx
      simp only [List.mem_cons, List.mem_singleton, List.not_mem_nil, or_false] at hx
      omega
    refine ⟨_, rfl, ?_⟩
    · rw [hdrop]
      simp [GetQMIMessageID, QMICTLSyncReqSize, sizeof_sQMUX, le16At, byteAt]

/-- C29, witness: every encoder on a buffer of 35 bytes, with `TLV_TYPE_LINK_PROTO = 0x10`. -/
theorem encoders_read_back_witness :
    sampleBuffer.length = 35 ∧ 0x10 < 256 ∧ 0x10 ≠ 0x01 ∧
    ((QMICTLGetClientIDReqSize ≤ 35 →
      ∃ b, (QMICTLGetClientIDReq (some sampleBuffer) 35 1 2).2 = some b ∧
        GetQMIMessageID (b.drop 8) (QMICTLGetClientIDReqSize - 8) = 0x0022 ∧
        (∀ out : List Nat, out.length = 1 →
          GetTLV (some (b.drop 8)) (QMICTLGetClientIDReqSize - 8) 0x01 (some out) 1
            = some (1, some [2 % 256]))) ∧
    (QMICTLReleaseClientIDReqSize ≤ 35 →
      ∃ b, (QMICTLReleaseClientIDReq (some sampleBuffer) 35 1 0x0304).2 = some b ∧
        GetQMIMessageID (b.drop 8) (QMICTLReleaseClientIDReqSize - 8) = 0x0023 ∧
        (∀ out : List Nat, out.length = 2 →
          GetTLV (some (b.drop 8)) (QMICTLReleaseClientIDReqSize - 8) 0x01 (some out) 2
            = some (2, some [0x0304 % 256, 0x0304 / 256 % 256]))) ∧
    (QMICTLReadyReqSize ≤ 35 →
      ∃ b, (QMICTLReadyReq (some sampleBuffer) 35 1).2 = some b ∧
        GetQMIMessageID (b.drop 8) (QMICTLReadyReqSize - 8) = 0x0021) ∧
    (QMIWDSSetEventReportReqSize ≤ 35 →
      ∃ b, (QMIWDSSetEventReportReq (some sampleBuffer) 35 1).2 = some b ∧
        GetQMIMessageID (b.drop 9) (QMIWDSSetEventReportReqSize - 9) = 0x0001 ∧
        (∀ out : List Nat, out.length = 5 →
          GetTLV (some (b.drop 9)) (QMIWDSSetEventReportReqSize - 9) 0x11 (some out) 5
            = some (5, some [0x01, 0xff, 0, 0, 0]))) ∧
    (QMIWDSGetPKGSRVCStatusReqSize ≤ 35 →
      ∃ b, (QMIWDSGetPKGSRVCStatusReq (some sampleBuffer) 35 1).2 = some b ∧
        GetQMIMessageID (b.drop 9) (QMIWDSGetPKGSRVCStatusReqSize - 9) = 0x0022) ∧
    (QMIDMSGetMEIDReqSize ≤ 35 →
      ∃ b, (QMIDMSGetMEIDReq (some sampleBuffer) 35 1).2 = some b ∧
        GetQMIMessageID (b.drop 9) (QMIDMSGetMEIDReqSize - 9) = 0x0025) ∧
    (QMIWDASetDataFormatReqSize ≤ 35 →
      ∃ b, (QMIWDASetDataFormatReq false true (some sampleBuffer) 35 1).2 = some b ∧
        GetQMIMessageID (b.drop 9) (QMIWDASetDataFormatReqSize - 9) = 0x0020 ∧
        (∀ out : List Nat, out.length = 1 →
          GetTLV (some (b.drop 9)) (QMIWDASetDataFormatReqSize - 9) 0x10 (some out) 1
            = some (1, some [(if false then 1 else 0)])) ∧
        (∀ out : List Nat, out.length = 4 →
          GetTLV (some (b.drop 9)) (QMIWDASetDataFormatReqSize - 9) 0x11 (some out) 4
            = some (4, some [(if true then 2 else 1), 0, 0, 0])) ∧
        (∀ out : List Nat, out.length = 4 →
          GetTLV (some (b.drop 9)) (QMIWDASetDataFormatReqSize - 9) 0x13 (some out) 4
            = some (4, some [0, 0, 0, 0]))) ∧
    (QMICTLSetDataFormatReqSize ≤ 35 →
      ∃ b, (QMICTLSetDataFormatReq false true 0x10 (some sampleBuffer) 35 1).2 = some b ∧
        GetQMIMessageID (b.drop 8) (QMICTLSetDataFormatReqSize - 8) = 0x0026 ∧
        (∀ out : List Nat, out.length = 1 →
          GetTLV (some (b.drop 8)) (QMICTLSetDataFormatReqSize - 8) 0x01 (some out) 1
            = some (1, some [(if false then 1 else 0)])) ∧
        (∀ out : List Nat, out.length = 2 →
          GetTLV (some (b.drop 8)) (QMICTLSetDataFormatReqSize - 8) 0x10 (some out) 2
            = some (2, some [(if true then 2 else 1), 0]))) ∧
    (QMIWDSBindMuxDataPortReqSize ≤ 35 →
      ∃ b, (QMIWDSBindMuxDataPortReq (some sampleBuffer) 35 1).2 = some b ∧
        GetQMIMessageID (b.drop 9) (QMIWDSBindMuxDataPortReqSize - 9) = 0x00A2 ∧
        (∀ out : List Nat, out.length = 8 →
          GetTLV (some (b.drop 9)) (QMIWDSBindMuxDataPortReqSize - 9) 0x10 (some out) 8
            = some (8, some [5, 0, 0, 0, 8, 0, 0, 0])) ∧
        (∀ out : List Nat, out.length = 1 →
          GetTLV (some (b.drop 9)) (QMIWDSBindMuxDataPortReqSize - 9) 0x11 (some out) 1
            = some (1, some [0])) ∧
        (∀ out : List Nat, out.length = 4 →
          GetTLV (some (b.drop 9)) (QMIWDSBindMuxDataPortReqSize - 9) 0x13 (some out) 4
            = some (4, some [1, 0, 0, 0]))) ∧
    (QMIWDSBindMuxDataPortPreReqSize ≤ 35 →
      ∃ b, (QMIWDSBindMuxDataPortPreReq (some sampleBuffer) 35 1 1).2 = some b ∧
        GetQMIMessageID (b.drop 9) (QMIWDSBindMuxDataPortPreReqSize - 9) = 0x00A2 ∧
        (∀ out : List Nat, out.length = 8 →
          GetTLV (some (b.drop 9)) (QMIWDSBindMuxDataPortPreReqSize - 9) 0x10 (some out) 8
            = some (8, some [5, 0, 0, 0, 0, 0, 0, 0])) ∧
        (∀ out : List Nat, out.length = 1 →
          GetTLV (some (b.drop 9)) (QMIWDSBindMuxDataPortPreReqSize - 9) 0x11 (some out) 1
            = some (1, some [1 % 256]))) ∧
    (QMICTLSyncReqSize ≤ 35 →
      ∃ b, (QMICTLSyncReq (some sampleBuffer) 35 1).2 = some b ∧
        GetQMIMessageID (b.drop 8) (QMICTLSyncReqSize - 8) = 0x0027)) :=
  ⟨rfl, by decide, by decide,
    encoders_read_back false true 0x10 1 2 0x0304 1 35 sampleBuffer rfl (by decide) (by decide)⟩

/-! ## The reduced bind mux data port request -/

/-- C24, counterexample: the buffer made by `QMIWDSBindMuxDataPortPreReq` for transaction ID
1 and index 3 does contain a TLV of type 0x11, whose value is the index, and the value of
its TLV of type 0x10 is `[5, 0, 0, 0, 0, 0, 0, 0]`, which does not carry the index. -/
theorem BindMuxDataPortPreReq_counterexample :
    (QMIWDSBindMuxDataPortPreReq (some sampleBuffer) 35 1 3).2
      = some [0, 0, 0, 0, 0, 0, 0, 1, 0, 0xA2, 0, 0x0F, 0, 0x10, 8, 0, 5, 0, 0, 0, 0, 0, 0, 0,
          0x11, 1, 0, 3, 0, 0, 0, 0, 0, 0, 0] ∧
    GetTLV (some (([0, 0, 0, 0, 0, 0, 0, 1, 0, 0xA2, 0, 0x0F, 0, 0x10, 8, 0, 5, 0, 0, 0, 0, 0, 0,
        0, 0x11, 1, 0, 3, 0, 0, 0, 0, 0, 0, 0] : List Nat).drop 9)) 19 0x11 (some [0]) 1
      = some (1, some [3]) ∧
    GetTLV (some (([0, 0, 0, 0, 0, 0, 0, 1, 0, 0xA2, 0, 0x0F, 0, 0x10, 8, 0, 5, 0, 0, 0, 0, 0, 0,
        0, 0x11, 1, 0, 3, 0, 0, 0, 0, 0, 0, 0] : List Nat).drop 9)) 19 0x10
        (some [9, 9, 9, 9, 9, 9, 9, 9]) 8
      = some (8, some [5, 0, 0, 0, 0, 0, 0, 0]) := by
  decide

/-- C24, amended: for every transaction ID and index, the buffer made by
`QMIWDSBindMuxDataPortPreReq` carries the mux index as the one-byte value of the mux ID TLV
(type 0x11); its endpoint ID TLV (type 0x10, 8 bytes) holds endpoint type 5 and interface
ID 0 whatever the index; and it has no TLV of type 0x13. -/
theorem BindMuxDataPortPreReq_layout (transactionID index buffSize : Nat) (buf : List Nat)
    (hlen : buf.length = buffSize) (hn : QMIWDSBindMuxDataPortPreReqSize ≤ buffSize) :
    ∃ b, (QMIWDSBindMuxDataPortPreReq (some buf) buffSize transactionID index).2 = some b ∧
      (∀ out : List Nat, out.length = 1 →
        GetTLV (some (b.drop 9)) (QMIWDSBindMuxDataPortPreReqSize - 9) 0x11 (some out) 1
          = some (1, some [index % 256])) ∧
      (∀ out : List Nat, out.length = 8 →
        GetTLV (some (b.drop 9)) (QMIWDSBindMuxDataPortPreReqSize - 9) 0x10 (some out) 8
          = some (8, some [5, 0, 0, 0, 0, 0, 0, 0])) ∧
      (∀ (out : List Nat) (cap : Nat),
        GetTLV (some (b.drop 9)) (QMIWDSBindMuxDataPortPreReqSize - 9) 0x13 (some out) cap
          = some (-ENOMSG, some out)) := by
  have hbuf : QMIWDSBindMuxDataPortPreReqSize ≤ buf.length := by rw [hlen]; exact hn
  have h6 : 6 ≤ buf.length := by
    simp only [QMIWDSBindMuxDataPortPreReqSize, sizeof_sQMUX] at hbuf
    omega
  have hpre : (buf.take 6).length = 6 := by rw [List.length_take]; omega
  rw [QMIWDSBindMuxDataPortPreReq_layout transactionID index buf buffSize hn hbuf]
  have hdrop : (buf.take 6 ++ QMIWDSBindMuxDataPortPreReq_body transactionID index
        ++ buf.drop QMIWDSBindMuxDataPortPreReqSize).drop 9
      = [0xA2, 0, 15, 0, 0x10, 8, 0, 5, 0, 0, 0, 0, 0, 0, 0, 0x11, 1, 0, index % 256]
        ++ buf.drop QMIWDSBindMuxDataPortPreReqSize := by
    have hd := drop_layout (buf.take 6) (QMIWDSBindMuxDataPortPreReq_body transactionID index)
      (buf.drop QMIWDSBindMuxDataPortPreReqSize) 3 hpre
    simpa [QMIWDSBindMuxDataPortPreReq_body] using hd
  have hwf : wellFormedBody
      [0xA2, 0, 15, 0, 0x10, 8, 0, 5, 0, 0, 0, 0, 0, 0, 0, 0x11, 1, 0, index % 256]
      ([⟨0x10, [5, 0, 0, 0, 0, 0, 0, 0]⟩, ⟨0x11, [index % 256]⟩] : List TLV) := by
    refine ⟨by simp, by simp, ?_, by simp [encodeTLVs, TLV.encode]⟩
    intro x hx
    simp only [List.mem_cons, List.mem_singleton, List.not_mem_nil, or_false] at hx
    omega
  refine ⟨_, rfl, ?_, ?_, ?_⟩
  · intro out hout
    rw [hdrop]
    have hf := GetTLV_found _ (buf.drop QMIWDSBindMuxDataPortPreReqSize)
      ([⟨0x10, [5, 0, 0, 0, 0, 0, 0, 0]⟩] : List TLV) ⟨0x11, [index % 256]⟩ ([] : List TLV) out
      hwf (by simp) (by simp) (by simpa using hout)
    simpa [QMIWDSBindMuxDataPortPreReqSize, sizeof_sQMUX] using hf
  · intro out hout
    rw [hdrop]
    have hf := GetTLV_found _ (buf.drop QMIWDSBindMuxDataPortPreReqSize)
      ([] : List TLV) ⟨0x10, [5, 0, 0, 0, 0, 0, 0, 0]⟩
      ([⟨0x11, [index % 256]⟩] : List TLV) out hwf (by simp) (by simp) (by simpa using hout)
    simpa [QMIWDSBindMuxDataPortPreReqSize, sizeof_sQMUX] using hf
  · intro out cap
    rw [hdrop]
    have hf := GetTLV_wellFormed_tail _ (buf.drop QMIWDSBindMuxDataPortPreReqSize) _ 0x13 cap
      out hwf
    rw [scanRecords_none 0x13 cap out _ (by simp)] at hf
    simpa [QMIWDSBindMuxDataPortPreReqSize, sizeof_sQMUX] using hf

/-- C24, witness: transaction ID 1 and index 3 on a buffer of 35 bytes. -/
theorem BindMuxDataPortPreReq_layout_witness :
    ∃ b, (QMIWDSBindMuxDataPortPreReq (some sampleBuffer) 35 1 3).2 = some b ∧
      (∀ out : List Nat, out.length = 1 →
        GetTLV (some (b.drop 9)) (QMIWDSBindMuxDataPortPreReqSize - 9) 0x11 (some out) 1
          = some (1, some [3 % 256])) ∧
      (∀ out : List Nat, out.length = 8 →
        GetTLV (some (b.drop 9)) (QMIWDSBindMuxDataPortPreReqSize - 9) 0x10 (some out) 8
          = some (8, some [5, 0, 0, 0, 0, 0, 0, 0])) ∧
      (∀ (out : List Nat) (cap : Nat),
        GetTLV (some (b.drop 9)) (QMIWDSBindMuxDataPortPreReqSize - 9) 0x13 (some out) cap
          = some (-ENOMSG, some out)) :=
  BindMuxDataPortPreReq_layout 1 3 35 sampleBuffer rfl (by decide)

/-! ## An empty record at the end of the body -/

/-- C33: the scan loop of `GetTLV` examines the record at `pos` only under the guard
`pos + 3 < messageLen`, and returns `-ENOMSG` as soon as the guard fails. Hence, for every
well-formed body whose last record has type `t` and declared length 0, and whose earlier
records are not of type `t`, `GetTLV` for type `t` returns `-ENOMSG` and not 0, and leaves
the output as it was, although the first record of type `t` is that last record. -/
theorem GetTLV_empty_last_record (body : List Nat) (pre : List TLV) (t cap : Nat)
    (out : List Nat) (hwf : wellFormedBody body (pre ++ [⟨t, []⟩]))
    (hpre : ∀ x ∈ pre, x.type ≠ t) :
    (∀ (msg : List Nat) (messageLen fuel pos : Nat), ¬ pos + 3 < messageLen →
      GetTLV_loop msg messageLen t out cap (fuel + 1) pos = some (-ENOMSG, out)) ∧
    firstTLV t (pre ++ [⟨t, []⟩]) = some ⟨t, []⟩ ∧
    GetTLV (some body) body.length t (some out) cap = some (-ENOMSG, some out) ∧
    GetTLV (some body) body.length t (some out) cap ≠ some (0, some out) := by
  have hscan : scanRecords t cap out (pre ++ [⟨t, []⟩]) = (-ENOMSG, out) := by
    rw [scanRecords_skip t cap out pre [⟨t, []⟩] hpre (List.cons_ne_nil _ _)]
    simp [scanRecords]
  have hget : GetTLV (some body) body.length t (some out) cap = some (-ENOMSG, some out) := by
    rw [GetTLV_wellFormed body _ t cap out hwf, hscan]
  refine ⟨?_, ?_, hget, ?_⟩
  · intro msg messageLen fuel pos hguard
    rw [GetTLV_loop, if_neg hguard]
  · clear hwf hscan hget
    induction pre with
    | nil => simp [firstTLV]
    | cons x xs ih =>
      have hx : x.type ≠ t := hpre x (List.mem_cons_self _ _)
      rw [List.cons_append, firstTLV, if_neg hx]
      exact ih (fun y hy => hpre y (List.mem_cons_of_mem _ hy))
  · rw [hget]
    simp [ENOMSG]

/-- C33, witness: the body `[0x22, 0, 7, 0, 0x01, 1, 0, 0xAA, 0x10, 0, 0]`, whose last
record has type 0x10 and no value byte. -/
theorem GetTLV_empty_last_record_witness :
    wellFormedBody [0x22, 0, 7, 0, 0x01, 1, 0, 0xAA, 0x10, 0, 0]
      ([⟨0x01, [0xAA]⟩] ++ [⟨0x10, []⟩]) ∧
    (∀ (msg : List Nat) (messageLen fuel pos : Nat), ¬ pos + 3 < messageLen →
      GetTLV_loop msg messageLen 0x10 [7, 7] 2 (fuel + 1) pos = some (-ENOMSG, [7, 7])) ∧
    firstTLV 0x10 ([⟨0x01, [0xAA]⟩] ++ [⟨0x10, []⟩]) = some ⟨0x10, []⟩ ∧
    GetTLV (some [0x22, 0, 7, 0, 0x01, 1, 0, 0xAA, 0x10, 0, 0])
        ([0x22, 0, 7, 0, 0x01, 1, 0, 0xAA, 0x10, 0, 0] : List Nat).length 0x10 (some [7, 7]) 2
      = some (-ENOMSG, some [7, 7]) ∧
    GetTLV (some [0x22, 0, 7, 0, 0x01, 1, 0, 0xAA, 0x10, 0, 0])
        ([0x22, 0, 7, 0, 0x01, 1, 0, 0xAA, 0x10, 0, 0] : List Nat).length 0x10 (some [7, 7]) 2
      ≠ some (0, some [7, 7]) :=
  ⟨by decide,
    GetTLV_empty_last_record [0x22, 0, 7, 0, 0x01, 1, 0, 0xAA, 0x10, 0, 0] [⟨0x01, [0xAA]⟩]
      0x10 2 [7, 7] (by decide) (by decide)⟩

/-! ## What the strict decoders leave in the output when they fail -/

theorem copyTLV_succ (msg : List Nat) (src n : Nat) (out : List Nat) :
    copyTLV msg src (n + 1) out = putByte (copyTLV msg src n out) n (byteAt msg (src + n)) := by
  simp [copyTLV, List.range_succ, List.foldl_append]

theorem copyTLV_length (msg : List Nat) (src : Nat) (out : List Nat) (n : Nat) :
    (copyTLV msg src n out).length = out.length := by
  induction n with
  | zero => rw [copyTLV_zero]
  | succ n ih => rw [copyTLV_succ, putByte_length, ih]

/-- The copy loop of `GetTLV` leaves the output bytes from index `n` on as they were. -/
theorem copyTLV_getD_ge (msg : List Nat) (src : Nat) (out : List Nat) (n i : Nat)
    (h : n ≤ i) : (copyTLV msg src n out).getD i 0 = out.getD i 0 := by
  induction n with
  | zero => rw [copyTLV_zero]
  | succ n ih =>
    rw [copyTLV_succ, putByte, getD_set_ne _ n i _ (by omega)]
    exact ih (by omega)

/-- The copy loop of `GetTLV` stores the message bytes in the first `n` output bytes. -/
theorem copyTLV_getD_lt (msg : List Nat) (src : Nat) (out : List Nat) (n i : Nat)
    (h : i < n) (hi : i < out.length) :
    (copyTLV msg src n out).getD i 0 = byteAt msg (src + i) := by
  induction n with
  | zero => omega
  | succ n ih =>
    rw [copyTLV_succ, putByte]
    by_cases hin : i = n
    · subst hin
      have hlen : i < ((copyTLV msg src i out).set i (byteAt msg (src + i) % 256)).length := by
        rw [List.length_set, copyTLV_length]
        exact hi
      rw [List.getD_eq_getElem _ _ hlen, List.getElem_set_self]
      exact Nat.mod_eq_of_lt (Nat.mod_lt _ (by decide))
    · rw [getD_set_ne _ n i _ (fun e => hin e.symm)]
      exact ih (by omega)

/-- The two ways in which the scan loop of `GetTLV` ends: with a negative error and the
output as it was, or at a record of the requested type whose declared length fits the
capacity, after the copy of that many bytes. -/
theorem GetTLV_loop_result (msg : List Nat) (messageLen type : Nat) (out : List Nat)
    (bufferLen : Nat) (r : Int) (o : List Nat) :
    ∀ fuel pos, GetTLV_loop msg messageLen type out bufferLen fuel pos = some (r, o) →
      (r < 0 ∧ o = out) ∨
      ∃ p, p + 3 < messageLen ∧ byteAt msg p = type ∧ le16At msg (p + 1) ≤ bufferLen ∧
        r = (le16At msg (p + 1) : Nat) ∧ o = copyTLV msg (p + 3) (le16At msg (p + 1)) out := by
  intro fuel
  induction fuel with
  | zero => intro pos h; simp [GetTLV_loop] at h
  | succ f ih =>
    intro pos h
    rw [GetTLV_loop] at h
    by_cases hg : pos + 3 < messageLen
    · rw [if_pos hg] at h
      by_cases ht : byteAt msg pos = type
      · simp only [ht, if_true] at h
        by_cases hc : bufferLen < le16At msg (pos + 1)
        · rw [if_pos hc] at h
          simp only [Option.some.injEq, Prod.mk.injEq] at h
          exact Or.inl ⟨by rw [← h.1]; simp [ENOMEM], h.2.symm⟩
        · rw [if_neg hc] at h
          simp only [Option.some.injEq, Prod.mk.injEq] at h
          exact Or.inr ⟨pos, hg, ht, Nat.le_of_not_lt hc, h.1.symm, h.2.symm⟩
      · simp only [ht, if_false] at h
        exact ih _ h
    · rw [if_neg hg] at h
      simp only [Option.some.injEq, Prod.mk.injEq] at h
      exact Or.inl ⟨by rw [← h.1]; simp [ENOMSG], h.2.symm⟩

/-- The two ways in which `GetTLV` returns, read off `GetTLV_loop_result`. -/
theorem GetTLV_result (msg : List Nat) (messageLen type bufferLen : Nat) (pOut : Ptr)
    (r : Int) (p : Ptr)
    (h : GetTLV (some msg) messageLen type pOut bufferLen = some (r, p)) :
    (r < 0 ∧ p = pOut) ∨
    ∃ out pos, pOut = some out ∧ pos + 3 < messageLen ∧ byteAt msg pos = type ∧
      le16At msg (pos + 1) ≤ bufferLen ∧ r = (le16At msg (pos + 1) : Nat) ∧
      p = some (copyTLV msg (pos + 3) (le16At msg (pos + 1)) out) := by
  cases pOut with
  | none =>
    simp only [GetTLV, Option.some.injEq, Prod.mk.injEq] at h
    exact Or.inl ⟨by rw [← h.1]; simp [ENOMEM], h.2.symm⟩
  | some out =>
    simp only [GetTLV] at h
    cases hl : GetTLV_loop msg messageLen type out bufferLen 65536 4 with
    | none => rw [hl] at h; simp at h
    | some ro =>
      obtain ⟨r1, o1⟩ := ro
      rw [hl] at h
      simp only [Option.map_some', Option.some.injEq, Prod.mk.injEq] at h
      obtain ⟨h1, h2⟩ := h
      subst h1
      subst h2
      rcases GetTLV_loop_result msg messageLen type out bufferLen r1 o1 65536 4 hl with
        ⟨hneg, ho⟩ | ⟨pos, hg, ht, hc, hr, ho⟩
      · exact Or.inl ⟨hneg, by rw [ho]⟩
      · exact Or.inr ⟨out, pos, rfl, hg, ht, hc, hr, by rw [ho]⟩

/-- What a failed length check after `GetTLV` leaves in the output: either the output as
it was, or the first `k` value bytes of a record whose declared length `k` is neither 0 nor
the expected length `cap`. -/
theorem GetTLV_short_record (msg : List Nat) (messageLen type cap : Nat) (pOut : Ptr)
    (r : Int) (p : Ptr)
    (h : GetTLV (some msg) messageLen type pOut cap = some (r, p)) (hr : r ≠ (cap : Nat)) :
    p = pOut ∨
    ∃ out q pos k, pOut = some out ∧ p = some q ∧ 0 < k ∧ k < cap ∧ pos + 3 < messageLen ∧
      byteAt msg pos = type ∧ le16At msg (pos + 1) = k ∧ q.length = out.length ∧
      (∀ i, i < k → i < out.length → q.getD i 0 = byteAt msg (pos + 3 + i)) ∧
      (∀ i, k ≤ i → q.getD i 0 = out.getD i 0) := by
  rcases GetTLV_result msg messageLen type cap pOut r p h with
    ⟨_, hp⟩ | ⟨out, pos, hout, hg, ht, hc, hrk, hp⟩
  · exact Or.inl hp
  · by_cases hk : le16At msg (pos + 1) = 0
    · left
      rw [hp, hk, copyTLV_zero, hout]
    · right
      refine ⟨out, _, pos, le16At msg (pos + 1), hout, hp, Nat.pos_of_ne_zero hk, ?_, hg, ht,
        rfl, copyTLV_length _ _ _ _, ?_, ?_⟩
      · have hne : le16At msg (pos + 1) ≠ cap := by
          intro e
          rw [e] at hrk
          exact hr hrk
        omega
      · intro i hi hio
        exact copyTLV_getD_lt msg (pos + 3) out _ i hi hio
      · intro i hi
        exact copyTLV_getD_ge msg (pos + 3) out _ i hi

/-- C31, counterexample: a client ID response (message ID 0x0022) whose result TLV reports
success and whose TLV 0x01 has one byte only: `QMICTLGetClientIDResp` returns `-EFAULT`
after byte 0 of the output `[0xAA, 0xBB]` was overwritten with 0x07. Likewise a MEID
response (message ID 0x0025) whose TLV 0x12 has two bytes: `QMIDMSGetMEIDResp` returns
`-EFAULT` after the first two of the 14 output bytes were overwritten. -/
theorem strict_decoders_counterexample :
    QMICTLGetClientIDResp false true
        (some [1, 22, 0, 0x80, 0, 0, 0x01, 1, 0x22, 0, 11, 0, 0x02, 4, 0, 0, 0, 0, 0,
          0x01, 1, 0, 0x07]) 23 (some [0xAA, 0xBB])
      = some (-EFAULT, some [0x07, 0xBB]) ∧
    QMIDMSGetMEIDResp false true
        (some [1, 24, 0, 0x80, 2, 1, 0x02, 1, 0, 0x25, 0, 12, 0, 0x02, 4, 0, 0, 0, 0, 0,
          0x12, 2, 0, 0x41, 0x42]) 25 (some [0, 0, 0, 0, 0, 0, 0, 0, 0, 0, 0, 0, 0, 0]) 14
      = some (-EFAULT, some [0x41, 0x42, 0, 0, 0, 0, 0, 0, 0, 0, 0, 0, 0, 0]) ∧
    -EFAULT ≠ 0 ∧ ([0x07, 0xBB] : List Nat) ≠ [0xAA, 0xBB] ∧
    ([0x41, 0x42, 0, 0, 0, 0, 0, 0, 0, 0, 0, 0, 0, 0] : List Nat)
      ≠ [0, 0, 0, 0, 0, 0, 0, 0, 0, 0, 0, 0, 0, 0] := by
  decide

/-- C31, amended: for every input on which `QMICTLGetClientIDResp` (respectively
`QMIDMSGetMEIDResp`) returns a result `r` other than 0, the output `*pClientID`
(respectively the `pMEID` buffer) is as it was before the call, except when `r` is the
`-EFAULT` of the last check and `GetTLV` has stopped at a record of type 0x01 (respectively
0x12) whose declared length `k` is not 0 and is below 2 (respectively 14): then the first
`k` bytes of the output hold the value bytes of that record and the bytes from index `k` on
are as they were. -/
theorem strict_decoders_output_on_error (bigEndian signedChar : Bool) (pBuffer : Ptr) (buffSize : Nat)
    (pClientID pMEID : Ptr) (meidSize r : Int) (p : Ptr) :
    (QMICTLGetClientIDResp bigEndian signedChar pBuffer buffSize pClientID = some (r, p) → r ≠ 0 →
      p = pClientID ∨
      (r = -EFAULT ∧
        ∃ b out q pos k, pBuffer = some b ∧ pClientID = some out ∧ p = some q ∧
          0 < k ∧ k < 2 ∧ pos + 3 < buffSize - 8 ∧
          byteAt (b.drop 8) pos = 0x01 ∧ le16At (b.drop 8) (pos + 1) = k ∧
          q.length = out.length ∧
          (∀ i, i < k → i < out.length → q.getD i 0 = byteAt (b.drop 8) (pos + 3 + i)) ∧
          (∀ i, k ≤ i → q.getD i 0 = out.getD i 0))) ∧
    (QMIDMSGetMEIDResp bigEndian signedChar pBuffer buffSize pMEID meidSize = some (r, p) → r ≠ 0 →
      p = pMEID ∨
      (r = -EFAULT ∧
        ∃ b out q pos k, pBuffer = some b ∧ pMEID = some out ∧ p = some q ∧
          0 < k ∧ k < 14 ∧ pos + 3 < buffSize - 9 ∧
          byteAt (b.drop 9) pos = 0x12 ∧ le16At (b.drop 9) (pos + 1) = k ∧
          q.length = out.length ∧
          (∀ i, i < k → i < out.length → q.getD i 0 = byteAt (b.drop 9) (pos + 3 + i)) ∧
          (∀ i, k ≤ i → q.getD i 0 = out.getD i 0))) := by
  constructor
  · intro h hr
    unfold QMICTLGetClientIDResp at h
    cases pBuffer with
    | none =>
      simp only [Option.some.injEq, Prod.mk.injEq] at h
      exact Or.inl h.2.symm
    | some b =>
      simp only [sizeof_sQMUX] at h
      by_cases h1 : buffSize < 6 + 2
      · rw [if_pos h1] at h
        simp only [Option.some.injEq, Prod.mk.injEq] at h
        exact Or.inl h.2.symm
      rw [if_neg h1] at h
      by_cases h2 : GetQMIMessageID (b.drop (6 + 2)) (buffSize - (6 + 2)) ≠ 0x22
      · rw [if_pos h2] at h
        simp only [Option.some.injEq, Prod.mk.injEq] at h
        exact Or.inl h.2.symm
      rw [if_neg h2] at h
      cases hv : ValidQMIMessage bigEndian signedChar (some (b.drop (6 + 2))) (buffSize - (6 + 2)) with
      | none => rw [hv] at h; simp at h
      | some v =>
        rw [hv] at h
        simp only at h
        by_cases h3 : v ≠ 0
        · rw [if_pos h3] at h
          simp only [Option.some.injEq, Prod.mk.injEq] at h
          exact Or.inl h.2.symm
        rw [if_neg h3] at h
        cases hg : GetTLV (some (b.drop (6 + 2))) (buffSize - (6 + 2)) 0x01 pClientID 2 with
        | none => rw [hg] at h; simp at h
        | some rp =>
          obtain ⟨r1, p1⟩ := rp
          rw [hg] at h
          simp only at h
          by_cases h4 : r1 ≠ 2
          · rw [if_pos h4] at h
            simp only [Option.some.injEq, Prod.mk.injEq] at h
            obtain ⟨e1, e2⟩ := h
            subst e2
            rcases GetTLV_short_record _ _ _ 2 pClientID r1 p1 hg h4 with
              hp | ⟨out, q, pos, k, ho, hq, hk0, hk2, hpos, ht, hl, hlen, hlt, hge⟩
            · exact Or.inl hp
            · exact Or.inr ⟨e1.symm, b, out, q, pos, k, rfl, ho, hq, hk0, hk2, hpos, ht, hl,
                hlen, hlt, hge⟩
          · rw [if_neg h4] at h
            simp only [Option.some.injEq, Prod.mk.injEq] at h
            exact absurd h.1.symm hr
  · intro h hr
    unfold QMIDMSGetMEIDResp at h
    cases pBuffer with
    | none =>
      simp only [Option.some.injEq, Prod.mk.injEq] at h
      exact Or.inl h.2.symm
    | some b =>
      simp only [sizeof_sQMUX] at h
      by_cases h1 : buffSize < 6 + 3 ∨ meidSize < 14
      · rw [if_pos h1] at h
        simp only [Option.some.injEq, Prod.mk.injEq] at h
        exact Or.inl h.2.symm
      rw [if_neg h1] at h
      by_cases h2 : GetQMIMessageID (b.drop (6 + 3)) (buffSize - (6 + 3)) ≠ 0x25
      · rw [if_pos h2] at h
        simp only [Option.some.injEq, Prod.mk.injEq] at h
        exact Or.inl h.2.symm
      rw [if_neg h2] at h
      cases hv : ValidQMIMessage bigEndian signedChar (some (b.drop (6 + 3))) (buffSize - (6 + 3)) with
      | none => rw [hv] at h; simp at h
      | some v =>
        rw [hv] at h
        simp only at h
        by_cases h3 : v ≠ 0
        · rw [if_pos h3] at h
          simp only [Option.some.injEq, Prod.mk.injEq] at h
          exact Or.inl h.2.symm
        rw [if_neg h3] at h
        cases hg : GetTLV (some (b.drop (6 + 3))) (buffSize - (6 + 3)) 0x12 pMEID 14 with
        | none => rw [hg] at h; simp at h
        | some rp =>
          obtain ⟨r1, p1⟩ := rp
          rw [hg] at h
          simp only at h
          by_cases h4 : r1 ≠ 14
          · rw [if_pos h4] at h
            simp only [Option.some.injEq, Prod.mk.injEq] at h
            obtain ⟨e1, e2⟩ := h
            subst e2
            rcases GetTLV_short_record _ _ _ 14 pMEID r1 p1 hg h4 with
              hp | ⟨out, q, pos, k, ho, hq, hk0, hk2, hpos, ht, hl, hlen, hlt, hge⟩
            · exact Or.inl hp
            · exact Or.inr ⟨e1.symm, b, out, q, pos, k, rfl, ho, hq, hk0, hk2, hpos, ht, hl,
                hlen, hlt, hge⟩
          · rw [if_neg h4] at h
            simp only [Option.some.injEq, Prod.mk.injEq] at h
            exact absurd h.1.symm hr

/-- C31, witness: the client ID response whose TLV 0x01 has one byte, and the MEID response
whose TLV 0x12 has two bytes; both are rejected with `-EFAULT`. -/
theorem strict_decoders_output_on_error_witness :
    ((some [0x07, 0xBB] : Ptr) = some [0xAA, 0xBB] ∨
      (-EFAULT = -EFAULT ∧
        ∃ b out q pos k,
          (some [1, 22, 0, 0x80, 0, 0, 0x01, 1, 0x22, 0, 11, 0, 0x02, 4, 0, 0, 0, 0, 0,
            0x01, 1, 0, 0x07] : Ptr) = some b ∧
          (some [0xAA, 0xBB] : Ptr) = some out ∧ (some [0x07, 0xBB] : Ptr) = some q ∧
          0 < k ∧ k < 2 ∧ pos + 3 < 23 - 8 ∧
          byteAt (b.drop 8) pos = 0x01 ∧ le16At (b.drop 8) (pos + 1) = k ∧
          q.length = out.length ∧
          (∀ i, i < k → i < out.length → q.getD i 0 = byteAt (b.drop 8) (pos + 3 + i)) ∧
          (∀ i, k ≤ i → q.getD i 0 = out.getD i 0))) ∧
    ((some [0x41, 0x42, 0, 0, 0, 0, 0, 0, 0, 0, 0, 0, 0, 0] : Ptr)
        = some [0, 0, 0, 0, 0, 0, 0, 0, 0, 0, 0, 0, 0, 0] ∨
      (-EFAULT = -EFAULT ∧
        ∃ b out q pos k,
          (some [1, 24, 0, 0x80, 2, 1, 0x02, 1, 0, 0x25, 0, 12, 0, 0x02, 4, 0, 0, 0, 0, 0,
            0x12, 2, 0, 0x41, 0x42] : Ptr) = some b ∧
          (some [0, 0, 0, 0, 0, 0, 0, 0, 0, 0, 0, 0, 0, 0] : Ptr) = some out ∧
          (some [0x41, 0x42, 0, 0, 0, 0, 0, 0, 0, 0, 0, 0, 0, 0] : Ptr) = some q ∧
          0 < k ∧ k < 14 ∧ pos + 3 < 25 - 9 ∧
          byteAt (b.drop 9) pos = 0x12 ∧ le16At (b.drop 9) (pos + 1) = k ∧
          q.length = out.length ∧
          (∀ i, i < k → i < out.length → q.getD i 0 = byteAt (b.drop 9) (pos + 3 + i)) ∧
          (∀ i, k ≤ i → q.getD i 0 = out.getD i 0))) :=
  ⟨(strict_decoders_output_on_error false true
      (some [1, 22, 0, 0x80, 0, 0, 0x01, 1, 0x22, 0, 11, 0, 0x02, 4, 0, 0, 0, 0, 0,
        0x01, 1, 0, 0x07]) 23 (some [0xAA, 0xBB]) none 14 (-EFAULT) (some [0x07, 0xBB])).1
      (by decide) (by decide),
    (strict_decoders_output_on_error false true
      (some [1, 24, 0, 0x80, 2, 1, 0x02, 1, 0, 0x25, 0, 12, 0, 0x02, 4, 0, 0, 0, 0, 0,
        0x12, 2, 0, 0x41, 0x42]) 25 none (some [0, 0, 0, 0, 0, 0, 0, 0, 0, 0, 0, 0, 0, 0]) 14
      (-EFAULT) (some [0x41, 0x42, 0, 0, 0, 0, 0, 0, 0, 0, 0, 0, 0, 0])).2
      (by decide) (by decide)⟩

/-! ## Framing and body encoding in either order -/

/-- C32: for every encoder, parameters and client handle `h`, and every buffer whose size
is the size paired with the encoder: the encoder keeps bytes 0 to 5 and the length of the
buffer, so it modifies bytes 6 to `n - 1` only; `FillQMUX` keeps every byte from index 6
on, so it modifies bytes 0 to 5 only; `FillQMUX` followed by the encoder leaves the same
buffer as the encoder followed by `FillQMUX`; and in that buffer the QMUX length field
(bytes 1 and 2, little-endian) is the value returned by the encoder minus 1. -/
theorem encoders_commute_with_FillQMUX (qosMode dataModeRP : Bool)
    (TLV_TYPE_LINK_PROTO transactionID serviceType clientID index h : Nat) :
    (∀ buf : List Nat, buf.length = QMICTLGetClientIDReqSize →
      (∃ e, (QMICTLGetClientIDReq (some buf) QMICTLGetClientIDReqSize transactionID serviceType).2 = some e ∧ e.take 6 = buf.take 6 ∧ e.length = buf.length) ∧
      (∃ f, (FillQMUX h (some buf) QMICTLGetClientIDReqSize).2 = some f ∧ f.drop 6 = buf.drop 6 ∧ f.length = buf.length) ∧
      (QMICTLGetClientIDReq (FillQMUX h (some buf) QMICTLGetClientIDReqSize).2 QMICTLGetClientIDReqSize transactionID serviceType).2
        = (FillQMUX h (QMICTLGetClientIDReq (some buf) QMICTLGetClientIDReqSize transactionID serviceType).2 QMICTLGetClientIDReqSize).2 ∧
      (∃ m, (FillQMUX h (QMICTLGetClientIDReq (some buf) QMICTLGetClientIDReqSize transactionID serviceType).2 QMICTLGetClientIDReqSize).2 = some m ∧
        ((le16At m 1 : Nat) : Int) = (QMICTLGetClientIDReq (some buf) QMICTLGetClientIDReqSize transactionID serviceType).1 - 1)) ∧
    (∀ buf : List Nat, buf.length = QMICTLReleaseClientIDReqSize →
      (∃ e, (QMICTLReleaseClientIDReq (some buf) QMICTLReleaseClientIDReqSize transactionID clientID).2 = some e ∧ e.take 6 = buf.take 6 ∧ e.length = buf.length) ∧
      (∃ f, (FillQMUX h (some buf) QMICTLReleaseClientIDReqSize).2 = some f ∧ f.drop 6 = buf.drop 6 ∧ f.length = buf.length) ∧
      (QMICTLReleaseClientIDReq (FillQMUX h (some buf) QMICTLReleaseClientIDReqSize).2 QMICTLReleaseClientIDReqSize transactionID clientID).2
        = (FillQMUX h (QMICTLReleaseClientIDReq (some buf) QMICTLReleaseClientIDReqSize transactionID clientID).2 QMICTLReleaseClientIDReqSize).2 ∧
      (∃ m, (FillQMUX h (QMICTLReleaseClientIDReq (some buf) QMICTLReleaseClientIDReqSize transactionID clientID).2 QMICTLReleaseClientIDReqSize).2 = some m ∧
        ((le16At m 1 : Nat) : Int) = (QMICTLReleaseClientIDReq (some buf) QMICTLReleaseClientIDReqSize transactionID clientID).1 - 1)) ∧
    (∀ buf : List Nat, buf.length = QMICTLReadyReqSize →
      (∃ e, (QMICTLReadyReq (some buf) QMICTLReadyReqSize transactionID).2 = some e ∧ e.take 6 = buf.take 6 ∧ e.length = buf.length) ∧
      (∃ f, (FillQMUX h (some buf) QMICTLReadyReqSize).2 = some f ∧ f.drop 6 = buf.drop 6 ∧ f.length = buf.length) ∧
      (QMICTLReadyReq (FillQMUX h (some buf) QMICTLReadyReqSize).2 QMICTLReadyReqSize transactionID).2
        = (FillQMUX h (QMICTLReadyReq (some buf) QMICTLReadyReqSize transactionID).2 QMICTLReadyReqSize).2 ∧
      (∃ m, (FillQMUX h (QMICTLReadyReq (some buf) QMICTLReadyReqSize transactionID).2 QMICTLReadyReqSize).2 = some m ∧
        ((le16At m 1 : Nat) : Int) = (QMICTLReadyReq (some buf) QMICTLReadyReqSize transactionID).1 - 1)) ∧
    (∀ buf : List Nat, buf.length = QMIWDSSetEventReportReqSize →
      (∃ e, (QMIWDSSetEventReportReq (some buf) QMIWDSSetEventReportReqSize transactionID).2 = some e ∧ e.take 6 = buf.take 6 ∧ e.length = buf.length) ∧
      (∃ f, (FillQMUX h (some buf) QMIWDSSetEventReportReqSize).2 = some f ∧ f.drop 6 = buf.drop 6 ∧ f.length = buf.length) ∧
      (QMIWDSSetEventReportReq (FillQMUX h (some buf) QMIWDSSetEventReportReqSize).2 QMIWDSSetEventReportReqSize transactionID).2
        = (FillQMUX h (QMIWDSSetEventReportReq (some buf) QMIWDSSetEventReportReqSize transactionID).2 QMIWDSSetEventReportReqSize).2 ∧
      (∃ m, (FillQMUX h (QMIWDSSetEventReportReq (some buf) QMIWDSSetEventReportReqSize transactionID).2 QMIWDSSetEventReportReqSize).2 = some m ∧
        ((le16At m 1 : Nat) : Int) = (QMIWDSSetEventReportReq (some buf) QMIWDSSetEventReportReqSize transactionID).1 - 1)) ∧
    (∀ buf : List Nat, buf.length = QMIWDSGetPKGSRVCStatusReqSize →
      (∃ e, (QMIWDSGetPKGSRVCStatusReq (some buf) QMIWDSGetPKGSRVCStatusReqSize transactionID).2 = some e ∧ e.take 6 = buf.take 6 ∧ e.length = buf.length) ∧
      (∃ f, (FillQMUX h (some buf) QMIWDSGetPKGSRVCStatusReqSize).2 = some f ∧ f.drop 6 = buf.drop 6 ∧ f.length = buf.length) ∧
      (QMIWDSGetPKGSRVCStatusReq (FillQMUX h (some buf) QMIWDSGetPKGSRVCStatusReqSize).2 QMIWDSGetPKGSRVCStatusReqSize transactionID).2
        = (FillQMUX h (QMIWDSGetPKGSRVCStatusReq (some buf) QMIWDSGetPKGSRVCStatusReqSize transactionID).2 QMIWDSGetPKGSRVCStatusReqSize).2 ∧
      (∃ m, (FillQMUX h (QMIWDSGetPKGSRVCStatusReq (some buf) QMIWDSGetPKGSRVCStatusReqSize transactionID).2 QMIWDSGetPKGSRVCStatusReqSize).2 = some m ∧
        ((le16At m 1 : Nat) : Int) = (QMIWDSGetPKGSRVCStatusReq (some buf) QMIWDSGetPKGSRVCStatusReqSize transactionID).1 - 1)) ∧
    (∀ buf : List Nat, buf.length = QMIDMSGetMEIDReqSize →
      (∃ e, (QMIDMSGetMEIDReq (some buf) QMIDMSGetMEIDReqSize transactionID).2 = some e ∧ e.take 6 = buf.take 6 ∧ e.length = buf.length) ∧
      (∃ f, (FillQMUX h (some buf) QMIDMSGetMEIDReqSize).2 = some f ∧ f.drop 6 = buf.drop 6 ∧ f.length = buf.length) ∧
      (QMIDMSGetMEIDReq (FillQMUX h (some buf) QMIDMSGetMEIDReqSize).2 QMIDMSGetMEIDReqSize transactionID).2
        = (FillQMUX h (QMIDMSGetMEIDReq (some buf) QMIDMSGetMEIDReqSize transactionID).2 QMIDMSGetMEIDReqSize).2 ∧
      (∃ m, (FillQMUX h (QMIDMSGetMEIDReq (some buf) QMIDMSGetMEIDReqSize transactionID).2 QMIDMSGetMEIDReqSize).2 = some m ∧
        ((le16At m 1 : Nat) : Int) = (QMIDMSGetMEIDReq (some buf) QMIDMSGetMEIDReqSize transactionID).1 - 1)) ∧
    (∀ buf : List Nat, buf.length = QMIWDASetDataFormatReqSize →
      (∃ e, (QMIWDASetDataFormatReq qosMode dataModeRP (some buf) QMIWDASetDataFormatReqSize transactionID).2 = some e ∧ e.take 6 = buf.take 6 ∧ e.length = buf.length) ∧
      (∃ f, (FillQMUX h (some buf) QMIWDASetDataFormatReqSize).2 = some f ∧ f.drop 6 = buf.drop 6 ∧ f.length = buf.length) ∧
      (QMIWDASetDataFormatReq qosMode dataModeRP (FillQMUX h (some buf) QMIWDASetDataFormatReqSize).2 QMIWDASetDataFormatReqSize transactionID).2
        = (FillQMUX h (QMIWDASetDataFormatReq qosMode dataModeRP (some buf) QMIWDASetDataFormatReqSize transactionID).2 QMIWDASetDataFormatReqSize).2 ∧
      (∃ m, (FillQMUX h (QMIWDASetDataFormatReq qosMode dataModeRP (some buf) QMIWDASetDataFormatReqSize transactionID).2 QMIWDASetDataFormatReqSize).2 = some m ∧
        ((le16At m 1 : Nat) : Int) = (QMIWDASetDataFormatReq qosMode dataModeRP (some buf) QMIWDASetDataFormatReqSize transactionID).1 - 1)) ∧
    (∀ buf : List Nat, buf.length = QMICTLSetDataFormatReqSize →
      (∃ e, (QMICTLSetDataFormatReq qosMode dataModeRP TLV_TYPE_LINK_PROTO (some buf) QMICTLSetDataFormatReqSize transactionID).2 = some e ∧ e.take 6 = buf.take 6 ∧ e.length = buf.length) ∧
      (∃ f, (FillQMUX h (some buf) QMICTLSetDataFormatReqSize).2 = some f ∧ f.drop 6 = buf.drop 6 ∧ f.length = buf.length) ∧
      (QMICTLSetDataFormatReq qosMode dataModeRP TLV_TYPE_LINK_PROTO (FillQMUX h (some buf) QMICTLSetDataFormatReqSize).2 QMICTLSetDataFormatReqSize transactionID).2
        = (FillQMUX h (QMICTLSetDataFormatReq qosMode dataModeRP TLV_TYPE_LINK_PROTO (some buf) QMICTLSetDataFormatReqSize transactionID).2 QMICTLSetDataFormatReqSize).2 ∧
      (∃ m, (FillQMUX h (QMICTLSetDataFormatReq qosMode dataModeRP TLV_TYPE_LINK_PROTO (some buf) QMICTLSetDataFormatReqSize transactionID).2 QMICTLSetDataFormatReqSize).2 = some m ∧
        ((le16At m 1 : Nat) : Int) = (QMICTLSetDataFormatReq qosMode dataModeRP TLV_TYPE_LINK_PROTO (some buf) QMICTLSetDataFormatReqSize transactionID).1 - 1)) ∧
    (∀ buf : List Nat, buf.length = QMIWDSBindMuxDataPortReqSize →
      (∃ e, (QMIWDSBindMuxDataPortReq (some buf) QMIWDSBindMuxDataPortReqSize transactionID).2 = some e ∧ e.take 6 = buf.take 6 ∧ e.length = buf.length) ∧
      (∃ f, (FillQMUX h (some buf) QMIWDSBindMuxDataPortReqSize).2 = some f ∧ f.drop 6 = buf.drop 6 ∧ f.length = buf.length) ∧
      (QMIWDSBindMuxDataPortReq (FillQMUX h (some buf) QMIWDSBindMuxDataPortReqSize).2 QMIWDSBindMuxDataPortReqSize transactionID).2
        = (FillQMUX h (QMIWDSBindMuxDataPortReq (some buf) QMIWDSBindMuxDataPortReqSize transactionID).2 QMIWDSBindMuxDataPortReqSize).2 ∧
      (∃ m, (FillQMUX h (QMIWDSBindMuxDataPortReq (some buf) QMIWDSBindMuxDataPortReqSize transactionID).2 QMIWDSBindMuxDataPortReqSize).2 = some m ∧
        ((le16At m 1 : Nat) : Int) = (QMIWDSBindMuxDataPortReq (some buf) QMIWDSBindMuxDataPortReqSize transactionID).1 - 1)) ∧
    (∀ buf : List Nat, buf.length = QMIWDSBindMuxDataPortPreReqSize →
      (∃ e, (QMIWDSBindMuxDataPortPreReq (some buf) QMIWDSBindMuxDataPortPreReqSize transactionID index).2 = some e ∧ e.take 6 = buf.take 6 ∧ e.length = buf.length) ∧
      (∃ f, (FillQMUX h (some buf) QMIWDSBindMuxDataPortPreReqSize).2 = some f ∧ f.drop 6 = buf.drop 6 ∧ f.length = buf.length) ∧
      (QMIWDSBindMuxDataPortPreReq (FillQMUX h (some buf) QMIWDSBindMuxDataPortPreReqSize).2 QMIWDSBindMuxDataPortPreReqSize transactionID index).2
        = (FillQMUX h (QMIWDSBindMuxDataPortPreReq (some buf) QMIWDSBindMuxDataPortPreReqSize transactionID index).2 QMIWDSBindMuxDataPortPreReqSize).2 ∧
      (∃ m, (FillQMUX h (QMIWDSBindMuxDataPortPreReq (some buf) QMIWDSBindMuxDataPortPreReqSize transactionID index).2 QMIWDSBindMuxDataPortPreReqSize).2 = some m ∧
        ((le16At m 1 : Nat) : Int) = (QMIWDSBindMuxDataPortPreReq (some buf) QMIWDSBindMuxDataPortPreReqSize transactionID index).1 - 1)) ∧
    (∀ buf : List Nat, buf.length = QMICTLSyncReqSize →
      (∃ e, (QMICTLSyncReq (some buf) QMICTLSyncReqSize transactionID).2 = some e ∧ e.take 6 = buf.take 6 ∧ e.length = buf.length) ∧
      (∃ f, (FillQMUX h (some buf) QMICTLSyncReqSize).2 = some f ∧ f.drop 6 = buf.drop 6 ∧ f.length = buf.length) ∧
      (QMICTLSyncReq (FillQMUX h (some buf) QMICTLSyncReqSize).2 QMICTLSyncReqSize transactionID).2
        = (FillQMUX h (QMICTLSyncReq (some buf) QMICTLSyncReqSize transactionID).2 QMICTLSyncReqSize).2 ∧
      (∃ m, (FillQMUX h (QMICTLSyncReq (some buf) QMICTLSyncReqSize transactionID).2 QMICTLSyncReqSize).2 = some m ∧
        ((le16At m 1 : Nat) : Int) = (QMICTLSyncReq (some buf) QMICTLSyncReqSize transactionID).1 - 1)) := by
  refine ⟨?_, ?_, ?_, ?_, ?_, ?_, ?_, ?_, ?_, ?_, ?_⟩
  · intro buf hlen
    have hlen2 : buf.length = 16 := hlen
    clear hlen
    iterate 16 (rcases buf with _ | ⟨_, buf⟩; simp at hlen2)
    have hnil : buf = [] := by simpa using hlen2
    subst hnil
    clear hlen2
    simp [QMICTLGetClientIDReq, QMICTLGetClientIDReqSize, FillQMUX, sizeof_sQMUX, putByte, putLe16, putLe32, byteAt, le16At]
  · intro buf hlen
    have hlen2 : buf.length = 17 := hlen
    clear hlen
    iterate 17 (rcases buf with _ | ⟨_, buf⟩; simp at hlen2)
    have hnil : buf = [] := by simpa using hlen2
    subst hnil
    clear hlen2
    simp [QMICTLReleaseClientIDReq, QMICTLReleaseClientIDReqSize, FillQMUX, sizeof_sQMUX, putByte, putLe16, putLe32, byteAt, le16At]
  · intro buf hlen
    have hlen2 : buf.length = 12 := hlen
    clear hlen
    iterate 12 (rcases buf with _ | ⟨_, buf⟩; simp at hlen2)
    have hnil : buf = [] := by simpa using hlen2
    subst hnil
    clear hlen2
    simp [QMICTLReadyReq, QMICTLReadyReqSize, FillQMUX, sizeof_sQMUX, putByte, putLe16, putLe32, byteAt, le16At]
  · intro buf hlen
    have hlen2 : buf.length = 21 := hlen
    clear hlen
    iterate 21 (rcases buf with _ | ⟨_, buf⟩; simp at hlen2)
    have hnil : buf = [] := by simpa using hlen2
    subst hnil
    clear hlen2
    simp [QMIWDSSetEventReportReq, QMIWDSSetEventReportReqSize, FillQMUX, sizeof_sQMUX, putByte, putLe16, putLe32, byteAt, le16At]
  · intro buf hlen
    have hlen2 : buf.length = 13 := hlen
    clear hlen
    iterate 13 (rcases buf with _ | ⟨_, buf⟩; simp at hlen2)
    have hnil : buf = [] := by simpa using hlen2
    subst hnil
    clear hlen2
    simp [QMIWDSGetPKGSRVCStatusReq, QMIWDSGetPKGSRVCStatusReqSize, FillQMUX, sizeof_sQMUX, putByte, putLe16, putLe32, byteAt, le16At]
  · intro buf hlen
    have hlen2 : buf.length = 13 := hlen
    clear hlen
    iterate 13 (rcases buf with _ | ⟨_, buf⟩; simp at hlen2)
    have hnil : buf = [] := by simpa using hlen2
    subst hnil
    clear hlen2
    simp [QMIDMSGetMEIDReq, QMIDMSGetMEIDReqSize, FillQMUX, sizeof_sQMUX, putByte, putLe16, putLe32, byteAt, le16At]
  · intro buf hlen
    have hlen2 : buf.length = 31 := hlen
    clear hlen
    iterate 31 (rcases buf with _ | ⟨_, buf⟩; simp at hlen2)
    have hnil : buf = [] := by simpa using hlen2
    subst hnil
    clear hlen2
    cases qosMode <;> cases dataModeRP <;>
      simp [QMIWDASetDataFormatReq, QMIWDASetDataFormatReqSize, FillQMUX, sizeof_sQMUX, putByte, putLe16, putLe32, byteAt, le16At]
  · intro buf hlen
    have hlen2 : buf.length = 21 := hlen
    clear hlen
    iterate 21 (rcases buf with _ | ⟨_, buf⟩; simp at hlen2)
    have hnil : buf = [] := by simpa using hlen2
    subst hnil
    clear hlen2
    cases qosMode <;> cases dataModeRP <;>
      simp [QMICTLSetDataFormatReq, QMICTLSetDataFormatReqSize, FillQMUX, sizeof_sQMUX, putByte, putLe16, putLe32, byteAt, le16At]
  · intro buf hlen
    have hlen2 : buf.length = 35 := hlen
    clear hlen
    iterate 35 (rcases buf with _ | ⟨_, buf⟩; simp at hlen2)
    have hnil : buf = [] := by simpa using hlen2
    subst hnil
    clear hlen2
    simp [QMIWDSBindMuxDataPortReq, QMIWDSBindMuxDataPortReqSize, FillQMUX, sizeof_sQMUX, putByte, putLe16, putLe32, byteAt, le16At]
  · intro buf hlen
    have hlen2 : buf.length = 28 := hlen
    clear hlen
    iterate 28 (rcases buf with _ | ⟨_, buf⟩; simp at hlen2)
    have hnil : buf = [] := by simpa using hlen2
    subst hnil
    clear hlen2
    simp [QMIWDSBindMuxDataPortPreReq, QMIWDSBindMuxDataPortPreReqSize, FillQMUX, sizeof_sQMUX, putByte, putLe16, putLe32, byteAt, le16At]
  · intro buf hlen
    have hlen2 : buf.length = 12 := hlen
    clear hlen
    iterate 12 (rcases buf with _ | ⟨_, buf⟩; simp at hlen2)
    have hnil : buf = [] := by simpa using hlen2
    subst hnil
    clear hlen2
    simp [QMICTLSyncReq, QMICTLSyncReqSize, FillQMUX, sizeof_sQMUX, putByte, putLe16, putLe32, byteAt, le16At]

/-- C32, witness: every encoder on a zeroed buffer of its paired size, with client handle
0x0506. -/
theorem encoders_commute_with_FillQMUX_witness :
    ((∃ e, (QMICTLGetClientIDReq (some (List.replicate 16 0)) QMICTLGetClientIDReqSize 1 2).2 = some e ∧ e.take 6 = (List.replicate 16 0).take 6 ∧ e.length = (List.replicate 16 0).length) ∧
      (∃ f, (FillQMUX 0x0506 (some (List.replicate 16 0)) QMICTLGetClientIDReqSize).2 = some f ∧ f.drop 6 = (List.replicate 16 0).drop 6 ∧ f.length = (List.replicate 16 0).length) ∧
      (QMICTLGetClientIDReq (FillQMUX 0x0506 (some (List.replicate 16 0)) QMICTLGetClientIDReqSize).2 QMICTLGetClientIDReqSize 1 2).2
        = (FillQMUX 0x0506 (QMICTLGetClientIDReq (some (List.replicate 16 0)) QMICTLGetClientIDReqSize 1 2).2 QMICTLGetClientIDReqSize).2 ∧
      (∃ m, (FillQMUX 0x0506 (QMICTLGetClientIDReq (some (List.replicate 16 0)) QMICTLGetClientIDReqSize 1 2).2 QMICTLGetClientIDReqSize).2 = some m ∧
        ((le16At m 1 : Nat) : Int) = (QMICTLGetClientIDReq (some (List.replicate 16 0)) QMICTLGetClientIDReqSize 1 2).1 - 1)) ∧
    ((∃ e, (QMICTLReleaseClientIDReq (some (List.replicate 17 0)) QMICTLReleaseClientIDReqSize 1 0x0304).2 = some e ∧ e.take 6 = (List.replicate 17 0).take 6 ∧ e.length = (List.replicate 17 0).length) ∧
      (∃ f, (FillQMUX 0x0506 (some (List.replicate 17 0)) QMICTLReleaseClientIDReqSize).2 = some f ∧ f.drop 6 = (List.replicate 17 0).drop 6 ∧ f.length = (List.replicate 17 0).length) ∧
      (QMICTLReleaseClientIDReq (FillQMUX 0x0506 (some (List.replicate 17 0)) QMICTLReleaseClientIDReqSize).2 QMICTLReleaseClientIDReqSize 1 0x0304).2
        = (FillQMUX 0x0506 (QMICTLReleaseClientIDReq (some (List.replicate 17 0)) QMICTLReleaseClientIDReqSize 1 0x0304).2 QMICTLReleaseClientIDReqSize).2 ∧
      (∃ m, (FillQMUX 0x0506 (QMICTLReleaseClientIDReq (some (List.replicate 17 0)) QMICTLReleaseClientIDReqSize 1 0x0304).2 QMICTLReleaseClientIDReqSize).2 = some m ∧
        ((le16At m 1 : Nat) : Int) = (QMICTLReleaseClientIDReq (some (List.replicate 17 0)) QMICTLReleaseClientIDReqSize 1 0x0304).1 - 1)) ∧
    ((∃ e, (QMICTLReadyReq (some (List.replicate 12 0)) QMICTLReadyReqSize 1).2 = some e ∧ e.take 6 = (List.replicate 12 0).take 6 ∧ e.length = (List.replicate 12 0).length) ∧
      (∃ f, (FillQMUX 0x0506 (some (List.replicate 12 0)) QMICTLReadyReqSize).2 = some f ∧ f.drop 6 = (List.replicate 12 0).drop 6 ∧ f.length = (List.replicate 12 0).length) ∧
      (QMICTLReadyReq (FillQMUX 0x0506 (some (List.replicate 12 0)) QMICTLReadyReqSize).2 QMICTLReadyReqSize 1).2
        = (FillQMUX 0x0506 (QMICTLReadyReq (some (List.replicate 12 0)) QMICTLReadyReqSize 1).2 QMICTLReadyReqSize).2 ∧
      (∃ m, (FillQMUX 0x0506 (QMICTLReadyReq (some (List.replicate 12 0)) QMICTLReadyReqSize 1).2 QMICTLReadyReqSize).2 = some m ∧
        ((le16At m 1 : Nat) : Int) = (QMICTLReadyReq (some (List.replicate 12 0)) QMICTLReadyReqSize 1).1 - 1)) ∧
    ((∃ e, (QMIWDSSetEventReportReq (some (List.replicate 21 0)) QMIWDSSetEventReportReqSize 1).2 = some e ∧ e.take 6 = (List.replicate 21 0).take 6 ∧ e.length = (List.replicate 21 0).length) ∧
      (∃ f, (FillQMUX 0x0506 (some (List.replicate 21 0)) QMIWDSSetEventReportReqSize).2 = some f ∧ f.drop 6 = (List.replicate 21 0).drop 6 ∧ f.length = (List.replicate 21 0).length) ∧
      (QMIWDSSetEventReportReq (FillQMUX 0x0506 (some (List.replicate 21 0)) QMIWDSSetEventReportReqSize).2 QMIWDSSetEventReportReqSize 1).2
        = (FillQMUX 0x0506 (QMIWDSSetEventReportReq (some (List.replicate 21 0)) QMIWDSSetEventReportReqSize 1).2 QMIWDSSetEventReportReqSize).2 ∧
      (∃ m, (FillQMUX 0x0506 (QMIWDSSetEventReportReq (some (List.replicate 21 0)) QMIWDSSetEventReportReqSize 1).2 QMIWDSSetEventReportReqSize).2 = some m ∧
        ((le16At m 1 : Nat) : Int) = (QMIWDSSetEventReportReq (some (List.replicate 21 0)) QMIWDSSetEventReportReqSize 1).1 - 1)) ∧
    ((∃ e, (QMIWDSGetPKGSRVCStatusReq (some (List.replicate 13 0)) QMIWDSGetPKGSRVCStatusReqSize 1).2 = some e ∧ e.take 6 = (List.replicate 13 0).take 6 ∧ e.length = (List.replicate 13 0).length) ∧
      (∃ f, (FillQMUX 0x0506 (some (List.replicate 13 0)) QMIWDSGetPKGSRVCStatusReqSize).2 = some f ∧ f.drop 6 = (List.replicate 13 0).drop 6 ∧ f.length = (List.replicate 13 0).length) ∧
      (QMIWDSGetPKGSRVCStatusReq (FillQMUX 0x0506 (some (List.replicate 13 0)) QMIWDSGetPKGSRVCStatusReqSize).2 QMIWDSGetPKGSRVCStatusReqSize 1).2
        = (FillQMUX 0x0506 (QMIWDSGetPKGSRVCStatusReq (some (List.replicate 13 0)) QMIWDSGetPKGSRVCStatusReqSize 1).2 QMIWDSGetPKGSRVCStatusReqSize).2 ∧
      (∃ m, (FillQMUX 0x0506 (QMIWDSGetPKGSRVCStatusReq (some (List.replicate 13 0)) QMIWDSGetPKGSRVCStatusReqSize 1).2 QMIWDSGetPKGSRVCStatusReqSize).2 = some m ∧
        ((le16At m 1 : Nat) : Int) = (QMIWDSGetPKGSRVCStatusReq (some (List.replicate 13 0)) QMIWDSGetPKGSRVCStatusReqSize 1).1 - 1)) ∧
    ((∃ e, (QMIDMSGetMEIDReq (some (List.replicate 13 0)) QMIDMSGetMEIDReqSize 1).2 = some e ∧ e.take 6 = (List.replicate 13 0).take 6 ∧ e.length = (List.replicate 13 0).length) ∧
      (∃ f, (FillQMUX 0x0506 (some (List.replicate 13 0)) QMIDMSGetMEIDReqSize).2 = some f ∧ f.drop 6 = (List.replicate 13 0).drop 6 ∧ f.length = (List.replicate 13 0).length) ∧
      (QMIDMSGetMEIDReq (FillQMUX 0x0506 (some (List.replicate 13 0)) QMIDMSGetMEIDReqSize).2 QMIDMSGetMEIDReqSize 1).2
        = (FillQMUX 0x0506 (QMIDMSGetMEIDReq (some (List.replicate 13 0)) QMIDMSGetMEIDReqSize 1).2 QMIDMSGetMEIDReqSize).2 ∧
      (∃ m, (FillQMUX 0x0506 (QMIDMSGetMEIDReq (some (List.replicate 13 0)) QMIDMSGetMEIDReqSize 1).2 QMIDMSGetMEIDReqSize).2 = some m ∧
        ((le16At m 1 : Nat) : Int) = (QMIDMSGetMEIDReq (some (List.replicate 13 0)) QMIDMSGetMEIDReqSize 1).1 - 1)) ∧
    ((∃ e, (QMIWDASetDataFormatReq false true (some (List.replicate 31 0)) QMIWDASetDataFormatReqSize 1).2 = some e ∧ e.take 6 = (List.replicate 31 0).take 6 ∧ e.length = (List.replicate 31 0).length) ∧
      (∃ f, (FillQMUX 0x0506 (some (List.replicate 31 0)) QMIWDASetDataFormatReqSize).2 = some f ∧ f.drop 6 = (List.replicate 31 0).drop 6 ∧ f.length = (List.replicate 31 0).length) ∧
      (QMIWDASetDataFormatReq false true (FillQMUX 0x0506 (some (List.replicate 31 0)) QMIWDASetDataFormatReqSize).2 QMIWDASetDataFormatReqSize 1).2
        = (FillQMUX 0x0506 (QMIWDASetDataFormatReq false true (some (List.replicate 31 0)) QMIWDASetDataFormatReqSize 1).2 QMIWDASetDataFormatReqSize).2 ∧
      (∃ m, (FillQMUX 0x0506 (QMIWDASetDataFormatReq false true (some (List.replicate 31 0)) QMIWDASetDataFormatReqSize 1).2 QMIWDASetDataFormatReqSize).2 = some m ∧
        ((le16At m 1 : Nat) : Int) = (QMIWDASetDataFormatReq false true (some (List.replicate 31 0)) QMIWDASetDataFormatReqSize 1).1 - 1)) ∧
    ((∃ e, (QMICTLSetDataFormatReq false true 0x10 (some (List.replicate 21 0)) QMICTLSetDataFormatReqSize 1).2 = some e ∧ e.take 6 = (List.replicate 21 0).take 6 ∧ e.length = (List.replicate 21 0).length) ∧
      (∃ f, (FillQMUX 0x0506 (some (List.replicate 21 0)) QMICTLSetDataFormatReqSize).2 = some f ∧ f.drop 6 = (List.replicate 21 0).drop 6 ∧ f.length = (List.replicate 21 0).length) ∧
      (QMICTLSetDataFormatReq false true 0x10 (FillQMUX 0x0506 (some (List.replicate 21 0)) QMICTLSetDataFormatReqSize).2 QMICTLSetDataFormatReqSize 1).2
        = (FillQMUX 0x0506 (QMICTLSetDataFormatReq false true 0x10 (some (List.replicate 21 0)) QMICTLSetDataFormatReqSize 1).2 QMICTLSetDataFormatReqSize).2 ∧
      (∃ m, (FillQMUX 0x0506 (QMICTLSetDataFormatReq false true 0x10 (some (List.replicate 21 0)) QMICTLSetDataFormatReqSize 1).2 QMICTLSetDataFormatReqSize).2 = some m ∧
        ((le16At m 1 : Nat) : Int) = (QMICTLSetDataFormatReq false true 0x10 (some (List.replicate 21 0)) QMICTLSetDataFormatReqSize 1).1 - 1)) ∧
    ((∃ e, (QMIWDSBindMuxDataPortReq (some (List.replicate 35 0)) QMIWDSBindMuxDataPortReqSize 1).2 = some e ∧ e.take 6 = (List.replicate 35 0).take 6 ∧ e.length = (List.replicate 35 0).length) ∧
      (∃ f, (FillQMUX 0x0506 (some (List.replicate 35 0)) QMIWDSBindMuxDataPortReqSize).2 = some f ∧ f.drop 6 = (List.replicate 35 0).drop 6 ∧ f.length = (List.replicate 35 0).length) ∧
      (QMIWDSBindMuxDataPortReq (FillQMUX 0x0506 (some (List.replicate 35 0)) QMIWDSBindMuxDataPortReqSize).2 QMIWDSBindMuxDataPortReqSize 1).2
        = (FillQMUX 0x0506 (QMIWDSBindMuxDataPortReq (some (List.replicate 35 0)) QMIWDSBindMuxDataPortReqSize 1).2 QMIWDSBindMuxDataPortReqSize).2 ∧
      (∃ m, (FillQMUX 0x0506 (QMIWDSBindMuxDataPortReq (some (List.replicate 35 0)) QMIWDSBindMuxDataPortReqSize 1).2 QMIWDSBindMuxDataPortReqSize).2 = some m ∧
        ((le16At m 1 : Nat) : Int) = (QMIWDSBindMuxDataPortReq (some (List.replicate 35 0)) QMIWDSBindMuxDataPortReqSize 1).1 - 1)) ∧
    ((∃ e, (QMIWDSBindMuxDataPortPreReq (some (List.replicate 28 0)) QMIWDSBindMuxDataPortPreReqSize 1 1).2 = some e ∧ e.take 6 = (List.replicate 28 0).take 6 ∧ e.length = (List.replicate 28 0).length) ∧
      (∃ f, (FillQMUX 0x0506 (some (List.replicate 28 0)) QMIWDSBindMuxDataPortPreReqSize).2 = some f ∧ f.drop 6 = (List.replicate 28 0).drop 6 ∧ f.length = (List.replicate 28 0).length) ∧
      (QMIWDSBindMuxDataPortPreReq (FillQMUX 0x0506 (some (List.replicate 28 0)) QMIWDSBindMuxDataPortPreReqSize).2 QMIWDSBindMuxDataPortPreReqSize 1 1).2
        = (FillQMUX 0x0506 (QMIWDSBindMuxDataPortPreReq (some (List.replicate 28 0)) QMIWDSBindMuxDataPortPreReqSize 1 1).2 QMIWDSBindMuxDataPortPreReqSize).2 ∧
      (∃ m, (FillQMUX 0x0506 (QMIWDSBindMuxDataPortPreReq (some (List.replicate 28 0)) QMIWDSBindMuxDataPortPreReqSize 1 1).2 QMIWDSBindMuxDataPortPreReqSize).2 = some m ∧
        ((le16At m 1 : Nat) : Int) = (QMIWDSBindMuxDataPortPreReq (some (List.replicate 28 0)) QMIWDSBindMuxDataPortPreReqSize 1 1).1 - 1)) ∧
    ((∃ e, (QMICTLSyncReq (some (List.replicate 12 0)) QMICTLSyncReqSize 1).2 = some e ∧ e.take 6 = (List.replicate 12 0).take 6 ∧ e.length = (List.replicate 12 0).length) ∧
      (∃ f, (FillQMUX 0x0506 (some (List.replicate 12 0)) QMICTLSyncReqSize).2 = some f ∧ f.drop 6 = (List.replicate 12 0).drop 6 ∧ f.length = (List.replicate 12 0).length) ∧
      (QMICTLSyncReq (FillQMUX 0x0506 (some (List.replicate 12 0)) QMICTLSyncReqSize).2 QMICTLSyncReqSize 1).2
        = (FillQMUX 0x0506 (QMICTLSyncReq (some (List.replicate 12 0)) QMICTLSyncReqSize 1).2 QMICTLSyncReqSize).2 ∧
      (∃ m, (FillQMUX 0x0506 (QMICTLSyncReq (some (List.replicate 12 0)) QMICTLSyncReqSize 1).2 QMICTLSyncReqSize).2 = some m ∧
        ((le16At m 1 : Nat) : Int) = (QMICTLSyncReq (some (List.replicate 12 0)) QMICTLSyncReqSize 1).1 - 1)) :=
  ⟨(encoders_commute_with_FillQMUX false true 0x10 1 2 0x0304 1 0x0506).1 (List.replicate 16 0) rfl,
    (encoders_commute_with_FillQMUX false true 0x10 1 2 0x0304 1 0x0506).2.1 (List.replicate 17 0) rfl,
    (encoders_commute_with_FillQMUX false true 0x10 1 2 0x0304 1 0x0506).2.2.1 (List.replicate 12 0) rfl,
    (encoders_commute_with_FillQMUX false true 0x10 1 2 0x0304 1 0x0506).2.2.2.1 (List.replicate 21 0) rfl,
    (encoders_commute_with_FillQMUX false true 0x10 1 2 0x0304 1 0x0506).2.2.2.2.1 (List.replicate 13 0) rfl,
    (encoders_commute_with_FillQMUX false true 0x10 1 2 0x0304 1 0x0506).2.2.2.2.2.1 (List.replicate 13 0) rfl,
    (encoders_commute_with_FillQMUX false true 0x10 1 2 0x0304 1 0x0506).2.2.2.2.2.2.1 (List.replicate 31 0) rfl,
    (encoders_commute_with_FillQMUX false true 0x10 1 2 0x0304 1 0x0506).2.2.2.2.2.2.2.1 (List.replicate 21 0) rfl,
    (encoders_commute_with_FillQMUX false true 0x10 1 2 0x0304 1 0x0506).2.2.2.2.2.2.2.2.1 (List.replicate 35 0) rfl,
    (encoders_commute_with_FillQMUX false true 0x10 1 2 0x0304 1 0x0506).2.2.2.2.2.2.2.2.2.1 (List.replicate 28 0) rfl,
    (encoders_commute_with_FillQMUX false true 0x10 1 2 0x0304 1 0x0506).2.2.2.2.2.2.2.2.2.2 (List.replicate 12 0) rfl⟩

end QMI
